import Mathlib

/-!
Verification of the ls1021atsn-linux SJA1105 driver core against its
natural-language specification.

The development shallowly embeds:
* the generic bit-field packing engine (`lib/packing.c`),
* the SJA1105 static-configuration table system
  (`drivers/net/dsa/sja1105/sja1105_static_config.c`),
* the dynamic configuration access protocol
  (`drivers/net/dsa/sja1105/sja1105-dynamic-config.c`),
* the static-config upload retry protocol
  (`drivers/net/dsa/sja1105/sja1105_spi.c`),
* the Time-Aware Shaper schedule builder and conflict checker
  (`drivers/net/dsa/sja1105/sja1105_tas.c`).

Buffers are byte lists, machine integers are `Nat` (with explicit masking
where C overflow/truncation semantics matter), fallible paths return error
codes, and C undefined behavior (out-of-bounds accesses, negative shift
counts) is modelled by a distinguished `ub` result.
-/

set_option maxHeartbeats 1000000
set_option maxRecDepth 10000

namespace SJA1105

/-! ## Errno constants used by the driver (negated on return) -/

def EINVAL : Int := 22
def ERANGE : Int := 34
def EIO : Int := 5
def EOPNOTSUPP : Int := 95
def ENOTSUPP : Int := 524
def ETIMEDOUT : Int := 110
def ENOENT : Int := 2

/-! ## The generic packing engine, `lib/packing.c` -/

/-- The three hardware quirks of the packing engine.
In the C sources they are a bit mask; the three bits are independent
booleans, modelled as a structure. -/
structure Quirks where
  msbRight : Bool
  littleEndian : Bool
  lsw32First : Bool
deriving DecidableEq

/-- Model of `enum packing_op` from `linux/packing.h`. -/
inductive PackOp
  | PACK
  | UNPACK
deriving DecidableEq

/-- Result of one `packing()` call.  `ok` carries the final buffer and the
final `*uval`; `err` is a negative errno return; `ub` marks executions in
which the C code performs undefined behavior (an out-of-bounds buffer
access, or a shift by / mask with a negative bit index). -/
inductive PackResult
  | ok (buf : List Nat) (uval : Nat)
  | err (code : Int)
  | ub
deriving DecidableEq

/-- All 64 bits set: `~0ULL`. -/
def MASK64 : Nat := 2 ^ 64 - 1

/-- Kernel `GENMASK_ULL(h, l)`: `((~0ULL) << l) & ((~0ULL) >> (63 - h))`,
with the u64 wrap of the left shift made explicit. -/
def GENMASK_ULL (h l : Nat) : Nat :=
  ((MASK64 <<< l) &&& MASK64) &&& (MASK64 >>> (63 - h))

/-- Model of `get_le_offset` from `lib/packing.c`.  C `int` division truncates
toward zero, hence `Int.tdiv`. -/
def get_le_offset (offset : Int) : Int :=
  let closest_multiple_of_4 := offset.tdiv 4 * 4
  closest_multiple_of_4 + (3 - (offset - closest_multiple_of_4))

/-- Model of `get_reverse_lsw32_offset` from `lib/packing.c`.  `len` is a `size_t`,
so `len / 4` is natural division; the rest is C `int` arithmetic. -/
def get_reverse_lsw32_offset (offset : Int) (len : Nat) : Int :=
  let word_index := offset.tdiv 4
  let closest_multiple_of_4 := word_index * 4
  let o := offset - closest_multiple_of_4
  let w := ((len / 4 : Nat) : Int) - word_index - 1
  w * 4 + o

/-- Model of `bit_reverse` from `lib/packing.c`: reverse the low `width` bits. -/
def bit_reverse (val width : Nat) : Nat :=
  (List.range width).foldl
    (fun new_val i =>
      new_val ||| ((if val &&& (1 <<< i) ≠ 0 then 1 else 0) <<< (width - i - 1)))
    0

/-- Model of `adjust_for_msb_right_quirk` from `lib/packing.c`.  Returns the updated
`(to_write, box_start_bit, box_end_bit, box_mask)`.  When `box_end_bit > 0`
the C code computes `new_box_end_bit = box_bit_width - box_start_bit - 1 =
-box_end_bit < 0`, and the subsequent `GENMASK_ULL` and shifts by this
negative count are undefined behavior: modelled as `none`. -/
def adjust_for_msb_right_quirk (to_write bs be : Nat) :
    Option (Nat × Nat × Nat × Nat) :=
  let box_bit_width := bs - be + 1
  let t := (bit_reverse (to_write >>> be) box_bit_width) <<< be
  if be = 0 then
    some (t, box_bit_width - be - 1, box_bit_width - bs - 1,
          GENMASK_ULL (box_bit_width - be - 1) (box_bit_width - bs - 1))
  else
    none

/-- One iteration of the box loop inside `packing()`. -/
def packing_box_step (op : PackOp) (q : Quirks) (pstartbit pendbit pbuflen : Nat)
    (st : List Nat × Nat) (box : Nat) : PackResult :=
  let buf := st.1
  let uval := st.2
  let box_start_bit := if box = pstartbit / 8 then pstartbit % 8 else 7
  let box_end_bit := if box = pendbit / 8 then pendbit % 8 else 0
  let proj_start_bit := box * 8 + box_start_bit - pendbit
  let proj_end_bit := box * 8 + box_end_bit - pendbit
  let proj_mask := GENMASK_ULL proj_start_bit proj_end_bit
  -- `box_mask` is a `u8`, so the assignment truncates to the low byte
  let box_mask := GENMASK_ULL box_start_bit box_end_bit % 2 ^ 8
  let a0 : Int := (pbuflen : Int) - box - 1
  let a1 : Int := if q.littleEndian then get_le_offset a0 else a0
  let a2 : Int := if q.lsw32First then get_reverse_lsw32_offset a1 pbuflen else a1
  if a2 < 0 ∨ (pbuflen : Int) ≤ a2 then
    -- out-of-bounds access into `pbuf`: undefined behavior
    .ub
  else
    let box_addr := a2.toNat
    match op with
    | .UNPACK =>
      let pval := buf.getD box_addr 0 &&& box_mask
      match (if q.msbRight then
               adjust_for_msb_right_quirk pval box_start_bit box_end_bit
             else some (pval, box_start_bit, box_end_bit, box_mask)) with
      | none => .ub
      | some (pval1, _, be1, _) =>
        let pval2 := (pval1 >>> be1) <<< proj_end_bit
        .ok buf ((uval &&& (MASK64 ^^^ proj_mask)) ||| pval2)
    | .PACK =>
      let pval := (uval &&& proj_mask) >>> proj_end_bit
      match (if q.msbRight then
               adjust_for_msb_right_quirk pval box_start_bit box_end_bit
             else some (pval, box_start_bit, box_end_bit, box_mask)) with
      | none => .ub
      | some (pval1, _, be1, mask1) =>
        let pval2 := pval1 <<< be1
        -- `pbuf[box_addr] &= ~box_mask; pbuf[box_addr] |= pval;` on a u8
        let byte := (buf.getD box_addr 0 &&& ((2 ^ 8 - 1) ^^^ mask1)) |||
                    (pval2 &&& (2 ^ 8 - 1))
        .ok (buf.set box_addr byte) uval

/-- The boxes visited by the loop, from `plogicalfirstu8` down to
`plogicallastu8`. -/
def boxesDesc (first last : Nat) : List Nat :=
  (List.range' last (first + 1 - last)).reverse

/-- The box loop of `packing()`: fold `packing_box_step` with early exit on
error or undefined behavior. -/
def packing_loop (op : PackOp) (q : Quirks) (pstartbit pendbit pbuflen : Nat) :
    List Nat → List Nat × Nat → PackResult
  | [], st => .ok st.1 st.2
  | b :: rest, st =>
    match packing_box_step op q pstartbit pendbit pbuflen st b with
    | .ok buf v => packing_loop op q pstartbit pendbit pbuflen rest (buf, v)
    | r => r

/-- Model of `packing()` from `lib/packing.c`. -/
def packing (buf : List Nat) (uval : Nat) (pstartbit pendbit pbuflen : Nat)
    (op : PackOp) (q : Quirks) : PackResult :=
  if pstartbit < pendbit then
    .err (-EINVAL)
  else
    let value_width := pstartbit - pendbit + 1
    if 64 < value_width then
      .err (-ERANGE)
    else if op = .PACK ∧ value_width < 64 ∧ 2 ^ value_width ≤ uval then
      .err (-ERANGE)
    else
      let u0 := if op = .UNPACK then 0 else uval
      packing_loop op q pstartbit pendbit pbuflen
        (boxesDesc (pstartbit / 8) (pendbit / 8)) (buf, u0)

/-- The quirk set `QUIRK_MSB_ON_THE_RIGHT` alone. -/
def quirksMsbRight : Quirks := ⟨true, false, false⟩

/-- The quirk set `QUIRK_LSW32_IS_FIRST` alone; the only quirk combination
the sja1105 driver uses (`sja1105_pack`/`sja1105_unpack`/`sja1105_packing`). -/
def quirksLsw32 : Quirks := ⟨false, false, true⟩

/-- Claim C1: with `QUIRK_MSB_ON_THE_RIGHT` and a bit window whose end is
not byte aligned (here `pstartbit = 3`, `pendbit = 2`, one byte of a 4-byte
buffer), `packing(..., PACK, ...)` first destroys the value — the
`*to_write >>= *box_end_bit` step of `adjust_for_msb_right_quirk` shifts
the 2-bit field value out entirely, so values 0 and 1 produce the same
`to_write` — and then computes `new_box_end_bit = -2`, making the
subsequent `GENMASK_ULL` and shift undefined behavior (`ub`).  The
pack-then-unpack round trip therefore cannot return the original value for
this quirk/window combination, contradicting the claimed law. -/
theorem claim_C1 :
    packing [0, 0, 0, 0] 1 3 2 4 .PACK quirksMsbRight = .ub ∧
    packing [0, 0, 0, 0] 0 3 2 4 .PACK quirksMsbRight = .ub ∧
    (bit_reverse (1 >>> 2) (3 - 2 + 1)) <<< 2 =
      (bit_reverse (0 >>> 2) (3 - 2 + 1)) <<< 2 := by
  refine ⟨by decide, by decide, by decide⟩

/-! ## Static configuration data model, `sja1105_static_config.h`

All C fields are `u64`; they are modelled as `Nat` and the per-codec
canonicity predicates bound them by their packed bit widths. -/

structure ScheduleEntry where
  winstindex : Nat
  winend : Nat
  winst : Nat
  destports : Nat
  setvalid : Nat
  txen : Nat
  resmedia_en : Nat
  resmedia : Nat
  vlindex : Nat
  delta : Nat
deriving DecidableEq

structure ScheduleParamsEntry where
  subscheind : List Nat    -- u64 subscheind[8]
deriving DecidableEq

structure GeneralParamsEntry where
  vllupformat : Nat
  mirr_ptacu : Nat
  switchid : Nat
  hostprio : Nat
  mac_fltres1 : Nat
  mac_fltres0 : Nat
  mac_flt1 : Nat
  mac_flt0 : Nat
  incl_srcpt1 : Nat
  incl_srcpt0 : Nat
  send_meta1 : Nat
  send_meta0 : Nat
  casc_port : Nat
  host_port : Nat
  mirr_port : Nat
  vlmarker : Nat
  vlmask : Nat
  tpid : Nat
  ignore2stf : Nat
  tpid2 : Nat
  queue_ts : Nat       -- P/Q/R/S only
  egrmirrvid : Nat     -- P/Q/R/S only
  egrmirrpcp : Nat     -- P/Q/R/S only
  egrmirrdei : Nat     -- P/Q/R/S only
  replay_port : Nat    -- P/Q/R/S only
deriving DecidableEq

structure ScheduleEntryPointsEntry where
  subschindx : Nat
  delta : Nat
  address : Nat
deriving DecidableEq

structure ScheduleEntryPointsParamsEntry where
  clksrc : Nat
  actsubsch : Nat
deriving DecidableEq

structure VlanLookupEntry where
  ving_mirr : Nat
  vegr_mirr : Nat
  vmemb_port : Nat
  vlan_bc : Nat
  tag_port : Nat
  vlanid : Nat
deriving DecidableEq

structure L2LookupEntry where
  mirrvlan : Nat       -- P/Q/R/S only
  mirr : Nat           -- P/Q/R/S only
  retag : Nat          -- P/Q/R/S only
  mask_iotag : Nat     -- P/Q/R/S only
  mask_vlanid : Nat    -- P/Q/R/S only
  mask_macaddr : Nat   -- P/Q/R/S only
  iotag : Nat          -- P/Q/R/S only
  vlanid : Nat
  macaddr : Nat
  destports : Nat
  enfport : Nat
  index : Nat
deriving DecidableEq

structure L2LookupParamsEntry where
  drpbc : Nat          -- P/Q/R/S only
  drpmc : Nat          -- P/Q/R/S only
  drpuni : Nat         -- P/Q/R/S only
  maxaddrp : List Nat  -- u64 maxaddrp[5], P/Q/R/S only
  start_dynspc : Nat   -- P/Q/R/S only
  drpnolearn : Nat     -- P/Q/R/S only
  use_static : Nat     -- P/Q/R/S only
  owr_dyn : Nat        -- P/Q/R/S only
  learn_once : Nat     -- P/Q/R/S only
  maxage : Nat
  dyn_tbsz : Nat       -- E/T only
  poly : Nat           -- E/T only
  shared_learn : Nat
  no_enf_hostprt : Nat
  no_mgmt_learn : Nat
deriving DecidableEq

structure L2ForwardingEntry where
  bc_domain : Nat
  reach_port : Nat
  fl_domain : Nat
  vlan_pmap : List Nat  -- u64 vlan_pmap[8]
deriving DecidableEq

structure L2ForwardingParamsEntry where
  max_dynp : Nat
  part_spc : List Nat   -- u64 part_spc[8]
deriving DecidableEq

structure L2PolicingEntry where
  sharindx : Nat
  smax : Nat
  rate : Nat
  maxlen : Nat
  partition : Nat
deriving DecidableEq

structure MacConfigEntry where
  top : List Nat       -- u64 top[8]
  base : List Nat      -- u64 base[8]
  enabled : List Nat   -- u64 enabled[8]
  ifg : Nat
  speed : Nat
  tp_delin : Nat
  tp_delout : Nat
  maxage : Nat
  vlanprio : Nat
  vlanid : Nat
  ing_mirr : Nat
  egr_mirr : Nat
  drpnona664 : Nat
  drpdtag : Nat
  drpsotag : Nat       -- P/Q/R/S only
  drpsitag : Nat       -- P/Q/R/S only
  drpuntag : Nat
  retag : Nat
  dyn_learn : Nat
  egress : Nat
  ingress : Nat
  mirrcie : Nat        -- P/Q/R/S only
  mirrcetag : Nat      -- P/Q/R/S only
  ingmirrvid : Nat     -- P/Q/R/S only
  ingmirrpcp : Nat     -- P/Q/R/S only
  ingmirrdei : Nat     -- P/Q/R/S only
deriving DecidableEq

structure XmiiParamsEntry where
  phy_mac : List Nat    -- u64 phy_mac[5]
  xmii_mode : List Nat  -- u64 xmii_mode[5]
deriving DecidableEq

structure AvbParamsEntry where
  l2cbs : Nat          -- P/Q/R/S only
  cas_master : Nat     -- P/Q/R/S only
  destmeta : Nat
  srcmeta : Nat
deriving DecidableEq

structure SgmiiEntry where
  digital_error_cnt : Nat
  digital_control_2 : Nat
  debug_control : Nat
  test_control : Nat
  autoneg_control : Nat
  digital_control_1 : Nat
  autoneg_adv : Nat
  basic_control : Nat
deriving DecidableEq

/-- Model of `struct sja1105_vl_lookup_entry`.  In C the two interpretations share
one anonymous union: `egrmirr` aliases `destports`, `ingrmirr` aliases
`iscritical` and `vlid` aliases `macaddr`.  The structure keeps one field
per union slot, named after the format-0 member; `egrmirr`, `ingrmirr` and
`vlid` below are the format-1 accessors of the same storage. -/
structure VlLookupEntry where
  format : Nat
  port : Nat
  destports : Nat
  iscritical : Nat
  macaddr : Nat
  vlanid : Nat
  vlanprior : Nat
deriving DecidableEq

def VlLookupEntry.egrmirr (e : VlLookupEntry) : Nat := e.destports
def VlLookupEntry.ingrmirr (e : VlLookupEntry) : Nat := e.iscritical
def VlLookupEntry.vlid (e : VlLookupEntry) : Nat := e.macaddr

structure VlPolicingEntry where
  type : Nat
  maxlen : Nat
  sharindx : Nat
  bag : Nat
  jitter : Nat
deriving DecidableEq

structure VlForwardingEntry where
  type : Nat
  priority : Nat
  partition : Nat
  destports : Nat
deriving DecidableEq

structure VlForwardingParamsEntry where
  partspc : List Nat   -- u64 partspc[8]
  debugen : Nat
deriving DecidableEq

/-- Model of `struct sja1105_clk_sync_params_entry` has 42 named `u64` fields and a
`u64 srcport[8]` array, but its codec
(`sja1105_clk_sync_params_entry_packing`) is `TODO not implemented` and
packs nothing, so only the fields' presence matters; they are kept as a
list of the 42 scalar fields followed by the 8 array slots. -/
structure ClkSyncParamsEntry where
  fields : List Nat
deriving DecidableEq

structure RetaggingEntry where
  egr_port : Nat
  ing_port : Nat
  vlan_ing : Nat
  vlan_egr : Nat
  do_not_learn : Nat
  use_dest_ports : Nat
  destports : Nat
deriving DecidableEq

structure TableHeader where
  block_id : Nat
  len : Nat
  crc : Nat
deriving DecidableEq

/-! ## Constants from `sja1105_static_config.h` -/

def SIZE_SJA1105_DEVICE_ID : Nat := 4
def SIZE_TABLE_HEADER : Nat := 12

def SJA1105E_DEVICE_ID : Nat := 0x9C00000C
def SJA1105T_DEVICE_ID : Nat := 0x9E00030E
def SJA1105PR_DEVICE_ID : Nat := 0xAF00030E
def SJA1105QS_DEVICE_ID : Nat := 0xAE00030E

def IS_ET (device_id : Nat) : Prop :=
  device_id = SJA1105E_DEVICE_ID ∨ device_id = SJA1105T_DEVICE_ID

def IS_PQRS (device_id : Nat) : Prop :=
  device_id = SJA1105PR_DEVICE_ID ∨ device_id = SJA1105QS_DEVICE_ID

def DEVICE_ID_VALID (device_id : Nat) : Prop :=
  IS_ET device_id ∨ IS_PQRS device_id

def SUPPORTS_TTETHERNET (device_id : Nat) : Prop :=
  device_id = SJA1105T_DEVICE_ID ∨ device_id = SJA1105QS_DEVICE_ID

instance (d : Nat) : Decidable (IS_ET d) := by unfold IS_ET; infer_instance
instance (d : Nat) : Decidable (IS_PQRS d) := by unfold IS_PQRS; infer_instance
instance (d : Nat) : Decidable (DEVICE_ID_VALID d) := by
  unfold DEVICE_ID_VALID; infer_instance
instance (d : Nat) : Decidable (SUPPORTS_TTETHERNET d) := by
  unfold SUPPORTS_TTETHERNET; infer_instance

def MAX_FRAME_MEMORY : Nat := 929
def MAX_FRAME_MEMORY_RETAGGING : Nat := 910

/-- The validity outcomes `enum sja1105_static_config_validity`, in
declaration order, as the integers the C enum assigns them.  The unpack
paths additionally return raw `-EINVAL`, which is not a member of this
enum. -/
def SJA1105_CONFIG_OK : Int := 0
def SJA1105_DEVICE_ID_INVALID : Int := 1
def SJA1105_TTETHERNET_NOT_SUPPORTED : Int := 2
def SJA1105_INCORRECT_TTETHERNET_CONFIGURATION : Int := 3
def SJA1105_INCORRECT_VIRTUAL_LINK_CONFIGURATION : Int := 4
def SJA1105_MISSING_L2_POLICING_TABLE : Int := 5
def SJA1105_MISSING_L2_FORWARDING_TABLE : Int := 6
def SJA1105_MISSING_L2_FORWARDING_PARAMS_TABLE : Int := 7
def SJA1105_MISSING_GENERAL_PARAMS_TABLE : Int := 8
def SJA1105_MISSING_VLAN_TABLE : Int := 9
def SJA1105_MISSING_XMII_TABLE : Int := 10
def SJA1105_MISSING_MAC_TABLE : Int := 11
def SJA1105_OVERCOMMITTED_FRAME_MEMORY : Int := 12
def SJA1105_UNEXPECTED_END_OF_BUFFER : Int := 13
def SJA1105_INVALID_DEVICE_ID : Int := 14
def SJA1105_INVALID_TABLE_HEADER_CRC : Int := 15
def SJA1105_INVALID_TABLE_HEADER : Int := 16
def SJA1105_INCORRECT_TABLE_LENGTH : Int := 17
def SJA1105_DATA_CRC_INVALID : Int := 18
def SJA1105_EXTRA_BYTES_AT_END_OF_BUFFER : Int := 19

/-! ## Time-Aware Shaper, `sja1105_tas.c` -/

def SJA1105_NUM_PORTS : Nat := 5
def SJA1105_NUM_TC : Nat := 8
def SJA1105_TAS_CLKSRC_STANDALONE : Nat := 1
/-- Model of `SJA1105_GATE_MASK = GENMASK_ULL(SJA1105_NUM_TC - 1, 0)`. -/
def SJA1105_GATE_MASK : Nat := 2 ^ SJA1105_NUM_TC - 1
/-- Model of `SJA1105_TAS_MAX_DELTA = BIT(19)`. -/
def SJA1105_TAS_MAX_DELTA : Nat := 2 ^ 19

/-- Model of `sja1105_tas_cycles(ns) = div_u64(ns, 200)`. -/
def sja1105_tas_cycles (ns : Nat) : Nat := ns / 200

/-- Modelled from the spec: one entry of the external kernel structure
`struct tc_taprio_sched_entry` — an interval in nanoseconds and the
gate-open mask of the Gate Control List entry (the driver reads exactly
the `interval` and `gate_mask` members). -/
structure TcTaprioSchedEntry where
  interval : Nat
  gate_mask : Nat
deriving DecidableEq

/-- Modelled from the spec: the external kernel structure
`struct tc_taprio_qopt_offload`, a per-port gate program with an enable
flag, a base time and cycle time (and cycle-time extension) in
nanoseconds, and an ordered Gate Control List; `num_entries` is
`entries.length`. -/
structure TcTaprioQopt where
  enable : Bool
  base_time : Nat
  cycle_time : Nat
  cycle_time_extension : Nat
  entries : List TcTaprioSchedEntry
deriving DecidableEq

/-- A value read from or stored into a `u64` C variable. -/
def u64 (x : Nat) : Nat := x % 2 ^ 64

/-- Reading the `s32 rem` variable (holding the `u32` remainder written
by `div_u64_rem`) into a `u64` variable: a value with bit 31 set is
sign-extended. -/
def s32_to_u64 (r : Nat) : Nat := if r < 2 ^ 31 then r else 2 ^ 64 - 2 ^ 32 + r

/-- The value of `t` at the start of iteration `k` of
`for (t = s; ...; t += ct)`, in `u64` arithmetic. -/
def tasOcc (s ct k : Nat) : Nat := u64 (s + k * ct)

/-- The least `k < n` satisfying `p`. -/
def firstSuch (p : Nat → Bool) : Nat → Option Nat
  | 0 => none
  | n + 1 =>
    match firstSuch p n with
    | some k => some k
    | none => if p n then some n else none

/-- The innermost loop `for (t2 = s2; t2 <= stop; t2 += ct2)` at a fixed
`t1`: the loop condition is tested first, so the first iterate above
`stop` ends the sweep with no conflict (`some false`); an iterate equal
to `t1` first makes the function return true (`some true`); if neither
ever happens the C loop runs forever (`none`).  The iterates have
period `2 ^ 64` (`tasOcc_mod`), so searching the first `2 ^ 64` of them
decides which case occurs. -/
def tasInner (t1 s2 ct2 stop : Nat) : Option Bool :=
  (firstSuch (fun k =>
      decide (stop < tasOcc s2 ct2 k) || decide (tasOcc s2 ct2 k = t1)) (2 ^ 64)).map
    (fun k => decide (tasOcc s2 ct2 k ≤ stop))

/-- The loop `for (t1 = s1; t1 <= stop; t1 += ct1)` with the `t2` sweep
as its body: the first iteration that does not simply continue either
exits past `stop` (`some false`), or yields the inner sweep's outcome (a
conflict, or the inner loop hanging); when every iteration continues
forever, the outer loop itself never terminates (`none`). -/
def tasOuter (s1 ct1 s2 ct2 stop : Nat) : Option Bool :=
  (firstSuch (fun m => decide (stop < tasOcc s1 ct1 m) ||
      decide (tasInner (tasOcc s1 ct1 m) s2 ct2 stop ≠ some false)) (2 ^ 64)).bind
    (fun m =>
      if stop < tasOcc s1 ct1 m then some false
      else tasInner (tasOcc s1 ct1 m) s2 ct2 stop)

/-- The `i`/`j` Gate Control List entry loops around the `t1`/`t2`
loops: the first body outcome other than `some false` (a conflict, or a
hanging sweep) decides; if every pair of entries sweeps clean, there is
no conflict. -/
def tasScan : List (Option Bool) → Option Bool
  | [] => some false
  | some false :: rest => tasScan rest
  | r :: _ => r

/-- The running `delta1`/`delta2` offset of each Gate Control List entry
within its cycle: the accumulation pattern of
`for (i = 0, delta1 = 0; i < n; delta1 += entries[i].interval, i++)`,
adding the `u32` interval fields into a `u64` variable. -/
def gclDeltas (entries : List TcTaprioSchedEntry) : List Nat :=
  (List.range entries.length).map
    (fun i => u64 (((entries.take i).map (fun e => e.interval % 2 ^ 32)).sum))

/-- The "reduced" base time `rbt1`/`rbt2` of a cycle:
`div_u64_rem(base_time, cycle_time, &rem)` divides by the `u32`
truncation of the cycle time, and the `s32 rem` is then sign-extended
into the `u64` variable. -/
def tasRbt (cfg : TcTaprioQopt) : Nat :=
  s32_to_u64 (u64 cfg.base_time % (cfg.cycle_time % 2 ^ 32))

/-- The scan horizon `stop_time = max_cycle_time + max(rbt1, rbt2)` in
`u64` arithmetic. -/
def tasStop (tas_config qopt : TcTaprioQopt) : Nat :=
  u64 (max (u64 tas_config.cycle_time) (u64 qopt.cycle_time) +
    max (tasRbt tas_config) (tasRbt qopt))

/-- Outcome of one established-versus-candidate comparison in
`sja1105_tas_check_conflicts`: the function returns a verdict, or one of
its `t1`/`t2` loops never terminates, or a `div_u64_rem` divisor is zero
(a division by zero in the kernel). -/
inductive TasPairOutcome where
  | ret (conflict : Bool)
  | hang
  | ub
deriving DecidableEq

/-- A completed entry scan returns its verdict; a scan whose first
non-clean sweep hangs never returns. -/
def tasScanOutcome : Option Bool → TasPairOutcome
  | none => .hang
  | some v => .ret v

/-- The loop body of `sja1105_tas_check_conflicts` for one established
port program `tas_config` against the candidate `qopt`, in `u64`
arithmetic with the `s32` sign-extension of the reduced base times.
`div_u64_rem` takes a `u32` divisor, so the divisors are truncated to 32
bits; a zero truncated divisor is a division by zero in the kernel
(`.ub`), and occurrence loops that never step past `stop_time` make the
function loop forever (`.hang`). -/
def sja1105_tas_pair_conflict (tas_config qopt : TcTaprioQopt) : TasPairOutcome :=
  if min (u64 tas_config.cycle_time) (u64 qopt.cycle_time) % 2 ^ 32 = 0 then .ub
  else if max (u64 tas_config.cycle_time) (u64 qopt.cycle_time) %
      (min (u64 tas_config.cycle_time) (u64 qopt.cycle_time) % 2 ^ 32) ≠ 0 then .ret true
  else if tas_config.cycle_time % 2 ^ 32 = 0 ∨ qopt.cycle_time % 2 ^ 32 = 0 then .ub
  else
    tasScanOutcome (tasScan ((gclDeltas tas_config.entries).flatMap (fun delta1 =>
      (gclDeltas qopt.entries).map (fun delta2 =>
        tasOuter (u64 (tasRbt tas_config + delta1)) (u64 tas_config.cycle_time)
          (u64 (tasRbt qopt + delta2)) (u64 qopt.cycle_time)
          (tasStop tas_config qopt)))))

/-- Every `t1` and `t2` loop of the comparison of `tas_config` against
`qopt` eventually steps past `stop_time`: the C function terminates
whichever way the conflict scan goes. -/
def tasPairTerminates (tas_config qopt : TcTaprioQopt) : Prop :=
  (∀ d1 ∈ gclDeltas tas_config.entries,
    ∃ k, tasStop tas_config qopt <
      tasOcc (u64 (tasRbt tas_config + d1)) (u64 tas_config.cycle_time) k) ∧
  (∀ d2 ∈ gclDeltas qopt.entries,
    ∃ k, tasStop tas_config qopt <
      tasOcc (u64 (tasRbt qopt + d2)) (u64 qopt.cycle_time) k)

/-- Model of `sja1105_tas_check_conflicts`: fold the pairwise check over all
established port programs; a division by zero or a hang in a pairwise
check propagates. -/
def sja1105_tas_check_conflicts (tas_config : List (Option TcTaprioQopt))
    (qopt : TcTaprioQopt) : TasPairOutcome :=
  tas_config.foldl
    (fun acc c =>
      match acc, c with
      | .ret false, some established => sja1105_tas_pair_conflict established qopt
      | .ret false, none => .ret false
      | acc, _ => acc)
    (.ret false)

/-- State threaded through the port loop of `sja1105_init_scheduling`:
`k` is the running schedule slot index, `cycle` the running cycle index,
and `subscheind` the `int subscheind[8]` working array. -/
structure TasBuildState where
  k : Nat
  cycle : Nat
  schedule : List ScheduleEntry
  entryPoints : List ScheduleEntryPointsEntry
  subscheind : List Nat
deriving DecidableEq

def ScheduleEntry.zeroed : ScheduleEntry := ⟨0, 0, 0, 0, 0, 0, 0, 0, 0, 0⟩

/-- The schedule timeslot emitted for GCL entry `ge` of port `port`:
`delta` in 200ns ticks, `destports = BIT(port)`, `resmedia_en = true` and
`resmedia = SJA1105_GATE_MASK & ~gate_mask` (`u8`-wide complement). -/
def tasScheduleSlot (port : Nat) (ge : TcTaprioSchedEntry) : ScheduleEntry :=
  { ScheduleEntry.zeroed with
      delta := sja1105_tas_cycles ge.interval
      destports := 2 ^ port
      resmedia_en := 1
      resmedia := SJA1105_GATE_MASK ^^^ (ge.gate_mask &&& SJA1105_GATE_MASK) }

/-- One iteration of the port loop of `sja1105_init_scheduling` for an
active port. -/
def tasBuildStep (port : Nat) (tas_config : TcTaprioQopt) (st : TasBuildState) :
    TasBuildState :=
  let schedule_start_idx := st.k
  let schedule_end_idx := st.k + tas_config.entries.length - 1
  let entry_point_delta := sja1105_tas_cycles tas_config.base_time
  let ep : ScheduleEntryPointsEntry :=
    ⟨st.cycle, entry_point_delta, schedule_start_idx⟩
  { k := st.k + tas_config.entries.length
    cycle := st.cycle + 1
    schedule := st.schedule ++ tas_config.entries.map (tasScheduleSlot port)
    entryPoints := st.entryPoints ++ [ep]
    subscheind := (List.range 8).map
      (fun i => if st.cycle ≤ i then schedule_end_idx else st.subscheind.getD i 0) }

/-- The port loop of `sja1105_init_scheduling`. -/
def tasBuildLoop (port : Nat) (ports : List (Option TcTaprioQopt))
    (st : TasBuildState) : TasBuildState :=
  match ports with
  | [] => st
  | none :: rest => tasBuildLoop (port + 1) rest st
  | some cfg :: rest => tasBuildLoop (port + 1) rest (tasBuildStep port cfg st)

/-- The result of `sja1105_init_scheduling`: the rebuilt Schedule,
Schedule Entry Points, Schedule Entry Points Parameters and Schedule
Parameters tables. -/
structure TasTables where
  schedule : List ScheduleEntry
  entryPoints : List ScheduleEntryPointsEntry
  entryPointsParams : List ScheduleEntryPointsParamsEntry
  scheduleParams : List ScheduleParamsEntry
deriving DecidableEq

/-- Model of `sja1105_init_scheduling`, operating on the per-port gate programs
`priv->tas_config[]`.  The four tables are first discarded; if no port is
active all four stay empty; otherwise they are rebuilt as in the C port
loop.  (Allocation failures are not modelled.) -/
def sja1105_init_scheduling (ports : List (Option TcTaprioQopt)) : TasTables :=
  let num_cycles := (ports.filterMap id).length
  if num_cycles = 0 then
    ⟨[], [], [], []⟩
  else
    let st := tasBuildLoop 0 ports ⟨0, 0, [], [], List.replicate 8 0⟩
    { schedule := st.schedule
      entryPoints := st.entryPoints
      entryPointsParams := [⟨SJA1105_TAS_CLKSRC_STANDALONE, num_cycles - 1⟩]
      scheduleParams := [⟨st.subscheind⟩] }

/-- Result of `sja1105_setup_taprio`, instrumented with whether the
conflict check and the schedule rebuild were reached. -/
structure TaprioResult where
  rc : Int
  checkedConflicts : Bool
  rebuilt : Bool
  tasConfigs : List (Option TcTaprioQopt)
deriving DecidableEq

/-- The cycle-time derivation / interval validation loop of
`sja1105_setup_taprio` (executed only when `cycle_time` is absent):
returns the derived cycle time, or `none` on the `-ERANGE` error for an
interval that is too long (`≥ 2^19` ticks) or too short (0 ticks). -/
def taprioDeriveCycleTime (entries : List TcTaprioSchedEntry) : Option Nat :=
  entries.foldl
    (fun acc ge =>
      match acc with
      | none => none
      | some ct =>
        let delta_cycles := sja1105_tas_cycles ge.interval
        if SJA1105_TAS_MAX_DELTA ≤ delta_cycles ∨ delta_cycles = 0 then none
        else some (ct + ge.interval))
    (some 0)

/-- Model of `sja1105_setup_taprio`.  `none` marks executions whose conflict check
hits undefined behavior or never returns.  The `schedule_work` deferred
upload is out of scope; `rebuilt` records that `sja1105_init_scheduling`
ran. -/
def sja1105_setup_taprio (tasConfigs : List (Option TcTaprioQopt)) (port : Nat)
    (qopt : TcTaprioQopt) : Option TaprioResult :=
  if (tasConfigs.getD port none).isSome = qopt.enable then
    some ⟨-EINVAL, false, false, tasConfigs⟩
  else if qopt.enable = false then
    let cfgs := tasConfigs.set port none
    some ⟨0, false, true, cfgs⟩
  else if qopt.cycle_time_extension ≠ 0 then
    some ⟨-ENOTSUPP, false, false, tasConfigs⟩
  else if sja1105_tas_cycles qopt.base_time = 0 then
    some ⟨-ERANGE, false, false, tasConfigs⟩
  else
    let tas_config :=
      if qopt.cycle_time = 0 then
        (taprioDeriveCycleTime qopt.entries).map
          (fun ct => { qopt with cycle_time := ct })
      else some qopt
    match tas_config with
    | none => some ⟨-ERANGE, false, false, tasConfigs⟩
    | some tc =>
      match sja1105_tas_check_conflicts tasConfigs tc with
      | .ub => none
      | .hang => none
      | .ret true => some ⟨-ERANGE, true, false, tasConfigs⟩
      | .ret false =>
        let cfgs := tasConfigs.set port (some tc)
        some ⟨0, true, true, cfgs⟩

/-! ## Claim C5: symmetry of the pairwise TAS conflict check -/

theorem tasOcc_mod (s ct k : Nat) : tasOcc s ct k = tasOcc s ct (k % 2 ^ 64) := by
  unfold tasOcc u64
  have h : s + k * ct = s + k % 2 ^ 64 * ct + 2 ^ 64 * (k / 2 ^ 64 * ct) := by
    have h2 : k % 2 ^ 64 + 2 ^ 64 * (k / 2 ^ 64) = k := Nat.mod_add_div k (2 ^ 64)
    calc s + k * ct = s + (k % 2 ^ 64 + 2 ^ 64 * (k / 2 ^ 64)) * ct := by rw [h2]
      _ = s + k % 2 ^ 64 * ct + 2 ^ 64 * (k / 2 ^ 64 * ct) := by ring
  rw [h, Nat.add_mul_mod_self_left]

/-- From bare termination of a loop, its least exit index: it is below
`2 ^ 64`, its iterate is past `stop`, all earlier iterates are not. -/
theorem exit_index (s ct stop : Nat) (h : ∃ k, stop < tasOcc s ct k) :
    ∃ K, K < 2 ^ 64 ∧ stop < tasOcc s ct K ∧ ∀ j, j < K → tasOcc s ct j ≤ stop := by
  have hb : ∃ k, k < 2 ^ 64 ∧ stop < tasOcc s ct k := by
    obtain ⟨k, hk⟩ := h
    refine ⟨k % 2 ^ 64, Nat.mod_lt _ (by norm_num), ?_⟩
    rw [← tasOcc_mod]
    exact hk
  obtain ⟨k0, hk0lt, hk0⟩ := hb
  refine ⟨Nat.find h, Nat.lt_of_le_of_lt (Nat.find_min' h hk0) hk0lt, Nat.find_spec h,
    fun j hj => ?_⟩
  have hx := Nat.find_min h hj
  omega

theorem firstSuch_eq_none (p : Nat → Bool) :
    ∀ (n : Nat), (∀ j, j < n → p j = false) → firstSuch p n = none := by
  intro n
  induction n with
  | zero => intro _; rfl
  | succ m ih =>
    intro h
    simp only [firstSuch]
    rw [ih (fun j hj => h j (by omega)), h m (by omega)]
    rfl

theorem firstSuch_eq_some (p : Nat → Bool) (k : Nat) (hp : p k = true)
    (hb : ∀ j, j < k → p j = false) :
    ∀ (n : Nat), k < n → firstSuch p n = some k := by
  intro n
  induction n with
  | zero => intro h; omega
  | succ m ih =>
    intro hk
    simp only [firstSuch]
    rcases Nat.lt_or_ge k m with h | h
    · rw [ih h]
    · have hkm : m = k := by omega
      subst hkm
      rw [firstSuch_eq_none p m hb, hp]
      rfl

/-- On input whose `t2` sweep terminates (exit index `K`), the inner loop
returns `some true` exactly when an iterate before the exit hits `t1`. -/
theorem tasInner_char (t1 s2 ct2 stop K : Nat) (hKlt : K < 2 ^ 64)
    (hKspec : stop < tasOcc s2 ct2 K)
    (hKmin : ∀ j, j < K → tasOcc s2 ct2 j ≤ stop) :
    tasInner t1 s2 ct2 stop =
      some (decide (∃ j, j < K ∧ tasOcc s2 ct2 j = t1)) := by
  unfold tasInner
  by_cases hm : ∃ j, j < K ∧ tasOcc s2 ct2 j = t1
  · obtain ⟨J, hJ1, hJ2, hJmin⟩ : ∃ J, J < K ∧ tasOcc s2 ct2 J = t1 ∧
        ∀ j, j < J → tasOcc s2 ct2 j ≠ t1 := by
      refine ⟨Nat.find hm, (Nat.find_spec hm).1, (Nat.find_spec hm).2, fun j hj he => ?_⟩
      have hjK : j < K := by
        have := (Nat.find_spec hm).1
        omega
      exact absurd ⟨hjK, he⟩ (Nat.find_min hm hj)
    rw [firstSuch_eq_some _ J
      (by
        show (decide (stop < tasOcc s2 ct2 J) || decide (tasOcc s2 ct2 J = t1)) = true
        simp only [Bool.or_eq_true_iff, decide_eq_true_eq]
        exact Or.inr hJ2)
      (fun j hj => by
        show (decide (stop < tasOcc s2 ct2 j) || decide (tasOcc s2 ct2 j = t1)) = false
        simp only [Bool.or_eq_false_iff, decide_eq_false_iff_not]
        refine ⟨?_, hJmin j hj⟩
        have hx := hKmin j (by omega)
        omega)
      (2 ^ 64) (by omega)]
    rw [Option.map_some', Option.some.injEq, decide_eq_decide]
    exact iff_of_true (hKmin _ hJ1) hm
  · rw [firstSuch_eq_some _ K
      (by
        show (decide (stop < tasOcc s2 ct2 K) || decide (tasOcc s2 ct2 K = t1)) = true
        simp only [Bool.or_eq_true_iff, decide_eq_true_eq]
        exact Or.inl hKspec)
      (fun j hj => by
        show (decide (stop < tasOcc s2 ct2 j) || decide (tasOcc s2 ct2 j = t1)) = false
        simp only [Bool.or_eq_false_iff, decide_eq_false_iff_not]
        refine ⟨?_, fun he => hm ⟨j, hj, he⟩⟩
        have hx := hKmin j hj
        omega)
      (2 ^ 64) hKlt]
    rw [Option.map_some', Option.some.injEq, decide_eq_decide]
    exact iff_of_false (by omega) hm

/-- On input whose `t1` and `t2` sweeps terminate (exit indices `K1`,
`K2`), the two nested loops return `some true` exactly when two iterates
before the exits collide. -/
theorem tasOuter_char (s1 ct1 s2 ct2 stop K1 K2 : Nat) (hK1lt : K1 < 2 ^ 64)
    (hK1spec : stop < tasOcc s1 ct1 K1)
    (hK1min : ∀ m, m < K1 → tasOcc s1 ct1 m ≤ stop)
    (hK2lt : K2 < 2 ^ 64)
    (hK2spec : stop < tasOcc s2 ct2 K2)
    (hK2min : ∀ j, j < K2 → tasOcc s2 ct2 j ≤ stop) :
    tasOuter s1 ct1 s2 ct2 stop =
      some (decide (∃ m, m < K1 ∧
        ∃ j, j < K2 ∧ tasOcc s1 ct1 m = tasOcc s2 ct2 j)) := by
  unfold tasOuter
  by_cases hm : ∃ m, m < K1 ∧ ∃ j, j < K2 ∧ tasOcc s1 ct1 m = tasOcc s2 ct2 j
  · obtain ⟨M, hM1, hM2, hMmin⟩ : ∃ M, M < K1 ∧
        (∃ j, j < K2 ∧ tasOcc s1 ct1 M = tasOcc s2 ct2 j) ∧
        ∀ m', m' < M → ¬ ∃ j, j < K2 ∧ tasOcc s1 ct1 m' = tasOcc s2 ct2 j := by
      refine ⟨Nat.find hm, (Nat.find_spec hm).1, (Nat.find_spec hm).2, fun m' hm' he => ?_⟩
      have hmK : m' < K1 := by
        have := (Nat.find_spec hm).1
        omega
      exact absurd ⟨hmK, he⟩ (Nat.find_min hm hm')
    rw [firstSuch_eq_some _ M
      (by
        show (decide (stop < tasOcc s1 ct1 M) ||
          decide (tasInner (tasOcc s1 ct1 M) s2 ct2 stop ≠ some false)) = true
        simp only [Bool.or_eq_true_iff, decide_eq_true_eq]
        refine Or.inr ?_
        rw [tasInner_char _ _ _ _ K2 hK2lt hK2spec hK2min]
        simp only [ne_eq, Option.some.injEq, decide_eq_false_iff_not, not_not]
        obtain ⟨j, hj, he⟩ := hM2
        exact ⟨j, hj, he.symm⟩)
      (fun m' hm' => by
        show (decide (stop < tasOcc s1 ct1 m') ||
          decide (tasInner (tasOcc s1 ct1 m') s2 ct2 stop ≠ some false)) = false
        simp only [Bool.or_eq_false_iff, decide_eq_false_iff_not]
        constructor
        · have hx := hK1min m' (by omega)
          omega
        · rw [tasInner_char _ _ _ _ K2 hK2lt hK2spec hK2min, not_not,
            Option.some.injEq]
          simp only [decide_eq_false_iff_not]
          rintro ⟨j, hj, he⟩
          exact hMmin m' hm' ⟨j, hj, he.symm⟩)
      (2 ^ 64) (by omega)]
    rw [Option.some_bind']
    rw [if_neg (by
      have hx := hK1min _ hM1
      omega)]
    rw [tasInner_char _ _ _ _ K2 hK2lt hK2spec hK2min,
      Option.some.injEq, decide_eq_decide]
    refine iff_of_true ?_ hm
    obtain ⟨j, hj, he⟩ := hM2
    exact ⟨j, hj, he.symm⟩
  · rw [firstSuch_eq_some _ K1
      (by
        show (decide (stop < tasOcc s1 ct1 K1) ||
          decide (tasInner (tasOcc s1 ct1 K1) s2 ct2 stop ≠ some false)) = true
        simp only [Bool.or_eq_true_iff, decide_eq_true_eq]
        exact Or.inl hK1spec)
      (fun m' hm' => by
        show (decide (stop < tasOcc s1 ct1 m') ||
          decide (tasInner (tasOcc s1 ct1 m') s2 ct2 stop ≠ some false)) = false
        simp only [Bool.or_eq_false_iff, decide_eq_false_iff_not]
        constructor
        · have hx := hK1min m' hm'
          omega
        · rw [tasInner_char _ _ _ _ K2 hK2lt hK2spec hK2min, not_not,
            Option.some.injEq]
          simp only [decide_eq_false_iff_not]
          rintro ⟨j, hj, he⟩
          exact hm ⟨m', hm', j, hj, he.symm⟩)
      (2 ^ 64) hK1lt]
    rw [Option.some_bind']
    rw [if_pos hK1spec]
    exact congrArg some (decide_eq_false hm).symm

/-- Terminating `t1`/`t2` sweeps can be swapped: a collision of iterates
in one order is a collision in the other. -/
theorem tasOuter_comm (s1 ct1 s2 ct2 stop : Nat)
    (h1 : ∃ m, stop < tasOcc s1 ct1 m) (h2 : ∃ k, stop < tasOcc s2 ct2 k) :
    tasOuter s1 ct1 s2 ct2 stop = tasOuter s2 ct2 s1 ct1 stop := by
  obtain ⟨K1, hK1lt, hK1spec, hK1min⟩ := exit_index s1 ct1 stop h1
  obtain ⟨K2, hK2lt, hK2spec, hK2min⟩ := exit_index s2 ct2 stop h2
  rw [tasOuter_char s1 ct1 s2 ct2 stop K1 K2 hK1lt hK1spec hK1min hK2lt hK2spec hK2min,
    tasOuter_char s2 ct2 s1 ct1 stop K2 K1 hK2lt hK2spec hK2min hK1lt hK1spec hK1min,
    Option.some.injEq, decide_eq_decide]
  constructor
  · rintro ⟨m, hm, j, hj, he⟩
    exact ⟨j, hj, m, hm, he.symm⟩
  · rintro ⟨j, hj, m, hm, he⟩
    exact ⟨m, hm, j, hj, he.symm⟩

/-- When no sweep in the scan hangs, the scan returns whether some sweep
found a conflict. -/
theorem tasScan_all_some (rs : List (Option Bool)) (h : ∀ r ∈ rs, r ≠ none) :
    tasScan rs = some (decide (some true ∈ rs)) := by
  induction rs with
  | nil => rfl
  | cons r rest ih =>
    match r with
    | none => exact absurd rfl (h none (by simp))
    | some true =>
      rw [show tasScan (some true :: rest) = some true from rfl, Option.some.injEq]
      exact (decide_eq_true (by simp)).symm
    | some false =>
      rw [show tasScan (some false :: rest) = tasScan rest from rfl,
        ih (fun x hx => h x (by simp [hx])), Option.some.injEq, decide_eq_decide]
      simp

/-- Claim C5, amended: whenever every occurrence loop of the pairwise
conflict check steps past `stop_time` (the check terminates), the
verdict does not depend on which program plays the established and which
the candidate role.  The counterexample shows the unrestricted claim
fails: one comparison order can loop forever while the other returns a
conflict. -/
theorem claim_C5 (a b : TcTaprioQopt) (h : tasPairTerminates a b) :
    sja1105_tas_pair_conflict a b = sja1105_tas_pair_conflict b a := by
  obtain ⟨ha, hb⟩ := h
  unfold sja1105_tas_pair_conflict
  rw [Nat.max_comm (u64 b.cycle_time) (u64 a.cycle_time),
    Nat.min_comm (u64 b.cycle_time) (u64 a.cycle_time)]
  by_cases h1 : min (u64 a.cycle_time) (u64 b.cycle_time) % 2 ^ 32 = 0
  · rw [if_pos h1, if_pos h1]
  · rw [if_neg h1, if_neg h1]
    by_cases h2 : max (u64 a.cycle_time) (u64 b.cycle_time) %
        (min (u64 a.cycle_time) (u64 b.cycle_time) % 2 ^ 32) ≠ 0
    · rw [if_pos h2, if_pos h2]
    · rw [if_neg h2, if_neg h2]
      by_cases h3 : a.cycle_time % 2 ^ 32 = 0 ∨ b.cycle_time % 2 ^ 32 = 0
      · rw [if_pos h3, if_pos h3.symm]
      · rw [if_neg h3, if_neg (fun hc => h3 hc.symm)]
        have hstop : tasStop b a = tasStop a b := by
          unfold tasStop
          rw [Nat.max_comm (u64 b.cycle_time) (u64 a.cycle_time),
            Nat.max_comm (tasRbt b) (tasRbt a)]
        rw [hstop]
        rw [tasScan_all_some _ (by
          intro r hr
          simp only [List.mem_flatMap, List.mem_map] at hr
          obtain ⟨d1, hd1, d2, hd2, he⟩ := hr
          rw [← he]
          obtain ⟨K1, hK1lt, hK1spec, hK1min⟩ := exit_index _ _ _ (ha d1 hd1)
          obtain ⟨K2, hK2lt, hK2spec, hK2min⟩ := exit_index _ _ _ (hb d2 hd2)
          rw [tasOuter_char _ _ _ _ _ K1 K2 hK1lt hK1spec hK1min hK2lt hK2spec hK2min]
          simp)]
        rw [tasScan_all_some _ (by
          intro r hr
          simp only [List.mem_flatMap, List.mem_map] at hr
          obtain ⟨d2, hd2, d1, hd1, he⟩ := hr
          rw [← he]
          obtain ⟨K1, hK1lt, hK1spec, hK1min⟩ := exit_index _ _ _ (ha d1 hd1)
          obtain ⟨K2, hK2lt, hK2spec, hK2min⟩ := exit_index _ _ _ (hb d2 hd2)
          rw [tasOuter_char _ _ _ _ _ K2 K1 hK2lt hK2spec hK2min hK1lt hK1spec hK1min]
          simp)]
        refine congrArg tasScanOutcome ?_
        rw [Option.some.injEq, decide_eq_decide]
        constructor
        · intro hmem
          simp only [List.mem_flatMap, List.mem_map] at hmem ⊢
          obtain ⟨d1, hd1, d2, hd2, he⟩ := hmem
          refine ⟨d2, hd2, d1, hd1, ?_⟩
          rw [tasOuter_comm _ _ _ _ _ (hb d2 hd2) (ha d1 hd1)]
          exact he
        · intro hmem
          simp only [List.mem_flatMap, List.mem_map] at hmem ⊢
          obtain ⟨d2, hd2, d1, hd1, he⟩ := hmem
          refine ⟨d1, hd1, d2, hd2, ?_⟩
          rw [tasOuter_comm _ _ _ _ _ (ha d1 hd1) (hb d2 hd2)]
          exact he

/-- A 1 ns cycle starting at 0: its occurrences sweep every instant. -/
def tasCexA : TcTaprioQopt := ⟨true, 0, 1, 0, [⟨1, 1⟩]⟩

/-- A `2^64 - 4` ns cycle starting at 1: in `u64` arithmetic its
occurrence loop steps `t` by `-4`, visiting every value congruent to
`1 mod 4` — none of which ever exceeds `stop_time = 2^64 - 3`. -/
def tasCexB : TcTaprioQopt := ⟨true, 1, 2 ^ 64 - 4, 0, [⟨1, 1⟩]⟩

theorem tasInner_cex_hang : tasInner 0 1 (2 ^ 64 - 4) (2 ^ 64 - 3) = none := by
  unfold tasInner
  rw [firstSuch_eq_none _ (2 ^ 64) (fun k hk => by
    show (decide (2 ^ 64 - 3 < tasOcc 1 (2 ^ 64 - 4) k) ||
      decide (tasOcc 1 (2 ^ 64 - 4) k = 0)) = false
    have h4 : tasOcc 1 (2 ^ 64 - 4) k % 4 = 1 := by
      unfold tasOcc u64
      omega
    have hlt : tasOcc 1 (2 ^ 64 - 4) k < 2 ^ 64 := by
      unfold tasOcc u64
      exact Nat.mod_lt _ (by norm_num)
    simp only [Bool.or_eq_false_iff, decide_eq_false_iff_not]
    constructor
    · omega
    · omega)]
  rfl

theorem tasOuter_cex_hang : tasOuter 0 1 1 (2 ^ 64 - 4) (2 ^ 64 - 3) = none := by
  unfold tasOuter
  rw [firstSuch_eq_some _ 0
    (by
      show (decide (2 ^ 64 - 3 < tasOcc 0 1 0) ||
        decide (tasInner (tasOcc 0 1 0) 1 (2 ^ 64 - 4) (2 ^ 64 - 3) ≠ some false)) = true
      simp only [Bool.or_eq_true_iff, decide_eq_true_eq]
      refine Or.inr ?_
      rw [show tasOcc 0 1 0 = 0 from by decide, tasInner_cex_hang]
      simp)
    (fun j hj => absurd hj (Nat.not_lt_zero j))
    (2 ^ 64) (by norm_num)]
  rw [Option.some_bind']
  rw [if_neg (by
    rw [show tasOcc 0 1 0 = 0 from by decide]
    decide)]
  rw [show tasOcc 0 1 0 = 0 from by decide]
  exact tasInner_cex_hang

theorem tasInner_cex_hit : tasInner 1 0 1 (2 ^ 64 - 3) = some true := by
  unfold tasInner
  rw [firstSuch_eq_some _ 1
    (by
      show (decide (2 ^ 64 - 3 < tasOcc 0 1 1) ||
        decide (tasOcc 0 1 1 = 1)) = true
      simp only [Bool.or_eq_true_iff, decide_eq_true_eq]
      exact Or.inr (by decide))
    (fun j hj => by
      have hj0 : j = 0 := by omega
      subst hj0
      show (decide (2 ^ 64 - 3 < tasOcc 0 1 0) ||
        decide (tasOcc 0 1 0 = 1)) = false
      simp only [Bool.or_eq_false_iff, decide_eq_false_iff_not]
      exact ⟨by decide, by decide⟩)
    (2 ^ 64) (by norm_num)]
  rw [Option.map_some', Option.some.injEq]
  decide

theorem tasOuter_cex_hit : tasOuter 1 (2 ^ 64 - 4) 0 1 (2 ^ 64 - 3) = some true := by
  unfold tasOuter
  rw [firstSuch_eq_some _ 0
    (by
      show (decide (2 ^ 64 - 3 < tasOcc 1 (2 ^ 64 - 4) 0) ||
        decide (tasInner (tasOcc 1 (2 ^ 64 - 4) 0) 0 1 (2 ^ 64 - 3) ≠ some false)) = true
      simp only [Bool.or_eq_true_iff, decide_eq_true_eq]
      refine Or.inr ?_
      rw [show tasOcc 1 (2 ^ 64 - 4) 0 = 1 from by decide, tasInner_cex_hit]
      simp)
    (fun j hj => absurd hj (Nat.not_lt_zero j))
    (2 ^ 64) (by norm_num)]
  rw [Option.some_bind']
  rw [if_neg (by
    rw [show tasOcc 1 (2 ^ 64 - 4) 0 = 1 from by decide]
    decide)]
  rw [show tasOcc 1 (2 ^ 64 - 4) 0 = 1 from by decide]
  exact tasInner_cex_hit

/-- Claim C5 counterexample: comparing the 1 ns cycle against the
established `2^64 - 4` ns cycle loops forever in the first inner `t2`
sweep, while the opposite comparison order returns a conflict: the check
is not symmetric as claimed, because one order need not return at
all. -/
theorem claim_C5_counterexample :
    sja1105_tas_pair_conflict tasCexA tasCexB = .hang ∧
    sja1105_tas_pair_conflict tasCexB tasCexA = .ret true := by
  constructor
  · unfold sja1105_tas_pair_conflict
    rw [if_neg (by decide), if_neg (by decide), if_neg (by decide)]
    rw [show gclDeltas tasCexA.entries = [0] from by decide,
      show gclDeltas tasCexB.entries = [0] from by decide]
    simp only [List.flatMap_cons, List.flatMap_nil, List.map_cons, List.map_nil,
      List.append_nil]
    rw [show u64 (tasRbt tasCexA + 0) = 0 from by decide,
      show u64 tasCexA.cycle_time = 1 from by decide,
      show u64 (tasRbt tasCexB + 0) = 1 from by decide,
      show u64 tasCexB.cycle_time = 2 ^ 64 - 4 from by decide,
      show tasStop tasCexA tasCexB = 2 ^ 64 - 3 from by decide]
    rw [tasOuter_cex_hang]
    rfl
  · unfold sja1105_tas_pair_conflict
    rw [if_neg (by decide), if_neg (by decide), if_neg (by decide)]
    rw [show gclDeltas tasCexB.entries = [0] from by decide,
      show gclDeltas tasCexA.entries = [0] from by decide]
    simp only [List.flatMap_cons, List.flatMap_nil, List.map_cons, List.map_nil,
      List.append_nil]
    rw [show u64 (tasRbt tasCexB + 0) = 1 from by decide,
      show u64 tasCexB.cycle_time = 2 ^ 64 - 4 from by decide,
      show u64 (tasRbt tasCexA + 0) = 0 from by decide,
      show u64 tasCexA.cycle_time = 1 from by decide,
      show tasStop tasCexB tasCexA = 2 ^ 64 - 3 from by decide]
    rw [tasOuter_cex_hit]
    rfl

/-- A 200 ns cycle starting at 0, one entry. -/
def tasDemoA : TcTaprioQopt := ⟨true, 0, 200, 0, [⟨200, 8⟩]⟩

/-- A 400 ns cycle starting at 200, one entry. -/
def tasDemoB : TcTaprioQopt := ⟨true, 200, 400, 0, [⟨400, 4⟩]⟩

/-- Claim C5 witness: two short terminating programs compared both
ways. -/
theorem claim_C5_witness :
    sja1105_tas_pair_conflict tasDemoA tasDemoB =
      sja1105_tas_pair_conflict tasDemoB tasDemoA :=
  claim_C5 tasDemoA tasDemoB
    ⟨fun d1 hd1 => by
      rw [show gclDeltas tasDemoA.entries = [0] from by decide] at hd1
      simp only [List.mem_singleton] at hd1
      subst hd1
      exact ⟨4, by decide⟩,
    fun d2 hd2 => by
      rw [show gclDeltas tasDemoB.entries = [0] from by decide] at hd2
      simp only [List.mem_singleton] at hd2
      subst hd2
      exact ⟨2, by decide⟩⟩

/-! ## Claim C4: schedule partition invariants of `sja1105_init_scheduling` -/

/-- The (port index, program) pairs of the active ports, in port order,
starting the port counter at `port0`. -/
def activePairs (port0 : Nat) : List (Option TcTaprioQopt) → List (Nat × TcTaprioQopt)
  | [] => []
  | none :: rest => activePairs (port0 + 1) rest
  | some c :: rest => (port0, c) :: activePairs (port0 + 1) rest

/-- The Schedule Entry Points rows the port loop emits for the active
programs `cfgs`, when the slot counter starts at `k0` and the cycle
counter at `c0`. -/
def tasEpList (k0 c0 : Nat) : List TcTaprioQopt → List ScheduleEntryPointsEntry
  | [] => []
  | c :: rest => ⟨c0, sja1105_tas_cycles c.base_time, k0⟩ ::
      tasEpList (k0 + c.entries.length) (c0 + 1) rest

/-- The per-cycle last-slot indices (`schedule_end_idx`) for the active
programs `cfgs`, starting at slot counter `k0`. -/
def tasEndIndices (k0 : Nat) : List TcTaprioQopt → List Nat
  | [] => []
  | c :: rest => (k0 + c.entries.length - 1) :: tasEndIndices (k0 + c.entries.length) rest

/-- The Schedule rows emitted for the active (port, program) pairs. -/
def tasScheduleList (A : List (Nat × TcTaprioQopt)) : List ScheduleEntry :=
  A.bind (fun pc => pc.2.entries.map (tasScheduleSlot pc.1))

theorem activePairs_snd : ∀ (ports : List (Option TcTaprioQopt)) (port0 : Nat),
    (activePairs port0 ports).map Prod.snd = ports.filterMap id
  | [], _ => rfl
  | none :: rest, port0 => by
    simpa [activePairs, List.filterMap_cons] using activePairs_snd rest (port0 + 1)
  | some c :: rest, port0 => by
    simpa [activePairs, List.filterMap_cons] using activePairs_snd rest (port0 + 1)

theorem tasScheduleList_length : ∀ (A : List (Nat × TcTaprioQopt)),
    (tasScheduleList A).length = (A.map (fun pc => pc.2.entries.length)).sum
  | [] => rfl
  | pc :: rest => by
    have IH := tasScheduleList_length rest
    simp only [tasScheduleList, List.cons_bind, List.length_append, List.length_map,
      List.map_cons, List.sum_cons]
    exact congrArg (fun n => pc.2.entries.length + n) IH

theorem tasEpList_length : ∀ (cfgs : List TcTaprioQopt) (k0 c0 : Nat),
    (tasEpList k0 c0 cfgs).length = cfgs.length
  | [], _, _ => rfl
  | c :: rest, k0, c0 => by
    simp [tasEpList, tasEpList_length rest]

theorem tasEndIndices_length : ∀ (cfgs : List TcTaprioQopt) (k0 : Nat),
    (tasEndIndices k0 cfgs).length = cfgs.length
  | [], _ => rfl
  | c :: rest, k0 => by
    simp [tasEndIndices, tasEndIndices_length rest]

theorem tasEpList_getD_subschindx : ∀ (cfgs : List TcTaprioQopt) (k0 c0 c : Nat),
    c < cfgs.length →
    ((tasEpList k0 c0 cfgs).getD c ⟨0, 0, 0⟩).subschindx = c0 + c
  | [], _, _, _, h => absurd h (by simp)
  | cfg :: rest, k0, c0, 0, _ => by simp [tasEpList, List.getD]
  | cfg :: rest, k0, c0, c + 1, h => by
    have := tasEpList_getD_subschindx rest (k0 + cfg.entries.length) (c0 + 1) c
      (by simpa using Nat.lt_of_succ_lt_succ h)
    simpa [tasEpList, List.getD, Nat.add_assoc, Nat.add_comm 1 c] using this

theorem tasEpList_getD_address : ∀ (cfgs : List TcTaprioQopt) (k0 c0 c : Nat),
    c < cfgs.length →
    ((tasEpList k0 c0 cfgs).getD c ⟨0, 0, 0⟩).address =
      k0 + ((cfgs.take c).map (fun x => x.entries.length)).sum
  | [], _, _, _, h => absurd h (by simp)
  | cfg :: rest, k0, c0, 0, _ => by simp [tasEpList, List.getD]
  | cfg :: rest, k0, c0, c + 1, h => by
    have := tasEpList_getD_address rest (k0 + cfg.entries.length) (c0 + 1) c
      (by simpa using Nat.lt_of_succ_lt_succ h)
    simpa [tasEpList, List.getD, Nat.add_assoc] using this

theorem tasEndIndices_getD : ∀ (cfgs : List TcTaprioQopt) (k0 c : Nat),
    c < cfgs.length →
    (tasEndIndices k0 cfgs).getD c 0 =
      k0 + ((cfgs.take (c + 1)).map (fun x => x.entries.length)).sum - 1
  | [], _, _, h => absurd h (by simp)
  | cfg :: rest, k0, 0, _ => by simp [tasEndIndices, List.getD]
  | cfg :: rest, k0, c + 1, h => by
    have := tasEndIndices_getD rest (k0 + cfg.entries.length) c
      (by simpa using Nat.lt_of_succ_lt_succ h)
    simpa [tasEndIndices, List.getD, Nat.add_assoc] using this

theorem getD_range8_map (f : Nat → Nat) (i : Nat) (h : i < 8) :
    ((List.range 8).map f).getD i 0 = f i := by
  rw [List.getD, List.get?_map, List.get?_range h]
  rfl

theorem range8_map_getD (l : List Nat) (h : l.length = 8) :
    (List.range 8).map (fun i => l.getD i 0) = l := by
  refine List.ext_get (by simp [h]) ?_
  intro i h1 h2
  simp only [List.get_eq_getElem, List.getElem_map, List.getElem_range]
  rw [List.getD_eq_getElem l 0 h2]

/-- Full characterization of the port loop of `sja1105_init_scheduling`. -/
theorem tasBuildLoop_char : ∀ (ports : List (Option TcTaprioQopt)) (port0 : Nat)
    (st : TasBuildState), st.subscheind.length = 8 →
    tasBuildLoop port0 ports st =
      { k := st.k + ((activePairs port0 ports).map (fun pc => pc.2.entries.length)).sum
        cycle := st.cycle + (activePairs port0 ports).length
        schedule := st.schedule ++ tasScheduleList (activePairs port0 ports)
        entryPoints := st.entryPoints ++
          tasEpList st.k st.cycle ((activePairs port0 ports).map Prod.snd)
        subscheind := (List.range 8).map (fun i =>
          if st.cycle ≤ i ∧ activePairs port0 ports ≠ [] then
            (tasEndIndices st.k ((activePairs port0 ports).map Prod.snd)).getD
              (min (i - st.cycle) ((activePairs port0 ports).length - 1)) 0
          else st.subscheind.getD i 0) }
  | [], port0, st, hlen => by
    have hsub := range8_map_getD st.subscheind hlen
    simp only [tasBuildLoop, activePairs, List.map_nil, List.sum_nil, Nat.add_zero,
      List.length_nil, tasScheduleList, List.append_nil, ne_eq,
      not_true_eq_false, and_false, if_false, List.nil_bind, tasEpList]
    rw [hsub]
  | none :: rest, port0, st, hlen => by
    simpa [tasBuildLoop, activePairs] using tasBuildLoop_char rest (port0 + 1) st hlen
  | some c :: rest, port0, st, hlen => by
    have hlen' : (tasBuildStep port0 c st).subscheind.length = 8 := by
      simp [tasBuildStep]
    have IH := tasBuildLoop_char rest (port0 + 1) (tasBuildStep port0 c st) hlen'
    rw [show tasBuildLoop port0 (some c :: rest) st =
      tasBuildLoop (port0 + 1) rest (tasBuildStep port0 c st) from rfl, IH]
    show TasBuildState.mk _ _ _ _ _ = TasBuildState.mk _ _ _ _ _
    simp only [tasBuildStep, activePairs, List.map_cons, List.sum_cons, List.length_cons,
      TasBuildState.mk.injEq]
    refine ⟨by omega, by omega, ?_, ?_, ?_⟩
    · simp [tasScheduleList, List.append_assoc]
    · simp [tasEpList, List.append_assoc]
    · refine List.map_congr_left fun i hi => ?_
      have hi8 : i < 8 := List.mem_range.mp hi
      by_cases hc : st.cycle ≤ i
      · by_cases hrest : activePairs (port0 + 1) rest = []
        · have hc1 : ¬(st.cycle + 1 ≤ i ∧ activePairs (port0 + 1) rest ≠ []) := by
            simp [hrest]
          rw [if_neg hc1, if_pos ⟨hc, by simp⟩, getD_range8_map _ _ hi8, if_pos hc]
          have : min (i - st.cycle) ((activePairs (port0 + 1) rest).length + 1 - 1) = 0 := by
            simp [hrest]
          rw [this, tasEndIndices, List.getD_cons_zero]
        · by_cases hc1 : st.cycle + 1 ≤ i
          · rw [if_pos ⟨hc1, hrest⟩, if_pos ⟨hc, by simp⟩]
            have hn : 1 ≤ (activePairs (port0 + 1) rest).length :=
              List.length_pos.mpr hrest
            have hmin : min (i - st.cycle) ((activePairs (port0 + 1) rest).length + 1 - 1) =
                (min (i - (st.cycle + 1)) ((activePairs (port0 + 1) rest).length - 1)) + 1 := by
              omega
            rw [hmin, tasEndIndices, List.getD_cons_succ]
          · have hieq : i = st.cycle := by omega
            rw [if_neg (by simp [hc1]), if_pos ⟨hc, by simp⟩, getD_range8_map _ _ hi8,
              if_pos hc]
            have : min (i - st.cycle) ((activePairs (port0 + 1) rest).length + 1 - 1) = 0 := by
              omega
            rw [this, tasEndIndices, List.getD_cons_zero]
      · rw [if_neg (by omega : ¬(st.cycle + 1 ≤ i ∧ activePairs (port0 + 1) rest ≠ [])),
          if_neg (by omega : ¬(st.cycle ≤ i ∧ (port0, c) :: activePairs (port0 + 1) rest ≠ [])),
          getD_range8_map _ _ hi8, if_neg hc]


theorem takeLenSum_succ (l : List TcTaprioQopt) (c : Nat) (h : c < l.length) :
    ((l.take (c + 1)).map (fun x => x.entries.length)).sum =
      ((l.take c).map (fun x => x.entries.length)).sum +
        (l.map (fun x => x.entries.length)).getD c 0 := by
  rw [List.take_succ, List.map_append, List.sum_append]
  congr 1
  rw [List.getElem?_eq_getElem h]
  simp only [Option.toList_some, List.map_cons, List.map_nil, List.sum_cons,
    List.sum_nil, Nat.add_zero]
  rw [List.getD_eq_getElem _ 0 (by simpa using h)]
  simp

theorem sum_take_le_sum (ys : List Nat) (n : Nat) : (ys.take n).sum ≤ ys.sum := by
  conv_rhs => rw [← List.take_append_drop n ys]
  rw [List.sum_append]
  exact Nat.le_add_right _ _

theorem takeLenSum_mono (l : List TcTaprioQopt) (c c' : Nat) (h : c ≤ c') :
    ((l.take c).map (fun x => x.entries.length)).sum ≤
      ((l.take c').map (fun x => x.entries.length)).sum := by
  have h1 : l.take c = (l.take c').take c := by
    rw [List.take_take, Nat.min_eq_left h]
  rw [h1, List.map_take]
  exact sum_take_le_sum _ _

/-- Claim C4: after `sja1105_init_scheduling` with N active ports, port i
contributing `k_i ≥ 1` entries: the Schedule has exactly `Σ k_i` rows; the
N Schedule Entry Points carry cycle indices 0..N-1 and addresses equal to
the running totals of the preceding active ports' entry counts, so the
cycles partition the Schedule into N contiguous, non-overlapping, gap-free
ranges in port order; and the 8 `subscheind` values of Schedule Parameters
are monotonically non-decreasing, every thread index at or above the last
used cycle holding that cycle's end index.  (The hypothesis that every
active program has at least one entry keeps the C `int` arithmetic
nonnegative, matching this natural-number model.) -/
theorem claim_C4 (ports : List (Option TcTaprioQopt))
    (hports : ports.length = SJA1105_NUM_PORTS)
    (hact : ports.filterMap id ≠ [])
    (hk : ∀ cfg ∈ ports.filterMap id, cfg.entries ≠ []) :
    (sja1105_init_scheduling ports).schedule.length =
      ((ports.filterMap id).map (fun c => c.entries.length)).sum ∧
    (sja1105_init_scheduling ports).entryPoints.length =
      (ports.filterMap id).length ∧
    (∀ c, c < (ports.filterMap id).length →
      ((sja1105_init_scheduling ports).entryPoints.getD c ⟨0, 0, 0⟩).subschindx = c ∧
      ((sja1105_init_scheduling ports).entryPoints.getD c ⟨0, 0, 0⟩).address =
        (((ports.filterMap id).take c).map (fun c => c.entries.length)).sum) ∧
    (∀ c, c + 1 < (ports.filterMap id).length →
      ((sja1105_init_scheduling ports).entryPoints.getD (c + 1) ⟨0, 0, 0⟩).address =
        ((sja1105_init_scheduling ports).entryPoints.getD c ⟨0, 0, 0⟩).address +
          ((ports.filterMap id).map (fun c => c.entries.length)).getD c 0) ∧
    (((sja1105_init_scheduling ports).entryPoints.getD
          ((ports.filterMap id).length - 1) ⟨0, 0, 0⟩).address +
        ((ports.filterMap id).map (fun c => c.entries.length)).getD
          ((ports.filterMap id).length - 1) 0 =
      ((ports.filterMap id).map (fun c => c.entries.length)).sum) ∧
    (∀ i j, i ≤ j → j < 8 →
      ((sja1105_init_scheduling ports).scheduleParams.getD 0 ⟨[]⟩).subscheind.getD i 0 ≤
        ((sja1105_init_scheduling ports).scheduleParams.getD 0 ⟨[]⟩).subscheind.getD j 0) ∧
    (∀ i, (ports.filterMap id).length - 1 ≤ i → i < 8 →
      ((sja1105_init_scheduling ports).scheduleParams.getD 0 ⟨[]⟩).subscheind.getD i 0 =
        ((ports.filterMap id).map (fun c => c.entries.length)).sum - 1) := by
  have hsnd := activePairs_snd ports 0
  have hN0 : (ports.filterMap id).length ≠ 0 := by
    simpa [List.length_eq_zero] using hact
  have hAne : activePairs 0 ports ≠ [] := by
    intro hA
    rw [hA] at hsnd
    exact hact hsnd.symm
  have hAlen : (activePairs 0 ports).length = (ports.filterMap id).length := by
    rw [← hsnd, List.length_map]
  have hks : ((activePairs 0 ports).map (fun pc => pc.2.entries.length)) =
      (ports.filterMap id).map (fun c => c.entries.length) := by
    rw [← hsnd, List.map_map]
    rfl
  have hT : sja1105_init_scheduling ports =
      ⟨tasScheduleList (activePairs 0 ports),
       tasEpList 0 0 (ports.filterMap id),
       [⟨SJA1105_TAS_CLKSRC_STANDALONE, (ports.filterMap id).length - 1⟩],
       [⟨(List.range 8).map (fun i =>
          (tasEndIndices 0 (ports.filterMap id)).getD
            (min i ((ports.filterMap id).length - 1)) 0)⟩]⟩ := by
    unfold sja1105_init_scheduling
    rw [if_neg hN0]
    rw [tasBuildLoop_char ports 0 ⟨0, 0, [], [], List.replicate 8 0⟩ (by simp)]
    simp only [Nat.zero_add, List.nil_append, hsnd, hAlen, hAne, ne_eq,
      not_false_eq_true, and_true, Nat.zero_le, if_true, Nat.sub_zero]
  rw [hT]
  refine ⟨?_, ?_, ?_, ?_, ?_, ?_, ?_⟩
  · rw [tasScheduleList_length, hks]
  · exact tasEpList_length _ 0 0
  · intro c hc
    constructor
    · rw [tasEpList_getD_subschindx _ 0 0 c hc]
      omega
    · rw [tasEpList_getD_address _ 0 0 c hc, Nat.zero_add]
  · intro c hc
    rw [tasEpList_getD_address _ 0 0 (c + 1) hc,
      tasEpList_getD_address _ 0 0 c (by omega), Nat.zero_add, Nat.zero_add,
      takeLenSum_succ _ c (by omega)]
  · rw [tasEpList_getD_address _ 0 0 _ (by omega), Nat.zero_add,
      ← takeLenSum_succ _ _ (by omega : (ports.filterMap id).length - 1 <
        (ports.filterMap id).length)]
    have hfull : (ports.filterMap id).length - 1 + 1 = (ports.filterMap id).length := by
      omega
    rw [hfull, List.take_length]
  · intro i j hij hj8
    simp only [List.getD_cons_zero]
    rw [getD_range8_map _ i (by omega), getD_range8_map _ j hj8]
    have hi : min i ((ports.filterMap id).length - 1) < (ports.filterMap id).length := by
      omega
    have hj : min j ((ports.filterMap id).length - 1) < (ports.filterMap id).length := by
      omega
    rw [tasEndIndices_getD _ 0 _ hi, tasEndIndices_getD _ 0 _ hj, Nat.zero_add,
      Nat.zero_add]
    have := takeLenSum_mono (ports.filterMap id)
      (min i ((ports.filterMap id).length - 1) + 1)
      (min j ((ports.filterMap id).length - 1) + 1) (by omega)
    omega
  · intro i hi hi8
    simp only [List.getD_cons_zero]
    rw [getD_range8_map _ i hi8]
    have hmin : min i ((ports.filterMap id).length - 1) =
        (ports.filterMap id).length - 1 := by omega
    rw [hmin, tasEndIndices_getD _ 0 _ (by omega), Nat.zero_add]
    have hfull : (ports.filterMap id).length - 1 + 1 = (ports.filterMap id).length := by
      omega
    rw [hfull, List.take_length]

/-- Two active ports (ports 1 and 3) with 2 and 1 GCL entries, used as the
concrete witness input for the scheduling invariants. -/
def tasDemoPorts : List (Option TcTaprioQopt) :=
  [none, some ⟨true, 200, 400000, 0, [⟨1000, 1⟩, ⟨1000, 2⟩]⟩, none,
   some ⟨true, 400, 200000, 0, [⟨1000, 4⟩]⟩, none]

/-- Claim C4 witness. -/
theorem claim_C4_witness :
    (tasDemoPorts.length = SJA1105_NUM_PORTS ∧
     tasDemoPorts.filterMap id ≠ [] ∧
     ∀ cfg ∈ tasDemoPorts.filterMap id, cfg.entries ≠ []) ∧
    (sja1105_init_scheduling tasDemoPorts).schedule.length =
      ((tasDemoPorts.filterMap id).map (fun c => c.entries.length)).sum :=
  ⟨⟨by decide, by decide, by decide⟩,
   (claim_C4 tasDemoPorts (by decide) (by decide) (by decide)).1⟩


/-- Claim C10: an enable request whose gate program has
`base_time < 200` ns (zero 200 ns ticks), on a port without an existing
program and with no cycle-time extension, is rejected by
`sja1105_setup_taprio` with `-ERANGE`, before the conflict check and
before any schedule rebuild, leaving the stored per-port programs
untouched. -/
theorem claim_C10 (tasConfigs : List (Option TcTaprioQopt)) (port : Nat)
    (qopt : TcTaprioQopt) (h1 : tasConfigs.getD port none = none)
    (h2 : qopt.enable = true) (h3 : qopt.cycle_time_extension = 0)
    (h4 : qopt.base_time < 200) :
    sja1105_setup_taprio tasConfigs port qopt =
      some ⟨-ERANGE, false, false, tasConfigs⟩ := by
  unfold sja1105_setup_taprio
  rw [h1, h2, h3]
  have hb : sja1105_tas_cycles qopt.base_time = 0 := Nat.div_eq_of_lt h4
  simp [hb]

/-- Claim C10 witness: the spec's concrete conflict example (cycle time
1000 ns, base time 0, one 1000 ns interval) is refused with `-ERANGE` on
an all-idle switch. -/
theorem claim_C10_witness :
    sja1105_setup_taprio [none, none, none, none, none] 0
        ⟨true, 0, 1000, 0, [⟨1000, 1⟩]⟩ =
      some ⟨-ERANGE, false, false, [none, none, none, none, none]⟩ :=
  claim_C10 [none, none, none, none, none] 0 ⟨true, 0, 1000, 0, [⟨1000, 1⟩]⟩
    (by decide) (by decide) (by decide) (by decide)

/-! ## The driver's packing wrappers, `sja1105_static_config.c`

`sja1105_pack`, `sja1105_unpack` and `sja1105_packing` call the generic
engine with `QUIRK_LSW32_IS_FIRST`, print and swallow any error (the
engine has not modified the buffer or value on its error paths), and
return nothing.  Each C codec is one function dispatching on
`enum packing_op`; it is modelled as a pack/unpack pair of functions built
from these two wrappers, with identical field windows. -/

def sja1105_pack (buf : List Nat) (val : Nat) (start endBit len : Nat) : List Nat :=
  match packing buf val start endBit len .PACK quirksLsw32 with
  | .ok b _ => b
  | _ => buf

def sja1105_unpack (buf : List Nat) (start endBit len : Nat) : Nat :=
  match packing buf 0 start endBit len .UNPACK quirksLsw32 with
  | .ok _ v => v
  | _ => 0

/-! ## Dynamic configuration access, `sja1105-dynamic-config.c` -/

def SIZE_DYN_CMD : Nat := 4
def SIZE_GENERAL_PARAMS_DYN_CMD_ET : Nat := SIZE_DYN_CMD
/-- Model of `MAX_DYN_CMD_SIZE = SIZE_MAC_CONFIG_DYN_CMD_PQRS = SIZE_DYN_CMD +
SIZE_MAC_CONFIG_ENTRY_PQRS`. -/
def MAX_DYN_CMD_SIZE : Nat := SIZE_DYN_CMD + 32
def OP_READ : Nat := 1
def OP_WRITE : Nat := 2
def OP_DEL : Nat := 4
def SPI_READ : Nat := 0
def SPI_WRITE : Nat := 1

/-- Model of `struct sja1105_dyn_cmd` (declared in a header outside `src/`; its
five fields are fixed by the uses in `sja1105-dynamic-config.c`). -/
structure SjaDynCmd where
  valid : Nat
  rdwrset : Nat
  errors : Nat
  valident : Nat
  index : Nat
deriving DecidableEq

/-- Model of `struct sja1105_dynamic_table_ops`, over the unpacked entry type `E`.
`hasCmdPacking`/`hasEntryPacking` model the NULL-ness of the two function
pointers; the C `packing`-style functions become pack/unpack pairs. -/
structure SjaDynOps (E : Type) where
  packedSize : Nat
  maxEntryCount : Nat
  access : Nat
  addr : Nat
  hasCmdPacking : Bool
  hasEntryPacking : Bool
  cmdPack : SjaDynCmd → List Nat → List Nat
  cmdUnpack : List Nat → SjaDynCmd
  entryPack : E → List Nat → List Nat
  entryUnpack : List Nat → E

/-- The polling do-while loop of `sja1105_dynamic_config_read`
(`int retries = 3; do { ... } while (cmd.valid && --retries);` followed by
the `-ETIMEDOUT` check and the entry unpack).  `hwRead n` is the byte
buffer the n-th SPI read of `ops.addr` returns; the result carries the
return code, the number of SPI reads performed, and the unpacked entry on
success. -/
def sja1105_dynamic_config_read_loop {E : Type} (ops : SjaDynOps E)
    (hwRead : Nat → List Nat) (retries n : Nat) : Int × Nat × Option E :=
  let packed_buf := hwRead n
  let cmd := ops.cmdUnpack packed_buf
  if cmd.valident = 0 then (-EINVAL, n + 1, none)
  else if h : cmd.valid ≠ 0 ∧ retries - 1 ≠ 0 then
    sja1105_dynamic_config_read_loop ops hwRead (retries - 1) (n + 1)
  else if cmd.valid ≠ 0 then (-ETIMEDOUT, n + 1, none)
  else (0, n + 1, some (ops.entryUnpack packed_buf))
termination_by retries
decreasing_by omega

/-- Model of `sja1105_dynamic_config_read`.  The table is identified by its `ops`
(the C function indexes `priv->dyn_ops[blk_idx]` after a range check on
`blk_idx`); the transmitted read command does not influence the modelled
hardware responses `hwRead`. -/
def sja1105_dynamic_config_read {E : Type} (ops : SjaDynOps E)
    (hwRead : Nat → List Nat) (index : Nat) : Int × Nat × Option E :=
  if ops.maxEntryCount ≤ index then (-ERANGE, 0, none)
  else if ops.access &&& OP_READ = 0 then (-EOPNOTSUPP, 0, none)
  else if MAX_DYN_CMD_SIZE < ops.packedSize then (-ERANGE, 0, none)
  else if ops.hasCmdPacking = false then (-EOPNOTSUPP, 0, none)
  else if ops.hasEntryPacking = false then (-EOPNOTSUPP, 0, none)
  else
    let cmd0 : SjaDynCmd := ⟨1, SPI_READ, 0, 0, index⟩
    let _tx := ops.cmdPack cmd0 (List.replicate ops.packedSize 0)
    sja1105_dynamic_config_read_loop ops hwRead 3 0

/-- The command-plus-entry buffer `sja1105_dynamic_config_write` builds
and transmits: zeroed buffer, command packed
(`valident := keep, valid := true, rdwrset := SPI_WRITE, index`), and the
entry packed on top when `keep`. -/
def sja1105_dynamic_config_write_buf {E : Type} (ops : SjaDynOps E)
    (index : Nat) (entry : E) (keep : Bool) : List Nat :=
  let cmd : SjaDynCmd := ⟨1, SPI_WRITE, 0, if keep then 1 else 0, index⟩
  let buf1 := ops.cmdPack cmd (List.replicate ops.packedSize 0)
  if keep then ops.entryPack entry buf1 else buf1

/-- Model of `sja1105_dynamic_config_write`.  `hw` is the byte content the hardware
would return for a read of `ops.addr` after the transfer.  The C function
transmits with `sja1105_spi_send_packed_buf(priv, SPI_WRITE, ...)`, which
copies `packed_buf` into the TX buffer and copies nothing back; it then
unpacks the command status from the same local `packed_buf` it just
transmitted — `hw` is never read. -/
def sja1105_dynamic_config_write {E : Type} (ops : SjaDynOps E)
    (hw : List Nat) (index : Nat) (entry : E) (keep : Bool) : Int :=
  if ops.maxEntryCount ≤ index then -ERANGE
  else if ops.access &&& OP_WRITE = 0 then -EOPNOTSUPP
  else if keep = false ∧ ops.access &&& OP_DEL = 0 then -EOPNOTSUPP
  else if MAX_DYN_CMD_SIZE < ops.packedSize then -ERANGE
  else if ops.hasCmdPacking = false then -EOPNOTSUPP
  else if ops.hasEntryPacking = false then -EOPNOTSUPP
  else
    let packed_buf := sja1105_dynamic_config_write_buf ops index entry keep
    let cmd2 := ops.cmdUnpack packed_buf
    if cmd2.errors ≠ 0 then -EINVAL else 0

/-- The all-zero `struct sja1105_general_params_entry`. -/
def GeneralParamsEntry.zeroed : GeneralParamsEntry :=
  ⟨0, 0, 0, 0, 0, 0, 0, 0, 0, 0, 0, 0, 0, 0, 0, 0, 0, 0, 0, 0, 0, 0, 0, 0, 0⟩

/-- Model of `sja1105et_general_params_cmd_packing`, PACK direction: `valid` at
bits 31..31 and `errors` at bits 30..30 of the 4-byte command word. -/
def sja1105et_general_params_cmd_pack (cmd : SjaDynCmd) (buf : List Nat) : List Nat :=
  sja1105_pack (sja1105_pack buf cmd.valid 31 31 SIZE_GENERAL_PARAMS_DYN_CMD_ET)
    cmd.errors 30 30 SIZE_GENERAL_PARAMS_DYN_CMD_ET

/-- Model of `sja1105et_general_params_cmd_packing`, UNPACK direction (the `cmd`
structure was zeroed by the caller beforehand). -/
def sja1105et_general_params_cmd_unpack (buf : List Nat) : SjaDynCmd :=
  ⟨sja1105_unpack buf 31 31 SIZE_GENERAL_PARAMS_DYN_CMD_ET, 0,
   sja1105_unpack buf 30 30 SIZE_GENERAL_PARAMS_DYN_CMD_ET, 0, 0⟩

/-- Model of `sja1105et_general_params_entry_packing` (dynamic variant), PACK:
`mirr_port` at bits 2..0. -/
def sja1105et_general_params_dyn_entry_pack (e : GeneralParamsEntry)
    (buf : List Nat) : List Nat :=
  sja1105_pack buf e.mirr_port 2 0 SIZE_GENERAL_PARAMS_DYN_CMD_ET

/-- Model of `sja1105et_general_params_entry_packing` (dynamic variant), UNPACK. -/
def sja1105et_general_params_dyn_entry_unpack (buf : List Nat) : GeneralParamsEntry :=
  { GeneralParamsEntry.zeroed with
      mirr_port := sja1105_unpack buf 2 0 SIZE_GENERAL_PARAMS_DYN_CMD_ET }

/-- The `BLK_IDX_GENERAL_PARAMS` row of `sja1105et_table_ops` in
`sja1105-dynamic-config.c`. -/
def sja1105et_general_params_dyn_ops : SjaDynOps GeneralParamsEntry :=
  { packedSize := SIZE_GENERAL_PARAMS_DYN_CMD_ET
    maxEntryCount := 1
    access := OP_WRITE
    addr := 0x34
    hasCmdPacking := true
    hasEntryPacking := true
    cmdPack := sja1105et_general_params_cmd_pack
    cmdUnpack := sja1105et_general_params_cmd_unpack
    entryPack := sja1105et_general_params_dyn_entry_pack
    entryUnpack := sja1105et_general_params_dyn_entry_unpack }

/-- Claim C6: after the command is transmitted,
`sja1105_dynamic_config_read` polls at most its fixed retry budget of 3
reads; a poll whose `valident` flag is unset fails `-EINVAL` (NotFound)
immediately without further retries; while `valid` stays set it retries;
exhausting the retries with `valid` still set fails `-ETIMEDOUT`; and
otherwise the full entry is unpacked from the same buffer just read. -/
theorem claim_C6 {E : Type} (ops : SjaDynOps E) (hwRead : Nat → List Nat)
    (index : Nat) (hidx : index < ops.maxEntryCount)
    (hacc : ops.access &&& OP_READ ≠ 0)
    (hsz : ops.packedSize ≤ MAX_DYN_CMD_SIZE)
    (hcp : ops.hasCmdPacking = true) (hep : ops.hasEntryPacking = true) :
    sja1105_dynamic_config_read ops hwRead index =
      (if (ops.cmdUnpack (hwRead 0)).valident = 0 then (-EINVAL, 1, none)
       else if (ops.cmdUnpack (hwRead 0)).valid = 0 then
         (0, 1, some (ops.entryUnpack (hwRead 0)))
       else if (ops.cmdUnpack (hwRead 1)).valident = 0 then (-EINVAL, 2, none)
       else if (ops.cmdUnpack (hwRead 1)).valid = 0 then
         (0, 2, some (ops.entryUnpack (hwRead 1)))
       else if (ops.cmdUnpack (hwRead 2)).valident = 0 then (-EINVAL, 3, none)
       else if (ops.cmdUnpack (hwRead 2)).valid ≠ 0 then (-ETIMEDOUT, 3, none)
       else (0, 3, some (ops.entryUnpack (hwRead 2)))) ∧
    (sja1105_dynamic_config_read ops hwRead index).2.1 ≤ 3 := by
  have hmain : sja1105_dynamic_config_read ops hwRead index =
      (if (ops.cmdUnpack (hwRead 0)).valident = 0 then (-EINVAL, 1, none)
       else if (ops.cmdUnpack (hwRead 0)).valid = 0 then
         (0, 1, some (ops.entryUnpack (hwRead 0)))
       else if (ops.cmdUnpack (hwRead 1)).valident = 0 then (-EINVAL, 2, none)
       else if (ops.cmdUnpack (hwRead 1)).valid = 0 then
         (0, 2, some (ops.entryUnpack (hwRead 1)))
       else if (ops.cmdUnpack (hwRead 2)).valident = 0 then (-EINVAL, 3, none)
       else if (ops.cmdUnpack (hwRead 2)).valid ≠ 0 then (-ETIMEDOUT, 3, none)
       else (0, 3, some (ops.entryUnpack (hwRead 2)))) := by
    unfold sja1105_dynamic_config_read
    rw [if_neg (by omega), if_neg hacc, if_neg (by omega),
      if_neg (by simp [hcp]), if_neg (by simp [hep])]
    by_cases h0e : (ops.cmdUnpack (hwRead 0)).valident = 0
    · rw [sja1105_dynamic_config_read_loop, if_pos h0e, if_pos h0e]
    · by_cases h0v : (ops.cmdUnpack (hwRead 0)).valid = 0
      · rw [sja1105_dynamic_config_read_loop]
        rw [if_neg h0e, if_neg h0e, if_pos h0v]
        rw [dif_neg (by simp [h0v]), if_neg (by simp [h0v])]
      · by_cases h1e : (ops.cmdUnpack (hwRead 1)).valident = 0
        · rw [sja1105_dynamic_config_read_loop]
          rw [if_neg h0e, dif_pos (by exact ⟨h0v, by omega⟩),
            sja1105_dynamic_config_read_loop, if_pos h1e,
            if_neg h0e, if_neg h0v, if_pos h1e]
        · by_cases h1v : (ops.cmdUnpack (hwRead 1)).valid = 0
          · rw [sja1105_dynamic_config_read_loop,
              if_neg h0e, dif_pos (by exact ⟨h0v, by omega⟩),
              sja1105_dynamic_config_read_loop, if_neg h1e,
              dif_neg (by simp [h1v]), if_neg (by simp [h1v]),
              if_neg h0e, if_neg h0v, if_neg h1e, if_pos h1v]
          · by_cases h2e : (ops.cmdUnpack (hwRead 2)).valident = 0
            · rw [sja1105_dynamic_config_read_loop,
                if_neg h0e, dif_pos (by exact ⟨h0v, by omega⟩),
                sja1105_dynamic_config_read_loop, if_neg h1e,
                dif_pos (by exact ⟨h1v, by omega⟩),
                sja1105_dynamic_config_read_loop, if_pos h2e,
                if_neg h0e, if_neg h0v, if_neg h1e, if_neg h1v, if_pos h2e]
            · by_cases h2v : (ops.cmdUnpack (hwRead 2)).valid = 0
              · rw [sja1105_dynamic_config_read_loop,
                  if_neg h0e, dif_pos (by exact ⟨h0v, by omega⟩),
                  sja1105_dynamic_config_read_loop, if_neg h1e,
                  dif_pos (by exact ⟨h1v, by omega⟩),
                  sja1105_dynamic_config_read_loop, if_neg h2e,
                  dif_neg (by simp [h2v]), if_neg (by simp [h2v]),
                  if_neg h0e, if_neg h0v, if_neg h1e, if_neg h1v, if_neg h2e]
              · rw [sja1105_dynamic_config_read_loop,
                  if_neg h0e, dif_pos (by exact ⟨h0v, by omega⟩),
                  sja1105_dynamic_config_read_loop, if_neg h1e,
                  dif_pos (by exact ⟨h1v, by omega⟩),
                  sja1105_dynamic_config_read_loop, if_neg h2e,
                  dif_neg (by omega), if_pos h2v,
                  if_neg h0e, if_neg h0v, if_neg h1e, if_neg h1v, if_neg h2e]
  refine ⟨hmain, ?_⟩
  rw [hmain]
  split_ifs <;> simp

/-- A small artificial dynamic-table ops row used to witness the poll-loop
characterization: the command status is read from the first buffer byte
(`valid`), `valident` is byte 2, and the entry is byte 1. -/
def dynDemoOps : SjaDynOps Nat :=
  { packedSize := 4
    maxEntryCount := 4
    access := OP_READ
    addr := 0x20
    hasCmdPacking := true
    hasEntryPacking := true
    cmdPack := fun _ b => b
    cmdUnpack := fun b => ⟨b.getD 0 0, 0, 0, b.getD 2 0, 0⟩
    entryPack := fun _ b => b
    entryUnpack := fun b => b.getD 1 0 }

/-- Hardware responses for the witness: still busy on the first poll,
done with entry value 42 on the second. -/
def dynDemoHw (n : Nat) : List Nat :=
  if n = 0 then [1, 42, 1, 0] else [0, 42, 1, 0]

/-- Claim C6 witness. -/
theorem claim_C6_witness :
    (0 < dynDemoOps.maxEntryCount ∧ dynDemoOps.access &&& OP_READ ≠ 0 ∧
     dynDemoOps.packedSize ≤ MAX_DYN_CMD_SIZE ∧
     dynDemoOps.hasCmdPacking = true ∧ dynDemoOps.hasEntryPacking = true) ∧
    (sja1105_dynamic_config_read dynDemoOps dynDemoHw 0).2.1 ≤ 3 :=
  ⟨⟨by decide, by decide, by decide, by decide, by decide⟩,
   (claim_C6 dynDemoOps dynDemoHw 0 (by decide) (by decide) (by decide)
     (by decide) (by decide)).2⟩

/-- Claim C7 counterexample: with the E/T general-parameters dynamic ops,
a hardware status word whose `errors` flag (bit 30) is set —
`[0x40, 0, 0, 0]`, whose command unpack yields `errors = 1` — does not
make `sja1105_dynamic_config_write` fail: the call returns 0, because the
status it checks is unpacked from the buffer it just transmitted, not
from the hardware. -/
theorem claim_C7_counterexample :
    (sja1105et_general_params_dyn_ops.cmdUnpack [0x40, 0, 0, 0]).errors = 1 ∧
    sja1105_dynamic_config_write sja1105et_general_params_dyn_ops
      [0x40, 0, 0, 0] 0 GeneralParamsEntry.zeroed true = 0 := by
  refine ⟨by decide, by decide⟩

/-- Claim C7, amended: after transmitting the command-plus-entry buffer,
`sja1105_dynamic_config_write` unpacks the command status from that same
locally built buffer — the hardware status is never read back, so the
outcome is independent of the hardware state — and it fails with
`-EINVAL` (Invalid) iff the `errors` flag is set in that transmitted
buffer. -/
theorem claim_C7 {E : Type} (ops : SjaDynOps E) (hw hw' : List Nat)
    (index : Nat) (entry : E) (keep : Bool)
    (hidx : index < ops.maxEntryCount)
    (hacc : ops.access &&& OP_WRITE ≠ 0)
    (hdel : ¬(keep = false ∧ ops.access &&& OP_DEL = 0))
    (hsz : ops.packedSize ≤ MAX_DYN_CMD_SIZE)
    (hcp : ops.hasCmdPacking = true) (hep : ops.hasEntryPacking = true) :
    sja1105_dynamic_config_write ops hw index entry keep =
      sja1105_dynamic_config_write ops hw' index entry keep ∧
    (sja1105_dynamic_config_write ops hw index entry keep = -EINVAL ↔
      (ops.cmdUnpack (sja1105_dynamic_config_write_buf ops index entry keep)).errors ≠ 0) := by
  constructor
  · rfl
  · unfold sja1105_dynamic_config_write
    rw [if_neg (by omega), if_neg hacc, if_neg hdel, if_neg (by omega),
      if_neg (by simp [hcp]), if_neg (by simp [hep])]
    dsimp only
    by_cases hc : (ops.cmdUnpack (sja1105_dynamic_config_write_buf ops index entry keep)).errors ≠ 0
    · rw [if_pos hc]
      exact ⟨fun _ => hc, fun _ => rfl⟩
    · rw [if_neg hc]
      exact ⟨fun h => absurd h (by decide), fun h => absurd h hc⟩

/-- Claim C7 witness (for the amended claim): the E/T general-parameters
write path, between two different hardware states. -/
theorem claim_C7_witness :
    (0 < sja1105et_general_params_dyn_ops.maxEntryCount ∧
     sja1105et_general_params_dyn_ops.access &&& OP_WRITE ≠ 0 ∧
     sja1105et_general_params_dyn_ops.packedSize ≤ MAX_DYN_CMD_SIZE) ∧
    (sja1105_dynamic_config_write sja1105et_general_params_dyn_ops
        [0x40, 0, 0, 0] 0 GeneralParamsEntry.zeroed true =
      sja1105_dynamic_config_write sja1105et_general_params_dyn_ops
        [0, 0, 0, 0] 0 GeneralParamsEntry.zeroed true) :=
  ⟨⟨by decide, by decide, by decide⟩,
   (claim_C7 sja1105et_general_params_dyn_ops [0x40, 0, 0, 0] [0, 0, 0, 0] 0
     GeneralParamsEntry.zeroed true (by decide) (by decide) (by decide)
     (by decide) (by decide) (by decide)).1⟩


/-! ## The static configuration container, `sja1105_static_config.{h,c}`

`enum sja1105_blk_idx`, in declaration order. -/

def BLK_IDX_SCHEDULE : Nat := 0
def BLK_IDX_SCHEDULE_ENTRY_POINTS : Nat := 1
def BLK_IDX_VL_LOOKUP : Nat := 2
def BLK_IDX_VL_POLICING : Nat := 3
def BLK_IDX_VL_FORWARDING : Nat := 4
def BLK_IDX_L2_LOOKUP : Nat := 5
def BLK_IDX_L2_POLICING : Nat := 6
def BLK_IDX_VLAN_LOOKUP : Nat := 7
def BLK_IDX_L2_FORWARDING : Nat := 8
def BLK_IDX_MAC_CONFIG : Nat := 9
def BLK_IDX_SCHEDULE_PARAMS : Nat := 10
def BLK_IDX_SCHEDULE_ENTRY_POINTS_PARAMS : Nat := 11
def BLK_IDX_VL_FORWARDING_PARAMS : Nat := 12
def BLK_IDX_L2_LOOKUP_PARAMS : Nat := 13
def BLK_IDX_L2_FORWARDING_PARAMS : Nat := 14
def BLK_IDX_CLK_SYNC_PARAMS : Nat := 15
def BLK_IDX_AVB_PARAMS : Nat := 16
def BLK_IDX_GENERAL_PARAMS : Nat := 17
def BLK_IDX_RETAGGING : Nat := 18
def BLK_IDX_XMII_PARAMS : Nat := 19
def BLK_IDX_SGMII : Nat := 20
def BLK_IDX_MAX : Nat := 21

/-- The six device variants, each owning one of the six
`sja1105{e,t,p,q,r,s}_table_ops[BLK_IDX_MAX]` arrays.  E/T are told apart
from P/R and Q/S by device id; P vs R and Q vs S share a device id and
are told apart by part number in `sja1105_static_config_init`. -/
inductive Device
  | E | T | P | Q | R | S
deriving DecidableEq

def Device.id : Device → Nat
  | .E => SJA1105E_DEVICE_ID
  | .T => SJA1105T_DEVICE_ID
  | .P => SJA1105PR_DEVICE_ID
  | .Q => SJA1105QS_DEVICE_ID
  | .R => SJA1105PR_DEVICE_ID
  | .S => SJA1105QS_DEVICE_ID

/-- The `max_entry_count` column of the per-device table-ops arrays, in
`BLK_IDX` order (a `{ 0 }` row has `max_entry_count = 0`).  E and P have
no TTEthernet tables and no SGMII; T and Q add the TTEthernet rows; R and
S are P and Q with the SGMII row. -/
def Device.maxCounts : Device → List Nat
  | .E => [0, 0, 0, 0, 0, 1024, 45, 4096, 13, 5, 0, 0, 0, 1, 1, 0, 1, 1, 32, 1, 0]
  | .T => [1024, 2048, 1024, 1024, 1024, 1024, 45, 4096, 13, 5, 1, 1, 1, 1, 1, 1, 1, 1, 32, 1, 0]
  | .P => [0, 0, 0, 0, 0, 1024, 45, 4096, 13, 5, 0, 0, 0, 1, 1, 0, 1, 1, 32, 1, 0]
  | .Q => [1024, 2048, 1024, 1024, 1024, 1024, 45, 4096, 13, 5, 1, 1, 1, 1, 1, 1, 1, 1, 32, 1, 0]
  | .R => [0, 0, 0, 0, 0, 1024, 45, 4096, 13, 5, 0, 0, 0, 1, 1, 0, 1, 1, 32, 1, 1]
  | .S => [1024, 2048, 1024, 1024, 1024, 1024, 45, 4096, 13, 5, 1, 1, 1, 1, 1, 1, 1, 1, 32, 1, 1]

/-- Model of `tables[i].ops->max_entry_count` when the ops array of device `d` is
installed. -/
def tableMaxCount (d : Device) (i : Nat) : Nat := d.maxCounts.getD i 0

/-- Model of `struct sja1105_static_config`: the device id plus the 21 tables in
`BLK_IDX` order.  A table's `entry_count` is the length of its entry
list, and its `ops` pointer (installed by `sja1105_static_config_init`)
is recorded once as the `dev` field, since all 21 pointers always come
from the same per-device array. -/
structure StaticConfig where
  device_id : Nat
  dev : Device
  schedule : List ScheduleEntry
  schedule_entry_points : List ScheduleEntryPointsEntry
  vl_lookup : List VlLookupEntry
  vl_policing : List VlPolicingEntry
  vl_forwarding : List VlForwardingEntry
  l2_lookup : List L2LookupEntry
  l2_policing : List L2PolicingEntry
  vlan_lookup : List VlanLookupEntry
  l2_forwarding : List L2ForwardingEntry
  mac_config : List MacConfigEntry
  schedule_params : List ScheduleParamsEntry
  schedule_entry_points_params : List ScheduleEntryPointsParamsEntry
  vl_forwarding_params : List VlForwardingParamsEntry
  l2_lookup_params : List L2LookupParamsEntry
  l2_forwarding_params : List L2ForwardingParamsEntry
  clk_sync_params : List ClkSyncParamsEntry
  avb_params : List AvbParamsEntry
  general_params : List GeneralParamsEntry
  retagging : List RetaggingEntry
  xmii_params : List XmiiParamsEntry
  sgmii : List SgmiiEntry
deriving DecidableEq

def L2ForwardingParamsEntry.zeroed : L2ForwardingParamsEntry :=
  ⟨0, List.replicate 8 0⟩

def VlForwardingParamsEntry.zeroed : VlForwardingParamsEntry :=
  ⟨List.replicate 8 0, 0⟩

/-- The `mem` accumulation of `static_config_check_memory_size`: the 8
`part_spc` slots of the first (and per validity, only) L2 Forwarding
Parameters entry, plus, when the VL Forwarding Parameters table is
non-empty, its first entry's 8 `partspc` slots. -/
def configFrameMemory (c : StaticConfig) : Nat :=
  ((List.range 8).map (fun i =>
      (c.l2_forwarding_params.getD 0 L2ForwardingParamsEntry.zeroed).part_spc.getD i 0)).sum +
  (if c.vl_forwarding_params.length ≠ 0 then
    ((List.range 8).map (fun i =>
      (c.vl_forwarding_params.getD 0 VlForwardingParamsEntry.zeroed).partspc.getD i 0)).sum
   else 0)

/-- The `max_mem` selection of `static_config_check_memory_size`. -/
def configMaxFrameMemory (c : StaticConfig) : Nat :=
  if c.retagging.length ≠ 0 then MAX_FRAME_MEMORY_RETAGGING else MAX_FRAME_MEMORY

/-- Model of `static_config_check_memory_size`. -/
def static_config_check_memory_size (c : StaticConfig) : Int :=
  if configMaxFrameMemory c < configFrameMemory c then
    SJA1105_OVERCOMMITTED_FRAME_MEMORY
  else SJA1105_CONFIG_OK

/-- Model of `sja1105_static_config_check_valid`, with the C's nested
`if (outer) { if (inner) return r; ... }` blocks flattened to
`outer ∧ inner` branches in source order. -/
def sja1105_static_config_check_valid (c : StaticConfig) : Int :=
  if ¬ DEVICE_ID_VALID c.device_id then SJA1105_DEVICE_ID_INVALID
  else if c.schedule.length ≠ 0 ∧ ¬ SUPPORTS_TTETHERNET c.device_id then
    SJA1105_TTETHERNET_NOT_SUPPORTED
  else if c.schedule.length ≠ 0 ∧
      c.schedule_entry_points.length ≠ tableMaxCount c.dev BLK_IDX_SCHEDULE_ENTRY_POINTS then
    SJA1105_INCORRECT_TTETHERNET_CONFIGURATION
  else if c.schedule.length ≠ 0 ∧
      c.schedule_params.length ≠ tableMaxCount c.dev BLK_IDX_SCHEDULE_PARAMS then
    SJA1105_INCORRECT_TTETHERNET_CONFIGURATION
  else if c.schedule.length ≠ 0 ∧
      c.schedule_entry_points_params.length ≠
        tableMaxCount c.dev BLK_IDX_SCHEDULE_ENTRY_POINTS_PARAMS then
    SJA1105_INCORRECT_TTETHERNET_CONFIGURATION
  else if c.vl_lookup.length ≠ 0 ∧ c.vl_policing.length = 0 then
    SJA1105_INCORRECT_VIRTUAL_LINK_CONFIGURATION
  else if c.vl_lookup.length ≠ 0 ∧ c.vl_forwarding.length = 0 then
    SJA1105_INCORRECT_VIRTUAL_LINK_CONFIGURATION
  else if c.vl_lookup.length ≠ 0 ∧
      c.vl_forwarding_params.length ≠ tableMaxCount c.dev BLK_IDX_VL_FORWARDING_PARAMS then
    SJA1105_INCORRECT_VIRTUAL_LINK_CONFIGURATION
  else if c.l2_policing.length = 0 then SJA1105_MISSING_L2_POLICING_TABLE
  else if c.vlan_lookup.length = 0 then SJA1105_MISSING_VLAN_TABLE
  else if c.l2_forwarding.length ≠ tableMaxCount c.dev BLK_IDX_L2_FORWARDING then
    SJA1105_MISSING_L2_FORWARDING_TABLE
  else if c.mac_config.length ≠ tableMaxCount c.dev BLK_IDX_MAC_CONFIG then
    SJA1105_MISSING_MAC_TABLE
  else if c.l2_forwarding_params.length ≠
      tableMaxCount c.dev BLK_IDX_L2_FORWARDING_PARAMS then
    SJA1105_MISSING_L2_FORWARDING_PARAMS_TABLE
  else if c.general_params.length ≠ tableMaxCount c.dev BLK_IDX_GENERAL_PARAMS then
    SJA1105_MISSING_GENERAL_PARAMS_TABLE
  else if c.xmii_params.length ≠ tableMaxCount c.dev BLK_IDX_XMII_PARAMS then
    SJA1105_MISSING_XMII_TABLE
  else static_config_check_memory_size c

def L2PolicingEntry.zeroed : L2PolicingEntry := ⟨0, 0, 0, 0, 0⟩

def VlanLookupEntry.zeroed : VlanLookupEntry := ⟨0, 0, 0, 0, 0, 0⟩

def L2ForwardingEntry.zeroed : L2ForwardingEntry := ⟨0, 0, 0, List.replicate 8 0⟩

def MacConfigEntry.zeroed : MacConfigEntry :=
  ⟨List.replicate 8 0, List.replicate 8 0, List.replicate 8 0,
   0, 0, 0, 0, 0, 0, 0, 0, 0, 0, 0, 0, 0, 0, 0, 0, 0, 0, 0, 0, 0, 0, 0⟩

def XmiiParamsEntry.zeroed : XmiiParamsEntry :=
  ⟨List.replicate 5 0, List.replicate 5 0⟩

/-- A minimal SJA1105E configuration that passes every validity rule
before the memory check, with 8 × 100 frame-memory blocks allocated. -/
def memDemoConfig : StaticConfig :=
  { device_id := SJA1105E_DEVICE_ID
    dev := .E
    schedule := []
    schedule_entry_points := []
    vl_lookup := []
    vl_policing := []
    vl_forwarding := []
    l2_lookup := []
    l2_policing := [L2PolicingEntry.zeroed]
    vlan_lookup := [VlanLookupEntry.zeroed]
    l2_forwarding := List.replicate 13 L2ForwardingEntry.zeroed
    mac_config := List.replicate 5 MacConfigEntry.zeroed
    schedule_params := []
    schedule_entry_points_params := []
    vl_forwarding_params := []
    l2_lookup_params := []
    l2_forwarding_params := [⟨0, List.replicate 8 100⟩]
    clk_sync_params := []
    avb_params := []
    general_params := [GeneralParamsEntry.zeroed]
    retagging := []
    xmii_params := [XmiiParamsEntry.zeroed]
    sgmii := [] }

/-- The four fields of `struct sja1105_general_status` that
`sja1105_static_config_upload` consults after each transfer (the C
structure has some forty further status fields the upload loop never
reads). -/
structure GeneralStatus where
  configs : Nat
  crcchkl : Nat
  crcchkg : Nat
  ids : Nat
deriving DecidableEq

/-- The hardware-side outcomes of upload attempt `n`: the return codes of
`sja1105_cold_reset`, `sja1105_spi_send_long_packed_buf` and
`sja1105_general_status_get`, and the status word the latter unpacks. -/
structure UploadHw where
  resetRc : Nat → Int
  sendRc : Nat → Int
  statusRc : Nat → Int
  statusVal : Nat → GeneralStatus

/-- One body execution of the upload do-while loop (attempt `n`): each
failing step `continue`s to the loop condition with `rc` set and the `status` variable untouched; a successful
`sja1105_general_status_get` overwrites `status`.  The four
`if (status.X) continue;` checks only re-test what the loop condition
re-tests and fall through to it unchanged. -/
def sja1105_static_config_upload_attempt (hw : UploadHw) (status : GeneralStatus)
    (n : Nat) : Int × GeneralStatus :=
  if hw.resetRc n < 0 then (hw.resetRc n, status)
  else if hw.sendRc n < 0 then (hw.sendRc n, status)
  else if hw.statusRc n < 0 then (hw.statusRc n, status)
  else (hw.statusRc n, hw.statusVal n)

/-- The upload do-while loop together with the `if (!retries) rc = - EIO`
epilogue: runs attempt `n`, re-enters while `--retries` is non-zero and
a status flag is still bad, and on exit reports `- EIO` iff the retry
budget hit zero.  Returns the final `rc`, the total number of attempts
performed, and the final `status` variable. -/
def sja1105_static_config_upload_loop (hw : UploadHw) (status : GeneralStatus)
    (retries n : Nat) : Int × Nat × GeneralStatus :=
  if h : retries - 1 ≠ 0 ∧
      ((sja1105_static_config_upload_attempt hw status n).2.crcchkl = 1 ∨
       (sja1105_static_config_upload_attempt hw status n).2.crcchkg = 1 ∨
       (sja1105_static_config_upload_attempt hw status n).2.configs = 0 ∨
       (sja1105_static_config_upload_attempt hw status n).2.ids = 1) then
    sja1105_static_config_upload_loop hw
      (sja1105_static_config_upload_attempt hw status n).2 (retries - 1) (n + 1)
  else
    (if retries - 1 = 0 then - EIO
     else (sja1105_static_config_upload_attempt hw status n).1,
     n + 1, (sja1105_static_config_upload_attempt hw status n).2)
termination_by retries
decreasing_by omega

/-- Model of `sja1105_static_config_upload` (`RETRIES = 10`).
`static_config_buf_prepare_for_upload` fails `-EINVAL` when the
configuration is invalid or its device id differs from the probed chip's
`priv_device_id`; otherwise it only packs the configuration (which it
takes as a const pointer) into a freshly allocated local buffer, whose
bytes influence nothing the loop branches on.  Returns the final `rc`,
the number of attempts, and the configuration as left behind by the
call. -/
def sja1105_static_config_upload (c : StaticConfig) (hw : UploadHw)
    (status0 : GeneralStatus) (priv_device_id : Nat) : Int × Nat × StaticConfig :=
  if sja1105_static_config_check_valid c ≠ SJA1105_CONFIG_OK then (-EINVAL, 0, c)
  else if c.device_id ≠ priv_device_id then (-EINVAL, 0, c)
  else
    ((sja1105_static_config_upload_loop hw status0 10 0).1,
     (sja1105_static_config_upload_loop hw status0 10 0).2.1, c)

theorem upload_loop_exhausts (hw : UploadHw)
    (hreset : ∀ n, 0 ≤ hw.resetRc n) (hsend : ∀ n, 0 ≤ hw.sendRc n)
    (hstatus : ∀ n, 0 ≤ hw.statusRc n)
    (hconfigs : ∀ n, (hw.statusVal n).configs = 0) :
    ∀ (retries : Nat), 1 ≤ retries → ∀ (st : GeneralStatus) (n : Nat),
      sja1105_static_config_upload_loop hw st retries n =
        (- EIO, n + retries, hw.statusVal (n + retries - 1)) := by
  intro retries
  induction retries with
  | zero => intro h; omega
  | succ r ih =>
    intro _ st n
    have hatt : sja1105_static_config_upload_attempt hw st n =
        (hw.statusRc n, hw.statusVal n) := by
      unfold sja1105_static_config_upload_attempt
      rw [if_neg (not_lt.mpr (hreset n)), if_neg (not_lt.mpr (hsend n)),
        if_neg (not_lt.mpr (hstatus n))]
    rcases Nat.eq_zero_or_pos r with hr | hr
    · subst hr
      rw [sja1105_static_config_upload_loop, dif_neg (by omega), hatt,
        if_pos (by omega)]
      rfl
    · rw [sja1105_static_config_upload_loop,
        dif_pos ⟨by omega, by
          rw [hatt]
          exact Or.inr (Or.inr (Or.inl (hconfigs n)))⟩,
        hatt]
      show sja1105_static_config_upload_loop hw (hw.statusVal n) r (n + 1) =
        (- EIO, n + (r + 1), hw.statusVal (n + (r + 1) - 1))
      rw [ih (by omega) (hw.statusVal n) (n + 1)]
      have h1 : n + 1 + r = n + (r + 1) := by omega
      rw [h1]

/-- Claim C3: with the configuration valid and matching the chip, when
every reset, transfer and status read succeeds but the hardware's
`configs` ("configuration valid") flag stays 0 on every read,
`sja1105_static_config_upload` performs exactly its `RETRIES = 10`
reset-transfer-poll attempts, returns `- EIO`, and leaves the in-memory
static configuration exactly as it was. -/
theorem claim_C3 (c : StaticConfig) (hw : UploadHw) (st0 : GeneralStatus) (pid : Nat)
    (hvalid : sja1105_static_config_check_valid c = SJA1105_CONFIG_OK)
    (hdev : c.device_id = pid)
    (hreset : ∀ n, 0 ≤ hw.resetRc n) (hsend : ∀ n, 0 ≤ hw.sendRc n)
    (hstatus : ∀ n, 0 ≤ hw.statusRc n)
    (hconfigs : ∀ n, (hw.statusVal n).configs = 0) :
    sja1105_static_config_upload c hw st0 pid = (- EIO, 10, c) := by
  unfold sja1105_static_config_upload
  rw [if_neg (not_not_intro hvalid), if_neg (not_not_intro hdev),
    upload_loop_exhausts hw hreset hsend hstatus hconfigs 10 (by omega) st0 0]

/-- Hardware that accepts every SPI operation but never reports a valid
configuration. -/
def uploadDemoHw : UploadHw :=
  { resetRc := fun _ => 0
    sendRc := fun _ => 0
    statusRc := fun _ => 0
    statusVal := fun _ => ⟨0, 0, 0, 0⟩ }

/-- Claim C3 witness. -/
theorem claim_C3_witness :
    (sja1105_static_config_check_valid memDemoConfig = SJA1105_CONFIG_OK ∧
     ∀ n, (uploadDemoHw.statusVal n).configs = 0) ∧
    sja1105_static_config_upload memDemoConfig uploadDemoHw ⟨0, 0, 0, 0⟩
      SJA1105E_DEVICE_ID = (- EIO, 10, memDemoConfig) :=
  ⟨⟨by decide, fun _ => rfl⟩,
   claim_C3 memDemoConfig uploadDemoHw ⟨0, 0, 0, 0⟩ SJA1105E_DEVICE_ID (by decide) rfl
     (fun _ => le_refl 0) (fun _ => le_refl 0) (fun _ => le_refl 0) (fun _ => rfl)⟩


/-! ## Characterization of the packing engine under `QUIRK_LSW32_IS_FIRST`

For buffers whose length is a multiple of 4 — every buffer the sja1105
driver passes — the composition of the `len - box - 1` addressing and
`get_reverse_lsw32_offset` reduces to reversing the bytes of each 32-bit
word in place, independently of the buffer length. -/

def lswAddr (b : Nat) : Nat := 4 * (b / 4) + (3 - b % 4)

theorem lswAddr_lt (len b : Nat) (h4 : len % 4 = 0) (hb : b < len) :
    lswAddr b < len := by
  unfold lswAddr
  omega

theorem lswAddr_inj (b b' : Nat) (h : lswAddr b = lswAddr b') : b = b' := by
  unfold lswAddr at h
  omega

theorem reverse_lsw32_eval (len b : Nat) (h4 : len % 4 = 0) (hb : b < len) :
    get_reverse_lsw32_offset ((len : Int) - b - 1) len = (lswAddr b : Nat) := by
  have ha : (len : Int) - b - 1 = ((len - 1 - b : Nat) : Int) := by omega
  unfold get_reverse_lsw32_offset lswAddr
  rw [ha]
  have ht : ((len - 1 - b : Nat) : Int).tdiv 4 = (((len - 1 - b) / 4 : Nat) : Int) := rfl
  dsimp only
  rw [ht]
  omega

/-- The logical value carried by the first `n` boxes of a buffer: box `b`
(the `b`-th byte counted from the numerically least end) contributes its
byte, stored at `lswAddr b`, at bit position `8 * b`. -/
def logValAux (buf : List Nat) : Nat → Nat
  | 0 => 0
  | n + 1 => logValAux buf n ||| ((buf.getD (lswAddr n) 0 % 2 ^ 8) <<< (8 * n))

/-- The logical value of a whole `len`-byte buffer. -/
def logVal (len : Nat) (buf : List Nat) : Nat := logValAux buf len

theorem logValAux_testBit (buf : List Nat) (n k : Nat) :
    (logValAux buf n).testBit k =
      (decide (k / 8 < n) && (buf.getD (lswAddr (k / 8)) 0 % 2 ^ 8).testBit (k % 8)) := by
  induction n with
  | zero => simp [logValAux, Nat.zero_testBit]
  | succ n ih =>
    rw [logValAux, Nat.testBit_or, ih, Nat.testBit_shiftLeft]
    rcases Nat.lt_trichotomy (k / 8) n with h | h | h
    · have h2 : ¬ (8 * n ≤ k) := by omega
      simp [h, h2, Nat.lt_succ_of_lt h]
    · have h1 : ¬ (k / 8 < n) := by omega
      have h2 : 8 * n ≤ k := by omega
      have h3 : k - 8 * n = k % 8 := by omega
      subst h
      simp [h1, h2, h3, Nat.lt_succ_self]
    · have h1 : ¬ (k / 8 < n) := by omega
      have h2 : ¬ (k / 8 < n + 1) := by omega
      rcases Nat.lt_or_ge k (8 * n) with h3 | h3
      · simp [h1, h2, Nat.not_le.mpr h3]
      · have h4 : 8 ≤ k - 8 * n := by omega
        have h5 : (buf.getD (lswAddr n) 0 % 2 ^ 8).testBit (k - 8 * n) = false :=
          Nat.testBit_lt_two_pow
            (lt_of_lt_of_le (Nat.mod_lt _ (by omega)) (Nat.pow_le_pow_right (by omega) h4))
        simp [h1, h2, h3]
        simpa using h5

theorem logVal_testBit (len : Nat) (buf : List Nat) (k : Nat) :
    (logVal len buf).testBit k =
      (decide (k / 8 < len) && (buf.getD (lswAddr (k / 8)) 0 % 2 ^ 8).testBit (k % 8)) :=
  logValAux_testBit buf len k

theorem logValAux_congr (buf buf' : List Nat) (n : Nat)
    (h : ∀ b, b < n → buf.getD (lswAddr b) 0 = buf'.getD (lswAddr b) 0) :
    logValAux buf n = logValAux buf' n := by
  induction n with
  | zero => rfl
  | succ n ih =>
    rw [logValAux, logValAux, ih (fun b hb => h b (by omega)), h n (by omega)]

theorem mask64_testBit (k : Nat) : MASK64.testBit k = decide (k < 64) := by
  rw [MASK64, Nat.testBit_two_pow_sub_one]

theorem genmask_testBit (h l k : Nat) (hh : h ≤ 63) :
    (GENMASK_ULL h l).testBit k = decide (l ≤ k ∧ k ≤ h) := by
  rw [GENMASK_ULL, Nat.testBit_and, Nat.testBit_and, Nat.testBit_shiftLeft,
    Nat.testBit_shiftRight, mask64_testBit, mask64_testBit, mask64_testBit]
  by_cases h1 : l ≤ k
  · by_cases h2 : k ≤ h
    · have h3 : k - l < 64 := by omega
      have h4 : k < 64 := by omega
      have h5 : 63 - h + k < 64 := by omega
      simp [h1, h2, h3, h4, h5]
    · have h5 : ¬ (63 - h + k < 64) := by omega
      simp [h2, h5]
  · simp [h1, fun h2 : l ≤ k ∧ k ≤ h => h1 h2.1]

/-- In-box start bit of logical box `b` for a window starting at bit `s`. -/
def boxStartBit (s b : Nat) : Nat := if b = s / 8 then s % 8 else 7

/-- In-box end bit of logical box `b` for a window ending at bit `e`. -/
def boxEndBit (e b : Nat) : Nat := if b = e / 8 then e % 8 else 0

/-- The byte the PACK direction of the box loop writes for box `b`. -/
def packBoxByte (s e v b old : Nat) : Nat :=
  (old &&& ((2 ^ 8 - 1) ^^^ GENMASK_ULL (boxStartBit s b) (boxEndBit e b) % 2 ^ 8)) |||
  ((((v &&& GENMASK_ULL (b * 8 + boxStartBit s b - e) (b * 8 + boxEndBit e b - e)) >>>
      (b * 8 + boxEndBit e b - e)) <<< boxEndBit e b) &&& (2 ^ 8 - 1))

/-- The accumulator update the UNPACK direction performs for box `b`. -/
def unpackBoxVal (s e b byte u : Nat) : Nat :=
  (u &&& (MASK64 ^^^ GENMASK_ULL (b * 8 + boxStartBit s b - e) (b * 8 + boxEndBit e b - e))) |||
  (((byte &&& GENMASK_ULL (boxStartBit s b) (boxEndBit e b) % 2 ^ 8) >>> boxEndBit e b) <<<
    (b * 8 + boxEndBit e b - e))

theorem box_step_pack_eval (len s e v : Nat) (buf : List Nat) (b : Nat)
    (h4 : len % 4 = 0) (hb : b < len) :
    packing_box_step .PACK quirksLsw32 s e len (buf, v) b =
      .ok (buf.set (lswAddr b) (packBoxByte s e v b (buf.getD (lswAddr b) 0))) v := by
  have haddr : get_reverse_lsw32_offset ((len : Int) - b - 1) len = (lswAddr b : Nat) :=
    reverse_lsw32_eval len b h4 hb
  have hlt : lswAddr b < len := lswAddr_lt len b h4 hb
  unfold packing_box_step quirksLsw32
  dsimp only
  simp only [show ((true = true)) = True from by simp,
    show ((false = true)) = False from by simp, if_true, if_false]
  rw [haddr, if_neg (by
    push_neg
    exact ⟨Int.natCast_nonneg _, by exact_mod_cast hlt⟩)]
  rfl

theorem box_step_unpack_eval (len s e u : Nat) (buf : List Nat) (b : Nat)
    (h4 : len % 4 = 0) (hb : b < len) :
    packing_box_step .UNPACK quirksLsw32 s e len (buf, u) b =
      .ok buf (unpackBoxVal s e b (buf.getD (lswAddr b) 0) u) := by
  have haddr : get_reverse_lsw32_offset ((len : Int) - b - 1) len = (lswAddr b : Nat) :=
    reverse_lsw32_eval len b h4 hb
  have hlt : lswAddr b < len := lswAddr_lt len b h4 hb
  unfold packing_box_step quirksLsw32
  dsimp only
  simp only [show ((true = true)) = True from by simp,
    show ((false = true)) = False from by simp, if_true, if_false]
  rw [haddr, if_neg (by
    push_neg
    exact ⟨Int.natCast_nonneg _, by exact_mod_cast hlt⟩)]
  rfl

/-- The byte-level effect of the whole PACK box loop. -/
def packBytes (len s e v : Nat) (buf : List Nat) : List Nat :=
  (boxesDesc (s / 8) (e / 8)).foldl
    (fun bf b => bf.set (lswAddr b) (packBoxByte s e v b (bf.getD (lswAddr b) 0))) buf

/-- The value-level effect of the whole UNPACK box loop. -/
def unpackVal (len s e : Nat) (buf : List Nat) : Nat :=
  (boxesDesc (s / 8) (e / 8)).foldl
    (fun u b => unpackBoxVal s e b (buf.getD (lswAddr b) 0) u) 0

theorem packing_loop_pack_eval (len s e v : Nat) (h4 : len % 4 = 0) :
    ∀ (bs : List Nat) (buf : List Nat), (∀ b ∈ bs, b < len) →
    packing_loop .PACK quirksLsw32 s e len bs (buf, v) =
      .ok (bs.foldl
        (fun bf b => bf.set (lswAddr b) (packBoxByte s e v b (bf.getD (lswAddr b) 0))) buf) v := by
  intro bs
  induction bs with
  | nil => intro buf h; rfl
  | cons b rest ih =>
    intro buf h
    rw [packing_loop, box_step_pack_eval len s e v buf b h4 (h b (by simp))]
    exact ih _ (fun x hx => h x (by simp [hx]))

theorem packing_loop_unpack_eval (len s e : Nat) (buf : List Nat) (h4 : len % 4 = 0) :
    ∀ (bs : List Nat) (u : Nat), (∀ b ∈ bs, b < len) →
    packing_loop .UNPACK quirksLsw32 s e len bs (buf, u) =
      .ok buf (bs.foldl (fun acc b => unpackBoxVal s e b (buf.getD (lswAddr b) 0) acc) u) := by
  intro bs
  induction bs with
  | nil => intro u h; rfl
  | cons b rest ih =>
    intro u h
    rw [packing_loop, box_step_unpack_eval len s e u buf b h4 (h b (by simp))]
    exact ih _ (fun x hx => h x (by simp [hx]))

theorem boxesDesc_mem (first last b : Nat) (hfl : last ≤ first) :
    b ∈ boxesDesc first last ↔ last ≤ b ∧ b ≤ first := by
  rw [boxesDesc, List.mem_reverse, List.mem_range'_1]
  omega

theorem boxesDesc_nodup (first last : Nat) : (boxesDesc first last).Nodup := by
  rw [boxesDesc, List.nodup_reverse]
  exact List.nodup_range' _ _

theorem packing_lsw32_pack (len s e v : Nat) (buf : List Nat)
    (h4 : len % 4 = 0) (hse : e ≤ s) (hs : s < 8 * len) (hw : s - e + 1 ≤ 64)
    (hv : v < 2 ^ (s - e + 1)) :
    packing buf v s e len .PACK quirksLsw32 = .ok (packBytes len s e v buf) v := by
  unfold packing
  rw [if_neg (by omega)]
  dsimp only
  rw [if_neg (by omega),
    if_neg (by
      rintro ⟨-, h1, h2⟩
      exact absurd hv (by omega)),
    if_neg (by decide)]
  exact packing_loop_pack_eval len s e v h4 _ buf
    (fun b hb => by
      rw [boxesDesc_mem _ _ _ (by omega)] at hb
      omega)

theorem packing_lsw32_unpack (len s e u0 : Nat) (buf : List Nat)
    (h4 : len % 4 = 0) (hse : e ≤ s) (hs : s < 8 * len) (hw : s - e + 1 ≤ 64) :
    packing buf u0 s e len .UNPACK quirksLsw32 = .ok buf (unpackVal len s e buf) := by
  unfold packing
  rw [if_neg (by omega)]
  dsimp only
  rw [if_neg (by omega),
    if_neg (by rintro ⟨h, -⟩; exact absurd h (by decide)),
    if_pos rfl]
  exact packing_loop_unpack_eval len s e buf h4 _ 0
    (fun b hb => by
      rw [boxesDesc_mem _ _ _ (by omega)] at hb
      omega)
theorem getD_lt_two_pow_eight (buf : List Nat) (hbytes : ∀ x ∈ buf, x < 2 ^ 8)
    (a : Nat) : buf.getD a 0 < 2 ^ 8 := by
  rcases Nat.lt_or_ge a buf.length with h | h
  · have hmem : buf.getD a 0 ∈ buf := by
      rw [List.getD_eq_getElem buf 0 h]
      exact List.getElem_mem h
    exact hbytes _ hmem
  · rw [List.getD_eq_default buf 0 h]
    omega

theorem xor_lt_two_pow_eight (a b : Nat) (ha : a < 2 ^ 8) (hb : b < 2 ^ 8) :
    a ^^^ b < 2 ^ 8 := by
  have h := Nat.xor_lt_two_pow (n := 8) ha hb
  exact h

theorem packBoxByte_lt (s e v b old : Nat) : packBoxByte s e v b old < 2 ^ 8 := by
  unfold packBoxByte
  apply Nat.or_lt_two_pow
  · exact lt_of_le_of_lt Nat.and_le_right
      (xor_lt_two_pow_eight _ _ (by omega) (Nat.mod_lt _ (by omega)))
  · exact lt_of_le_of_lt Nat.and_le_right (by omega)

/-- Arithmetic facts about the in-box bit range of a box covered by the
window `s..e`. -/
theorem box_bits_range (s e b : Nat) (hse : e ≤ s) (hb1 : e / 8 ≤ b) (hb2 : b ≤ s / 8) :
    e ≤ 8 * b + boxEndBit e b ∧ 8 * b + boxStartBit s b ≤ s ∧
    boxEndBit e b ≤ boxStartBit s b ∧ boxStartBit s b ≤ 7 := by
  unfold boxStartBit boxEndBit
  split_ifs <;> omega

/-- A bit `r` of the box lies inside the window iff the corresponding
logical bit does. -/
theorem box_cover (s e b r : Nat) (hse : e ≤ s) (hb1 : e / 8 ≤ b) (hb2 : b ≤ s / 8)
    (hr : r < 8) :
    (boxEndBit e b ≤ r ∧ r ≤ boxStartBit s b) ↔ (e ≤ 8 * b + r ∧ 8 * b + r ≤ s) := by
  unfold boxStartBit boxEndBit at *
  split_ifs <;> omega

/-- Bit-level behaviour of the byte written by the PACK box body, with the
in-box window `sb..eb` and the projection offset `pe` abstracted. -/
theorem packByteBits (v old sb eb pe r : Nat) (heb : eb ≤ sb) (hsb : sb ≤ 7)
    (hpe : pe + (sb - eb) ≤ 63) (hr : r < 8) :
    ((old &&& ((2 ^ 8 - 1) ^^^ GENMASK_ULL sb eb % 2 ^ 8)) |||
     ((((v &&& GENMASK_ULL (pe + (sb - eb)) pe) >>> pe) <<< eb) &&& (2 ^ 8 - 1))).testBit r =
      (if eb ≤ r ∧ r ≤ sb then v.testBit (pe + (r - eb)) else old.testBit r) := by
  simp only [Nat.testBit_or, Nat.testBit_and, Nat.testBit_xor, Nat.testBit_mod_two_pow,
    Nat.testBit_two_pow_sub_one, Nat.testBit_shiftLeft, Nat.testBit_shiftRight]
  rw [genmask_testBit _ _ _ (by omega), genmask_testBit _ _ _ (by omega)]
  by_cases hc : eb ≤ r ∧ r ≤ sb
  · rw [if_pos hc]
    have c1 : pe ≤ pe + (r - eb) := by omega
    have c2 : pe + (r - eb) ≤ pe + (sb - eb) := by omega
    simp [hc, hc.1, hc.2, hr, c1, c2]
  · rw [if_neg hc]
    rcases Nat.lt_or_ge r eb with h | h
    · simp [hc, hr, Nat.not_le.mpr h]
    · have h2 : sb < r := by
        rcases Nat.lt_or_ge sb r with h' | h'
        · exact h'
        · exact absurd ⟨h, h'⟩ hc
      have c2 : ¬ (pe + (r - eb) ≤ pe + (sb - eb)) := by omega
      simp [hc, hr, c2]

theorem packBoxByte_testBit (s e v b old r : Nat) (hse : e ≤ s) (hw : s - e ≤ 63)
    (hb1 : e / 8 ≤ b) (hb2 : b ≤ s / 8) (hr : r < 8) :
    (packBoxByte s e v b old).testBit r =
      (if e ≤ 8 * b + r ∧ 8 * b + r ≤ s then v.testBit (8 * b + r - e) else old.testBit r) := by
  obtain ⟨he, hs8, hes, hs7⟩ := box_bits_range s e b hse hb1 hb2
  have h1 : b * 8 + boxStartBit s b - e =
      (b * 8 + boxEndBit e b - e) + (boxStartBit s b - boxEndBit e b) := by omega
  have h2 : (b * 8 + boxEndBit e b - e) + (boxStartBit s b - boxEndBit e b) ≤ 63 := by omega
  unfold packBoxByte
  rw [h1, packByteBits v old (boxStartBit s b) (boxEndBit e b) (b * 8 + boxEndBit e b - e)
    r hes hs7 h2 hr]
  rw [if_congr (box_cover s e b r hse hb1 hb2 hr) rfl rfl]
  by_cases hc : e ≤ 8 * b + r ∧ 8 * b + r ≤ s
  · rw [if_pos hc, if_pos hc]
    have : b * 8 + boxEndBit e b - e + (r - boxEndBit e b) = 8 * b + r - e := by
      have hre : boxEndBit e b ≤ r := ((box_cover s e b r hse hb1 hb2 hr).mpr hc).1
      omega
    rw [this]
  · rw [if_neg hc, if_neg hc]

theorem foldl_set_length (f : Nat → Nat → Nat) :
    ∀ (bs : List Nat) (buf : List Nat),
    (bs.foldl (fun bf b => bf.set (lswAddr b) (f b (bf.getD (lswAddr b) 0))) buf).length =
      buf.length := by
  intro bs
  induction bs with
  | nil => intro buf; rfl
  | cons b rest ih =>
    intro buf
    rw [List.foldl_cons, ih, List.length_set]

theorem foldl_set_getD_not_mem (f : Nat → Nat → Nat) :
    ∀ (bs : List Nat) (buf : List Nat) (b : Nat), b ∉ bs →
    (bs.foldl (fun bf x => bf.set (lswAddr x) (f x (bf.getD (lswAddr x) 0))) buf).getD
        (lswAddr b) 0 = buf.getD (lswAddr b) 0 := by
  intro bs
  induction bs with
  | nil => intro buf b _; rfl
  | cons x rest ih =>
    intro buf b hb
    rw [List.foldl_cons, ih _ b (fun h => hb (by simp [h]))]
    have hne : lswAddr x ≠ lswAddr b := fun h => hb (by simp [lswAddr_inj _ _ h])
    simp [List.getD, List.getElem?_set_ne hne]

theorem foldl_set_getD_mem (f : Nat → Nat → Nat) :
    ∀ (bs : List Nat) (buf : List Nat) (b : Nat), bs.Nodup → b ∈ bs →
      lswAddr b < buf.length →
    (bs.foldl (fun bf x => bf.set (lswAddr x) (f x (bf.getD (lswAddr x) 0))) buf).getD
        (lswAddr b) 0 = f b (buf.getD (lswAddr b) 0) := by
  intro bs
  induction bs with
  | nil => intro buf b _ hmem; exact absurd hmem (by simp)
  | cons x rest ih =>
    intro buf b hnd hmem hlt
    rcases List.mem_cons.mp hmem with h | h
    · subst h
      rw [List.foldl_cons,
        foldl_set_getD_not_mem f rest _ b (List.Nodup.not_mem hnd)]
      simp [List.getD, List.getElem?_set_eq hlt]
    · have hne : b ≠ x := fun hEq => (List.Nodup.not_mem hnd) (hEq ▸ h)
      have hne' : lswAddr x ≠ lswAddr b := fun hEq => hne (lswAddr_inj _ _ hEq).symm
      rw [List.foldl_cons, ih _ b (List.Nodup.of_cons hnd) h (by
        rw [List.length_set]; exact hlt)]
      simp [List.getD, List.getElem?_set_ne hne']

theorem packBytes_length (len s e v : Nat) (buf : List Nat) :
    (packBytes len s e v buf).length = buf.length :=
  foldl_set_length _ _ buf

theorem packBytes_getD (len s e v : Nat) (buf : List Nat) (b : Nat)
    (h4 : len % 4 = 0) (hse : e ≤ s) (hblen : buf.length = len) (hb : b < len) :
    (packBytes len s e v buf).getD (lswAddr b) 0 =
      (if e / 8 ≤ b ∧ b ≤ s / 8 then packBoxByte s e v b (buf.getD (lswAddr b) 0)
       else buf.getD (lswAddr b) 0) := by
  by_cases hc : e / 8 ≤ b ∧ b ≤ s / 8
  · rw [if_pos hc]
    apply foldl_set_getD_mem _ _ _ _ (boxesDesc_nodup _ _)
    · rw [boxesDesc_mem _ _ _ (by omega)]
      exact hc
    · rw [hblen]
      exact lswAddr_lt len b h4 hb
  · rw [if_neg hc]
    apply foldl_set_getD_not_mem
    rw [boxesDesc_mem _ _ _ (by omega)]
    omega

theorem packBytes_getD_lt (len s e v : Nat) (buf : List Nat) (b : Nat)
    (h4 : len % 4 = 0) (hse : e ≤ s) (hblen : buf.length = len) (hb : b < len)
    (hbytes : ∀ x ∈ buf, x < 2 ^ 8) :
    (packBytes len s e v buf).getD (lswAddr b) 0 < 2 ^ 8 := by
  rw [packBytes_getD len s e v buf b h4 hse hblen hb]
  split_ifs
  · exact packBoxByte_lt _ _ _ _ _
  · exact getD_lt_two_pow_eight buf hbytes _

theorem packBytes_logVal_testBit (len s e v : Nat) (buf : List Nat)
    (h4 : len % 4 = 0) (hse : e ≤ s) (hs : s < 8 * len) (hw : s - e ≤ 63)
    (hblen : buf.length = len) (k : Nat) :
    (logVal len (packBytes len s e v buf)).testBit k =
      (if e ≤ k ∧ k ≤ s then v.testBit (k - e) else (logVal len buf).testBit k) := by
  rw [logVal_testBit, logVal_testBit]
  rcases Nat.lt_or_ge (k / 8) len with hk | hk
  · rw [packBytes_getD len s e v buf (k / 8) h4 hse hblen hk]
    by_cases hbox : e / 8 ≤ k / 8 ∧ k / 8 ≤ s / 8
    · rw [if_pos hbox]
      have hr : k % 8 < 8 := Nat.mod_lt _ (by omega)
      rw [Nat.testBit_mod_two_pow, Nat.testBit_mod_two_pow,
        packBoxByte_testBit s e v (k / 8) _ (k % 8) hse hw hbox.1 hbox.2 hr]
      have hk8 : 8 * (k / 8) + k % 8 = k := by omega
      rw [hk8]
      by_cases hc : e ≤ k ∧ k ≤ s
      · simp [hc, hr, hk]
      · rw [if_neg hc, if_neg hc]
    · have hc : ¬ (e ≤ k ∧ k ≤ s) := by
        rintro ⟨h1, h2⟩
        exact hbox ⟨by omega, by omega⟩
      rw [if_neg hbox, if_neg hc]
  · have hc : ¬ (e ≤ k ∧ k ≤ s) := by
      rintro ⟨h1, h2⟩
      omega
    simp [hc, Nat.not_lt.mpr hk]

/-- Bit-level behaviour of the UNPACK box body, with the in-box window and
projection offset abstracted. -/
theorem unpackValBits (byte u sb eb pe k : Nat) (heb : eb ≤ sb) (hsb : sb ≤ 7)
    (hpe : pe + (sb - eb) ≤ 63) :
    ((u &&& (MASK64 ^^^ GENMASK_ULL (pe + (sb - eb)) pe)) |||
     (((byte &&& GENMASK_ULL sb eb % 2 ^ 8) >>> eb) <<< pe)).testBit k =
      (if pe ≤ k ∧ k ≤ pe + (sb - eb) then byte.testBit (eb + (k - pe))
       else (u.testBit k && decide (k < 64))) := by
  simp only [Nat.testBit_or, Nat.testBit_and, Nat.testBit_xor, Nat.testBit_mod_two_pow,
    Nat.testBit_shiftLeft, Nat.testBit_shiftRight, mask64_testBit]
  rw [genmask_testBit _ _ _ (by omega), genmask_testBit _ _ _ (by omega)]
  by_cases hc : pe ≤ k ∧ k ≤ pe + (sb - eb)
  · rw [if_pos hc]
    have c1 : eb ≤ eb + (k - pe) := by omega
    have c2 : eb + (k - pe) ≤ sb := by omega
    have c3 : eb + (k - pe) < 8 := by omega
    have c4 : k < 64 := by omega
    simp [hc, hc.1, hc.2, c1, c2, c3, c4]
  · rw [if_neg hc]
    rcases Nat.lt_or_ge k pe with h | h
    · simp [hc, Nat.not_le.mpr h]
    · have h3 : ¬ (eb + (k - pe) ≤ sb) := by omega
      simp [hc, h3]

theorem unpackBoxVal_testBit (s e b byte u k : Nat) (hse : e ≤ s) (hw : s - e ≤ 63)
    (hb1 : e / 8 ≤ b) (hb2 : b ≤ s / 8) :
    (unpackBoxVal s e b byte u).testBit k =
      (if 8 * b + boxEndBit e b - e ≤ k ∧ k ≤ 8 * b + boxStartBit s b - e then
        byte.testBit (boxEndBit e b + (k - (8 * b + boxEndBit e b - e)))
       else (u.testBit k && decide (k < 64))) := by
  obtain ⟨he, hs8, hes, hs7⟩ := box_bits_range s e b hse hb1 hb2
  have h1 : b * 8 + boxStartBit s b - e =
      (b * 8 + boxEndBit e b - e) + (boxStartBit s b - boxEndBit e b) := by omega
  have h2 : (b * 8 + boxEndBit e b - e) + (boxStartBit s b - boxEndBit e b) ≤ 63 := by omega
  unfold unpackBoxVal
  rw [h1, unpackValBits byte u (boxStartBit s b) (boxEndBit e b) (b * 8 + boxEndBit e b - e)
    k hes hs7 h2]
  have h3 : b * 8 + boxEndBit e b - e = 8 * b + boxEndBit e b - e := by omega
  rw [h3]
  have h5 : 8 * b + boxEndBit e b - e + (boxStartBit s b - boxEndBit e b) =
      8 * b + boxStartBit s b - e := by omega
  rw [h5]

theorem unpack_fold_testBit (len s e : Nat) (buf : List Nat)
    (hse : e ≤ s) (hw : s - e ≤ 63) :
    ∀ (bs : List Nat), (∀ b ∈ bs, e / 8 ≤ b ∧ b ≤ s / 8) → ∀ (u k : Nat),
    (bs.foldl (fun acc b => unpackBoxVal s e b (buf.getD (lswAddr b) 0) acc) u).testBit k =
      (if (k + e) / 8 ∈ bs ∧ k ≤ s - e then
        (buf.getD (lswAddr ((k + e) / 8)) 0).testBit ((k + e) % 8)
       else (u.testBit k && (decide (k < 64) || decide (bs = [])))) := by
  intro bs
  induction bs with
  | nil =>
    intro _ u k
    simp
  | cons b rest ih =>
    intro hbs u k
    have hbr := hbs b (by simp)
    rw [List.foldl_cons, ih (fun x hx => hbs x (by simp [hx]))]
    obtain ⟨he, hs8, hes, hs7⟩ := box_bits_range s e b hse hbr.1 hbr.2
    have hcover : (8 * b + boxEndBit e b - e ≤ k ∧ k ≤ 8 * b + boxStartBit s b - e) ↔
        ((k + e) / 8 = b ∧ k ≤ s - e) := by
      unfold boxStartBit boxEndBit at *
      split_ifs at * <;> omega
    by_cases hmem : (k + e) / 8 ∈ rest ∧ k ≤ s - e
    · rw [if_pos hmem, if_pos ⟨by simp [hmem.1], hmem.2⟩]
    · rw [if_neg hmem]
      rw [unpackBoxVal_testBit s e b _ u k hse hw hbr.1 hbr.2]
      by_cases hcur : (k + e) / 8 = b ∧ k ≤ s - e
      · rw [if_pos (hcover.mpr hcur), if_pos ⟨by simp [hcur.1], hcur.2⟩]
        have hidx : boxEndBit e b + (k - (8 * b + boxEndBit e b - e)) = (k + e) % 8 := by
          unfold boxStartBit boxEndBit at *
          split_ifs at * <;> omega
        have h64 : k < 64 := by omega
        rw [hidx, hcur.1]
        simp [h64]
      · have hnot : ¬ ((k + e) / 8 ∈ b :: rest ∧ k ≤ s - e) := by
          rintro ⟨h1, h2⟩
          rcases List.mem_cons.mp h1 with h | h
          · exact hcur ⟨h, h2⟩
          · exact hmem ⟨h, h2⟩
        rw [if_neg (fun hc => hcur (hcover.mp hc)), if_neg hnot]
        by_cases h64 : k < 64 <;> simp [h64]

theorem unpackVal_testBit (len s e : Nat) (buf : List Nat)
    (h4 : len % 4 = 0) (hse : e ≤ s) (hs : s < 8 * len) (hw : s - e ≤ 63) (k : Nat) :
    (unpackVal len s e buf).testBit k =
      (decide (k ≤ s - e) && (logVal len buf).testBit (e + k)) := by
  unfold unpackVal
  rw [unpack_fold_testBit len s e buf hse hw _
    (fun b hb => by rw [boxesDesc_mem _ _ _ (by omega)] at hb; omega) 0 k]
  rw [logVal_testBit]
  by_cases hc : k ≤ s - e
  · have hmem : (k + e) / 8 ∈ boxesDesc (s / 8) (e / 8) := by
      rw [boxesDesc_mem _ _ _ (by omega)]
      omega
    have hlt : (e + k) / 8 < len := by omega
    have hke : k + e = e + k := by omega
    rw [if_pos ⟨hmem, hc⟩, hke]
    have hr : (e + k) % 8 < 8 := Nat.mod_lt _ (by omega)
    simp [hc, hlt, Nat.testBit_mod_two_pow, hr]
    rw [show (256 : Nat) = 2 ^ 8 from rfl, Nat.testBit_mod_two_pow]
    simp [hr]
  · rw [if_neg (fun h => hc h.2)]
    simp [hc]

theorem unpackVal_eq (len s e : Nat) (buf : List Nat)
    (h4 : len % 4 = 0) (hse : e ≤ s) (hs : s < 8 * len) (hw : s - e ≤ 63) :
    unpackVal len s e buf = (logVal len buf >>> e) % 2 ^ (s - e + 1) := by
  apply Nat.eq_of_testBit_eq
  intro k
  rw [unpackVal_testBit len s e buf h4 hse hs hw k, Nat.testBit_mod_two_pow,
    Nat.testBit_shiftRight]
  by_cases h : k ≤ s - e
  · rw [decide_eq_true h, decide_eq_true (show k < s - e + 1 by omega)]
  · rw [decide_eq_false h, decide_eq_false (show ¬ (k < s - e + 1) by omega)]

theorem logVal_replicate_zero (n m : Nat) : logValAux (List.replicate n 0) m = 0 := by
  induction m with
  | zero => rfl
  | succ m ih =>
    rw [logValAux, ih]
    have : (List.replicate n (0 : Nat)).getD (lswAddr m) 0 = 0 := by
      simp [List.getD, List.getElem?_replicate]
      split <;> rfl
    rw [this]
    simp
theorem sja1105_pack_eq (len s e v : Nat) (buf : List Nat)
    (h4 : len % 4 = 0) (hse : e ≤ s) (hs : s < 8 * len) (hw : s - e + 1 ≤ 64)
    (hv : v < 2 ^ (s - e + 1)) :
    sja1105_pack buf v s e len = packBytes len s e v buf := by
  unfold sja1105_pack
  rw [packing_lsw32_pack len s e v buf h4 hse hs hw hv]

theorem sja1105_unpack_eq (len s e : Nat) (buf : List Nat)
    (h4 : len % 4 = 0) (hse : e ≤ s) (hs : s < 8 * len) (hw : s - e + 1 ≤ 64) :
    sja1105_unpack buf s e len = (logVal len buf >>> e) % 2 ^ (s - e + 1) := by
  unfold sja1105_unpack
  rw [packing_lsw32_unpack len s e 0 buf h4 hse hs hw,
    unpackVal_eq len s e buf h4 hse hs (by omega)]

/-- A packed field: start bit, end bit, value.  `packFieldsV` plays one
codec's sequence of `sja1105_packing(buf, &v, start, end, size, PACK)`
calls. -/
def packFieldsV (size : Nat) (fs : List (Nat × Nat × Nat)) (buf : List Nat) : List Nat :=
  fs.foldl (fun b f => sja1105_pack b f.2.2 f.1 f.2.1 size) buf

/-- Well-formedness of one field against the buffer size: a non-empty
window inside the buffer, at most 64 bits wide, whose value fits. -/
def wfField (size : Nat) (f : Nat × Nat × Nat) : Prop :=
  f.2.1 ≤ f.1 ∧ f.1 < 8 * size ∧ f.1 - f.2.1 + 1 ≤ 64 ∧ f.2.2 < 2 ^ (f.1 - f.2.1 + 1)

theorem packFieldsV_length (size : Nat) :
    ∀ (fs : List (Nat × Nat × Nat)) (buf : List Nat),
    size % 4 = 0 → buf.length = size → (∀ f ∈ fs, wfField size f) →
    (packFieldsV size fs buf).length = size := by
  intro fs
  induction fs with
  | nil => intro buf _ hlen _; exact hlen
  | cons f rest ih =>
    intro buf h4 hlen hwf
    obtain ⟨h1, h2, h3, h5⟩ := hwf f (by simp)
    rw [packFieldsV, List.foldl_cons,
      sja1105_pack_eq size f.1 f.2.1 f.2.2 buf h4 h1 h2 h3 h5]
    exact ih _ h4 (by rw [packBytes_length]; exact hlen) (fun g hg => hwf g (by simp [hg]))

theorem packFieldsV_window (size : Nat) :
    ∀ (fs : List (Nat × Nat × Nat)) (buf : List Nat),
    size % 4 = 0 → buf.length = size → (∀ f ∈ fs, wfField size f) →
    ∀ (k : Nat), (∀ f ∈ fs, ¬ (f.2.1 ≤ k ∧ k ≤ f.1)) →
    (logVal size (packFieldsV size fs buf)).testBit k = (logVal size buf).testBit k := by
  intro fs
  induction fs with
  | nil => intro buf _ _ _ k _; rfl
  | cons f rest ih =>
    intro buf h4 hlen hwf k hout
    obtain ⟨h1, h2, h3, h5⟩ := hwf f (by simp)
    rw [packFieldsV, List.foldl_cons,
      sja1105_pack_eq size f.1 f.2.1 f.2.2 buf h4 h1 h2 h3 h5]
    rw [show (List.foldl (fun b f => sja1105_pack b f.2.2 f.1 f.2.1 size) _ rest) =
      packFieldsV size rest (packBytes size f.1 f.2.1 f.2.2 buf) from rfl]
    rw [ih _ h4 (by rw [packBytes_length]; exact hlen)
      (fun g hg => hwf g (by simp [hg])) k (fun g hg => hout g (by simp [hg]))]
    rw [packBytes_logVal_testBit size f.1 f.2.1 f.2.2 buf h4 h1 h2 (by omega) hlen k,
      if_neg (hout f (by simp))]

theorem packFieldsV_field (size : Nat) :
    ∀ (fs : List (Nat × Nat × Nat)) (buf : List Nat),
    size % 4 = 0 → buf.length = size → (∀ f ∈ fs, wfField size f) →
    fs.Pairwise (fun f g => f.1 < g.2.1 ∨ g.1 < f.2.1) →
    ∀ f ∈ fs, ∀ k, f.2.1 ≤ k → k ≤ f.1 →
    (logVal size (packFieldsV size fs buf)).testBit k = f.2.2.testBit (k - f.2.1) := by
  intro fs
  induction fs with
  | nil => intro buf _ _ _ _ f hf; exact absurd hf (by simp)
  | cons f0 rest ih =>
    intro buf h4 hlen hwf hdisj f hf k hk1 hk2
    obtain ⟨h1, h2, h3, h5⟩ := hwf f0 (by simp)
    rw [packFieldsV, List.foldl_cons,
      sja1105_pack_eq size f0.1 f0.2.1 f0.2.2 buf h4 h1 h2 h3 h5]
    rw [show (List.foldl (fun b f => sja1105_pack b f.2.2 f.1 f.2.1 size) _ rest) =
      packFieldsV size rest (packBytes size f0.1 f0.2.1 f0.2.2 buf) from rfl]
    rcases List.mem_cons.mp hf with heq | hmem
    · subst heq
      rw [packFieldsV_window size rest _ h4 (by rw [packBytes_length]; exact hlen)
        (fun g hg => hwf g (by simp [hg])) k
        (fun g hg => by
          have hd := (List.pairwise_cons.mp hdisj).1 g hg
          rcases hd with hd | hd
          · rintro ⟨c1, c2⟩; omega
          · rintro ⟨c1, c2⟩; omega)]
      rw [packBytes_logVal_testBit size f.1 f.2.1 f.2.2 buf h4 h1 h2 (by omega) hlen k,
        if_pos ⟨hk1, hk2⟩]
    · exact ih _ h4 (by rw [packBytes_length]; exact hlen)
        (fun g hg => hwf g (by simp [hg])) (List.pairwise_cons.mp hdisj).2 f hmem k hk1 hk2

/-- Unpacking any one field of a packed field list returns that field's
value: the workhorse behind every codec round-trip.  The windows are
passed separately as `ws` so that the geometric side conditions close by
`decide` at each concrete codec. -/
theorem packFieldsV_unpack_field (size : Nat) (fs : List (Nat × Nat × Nat))
    (ws : List (Nat × Nat)) (buf : List Nat)
    (h4 : size % 4 = 0) (hlen : buf.length = size)
    (hmap : fs.map (fun f => (f.1, f.2.1)) = ws)
    (hwfw : ∀ w ∈ ws, w.2 ≤ w.1 ∧ w.1 < 8 * size ∧ w.1 - w.2 + 1 ≤ 64)
    (hdisj : ws.Pairwise (fun w w' => w.1 < w'.2 ∨ w'.1 < w.2))
    (hv : ∀ f ∈ fs, f.2.2 < 2 ^ (f.1 - f.2.1 + 1))
    (f : Nat × Nat × Nat) (hf : f ∈ fs) :
    sja1105_unpack (packFieldsV size fs buf) f.1 f.2.1 size = f.2.2 := by
  have hwf : ∀ g ∈ fs, wfField size g := by
    intro g hg
    have hw := hwfw (g.1, g.2.1) (by rw [← hmap]; exact List.mem_map_of_mem _ hg)
    exact ⟨hw.1, hw.2.1, hw.2.2, hv g hg⟩
  have hdisj' : fs.Pairwise (fun f g => f.1 < g.2.1 ∨ g.1 < f.2.1) := by
    subst hmap
    exact (List.pairwise_map.mp hdisj).imp (fun h => h)
  obtain ⟨hw1, hw2, hw3, hw4⟩ := hwf f hf
  rw [sja1105_unpack_eq size f.1 f.2.1 _ h4 hw1 hw2 hw3]
  apply Nat.eq_of_testBit_eq
  intro k
  rw [Nat.testBit_mod_two_pow, Nat.testBit_shiftRight]
  by_cases hk : k ≤ f.1 - f.2.1
  · rw [packFieldsV_field size fs buf h4 hlen hwf hdisj' f hf (f.2.1 + k)
      (by omega) (by omega)]
    rw [decide_eq_true (show k < f.1 - f.2.1 + 1 by omega), Nat.add_sub_cancel_left,
      Bool.true_and]
  · rw [decide_eq_false (show ¬ (k < f.1 - f.2.1 + 1) by omega), Bool.false_and,
      Nat.testBit_lt_two_pow
        (lt_of_lt_of_le hw4 (Nat.pow_le_pow_right (by omega) (by omega)))]
/-! ## The static-config entry codecs, `sja1105_static_config.c`

Every codec is one C function over `(buf, entry, op)`; it is modelled
as a pack/unpack pair over the same field windows.  Per-port loops of
the C code (`for (i = 0, offset = ...; ...)`) are unrolled.  A codec's
`canonical` predicate states exactly when the entry survives the
codec unchanged: every field value fits its packed width, array
fields have their declared length, and fields this codec does not
pack (those of the other device family) are zero. -/

def SIZE_SCHEDULE_ENTRY : Nat := 8
def SIZE_SCHEDULE_ENTRY_POINTS_ENTRY : Nat := 4
def SIZE_VL_LOOKUP_ENTRY : Nat := 12
def SIZE_VL_POLICING_ENTRY : Nat := 8
def SIZE_VL_FORWARDING_ENTRY : Nat := 4
def SIZE_L2_LOOKUP_ENTRY_ET : Nat := 12
def SIZE_L2_LOOKUP_ENTRY_PQRS : Nat := 20
def SIZE_L2_POLICING_ENTRY : Nat := 8
def SIZE_VLAN_LOOKUP_ENTRY : Nat := 8
def SIZE_L2_FORWARDING_ENTRY : Nat := 8
def SIZE_MAC_CONFIG_ENTRY_ET : Nat := 28
def SIZE_MAC_CONFIG_ENTRY_PQRS : Nat := 32
def SIZE_SCHEDULE_PARAMS_ENTRY : Nat := 12
def SIZE_SCHEDULE_ENTRY_POINTS_PARAMS_ENTRY : Nat := 4
def SIZE_VL_FORWARDING_PARAMS_ENTRY : Nat := 12
def SIZE_L2_LOOKUP_PARAMS_ENTRY_ET : Nat := 4
def SIZE_L2_LOOKUP_PARAMS_ENTRY_PQRS : Nat := 16
def SIZE_L2_FORWARDING_PARAMS_ENTRY : Nat := 12
def SIZE_CLK_SYNC_PARAMS_ENTRY : Nat := 52
def SIZE_AVB_PARAMS_ENTRY_ET : Nat := 12
def SIZE_AVB_PARAMS_ENTRY_PQRS : Nat := 16
def SIZE_GENERAL_PARAMS_ENTRY_ET : Nat := 40
def SIZE_GENERAL_PARAMS_ENTRY_PQRS : Nat := 44
def SIZE_RETAGGING_ENTRY : Nat := 8
def SIZE_XMII_PARAMS_ENTRY : Nat := 4
def SIZE_SGMII_ENTRY : Nat := 144

theorem list_eq_of_getD8 (l : List Nat) (h : l.length = 8) :
    [l.getD 0 0, l.getD 1 0, l.getD 2 0, l.getD 3 0, l.getD 4 0, l.getD 5 0,
     l.getD 6 0, l.getD 7 0] = l := by
  apply List.ext_getElem (by simp [h])
  intro i h1 h2
  have h8 : i < 8 := by simpa using h1
  have hg : l.getD i 0 = l[i] := List.getD_eq_getElem l 0 h2
  interval_cases i <;> simp_all

theorem list_eq_of_getD5 (l : List Nat) (h : l.length = 5) :
    [l.getD 0 0, l.getD 1 0, l.getD 2 0, l.getD 3 0, l.getD 4 0] = l := by
  apply List.ext_getElem (by simp [h])
  intro i h1 h2
  have h5 : i < 5 := by simpa using h1
  have hg : l.getD i 0 = l[i] := List.getD_eq_getElem l 0 h2
  interval_cases i <;> simp_all

def sja1105_schedule_entry_fields (x : ScheduleEntry) : List (Nat × Nat × Nat) :=
  [(63, 54, x.winstindex),
   (53, 53, x.winend),
   (52, 52, x.winst),
   (51, 47, x.destports),
   (46, 46, x.setvalid),
   (45, 45, x.txen),
   (44, 44, x.resmedia_en),
   (43, 36, x.resmedia),
   (35, 26, x.vlindex),
   (25, 8, x.delta)]

def sja1105_schedule_entry_pack (x : ScheduleEntry) (buf : List Nat) : List Nat :=
  packFieldsV SIZE_SCHEDULE_ENTRY (sja1105_schedule_entry_fields x) buf

def sja1105_schedule_entry_unpack (buf : List Nat) : ScheduleEntry :=
  ⟨sja1105_unpack buf 63 54 SIZE_SCHEDULE_ENTRY,
   sja1105_unpack buf 53 53 SIZE_SCHEDULE_ENTRY,
   sja1105_unpack buf 52 52 SIZE_SCHEDULE_ENTRY,
   sja1105_unpack buf 51 47 SIZE_SCHEDULE_ENTRY,
   sja1105_unpack buf 46 46 SIZE_SCHEDULE_ENTRY,
   sja1105_unpack buf 45 45 SIZE_SCHEDULE_ENTRY,
   sja1105_unpack buf 44 44 SIZE_SCHEDULE_ENTRY,
   sja1105_unpack buf 43 36 SIZE_SCHEDULE_ENTRY,
   sja1105_unpack buf 35 26 SIZE_SCHEDULE_ENTRY,
   sja1105_unpack buf 25 8 SIZE_SCHEDULE_ENTRY⟩

def sja1105_schedule_entry_canonical (x : ScheduleEntry) : Prop :=
  (∀ f ∈ sja1105_schedule_entry_fields x, wfField SIZE_SCHEDULE_ENTRY f)

instance (x : ScheduleEntry) : Decidable (sja1105_schedule_entry_canonical x) := by
  unfold sja1105_schedule_entry_canonical wfField
  infer_instance

theorem sja1105_schedule_entry_roundtrip (x : ScheduleEntry) (hc : sja1105_schedule_entry_canonical x) :
    sja1105_schedule_entry_unpack (sja1105_schedule_entry_pack x (List.replicate SIZE_SCHEDULE_ENTRY 0)) = x := by
  have hfit := hc
  have hv : ∀ f ∈ sja1105_schedule_entry_fields x, f.2.2 < 2 ^ (f.1 - f.2.1 + 1) :=
    fun f hf => (hfit f hf).2.2.2
  unfold sja1105_schedule_entry_unpack sja1105_schedule_entry_pack
  rw [packFieldsV_unpack_field _ _ [(63, 54), (53, 53), (52, 52), (51, 47), (46, 46), (45, 45), (44, 44), (43, 36), (35, 26), (25, 8)] _
      (by decide) (by simp) (by rfl) (by decide) (by decide) hv (63, 54, x.winstindex)
      (by simp [sja1105_schedule_entry_fields]),
    packFieldsV_unpack_field _ _ [(63, 54), (53, 53), (52, 52), (51, 47), (46, 46), (45, 45), (44, 44), (43, 36), (35, 26), (25, 8)] _
      (by decide) (by simp) (by rfl) (by decide) (by decide) hv (53, 53, x.winend)
      (by simp [sja1105_schedule_entry_fields]),
    packFieldsV_unpack_field _ _ [(63, 54), (53, 53), (52, 52), (51, 47), (46, 46), (45, 45), (44, 44), (43, 36), (35, 26), (25, 8)] _
      (by decide) (by simp) (by rfl) (by decide) (by decide) hv (52, 52, x.winst)
      (by simp [sja1105_schedule_entry_fields]),
    packFieldsV_unpack_field _ _ [(63, 54), (53, 53), (52, 52), (51, 47), (46, 46), (45, 45), (44, 44), (43, 36), (35, 26), (25, 8)] _
      (by decide) (by simp) (by rfl) (by decide) (by decide) hv (51, 47, x.destports)
      (by simp [sja1105_schedule_entry_fields]),
    packFieldsV_unpack_field _ _ [(63, 54), (53, 53), (52, 52), (51, 47), (46, 46), (45, 45), (44, 44), (43, 36), (35, 26), (25, 8)] _
      (by decide) (by simp) (by rfl) (by decide) (by decide) hv (46, 46, x.setvalid)
      (by simp [sja1105_schedule_entry_fields]),
    packFieldsV_unpack_field _ _ [(63, 54), (53, 53), (52, 52), (51, 47), (46, 46), (45, 45), (44, 44), (43, 36), (35, 26), (25, 8)] _
      (by decide) (by simp) (by rfl) (by decide) (by decide) hv (45, 45, x.txen)
      (by simp [sja1105_schedule_entry_fields]),
    packFieldsV_unpack_field _ _ [(63, 54), (53, 53), (52, 52), (51, 47), (46, 46), (45, 45), (44, 44), (43, 36), (35, 26), (25, 8)] _
      (by decide) (by simp) (by rfl) (by decide) (by decide) hv (44, 44, x.resmedia_en)
      (by simp [sja1105_schedule_entry_fields]),
    packFieldsV_unpack_field _ _ [(63, 54), (53, 53), (52, 52), (51, 47), (46, 46), (45, 45), (44, 44), (43, 36), (35, 26), (25, 8)] _
      (by decide) (by simp) (by rfl) (by decide) (by decide) hv (43, 36, x.resmedia)
      (by simp [sja1105_schedule_entry_fields]),
    packFieldsV_unpack_field _ _ [(63, 54), (53, 53), (52, 52), (51, 47), (46, 46), (45, 45), (44, 44), (43, 36), (35, 26), (25, 8)] _
      (by decide) (by simp) (by rfl) (by decide) (by decide) hv (35, 26, x.vlindex)
      (by simp [sja1105_schedule_entry_fields]),
    packFieldsV_unpack_field _ _ [(63, 54), (53, 53), (52, 52), (51, 47), (46, 46), (45, 45), (44, 44), (43, 36), (35, 26), (25, 8)] _
      (by decide) (by simp) (by rfl) (by decide) (by decide) hv (25, 8, x.delta)
      (by simp [sja1105_schedule_entry_fields])]

def sja1105_schedule_entry_points_entry_fields (x : ScheduleEntryPointsEntry) : List (Nat × Nat × Nat) :=
  [(31, 29, x.subschindx),
   (28, 11, x.delta),
   (10, 1, x.address)]

def sja1105_schedule_entry_points_entry_pack (x : ScheduleEntryPointsEntry) (buf : List Nat) : List Nat :=
  packFieldsV SIZE_SCHEDULE_ENTRY_POINTS_ENTRY (sja1105_schedule_entry_points_entry_fields x) buf

def sja1105_schedule_entry_points_entry_unpack (buf : List Nat) : ScheduleEntryPointsEntry :=
  ⟨sja1105_unpack buf 31 29 SIZE_SCHEDULE_ENTRY_POINTS_ENTRY,
   sja1105_unpack buf 28 11 SIZE_SCHEDULE_ENTRY_POINTS_ENTRY,
   sja1105_unpack buf 10 1 SIZE_SCHEDULE_ENTRY_POINTS_ENTRY⟩

def sja1105_schedule_entry_points_entry_canonical (x : ScheduleEntryPointsEntry) : Prop :=
  (∀ f ∈ sja1105_schedule_entry_points_entry_fields x, wfField SIZE_SCHEDULE_ENTRY_POINTS_ENTRY f)

instance (x : ScheduleEntryPointsEntry) : Decidable (sja1105_schedule_entry_points_entry_canonical x) := by
  unfold sja1105_schedule_entry_points_entry_canonical wfField
  infer_instance

theorem sja1105_schedule_entry_points_entry_roundtrip (x : ScheduleEntryPointsEntry) (hc : sja1105_schedule_entry_points_entry_canonical x) :
    sja1105_schedule_entry_points_entry_unpack (sja1105_schedule_entry_points_entry_pack x (List.replicate SIZE_SCHEDULE_ENTRY_POINTS_ENTRY 0)) = x := by
  have hfit := hc
  have hv : ∀ f ∈ sja1105_schedule_entry_points_entry_fields x, f.2.2 < 2 ^ (f.1 - f.2.1 + 1) :=
    fun f hf => (hfit f hf).2.2.2
  unfold sja1105_schedule_entry_points_entry_unpack sja1105_schedule_entry_points_entry_pack
  rw [packFieldsV_unpack_field _ _ [(31, 29), (28, 11), (10, 1)] _
      (by decide) (by simp) (by rfl) (by decide) (by decide) hv (31, 29, x.subschindx)
      (by simp [sja1105_schedule_entry_points_entry_fields]),
    packFieldsV_unpack_field _ _ [(31, 29), (28, 11), (10, 1)] _
      (by decide) (by simp) (by rfl) (by decide) (by decide) hv (28, 11, x.delta)
      (by simp [sja1105_schedule_entry_points_entry_fields]),
    packFieldsV_unpack_field _ _ [(31, 29), (28, 11), (10, 1)] _
      (by decide) (by simp) (by rfl) (by decide) (by decide) hv (10, 1, x.address)
      (by simp [sja1105_schedule_entry_points_entry_fields])]

def sja1105_schedule_params_entry_fields (x : ScheduleParamsEntry) : List (Nat × Nat × Nat) :=
  [(25, 16, x.subscheind.getD 0 0),
   (35, 26, x.subscheind.getD 1 0),
   (45, 36, x.subscheind.getD 2 0),
   (55, 46, x.subscheind.getD 3 0),
   (65, 56, x.subscheind.getD 4 0),
   (75, 66, x.subscheind.getD 5 0),
   (85, 76, x.subscheind.getD 6 0),
   (95, 86, x.subscheind.getD 7 0)]

def sja1105_schedule_params_entry_pack (x : ScheduleParamsEntry) (buf : List Nat) : List Nat :=
  packFieldsV SIZE_SCHEDULE_PARAMS_ENTRY (sja1105_schedule_params_entry_fields x) buf

def sja1105_schedule_params_entry_unpack (buf : List Nat) : ScheduleParamsEntry :=
  ⟨[sja1105_unpack buf 25 16 SIZE_SCHEDULE_PARAMS_ENTRY,
    sja1105_unpack buf 35 26 SIZE_SCHEDULE_PARAMS_ENTRY,
    sja1105_unpack buf 45 36 SIZE_SCHEDULE_PARAMS_ENTRY,
    sja1105_unpack buf 55 46 SIZE_SCHEDULE_PARAMS_ENTRY,
    sja1105_unpack buf 65 56 SIZE_SCHEDULE_PARAMS_ENTRY,
    sja1105_unpack buf 75 66 SIZE_SCHEDULE_PARAMS_ENTRY,
    sja1105_unpack buf 85 76 SIZE_SCHEDULE_PARAMS_ENTRY,
    sja1105_unpack buf 95 86 SIZE_SCHEDULE_PARAMS_ENTRY]⟩

def sja1105_schedule_params_entry_canonical (x : ScheduleParamsEntry) : Prop :=
  (∀ f ∈ sja1105_schedule_params_entry_fields x, wfField SIZE_SCHEDULE_PARAMS_ENTRY f) ∧
  x.subscheind.length = 8

instance (x : ScheduleParamsEntry) : Decidable (sja1105_schedule_params_entry_canonical x) := by
  unfold sja1105_schedule_params_entry_canonical wfField
  infer_instance

theorem sja1105_schedule_params_entry_roundtrip (x : ScheduleParamsEntry) (hc : sja1105_schedule_params_entry_canonical x) :
    sja1105_schedule_params_entry_unpack (sja1105_schedule_params_entry_pack x (List.replicate SIZE_SCHEDULE_PARAMS_ENTRY 0)) = x := by
  obtain ⟨hfit, hl_subscheind⟩ := hc
  have hv : ∀ f ∈ sja1105_schedule_params_entry_fields x, f.2.2 < 2 ^ (f.1 - f.2.1 + 1) :=
    fun f hf => (hfit f hf).2.2.2
  unfold sja1105_schedule_params_entry_unpack sja1105_schedule_params_entry_pack
  rw [packFieldsV_unpack_field _ _ [(25, 16), (35, 26), (45, 36), (55, 46), (65, 56), (75, 66), (85, 76), (95, 86)] _
      (by decide) (by simp) (by rfl) (by decide) (by decide) hv (25, 16, x.subscheind.getD 0 0)
      (by simp [sja1105_schedule_params_entry_fields]),
    packFieldsV_unpack_field _ _ [(25, 16), (35, 26), (45, 36), (55, 46), (65, 56), (75, 66), (85, 76), (95, 86)] _
      (by decide) (by simp) (by rfl) (by decide) (by decide) hv (35, 26, x.subscheind.getD 1 0)
      (by simp [sja1105_schedule_params_entry_fields]),
    packFieldsV_unpack_field _ _ [(25, 16), (35, 26), (45, 36), (55, 46), (65, 56), (75, 66), (85, 76), (95, 86)] _
      (by decide) (by simp) (by rfl) (by decide) (by decide) hv (45, 36, x.subscheind.getD 2 0)
      (by simp [sja1105_schedule_params_entry_fields]),
    packFieldsV_unpack_field _ _ [(25, 16), (35, 26), (45, 36), (55, 46), (65, 56), (75, 66), (85, 76), (95, 86)] _
      (by decide) (by simp) (by rfl) (by decide) (by decide) hv (55, 46, x.subscheind.getD 3 0)
      (by simp [sja1105_schedule_params_entry_fields]),
    packFieldsV_unpack_field _ _ [(25, 16), (35, 26), (45, 36), (55, 46), (65, 56), (75, 66), (85, 76), (95, 86)] _
      (by decide) (by simp) (by rfl) (by decide) (by decide) hv (65, 56, x.subscheind.getD 4 0)
      (by simp [sja1105_schedule_params_entry_fields]),
    packFieldsV_unpack_field _ _ [(25, 16), (35, 26), (45, 36), (55, 46), (65, 56), (75, 66), (85, 76), (95, 86)] _
      (by decide) (by simp) (by rfl) (by decide) (by decide) hv (75, 66, x.subscheind.getD 5 0)
      (by simp [sja1105_schedule_params_entry_fields]),
    packFieldsV_unpack_field _ _ [(25, 16), (35, 26), (45, 36), (55, 46), (65, 56), (75, 66), (85, 76), (95, 86)] _
      (by decide) (by simp) (by rfl) (by decide) (by decide) hv (85, 76, x.subscheind.getD 6 0)
      (by simp [sja1105_schedule_params_entry_fields]),
    packFieldsV_unpack_field _ _ [(25, 16), (35, 26), (45, 36), (55, 46), (65, 56), (75, 66), (85, 76), (95, 86)] _
      (by decide) (by simp) (by rfl) (by decide) (by decide) hv (95, 86, x.subscheind.getD 7 0)
      (by simp [sja1105_schedule_params_entry_fields])]
  rw [list_eq_of_getD8 x.subscheind hl_subscheind]

def sja1105_schedule_entry_points_params_entry_fields (x : ScheduleEntryPointsParamsEntry) : List (Nat × Nat × Nat) :=
  [(31, 30, x.clksrc),
   (29, 27, x.actsubsch)]

def sja1105_schedule_entry_points_params_entry_pack (x : ScheduleEntryPointsParamsEntry) (buf : List Nat) : List Nat :=
  packFieldsV SIZE_SCHEDULE_ENTRY_POINTS_PARAMS_ENTRY (sja1105_schedule_entry_points_params_entry_fields x) buf

def sja1105_schedule_entry_points_params_entry_unpack (buf : List Nat) : ScheduleEntryPointsParamsEntry :=
  ⟨sja1105_unpack buf 31 30 SIZE_SCHEDULE_ENTRY_POINTS_PARAMS_ENTRY,
   sja1105_unpack buf 29 27 SIZE_SCHEDULE_ENTRY_POINTS_PARAMS_ENTRY⟩

def sja1105_schedule_entry_points_params_entry_canonical (x : ScheduleEntryPointsParamsEntry) : Prop :=
  (∀ f ∈ sja1105_schedule_entry_points_params_entry_fields x, wfField SIZE_SCHEDULE_ENTRY_POINTS_PARAMS_ENTRY f)

instance (x : ScheduleEntryPointsParamsEntry) : Decidable (sja1105_schedule_entry_points_params_entry_canonical x) := by
  unfold sja1105_schedule_entry_points_params_entry_canonical wfField
  infer_instance

theorem sja1105_schedule_entry_points_params_entry_roundtrip (x : ScheduleEntryPointsParamsEntry) (hc : sja1105_schedule_entry_points_params_entry_canonical x) :
    sja1105_schedule_entry_points_params_entry_unpack (sja1105_schedule_entry_points_params_entry_pack x (List.replicate SIZE_SCHEDULE_ENTRY_POINTS_PARAMS_ENTRY 0)) = x := by
  have hfit := hc
  have hv : ∀ f ∈ sja1105_schedule_entry_points_params_entry_fields x, f.2.2 < 2 ^ (f.1 - f.2.1 + 1) :=
    fun f hf => (hfit f hf).2.2.2
  unfold sja1105_schedule_entry_points_params_entry_unpack sja1105_schedule_entry_points_params_entry_pack
  rw [packFieldsV_unpack_field _ _ [(31, 30), (29, 27)] _
      (by decide) (by simp) (by rfl) (by decide) (by decide) hv (31, 30, x.clksrc)
      (by simp [sja1105_schedule_entry_points_params_entry_fields]),
    packFieldsV_unpack_field _ _ [(31, 30), (29, 27)] _
      (by decide) (by simp) (by rfl) (by decide) (by decide) hv (29, 27, x.actsubsch)
      (by simp [sja1105_schedule_entry_points_params_entry_fields])]

def sja1105_vl_forwarding_entry_fields (x : VlForwardingEntry) : List (Nat × Nat × Nat) :=
  [(31, 31, x.type),
   (30, 28, x.priority),
   (27, 25, x.partition),
   (24, 20, x.destports)]

def sja1105_vl_forwarding_entry_pack (x : VlForwardingEntry) (buf : List Nat) : List Nat :=
  packFieldsV SIZE_VL_FORWARDING_ENTRY (sja1105_vl_forwarding_entry_fields x) buf

def sja1105_vl_forwarding_entry_unpack (buf : List Nat) : VlForwardingEntry :=
  ⟨sja1105_unpack buf 31 31 SIZE_VL_FORWARDING_ENTRY,
   sja1105_unpack buf 30 28 SIZE_VL_FORWARDING_ENTRY,
   sja1105_unpack buf 27 25 SIZE_VL_FORWARDING_ENTRY,
   sja1105_unpack buf 24 20 SIZE_VL_FORWARDING_ENTRY⟩

def sja1105_vl_forwarding_entry_canonical (x : VlForwardingEntry) : Prop :=
  (∀ f ∈ sja1105_vl_forwarding_entry_fields x, wfField SIZE_VL_FORWARDING_ENTRY f)

instance (x : VlForwardingEntry) : Decidable (sja1105_vl_forwarding_entry_canonical x) := by
  unfold sja1105_vl_forwarding_entry_canonical wfField
  infer_instance

theorem sja1105_vl_forwarding_entry_roundtrip (x : VlForwardingEntry) (hc : sja1105_vl_forwarding_entry_canonical x) :
    sja1105_vl_forwarding_entry_unpack (sja1105_vl_forwarding_entry_pack x (List.replicate SIZE_VL_FORWARDING_ENTRY 0)) = x := by
  have hfit := hc
  have hv : ∀ f ∈ sja1105_vl_forwarding_entry_fields x, f.2.2 < 2 ^ (f.1 - f.2.1 + 1) :=
    fun f hf => (hfit f hf).2.2.2
  unfold sja1105_vl_forwarding_entry_unpack sja1105_vl_forwarding_entry_pack
  rw [packFieldsV_unpack_field _ _ [(31, 31), (30, 28), (27, 25), (24, 20)] _
      (by decide) (by simp) (by rfl) (by decide) (by decide) hv (31, 31, x.type)
      (by simp [sja1105_vl_forwarding_entry_fields]),
    packFieldsV_unpack_field _ _ [(31, 31), (30, 28), (27, 25), (24, 20)] _
      (by decide) (by simp) (by rfl) (by decide) (by decide) hv (30, 28, x.priority)
      (by simp [sja1105_vl_forwarding_entry_fields]),
    packFieldsV_unpack_field _ _ [(31, 31), (30, 28), (27, 25), (24, 20)] _
      (by decide) (by simp) (by rfl) (by decide) (by decide) hv (27, 25, x.partition)
      (by simp [sja1105_vl_forwarding_entry_fields]),
    packFieldsV_unpack_field _ _ [(31, 31), (30, 28), (27, 25), (24, 20)] _
      (by decide) (by simp) (by rfl) (by decide) (by decide) hv (24, 20, x.destports)
      (by simp [sja1105_vl_forwarding_entry_fields])]

def sja1105_vl_forwarding_params_entry_fields (x : VlForwardingParamsEntry) : List (Nat × Nat × Nat) :=
  [(25, 16, x.partspc.getD 0 0),
   (35, 26, x.partspc.getD 1 0),
   (45, 36, x.partspc.getD 2 0),
   (55, 46, x.partspc.getD 3 0),
   (65, 56, x.partspc.getD 4 0),
   (75, 66, x.partspc.getD 5 0),
   (85, 76, x.partspc.getD 6 0),
   (95, 86, x.partspc.getD 7 0),
   (15, 15, x.debugen)]

def sja1105_vl_forwarding_params_entry_pack (x : VlForwardingParamsEntry) (buf : List Nat) : List Nat :=
  packFieldsV SIZE_VL_FORWARDING_PARAMS_ENTRY (sja1105_vl_forwarding_params_entry_fields x) buf

def sja1105_vl_forwarding_params_entry_unpack (buf : List Nat) : VlForwardingParamsEntry :=
  ⟨[sja1105_unpack buf 25 16 SIZE_VL_FORWARDING_PARAMS_ENTRY,
    sja1105_unpack buf 35 26 SIZE_VL_FORWARDING_PARAMS_ENTRY,
    sja1105_unpack buf 45 36 SIZE_VL_FORWARDING_PARAMS_ENTRY,
    sja1105_unpack buf 55 46 SIZE_VL_FORWARDING_PARAMS_ENTRY,
    sja1105_unpack buf 65 56 SIZE_VL_FORWARDING_PARAMS_ENTRY,
    sja1105_unpack buf 75 66 SIZE_VL_FORWARDING_PARAMS_ENTRY,
    sja1105_unpack buf 85 76 SIZE_VL_FORWARDING_PARAMS_ENTRY,
    sja1105_unpack buf 95 86 SIZE_VL_FORWARDING_PARAMS_ENTRY],
   sja1105_unpack buf 15 15 SIZE_VL_FORWARDING_PARAMS_ENTRY⟩

def sja1105_vl_forwarding_params_entry_canonical (x : VlForwardingParamsEntry) : Prop :=
  (∀ f ∈ sja1105_vl_forwarding_params_entry_fields x, wfField SIZE_VL_FORWARDING_PARAMS_ENTRY f) ∧
  x.partspc.length = 8

instance (x : VlForwardingParamsEntry) : Decidable (sja1105_vl_forwarding_params_entry_canonical x) := by
  unfold sja1105_vl_forwarding_params_entry_canonical wfField
  infer_instance

theorem sja1105_vl_forwarding_params_entry_roundtrip (x : VlForwardingParamsEntry) (hc : sja1105_vl_forwarding_params_entry_canonical x) :
    sja1105_vl_forwarding_params_entry_unpack (sja1105_vl_forwarding_params_entry_pack x (List.replicate SIZE_VL_FORWARDING_PARAMS_ENTRY 0)) = x := by
  obtain ⟨hfit, hl_partspc⟩ := hc
  have hv : ∀ f ∈ sja1105_vl_forwarding_params_entry_fields x, f.2.2 < 2 ^ (f.1 - f.2.1 + 1) :=
    fun f hf => (hfit f hf).2.2.2
  unfold sja1105_vl_forwarding_params_entry_unpack sja1105_vl_forwarding_params_entry_pack
  rw [packFieldsV_unpack_field _ _ [(25, 16), (35, 26), (45, 36), (55, 46), (65, 56), (75, 66), (85, 76), (95, 86), (15, 15)] _
      (by decide) (by simp) (by rfl) (by decide) (by decide) hv (25, 16, x.partspc.getD 0 0)
      (by simp [sja1105_vl_forwarding_params_entry_fields]),
    packFieldsV_unpack_field _ _ [(25, 16), (35, 26), (45, 36), (55, 46), (65, 56), (75, 66), (85, 76), (95, 86), (15, 15)] _
      (by decide) (by simp) (by rfl) (by decide) (by decide) hv (35, 26, x.partspc.getD 1 0)
      (by simp [sja1105_vl_forwarding_params_entry_fields]),
    packFieldsV_unpack_field _ _ [(25, 16), (35, 26), (45, 36), (55, 46), (65, 56), (75, 66), (85, 76), (95, 86), (15, 15)] _
      (by decide) (by simp) (by rfl) (by decide) (by decide) hv (45, 36, x.partspc.getD 2 0)
      (by simp [sja1105_vl_forwarding_params_entry_fields]),
    packFieldsV_unpack_field _ _ [(25, 16), (35, 26), (45, 36), (55, 46), (65, 56), (75, 66), (85, 76), (95, 86), (15, 15)] _
      (by decide) (by simp) (by rfl) (by decide) (by decide) hv (55, 46, x.partspc.getD 3 0)
      (by simp [sja1105_vl_forwarding_params_entry_fields]),
    packFieldsV_unpack_field _ _ [(25, 16), (35, 26), (45, 36), (55, 46), (65, 56), (75, 66), (85, 76), (95, 86), (15, 15)] _
      (by decide) (by simp) (by rfl) (by decide) (by decide) hv (65, 56, x.partspc.getD 4 0)
      (by simp [sja1105_vl_forwarding_params_entry_fields]),
    packFieldsV_unpack_field _ _ [(25, 16), (35, 26), (45, 36), (55, 46), (65, 56), (75, 66), (85, 76), (95, 86), (15, 15)] _
      (by decide) (by simp) (by rfl) (by decide) (by decide) hv (75, 66, x.partspc.getD 5 0)
      (by simp [sja1105_vl_forwarding_params_entry_fields]),
    packFieldsV_unpack_field _ _ [(25, 16), (35, 26), (45, 36), (55, 46), (65, 56), (75, 66), (85, 76), (95, 86), (15, 15)] _
      (by decide) (by simp) (by rfl) (by decide) (by decide) hv (85, 76, x.partspc.getD 6 0)
      (by simp [sja1105_vl_forwarding_params_entry_fields]),
    packFieldsV_unpack_field _ _ [(25, 16), (35, 26), (45, 36), (55, 46), (65, 56), (75, 66), (85, 76), (95, 86), (15, 15)] _
      (by decide) (by simp) (by rfl) (by decide) (by decide) hv (95, 86, x.partspc.getD 7 0)
      (by simp [sja1105_vl_forwarding_params_entry_fields]),
    packFieldsV_unpack_field _ _ [(25, 16), (35, 26), (45, 36), (55, 46), (65, 56), (75, 66), (85, 76), (95, 86), (15, 15)] _
      (by decide) (by simp) (by rfl) (by decide) (by decide) hv (15, 15, x.debugen)
      (by simp [sja1105_vl_forwarding_params_entry_fields])]
  rw [list_eq_of_getD8 x.partspc hl_partspc]

def sja1105et_l2_lookup_entry_fields (x : L2LookupEntry) : List (Nat × Nat × Nat) :=
  [(95, 84, x.vlanid),
   (83, 36, x.macaddr),
   (35, 31, x.destports),
   (30, 30, x.enfport),
   (29, 20, x.index)]

def sja1105et_l2_lookup_entry_pack (x : L2LookupEntry) (buf : List Nat) : List Nat :=
  packFieldsV SIZE_L2_LOOKUP_ENTRY_ET (sja1105et_l2_lookup_entry_fields x) buf

def sja1105et_l2_lookup_entry_unpack (buf : List Nat) : L2LookupEntry :=
  ⟨0,
   0,
   0,
   0,
   0,
   0,
   0,
   sja1105_unpack buf 95 84 SIZE_L2_LOOKUP_ENTRY_ET,
   sja1105_unpack buf 83 36 SIZE_L2_LOOKUP_ENTRY_ET,
   sja1105_unpack buf 35 31 SIZE_L2_LOOKUP_ENTRY_ET,
   sja1105_unpack buf 30 30 SIZE_L2_LOOKUP_ENTRY_ET,
   sja1105_unpack buf 29 20 SIZE_L2_LOOKUP_ENTRY_ET⟩

def sja1105et_l2_lookup_entry_canonical (x : L2LookupEntry) : Prop :=
  (∀ f ∈ sja1105et_l2_lookup_entry_fields x, wfField SIZE_L2_LOOKUP_ENTRY_ET f) ∧
  x.mirrvlan = 0 ∧
  x.mirr = 0 ∧
  x.retag = 0 ∧
  x.mask_iotag = 0 ∧
  x.mask_vlanid = 0 ∧
  x.mask_macaddr = 0 ∧
  x.iotag = 0

instance (x : L2LookupEntry) : Decidable (sja1105et_l2_lookup_entry_canonical x) := by
  unfold sja1105et_l2_lookup_entry_canonical wfField
  infer_instance

theorem sja1105et_l2_lookup_entry_roundtrip (x : L2LookupEntry) (hc : sja1105et_l2_lookup_entry_canonical x) :
    sja1105et_l2_lookup_entry_unpack (sja1105et_l2_lookup_entry_pack x (List.replicate SIZE_L2_LOOKUP_ENTRY_ET 0)) = x := by
  obtain ⟨hfit, hz_mirrvlan, hz_mirr, hz_retag, hz_mask_iotag, hz_mask_vlanid, hz_mask_macaddr, hz_iotag⟩ := hc
  have hv : ∀ f ∈ sja1105et_l2_lookup_entry_fields x, f.2.2 < 2 ^ (f.1 - f.2.1 + 1) :=
    fun f hf => (hfit f hf).2.2.2
  unfold sja1105et_l2_lookup_entry_unpack sja1105et_l2_lookup_entry_pack
  rw [packFieldsV_unpack_field _ _ [(95, 84), (83, 36), (35, 31), (30, 30), (29, 20)] _
      (by decide) (by simp) (by rfl) (by decide) (by decide) hv (95, 84, x.vlanid)
      (by simp [sja1105et_l2_lookup_entry_fields]),
    packFieldsV_unpack_field _ _ [(95, 84), (83, 36), (35, 31), (30, 30), (29, 20)] _
      (by decide) (by simp) (by rfl) (by decide) (by decide) hv (83, 36, x.macaddr)
      (by simp [sja1105et_l2_lookup_entry_fields]),
    packFieldsV_unpack_field _ _ [(95, 84), (83, 36), (35, 31), (30, 30), (29, 20)] _
      (by decide) (by simp) (by rfl) (by decide) (by decide) hv (35, 31, x.destports)
      (by simp [sja1105et_l2_lookup_entry_fields]),
    packFieldsV_unpack_field _ _ [(95, 84), (83, 36), (35, 31), (30, 30), (29, 20)] _
      (by decide) (by simp) (by rfl) (by decide) (by decide) hv (30, 30, x.enfport)
      (by simp [sja1105et_l2_lookup_entry_fields]),
    packFieldsV_unpack_field _ _ [(95, 84), (83, 36), (35, 31), (30, 30), (29, 20)] _
      (by decide) (by simp) (by rfl) (by decide) (by decide) hv (29, 20, x.index)
      (by simp [sja1105et_l2_lookup_entry_fields])]
  show (⟨(0 : Nat), (0 : Nat), (0 : Nat), (0 : Nat), (0 : Nat), (0 : Nat), (0 : Nat), x.vlanid, x.macaddr, x.destports, x.enfport, x.index⟩ : L2LookupEntry) = ⟨x.mirrvlan, x.mirr, x.retag, x.mask_iotag, x.mask_vlanid, x.mask_macaddr, x.iotag, x.vlanid, x.macaddr, x.destports, x.enfport, x.index⟩
  simp only [L2LookupEntry.mk.injEq, and_true, true_and]
  exact ⟨hz_mirrvlan.symm, hz_mirr.symm, hz_retag.symm, hz_mask_iotag.symm, hz_mask_vlanid.symm, hz_mask_macaddr.symm, hz_iotag.symm⟩

def sja1105pqrs_l2_lookup_entry_fields (x : L2LookupEntry) : List (Nat × Nat × Nat) :=
  [(158, 147, x.mirrvlan),
   (145, 145, x.mirr),
   (144, 144, x.retag),
   (143, 143, x.mask_iotag),
   (142, 131, x.mask_vlanid),
   (130, 83, x.mask_macaddr),
   (82, 82, x.iotag),
   (81, 70, x.vlanid),
   (69, 22, x.macaddr),
   (21, 17, x.destports),
   (16, 16, x.enfport),
   (15, 6, x.index)]

def sja1105pqrs_l2_lookup_entry_pack (x : L2LookupEntry) (buf : List Nat) : List Nat :=
  packFieldsV SIZE_L2_LOOKUP_ENTRY_PQRS (sja1105pqrs_l2_lookup_entry_fields x) buf

def sja1105pqrs_l2_lookup_entry_unpack (buf : List Nat) : L2LookupEntry :=
  ⟨sja1105_unpack buf 158 147 SIZE_L2_LOOKUP_ENTRY_PQRS,
   sja1105_unpack buf 145 145 SIZE_L2_LOOKUP_ENTRY_PQRS,
   sja1105_unpack buf 144 144 SIZE_L2_LOOKUP_ENTRY_PQRS,
   sja1105_unpack buf 143 143 SIZE_L2_LOOKUP_ENTRY_PQRS,
   sja1105_unpack buf 142 131 SIZE_L2_LOOKUP_ENTRY_PQRS,
   sja1105_unpack buf 130 83 SIZE_L2_LOOKUP_ENTRY_PQRS,
   sja1105_unpack buf 82 82 SIZE_L2_LOOKUP_ENTRY_PQRS,
   sja1105_unpack buf 81 70 SIZE_L2_LOOKUP_ENTRY_PQRS,
   sja1105_unpack buf 69 22 SIZE_L2_LOOKUP_ENTRY_PQRS,
   sja1105_unpack buf 21 17 SIZE_L2_LOOKUP_ENTRY_PQRS,
   sja1105_unpack buf 16 16 SIZE_L2_LOOKUP_ENTRY_PQRS,
   sja1105_unpack buf 15 6 SIZE_L2_LOOKUP_ENTRY_PQRS⟩

def sja1105pqrs_l2_lookup_entry_canonical (x : L2LookupEntry) : Prop :=
  (∀ f ∈ sja1105pqrs_l2_lookup_entry_fields x, wfField SIZE_L2_LOOKUP_ENTRY_PQRS f)

instance (x : L2LookupEntry) : Decidable (sja1105pqrs_l2_lookup_entry_canonical x) := by
  unfold sja1105pqrs_l2_lookup_entry_canonical wfField
  infer_instance

theorem sja1105pqrs_l2_lookup_entry_roundtrip (x : L2LookupEntry) (hc : sja1105pqrs_l2_lookup_entry_canonical x) :
    sja1105pqrs_l2_lookup_entry_unpack (sja1105pqrs_l2_lookup_entry_pack x (List.replicate SIZE_L2_LOOKUP_ENTRY_PQRS 0)) = x := by
  have hfit := hc
  have hv : ∀ f ∈ sja1105pqrs_l2_lookup_entry_fields x, f.2.2 < 2 ^ (f.1 - f.2.1 + 1) :=
    fun f hf => (hfit f hf).2.2.2
  unfold sja1105pqrs_l2_lookup_entry_unpack sja1105pqrs_l2_lookup_entry_pack
  rw [packFieldsV_unpack_field _ _ [(158, 147), (145, 145), (144, 144), (143, 143), (142, 131), (130, 83), (82, 82), (81, 70), (69, 22), (21, 17), (16, 16), (15, 6)] _
      (by decide) (by simp) (by rfl) (by decide) (by decide) hv (158, 147, x.mirrvlan)
      (by simp [sja1105pqrs_l2_lookup_entry_fields]),
    packFieldsV_unpack_field _ _ [(158, 147), (145, 145), (144, 144), (143, 143), (142, 131), (130, 83), (82, 82), (81, 70), (69, 22), (21, 17), (16, 16), (15, 6)] _
      (by decide) (by simp) (by rfl) (by decide) (by decide) hv (145, 145, x.mirr)
      (by simp [sja1105pqrs_l2_lookup_entry_fields]),
    packFieldsV_unpack_field _ _ [(158, 147), (145, 145), (144, 144), (143, 143), (142, 131), (130, 83), (82, 82), (81, 70), (69, 22), (21, 17), (16, 16), (15, 6)] _
      (by decide) (by simp) (by rfl) (by decide) (by decide) hv (144, 144, x.retag)
      (by simp [sja1105pqrs_l2_lookup_entry_fields]),
    packFieldsV_unpack_field _ _ [(158, 147), (145, 145), (144, 144), (143, 143), (142, 131), (130, 83), (82, 82), (81, 70), (69, 22), (21, 17), (16, 16), (15, 6)] _
      (by decide) (by simp) (by rfl) (by decide) (by decide) hv (143, 143, x.mask_iotag)
      (by simp [sja1105pqrs_l2_lookup_entry_fields]),
    packFieldsV_unpack_field _ _ [(158, 147), (145, 145), (144, 144), (143, 143), (142, 131), (130, 83), (82, 82), (81, 70), (69, 22), (21, 17), (16, 16), (15, 6)] _
      (by decide) (by simp) (by rfl) (by decide) (by decide) hv (142, 131, x.mask_vlanid)
      (by simp [sja1105pqrs_l2_lookup_entry_fields]),
    packFieldsV_unpack_field _ _ [(158, 147), (145, 145), (144, 144), (143, 143), (142, 131), (130, 83), (82, 82), (81, 70), (69, 22), (21, 17), (16, 16), (15, 6)] _
      (by decide) (by simp) (by rfl) (by decide) (by decide) hv (130, 83, x.mask_macaddr)
      (by simp [sja1105pqrs_l2_lookup_entry_fields]),
    packFieldsV_unpack_field _ _ [(158, 147), (145, 145), (144, 144), (143, 143), (142, 131), (130, 83), (82, 82), (81, 70), (69, 22), (21, 17), (16, 16), (15, 6)] _
      (by decide) (by simp) (by rfl) (by decide) (by decide) hv (82, 82, x.iotag)
      (by simp [sja1105pqrs_l2_lookup_entry_fields]),
    packFieldsV_unpack_field _ _ [(158, 147), (145, 145), (144, 144), (143, 143), (142, 131), (130, 83), (82, 82), (81, 70), (69, 22), (21, 17), (16, 16), (15, 6)] _
      (by decide) (by simp) (by rfl) (by decide) (by decide) hv (81, 70, x.vlanid)
      (by simp [sja1105pqrs_l2_lookup_entry_fields]),
    packFieldsV_unpack_field _ _ [(158, 147), (145, 145), (144, 144), (143, 143), (142, 131), (130, 83), (82, 82), (81, 70), (69, 22), (21, 17), (16, 16), (15, 6)] _
      (by decide) (by simp) (by rfl) (by decide) (by decide) hv (69, 22, x.macaddr)
      (by simp [sja1105pqrs_l2_lookup_entry_fields]),
    packFieldsV_unpack_field _ _ [(158, 147), (145, 145), (144, 144), (143, 143), (142, 131), (130, 83), (82, 82), (81, 70), (69, 22), (21, 17), (16, 16), (15, 6)] _
      (by decide) (by simp) (by rfl) (by decide) (by decide) hv (21, 17, x.destports)
      (by simp [sja1105pqrs_l2_lookup_entry_fields]),
    packFieldsV_unpack_field _ _ [(158, 147), (145, 145), (144, 144), (143, 143), (142, 131), (130, 83), (82, 82), (81, 70), (69, 22), (21, 17), (16, 16), (15, 6)] _
      (by decide) (by simp) (by rfl) (by decide) (by decide) hv (16, 16, x.enfport)
      (by simp [sja1105pqrs_l2_lookup_entry_fields]),
    packFieldsV_unpack_field _ _ [(158, 147), (145, 145), (144, 144), (143, 143), (142, 131), (130, 83), (82, 82), (81, 70), (69, 22), (21, 17), (16, 16), (15, 6)] _
      (by decide) (by simp) (by rfl) (by decide) (by decide) hv (15, 6, x.index)
      (by simp [sja1105pqrs_l2_lookup_entry_fields])]

def sja1105_l2_policing_entry_fields (x : L2PolicingEntry) : List (Nat × Nat × Nat) :=
  [(63, 58, x.sharindx),
   (57, 42, x.smax),
   (41, 26, x.rate),
   (25, 15, x.maxlen),
   (14, 12, x.partition)]

def sja1105_l2_policing_entry_pack (x : L2PolicingEntry) (buf : List Nat) : List Nat :=
  packFieldsV SIZE_L2_POLICING_ENTRY (sja1105_l2_policing_entry_fields x) buf

def sja1105_l2_policing_entry_unpack (buf : List Nat) : L2PolicingEntry :=
  ⟨sja1105_unpack buf 63 58 SIZE_L2_POLICING_ENTRY,
   sja1105_unpack buf 57 42 SIZE_L2_POLICING_ENTRY,
   sja1105_unpack buf 41 26 SIZE_L2_POLICING_ENTRY,
   sja1105_unpack buf 25 15 SIZE_L2_POLICING_ENTRY,
   sja1105_unpack buf 14 12 SIZE_L2_POLICING_ENTRY⟩

def sja1105_l2_policing_entry_canonical (x : L2PolicingEntry) : Prop :=
  (∀ f ∈ sja1105_l2_policing_entry_fields x, wfField SIZE_L2_POLICING_ENTRY f)

instance (x : L2PolicingEntry) : Decidable (sja1105_l2_policing_entry_canonical x) := by
  unfold sja1105_l2_policing_entry_canonical wfField
  infer_instance

theorem sja1105_l2_policing_entry_roundtrip (x : L2PolicingEntry) (hc : sja1105_l2_policing_entry_canonical x) :
    sja1105_l2_policing_entry_unpack (sja1105_l2_policing_entry_pack x (List.replicate SIZE_L2_POLICING_ENTRY 0)) = x := by
  have hfit := hc
  have hv : ∀ f ∈ sja1105_l2_policing_entry_fields x, f.2.2 < 2 ^ (f.1 - f.2.1 + 1) :=
    fun f hf => (hfit f hf).2.2.2
  unfold sja1105_l2_policing_entry_unpack sja1105_l2_policing_entry_pack
  rw [packFieldsV_unpack_field _ _ [(63, 58), (57, 42), (41, 26), (25, 15), (14, 12)] _
      (by decide) (by simp) (by rfl) (by decide) (by decide) hv (63, 58, x.sharindx)
      (by simp [sja1105_l2_policing_entry_fields]),
    packFieldsV_unpack_field _ _ [(63, 58), (57, 42), (41, 26), (25, 15), (14, 12)] _
      (by decide) (by simp) (by rfl) (by decide) (by decide) hv (57, 42, x.smax)
      (by simp [sja1105_l2_policing_entry_fields]),
    packFieldsV_unpack_field _ _ [(63, 58), (57, 42), (41, 26), (25, 15), (14, 12)] _
      (by decide) (by simp) (by rfl) (by decide) (by decide) hv (41, 26, x.rate)
      (by simp [sja1105_l2_policing_entry_fields]),
    packFieldsV_unpack_field _ _ [(63, 58), (57, 42), (41, 26), (25, 15), (14, 12)] _
      (by decide) (by simp) (by rfl) (by decide) (by decide) hv (25, 15, x.maxlen)
      (by simp [sja1105_l2_policing_entry_fields]),
    packFieldsV_unpack_field _ _ [(63, 58), (57, 42), (41, 26), (25, 15), (14, 12)] _
      (by decide) (by simp) (by rfl) (by decide) (by decide) hv (14, 12, x.partition)
      (by simp [sja1105_l2_policing_entry_fields])]

def sja1105_vlan_lookup_entry_fields (x : VlanLookupEntry) : List (Nat × Nat × Nat) :=
  [(63, 59, x.ving_mirr),
   (58, 54, x.vegr_mirr),
   (53, 49, x.vmemb_port),
   (48, 44, x.vlan_bc),
   (43, 39, x.tag_port),
   (38, 27, x.vlanid)]

def sja1105_vlan_lookup_entry_pack (x : VlanLookupEntry) (buf : List Nat) : List Nat :=
  packFieldsV SIZE_VLAN_LOOKUP_ENTRY (sja1105_vlan_lookup_entry_fields x) buf

def sja1105_vlan_lookup_entry_unpack (buf : List Nat) : VlanLookupEntry :=
  ⟨sja1105_unpack buf 63 59 SIZE_VLAN_LOOKUP_ENTRY,
   sja1105_unpack buf 58 54 SIZE_VLAN_LOOKUP_ENTRY,
   sja1105_unpack buf 53 49 SIZE_VLAN_LOOKUP_ENTRY,
   sja1105_unpack buf 48 44 SIZE_VLAN_LOOKUP_ENTRY,
   sja1105_unpack buf 43 39 SIZE_VLAN_LOOKUP_ENTRY,
   sja1105_unpack buf 38 27 SIZE_VLAN_LOOKUP_ENTRY⟩

def sja1105_vlan_lookup_entry_canonical (x : VlanLookupEntry) : Prop :=
  (∀ f ∈ sja1105_vlan_lookup_entry_fields x, wfField SIZE_VLAN_LOOKUP_ENTRY f)

instance (x : VlanLookupEntry) : Decidable (sja1105_vlan_lookup_entry_canonical x) := by
  unfold sja1105_vlan_lookup_entry_canonical wfField
  infer_instance

theorem sja1105_vlan_lookup_entry_roundtrip (x : VlanLookupEntry) (hc : sja1105_vlan_lookup_entry_canonical x) :
    sja1105_vlan_lookup_entry_unpack (sja1105_vlan_lookup_entry_pack x (List.replicate SIZE_VLAN_LOOKUP_ENTRY 0)) = x := by
  have hfit := hc
  have hv : ∀ f ∈ sja1105_vlan_lookup_entry_fields x, f.2.2 < 2 ^ (f.1 - f.2.1 + 1) :=
    fun f hf => (hfit f hf).2.2.2
  unfold sja1105_vlan_lookup_entry_unpack sja1105_vlan_lookup_entry_pack
  rw [packFieldsV_unpack_field _ _ [(63, 59), (58, 54), (53, 49), (48, 44), (43, 39), (38, 27)] _
      (by decide) (by simp) (by rfl) (by decide) (by decide) hv (63, 59, x.ving_mirr)
      (by simp [sja1105_vlan_lookup_entry_fields]),
    packFieldsV_unpack_field _ _ [(63, 59), (58, 54), (53, 49), (48, 44), (43, 39), (38, 27)] _
      (by decide) (by simp) (by rfl) (by decide) (by decide) hv (58, 54, x.vegr_mirr)
      (by simp [sja1105_vlan_lookup_entry_fields]),
    packFieldsV_unpack_field _ _ [(63, 59), (58, 54), (53, 49), (48, 44), (43, 39), (38, 27)] _
      (by decide) (by simp) (by rfl) (by decide) (by decide) hv (53, 49, x.vmemb_port)
      (by simp [sja1105_vlan_lookup_entry_fields]),
    packFieldsV_unpack_field _ _ [(63, 59), (58, 54), (53, 49), (48, 44), (43, 39), (38, 27)] _
      (by decide) (by simp) (by rfl) (by decide) (by decide) hv (48, 44, x.vlan_bc)
      (by simp [sja1105_vlan_lookup_entry_fields]),
    packFieldsV_unpack_field _ _ [(63, 59), (58, 54), (53, 49), (48, 44), (43, 39), (38, 27)] _
      (by decide) (by simp) (by rfl) (by decide) (by decide) hv (43, 39, x.tag_port)
      (by simp [sja1105_vlan_lookup_entry_fields]),
    packFieldsV_unpack_field _ _ [(63, 59), (58, 54), (53, 49), (48, 44), (43, 39), (38, 27)] _
      (by decide) (by simp) (by rfl) (by decide) (by decide) hv (38, 27, x.vlanid)
      (by simp [sja1105_vlan_lookup_entry_fields])]

def sja1105_l2_forwarding_entry_fields (x : L2ForwardingEntry) : List (Nat × Nat × Nat) :=
  [(63, 59, x.bc_domain),
   (58, 54, x.reach_port),
   (53, 49, x.fl_domain),
   (27, 25, x.vlan_pmap.getD 0 0),
   (30, 28, x.vlan_pmap.getD 1 0),
   (33, 31, x.vlan_pmap.getD 2 0),
   (36, 34, x.vlan_pmap.getD 3 0),
   (39, 37, x.vlan_pmap.getD 4 0),
   (42, 40, x.vlan_pmap.getD 5 0),
   (45, 43, x.vlan_pmap.getD 6 0),
   (48, 46, x.vlan_pmap.getD 7 0)]

def sja1105_l2_forwarding_entry_pack (x : L2ForwardingEntry) (buf : List Nat) : List Nat :=
  packFieldsV SIZE_L2_FORWARDING_ENTRY (sja1105_l2_forwarding_entry_fields x) buf

def sja1105_l2_forwarding_entry_unpack (buf : List Nat) : L2ForwardingEntry :=
  ⟨sja1105_unpack buf 63 59 SIZE_L2_FORWARDING_ENTRY,
   sja1105_unpack buf 58 54 SIZE_L2_FORWARDING_ENTRY,
   sja1105_unpack buf 53 49 SIZE_L2_FORWARDING_ENTRY,
   [sja1105_unpack buf 27 25 SIZE_L2_FORWARDING_ENTRY,
    sja1105_unpack buf 30 28 SIZE_L2_FORWARDING_ENTRY,
    sja1105_unpack buf 33 31 SIZE_L2_FORWARDING_ENTRY,
    sja1105_unpack buf 36 34 SIZE_L2_FORWARDING_ENTRY,
    sja1105_unpack buf 39 37 SIZE_L2_FORWARDING_ENTRY,
    sja1105_unpack buf 42 40 SIZE_L2_FORWARDING_ENTRY,
    sja1105_unpack buf 45 43 SIZE_L2_FORWARDING_ENTRY,
    sja1105_unpack buf 48 46 SIZE_L2_FORWARDING_ENTRY]⟩

def sja1105_l2_forwarding_entry_canonical (x : L2ForwardingEntry) : Prop :=
  (∀ f ∈ sja1105_l2_forwarding_entry_fields x, wfField SIZE_L2_FORWARDING_ENTRY f) ∧
  x.vlan_pmap.length = 8

instance (x : L2ForwardingEntry) : Decidable (sja1105_l2_forwarding_entry_canonical x) := by
  unfold sja1105_l2_forwarding_entry_canonical wfField
  infer_instance

theorem sja1105_l2_forwarding_entry_roundtrip (x : L2ForwardingEntry) (hc : sja1105_l2_forwarding_entry_canonical x) :
    sja1105_l2_forwarding_entry_unpack (sja1105_l2_forwarding_entry_pack x (List.replicate SIZE_L2_FORWARDING_ENTRY 0)) = x := by
  obtain ⟨hfit, hl_vlan_pmap⟩ := hc
  have hv : ∀ f ∈ sja1105_l2_forwarding_entry_fields x, f.2.2 < 2 ^ (f.1 - f.2.1 + 1) :=
    fun f hf => (hfit f hf).2.2.2
  unfold sja1105_l2_forwarding_entry_unpack sja1105_l2_forwarding_entry_pack
  rw [packFieldsV_unpack_field _ _ [(63, 59), (58, 54), (53, 49), (27, 25), (30, 28), (33, 31), (36, 34), (39, 37), (42, 40), (45, 43), (48, 46)] _
      (by decide) (by simp) (by rfl) (by decide) (by decide) hv (63, 59, x.bc_domain)
      (by simp [sja1105_l2_forwarding_entry_fields]),
    packFieldsV_unpack_field _ _ [(63, 59), (58, 54), (53, 49), (27, 25), (30, 28), (33, 31), (36, 34), (39, 37), (42, 40), (45, 43), (48, 46)] _
      (by decide) (by simp) (by rfl) (by decide) (by decide) hv (58, 54, x.reach_port)
      (by simp [sja1105_l2_forwarding_entry_fields]),
    packFieldsV_unpack_field _ _ [(63, 59), (58, 54), (53, 49), (27, 25), (30, 28), (33, 31), (36, 34), (39, 37), (42, 40), (45, 43), (48, 46)] _
      (by decide) (by simp) (by rfl) (by decide) (by decide) hv (53, 49, x.fl_domain)
      (by simp [sja1105_l2_forwarding_entry_fields]),
    packFieldsV_unpack_field _ _ [(63, 59), (58, 54), (53, 49), (27, 25), (30, 28), (33, 31), (36, 34), (39, 37), (42, 40), (45, 43), (48, 46)] _
      (by decide) (by simp) (by rfl) (by decide) (by decide) hv (27, 25, x.vlan_pmap.getD 0 0)
      (by simp [sja1105_l2_forwarding_entry_fields]),
    packFieldsV_unpack_field _ _ [(63, 59), (58, 54), (53, 49), (27, 25), (30, 28), (33, 31), (36, 34), (39, 37), (42, 40), (45, 43), (48, 46)] _
      (by decide) (by simp) (by rfl) (by decide) (by decide) hv (30, 28, x.vlan_pmap.getD 1 0)
      (by simp [sja1105_l2_forwarding_entry_fields]),
    packFieldsV_unpack_field _ _ [(63, 59), (58, 54), (53, 49), (27, 25), (30, 28), (33, 31), (36, 34), (39, 37), (42, 40), (45, 43), (48, 46)] _
      (by decide) (by simp) (by rfl) (by decide) (by decide) hv (33, 31, x.vlan_pmap.getD 2 0)
      (by simp [sja1105_l2_forwarding_entry_fields]),
    packFieldsV_unpack_field _ _ [(63, 59), (58, 54), (53, 49), (27, 25), (30, 28), (33, 31), (36, 34), (39, 37), (42, 40), (45, 43), (48, 46)] _
      (by decide) (by simp) (by rfl) (by decide) (by decide) hv (36, 34, x.vlan_pmap.getD 3 0)
      (by simp [sja1105_l2_forwarding_entry_fields]),
    packFieldsV_unpack_field _ _ [(63, 59), (58, 54), (53, 49), (27, 25), (30, 28), (33, 31), (36, 34), (39, 37), (42, 40), (45, 43), (48, 46)] _
      (by decide) (by simp) (by rfl) (by decide) (by decide) hv (39, 37, x.vlan_pmap.getD 4 0)
      (by simp [sja1105_l2_forwarding_entry_fields]),
    packFieldsV_unpack_field _ _ [(63, 59), (58, 54), (53, 49), (27, 25), (30, 28), (33, 31), (36, 34), (39, 37), (42, 40), (45, 43), (48, 46)] _
      (by decide) (by simp) (by rfl) (by decide) (by decide) hv (42, 40, x.vlan_pmap.getD 5 0)
      (by simp [sja1105_l2_forwarding_entry_fields]),
    packFieldsV_unpack_field _ _ [(63, 59), (58, 54), (53, 49), (27, 25), (30, 28), (33, 31), (36, 34), (39, 37), (42, 40), (45, 43), (48, 46)] _
      (by decide) (by simp) (by rfl) (by decide) (by decide) hv (45, 43, x.vlan_pmap.getD 6 0)
      (by simp [sja1105_l2_forwarding_entry_fields]),
    packFieldsV_unpack_field _ _ [(63, 59), (58, 54), (53, 49), (27, 25), (30, 28), (33, 31), (36, 34), (39, 37), (42, 40), (45, 43), (48, 46)] _
      (by decide) (by simp) (by rfl) (by decide) (by decide) hv (48, 46, x.vlan_pmap.getD 7 0)
      (by simp [sja1105_l2_forwarding_entry_fields])]
  rw [list_eq_of_getD8 x.vlan_pmap hl_vlan_pmap]

def sja1105et_mac_config_entry_fields (x : MacConfigEntry) : List (Nat × Nat × Nat) :=
  [(72, 72, x.enabled.getD 0 0),
   (81, 73, x.base.getD 0 0),
   (90, 82, x.top.getD 0 0),
   (91, 91, x.enabled.getD 1 0),
   (100, 92, x.base.getD 1 0),
   (109, 101, x.top.getD 1 0),
   (110, 110, x.enabled.getD 2 0),
   (119, 111, x.base.getD 2 0),
   (128, 120, x.top.getD 2 0),
   (129, 129, x.enabled.getD 3 0),
   (138, 130, x.base.getD 3 0),
   (147, 139, x.top.getD 3 0),
   (148, 148, x.enabled.getD 4 0),
   (157, 149, x.base.getD 4 0),
   (166, 158, x.top.getD 4 0),
   (167, 167, x.enabled.getD 5 0),
   (176, 168, x.base.getD 5 0),
   (185, 177, x.top.getD 5 0),
   (186, 186, x.enabled.getD 6 0),
   (195, 187, x.base.getD 6 0),
   (204, 196, x.top.getD 6 0),
   (205, 205, x.enabled.getD 7 0),
   (214, 206, x.base.getD 7 0),
   (223, 215, x.top.getD 7 0),
   (71, 67, x.ifg),
   (66, 65, x.speed),
   (64, 49, x.tp_delin),
   (48, 33, x.tp_delout),
   (32, 25, x.maxage),
   (24, 22, x.vlanprio),
   (21, 10, x.vlanid),
   (9, 9, x.ing_mirr),
   (8, 8, x.egr_mirr),
   (7, 7, x.drpnona664),
   (6, 6, x.drpdtag),
   (5, 5, x.drpuntag),
   (4, 4, x.retag),
   (3, 3, x.dyn_learn),
   (2, 2, x.egress),
   (1, 1, x.ingress)]

def sja1105et_mac_config_entry_pack (x : MacConfigEntry) (buf : List Nat) : List Nat :=
  packFieldsV SIZE_MAC_CONFIG_ENTRY_ET (sja1105et_mac_config_entry_fields x) buf

def sja1105et_mac_config_entry_unpack (buf : List Nat) : MacConfigEntry :=
  ⟨[sja1105_unpack buf 90 82 SIZE_MAC_CONFIG_ENTRY_ET,
    sja1105_unpack buf 109 101 SIZE_MAC_CONFIG_ENTRY_ET,
    sja1105_unpack buf 128 120 SIZE_MAC_CONFIG_ENTRY_ET,
    sja1105_unpack buf 147 139 SIZE_MAC_CONFIG_ENTRY_ET,
    sja1105_unpack buf 166 158 SIZE_MAC_CONFIG_ENTRY_ET,
    sja1105_unpack buf 185 177 SIZE_MAC_CONFIG_ENTRY_ET,
    sja1105_unpack buf 204 196 SIZE_MAC_CONFIG_ENTRY_ET,
    sja1105_unpack buf 223 215 SIZE_MAC_CONFIG_ENTRY_ET],
   [sja1105_unpack buf 81 73 SIZE_MAC_CONFIG_ENTRY_ET,
    sja1105_unpack buf 100 92 SIZE_MAC_CONFIG_ENTRY_ET,
    sja1105_unpack buf 119 111 SIZE_MAC_CONFIG_ENTRY_ET,
    sja1105_unpack buf 138 130 SIZE_MAC_CONFIG_ENTRY_ET,
    sja1105_unpack buf 157 149 SIZE_MAC_CONFIG_ENTRY_ET,
    sja1105_unpack buf 176 168 SIZE_MAC_CONFIG_ENTRY_ET,
    sja1105_unpack buf 195 187 SIZE_MAC_CONFIG_ENTRY_ET,
    sja1105_unpack buf 214 206 SIZE_MAC_CONFIG_ENTRY_ET],
   [sja1105_unpack buf 72 72 SIZE_MAC_CONFIG_ENTRY_ET,
    sja1105_unpack buf 91 91 SIZE_MAC_CONFIG_ENTRY_ET,
    sja1105_unpack buf 110 110 SIZE_MAC_CONFIG_ENTRY_ET,
    sja1105_unpack buf 129 129 SIZE_MAC_CONFIG_ENTRY_ET,
    sja1105_unpack buf 148 148 SIZE_MAC_CONFIG_ENTRY_ET,
    sja1105_unpack buf 167 167 SIZE_MAC_CONFIG_ENTRY_ET,
    sja1105_unpack buf 186 186 SIZE_MAC_CONFIG_ENTRY_ET,
    sja1105_unpack buf 205 205 SIZE_MAC_CONFIG_ENTRY_ET],
   sja1105_unpack buf 71 67 SIZE_MAC_CONFIG_ENTRY_ET,
   sja1105_unpack buf 66 65 SIZE_MAC_CONFIG_ENTRY_ET,
   sja1105_unpack buf 64 49 SIZE_MAC_CONFIG_ENTRY_ET,
   sja1105_unpack buf 48 33 SIZE_MAC_CONFIG_ENTRY_ET,
   sja1105_unpack buf 32 25 SIZE_MAC_CONFIG_ENTRY_ET,
   sja1105_unpack buf 24 22 SIZE_MAC_CONFIG_ENTRY_ET,
   sja1105_unpack buf 21 10 SIZE_MAC_CONFIG_ENTRY_ET,
   sja1105_unpack buf 9 9 SIZE_MAC_CONFIG_ENTRY_ET,
   sja1105_unpack buf 8 8 SIZE_MAC_CONFIG_ENTRY_ET,
   sja1105_unpack buf 7 7 SIZE_MAC_CONFIG_ENTRY_ET,
   sja1105_unpack buf 6 6 SIZE_MAC_CONFIG_ENTRY_ET,
   0,
   0,
   sja1105_unpack buf 5 5 SIZE_MAC_CONFIG_ENTRY_ET,
   sja1105_unpack buf 4 4 SIZE_MAC_CONFIG_ENTRY_ET,
   sja1105_unpack buf 3 3 SIZE_MAC_CONFIG_ENTRY_ET,
   sja1105_unpack buf 2 2 SIZE_MAC_CONFIG_ENTRY_ET,
   sja1105_unpack buf 1 1 SIZE_MAC_CONFIG_ENTRY_ET,
   0,
   0,
   0,
   0,
   0⟩

def sja1105et_mac_config_entry_canonical (x : MacConfigEntry) : Prop :=
  (∀ f ∈ sja1105et_mac_config_entry_fields x, wfField SIZE_MAC_CONFIG_ENTRY_ET f) ∧
  x.top.length = 8 ∧
  x.base.length = 8 ∧
  x.enabled.length = 8 ∧
  x.drpsotag = 0 ∧
  x.drpsitag = 0 ∧
  x.mirrcie = 0 ∧
  x.mirrcetag = 0 ∧
  x.ingmirrvid = 0 ∧
  x.ingmirrpcp = 0 ∧
  x.ingmirrdei = 0

instance (x : MacConfigEntry) : Decidable (sja1105et_mac_config_entry_canonical x) := by
  unfold sja1105et_mac_config_entry_canonical wfField
  infer_instance

theorem sja1105et_mac_config_entry_roundtrip (x : MacConfigEntry) (hc : sja1105et_mac_config_entry_canonical x) :
    sja1105et_mac_config_entry_unpack (sja1105et_mac_config_entry_pack x (List.replicate SIZE_MAC_CONFIG_ENTRY_ET 0)) = x := by
  obtain ⟨hfit, hl_top, hl_base, hl_enabled, hz_drpsotag, hz_drpsitag, hz_mirrcie, hz_mirrcetag, hz_ingmirrvid, hz_ingmirrpcp, hz_ingmirrdei⟩ := hc
  have hv : ∀ f ∈ sja1105et_mac_config_entry_fields x, f.2.2 < 2 ^ (f.1 - f.2.1 + 1) :=
    fun f hf => (hfit f hf).2.2.2
  unfold sja1105et_mac_config_entry_unpack sja1105et_mac_config_entry_pack
  rw [packFieldsV_unpack_field _ _ [(72, 72), (81, 73), (90, 82), (91, 91), (100, 92), (109, 101), (110, 110), (119, 111), (128, 120), (129, 129), (138, 130), (147, 139), (148, 148), (157, 149), (166, 158), (167, 167), (176, 168), (185, 177), (186, 186), (195, 187), (204, 196), (205, 205), (214, 206), (223, 215), (71, 67), (66, 65), (64, 49), (48, 33), (32, 25), (24, 22), (21, 10), (9, 9), (8, 8), (7, 7), (6, 6), (5, 5), (4, 4), (3, 3), (2, 2), (1, 1)] _
      (by decide) (by simp) (by rfl) (by decide) (by decide) hv (72, 72, x.enabled.getD 0 0)
      (by simp [sja1105et_mac_config_entry_fields]),
    packFieldsV_unpack_field _ _ [(72, 72), (81, 73), (90, 82), (91, 91), (100, 92), (109, 101), (110, 110), (119, 111), (128, 120), (129, 129), (138, 130), (147, 139), (148, 148), (157, 149), (166, 158), (167, 167), (176, 168), (185, 177), (186, 186), (195, 187), (204, 196), (205, 205), (214, 206), (223, 215), (71, 67), (66, 65), (64, 49), (48, 33), (32, 25), (24, 22), (21, 10), (9, 9), (8, 8), (7, 7), (6, 6), (5, 5), (4, 4), (3, 3), (2, 2), (1, 1)] _
      (by decide) (by simp) (by rfl) (by decide) (by decide) hv (81, 73, x.base.getD 0 0)
      (by simp [sja1105et_mac_config_entry_fields]),
    packFieldsV_unpack_field _ _ [(72, 72), (81, 73), (90, 82), (91, 91), (100, 92), (109, 101), (110, 110), (119, 111), (128, 120), (129, 129), (138, 130), (147, 139), (148, 148), (157, 149), (166, 158), (167, 167), (176, 168), (185, 177), (186, 186), (195, 187), (204, 196), (205, 205), (214, 206), (223, 215), (71, 67), (66, 65), (64, 49), (48, 33), (32, 25), (24, 22), (21, 10), (9, 9), (8, 8), (7, 7), (6, 6), (5, 5), (4, 4), (3, 3), (2, 2), (1, 1)] _
      (by decide) (by simp) (by rfl) (by decide) (by decide) hv (90, 82, x.top.getD 0 0)
      (by simp [sja1105et_mac_config_entry_fields]),
    packFieldsV_unpack_field _ _ [(72, 72), (81, 73), (90, 82), (91, 91), (100, 92), (109, 101), (110, 110), (119, 111), (128, 120), (129, 129), (138, 130), (147, 139), (148, 148), (157, 149), (166, 158), (167, 167), (176, 168), (185, 177), (186, 186), (195, 187), (204, 196), (205, 205), (214, 206), (223, 215), (71, 67), (66, 65), (64, 49), (48, 33), (32, 25), (24, 22), (21, 10), (9, 9), (8, 8), (7, 7), (6, 6), (5, 5), (4, 4), (3, 3), (2, 2), (1, 1)] _
      (by decide) (by simp) (by rfl) (by decide) (by decide) hv (91, 91, x.enabled.getD 1 0)
      (by simp [sja1105et_mac_config_entry_fields]),
    packFieldsV_unpack_field _ _ [(72, 72), (81, 73), (90, 82), (91, 91), (100, 92), (109, 101), (110, 110), (119, 111), (128, 120), (129, 129), (138, 130), (147, 139), (148, 148), (157, 149), (166, 158), (167, 167), (176, 168), (185, 177), (186, 186), (195, 187), (204, 196), (205, 205), (214, 206), (223, 215), (71, 67), (66, 65), (64, 49), (48, 33), (32, 25), (24, 22), (21, 10), (9, 9), (8, 8), (7, 7), (6, 6), (5, 5), (4, 4), (3, 3), (2, 2), (1, 1)] _
      (by decide) (by simp) (by rfl) (by decide) (by decide) hv (100, 92, x.base.getD 1 0)
      (by simp [sja1105et_mac_config_entry_fields]),
    packFieldsV_unpack_field _ _ [(72, 72), (81, 73), (90, 82), (91, 91), (100, 92), (109, 101), (110, 110), (119, 111), (128, 120), (129, 129), (138, 130), (147, 139), (148, 148), (157, 149), (166, 158), (167, 167), (176, 168), (185, 177), (186, 186), (195, 187), (204, 196), (205, 205), (214, 206), (223, 215), (71, 67), (66, 65), (64, 49), (48, 33), (32, 25), (24, 22), (21, 10), (9, 9), (8, 8), (7, 7), (6, 6), (5, 5), (4, 4), (3, 3), (2, 2), (1, 1)] _
      (by decide) (by simp) (by rfl) (by decide) (by decide) hv (109, 101, x.top.getD 1 0)
      (by simp [sja1105et_mac_config_entry_fields]),
    packFieldsV_unpack_field _ _ [(72, 72), (81, 73), (90, 82), (91, 91), (100, 92), (109, 101), (110, 110), (119, 111), (128, 120), (129, 129), (138, 130), (147, 139), (148, 148), (157, 149), (166, 158), (167, 167), (176, 168), (185, 177), (186, 186), (195, 187), (204, 196), (205, 205), (214, 206), (223, 215), (71, 67), (66, 65), (64, 49), (48, 33), (32, 25), (24, 22), (21, 10), (9, 9), (8, 8), (7, 7), (6, 6), (5, 5), (4, 4), (3, 3), (2, 2), (1, 1)] _
      (by decide) (by simp) (by rfl) (by decide) (by decide) hv (110, 110, x.enabled.getD 2 0)
      (by simp [sja1105et_mac_config_entry_fields]),
    packFieldsV_unpack_field _ _ [(72, 72), (81, 73), (90, 82), (91, 91), (100, 92), (109, 101), (110, 110), (119, 111), (128, 120), (129, 129), (138, 130), (147, 139), (148, 148), (157, 149), (166, 158), (167, 167), (176, 168), (185, 177), (186, 186), (195, 187), (204, 196), (205, 205), (214, 206), (223, 215), (71, 67), (66, 65), (64, 49), (48, 33), (32, 25), (24, 22), (21, 10), (9, 9), (8, 8), (7, 7), (6, 6), (5, 5), (4, 4), (3, 3), (2, 2), (1, 1)] _
      (by decide) (by simp) (by rfl) (by decide) (by decide) hv (119, 111, x.base.getD 2 0)
      (by simp [sja1105et_mac_config_entry_fields]),
    packFieldsV_unpack_field _ _ [(72, 72), (81, 73), (90, 82), (91, 91), (100, 92), (109, 101), (110, 110), (119, 111), (128, 120), (129, 129), (138, 130), (147, 139), (148, 148), (157, 149), (166, 158), (167, 167), (176, 168), (185, 177), (186, 186), (195, 187), (204, 196), (205, 205), (214, 206), (223, 215), (71, 67), (66, 65), (64, 49), (48, 33), (32, 25), (24, 22), (21, 10), (9, 9), (8, 8), (7, 7), (6, 6), (5, 5), (4, 4), (3, 3), (2, 2), (1, 1)] _
      (by decide) (by simp) (by rfl) (by decide) (by decide) hv (128, 120, x.top.getD 2 0)
      (by simp [sja1105et_mac_config_entry_fields]),
    packFieldsV_unpack_field _ _ [(72, 72), (81, 73), (90, 82), (91, 91), (100, 92), (109, 101), (110, 110), (119, 111), (128, 120), (129, 129), (138, 130), (147, 139), (148, 148), (157, 149), (166, 158), (167, 167), (176, 168), (185, 177), (186, 186), (195, 187), (204, 196), (205, 205), (214, 206), (223, 215), (71, 67), (66, 65), (64, 49), (48, 33), (32, 25), (24, 22), (21, 10), (9, 9), (8, 8), (7, 7), (6, 6), (5, 5), (4, 4), (3, 3), (2, 2), (1, 1)] _
      (by decide) (by simp) (by rfl) (by decide) (by decide) hv (129, 129, x.enabled.getD 3 0)
      (by simp [sja1105et_mac_config_entry_fields]),
    packFieldsV_unpack_field _ _ [(72, 72), (81, 73), (90, 82), (91, 91), (100, 92), (109, 101), (110, 110), (119, 111), (128, 120), (129, 129), (138, 130), (147, 139), (148, 148), (157, 149), (166, 158), (167, 167), (176, 168), (185, 177), (186, 186), (195, 187), (204, 196), (205, 205), (214, 206), (223, 215), (71, 67), (66, 65), (64, 49), (48, 33), (32, 25), (24, 22), (21, 10), (9, 9), (8, 8), (7, 7), (6, 6), (5, 5), (4, 4), (3, 3), (2, 2), (1, 1)] _
      (by decide) (by simp) (by rfl) (by decide) (by decide) hv (138, 130, x.base.getD 3 0)
      (by simp [sja1105et_mac_config_entry_fields]),
    packFieldsV_unpack_field _ _ [(72, 72), (81, 73), (90, 82), (91, 91), (100, 92), (109, 101), (110, 110), (119, 111), (128, 120), (129, 129), (138, 130), (147, 139), (148, 148), (157, 149), (166, 158), (167, 167), (176, 168), (185, 177), (186, 186), (195, 187), (204, 196), (205, 205), (214, 206), (223, 215), (71, 67), (66, 65), (64, 49), (48, 33), (32, 25), (24, 22), (21, 10), (9, 9), (8, 8), (7, 7), (6, 6), (5, 5), (4, 4), (3, 3), (2, 2), (1, 1)] _
      (by decide) (by simp) (by rfl) (by decide) (by decide) hv (147, 139, x.top.getD 3 0)
      (by simp [sja1105et_mac_config_entry_fields]),
    packFieldsV_unpack_field _ _ [(72, 72), (81, 73), (90, 82), (91, 91), (100, 92), (109, 101), (110, 110), (119, 111), (128, 120), (129, 129), (138, 130), (147, 139), (148, 148), (157, 149), (166, 158), (167, 167), (176, 168), (185, 177), (186, 186), (195, 187), (204, 196), (205, 205), (214, 206), (223, 215), (71, 67), (66, 65), (64, 49), (48, 33), (32, 25), (24, 22), (21, 10), (9, 9), (8, 8), (7, 7), (6, 6), (5, 5), (4, 4), (3, 3), (2, 2), (1, 1)] _
      (by decide) (by simp) (by rfl) (by decide) (by decide) hv (148, 148, x.enabled.getD 4 0)
      (by simp [sja1105et_mac_config_entry_fields]),
    packFieldsV_unpack_field _ _ [(72, 72), (81, 73), (90, 82), (91, 91), (100, 92), (109, 101), (110, 110), (119, 111), (128, 120), (129, 129), (138, 130), (147, 139), (148, 148), (157, 149), (166, 158), (167, 167), (176, 168), (185, 177), (186, 186), (195, 187), (204, 196), (205, 205), (214, 206), (223, 215), (71, 67), (66, 65), (64, 49), (48, 33), (32, 25), (24, 22), (21, 10), (9, 9), (8, 8), (7, 7), (6, 6), (5, 5), (4, 4), (3, 3), (2, 2), (1, 1)] _
      (by decide) (by simp) (by rfl) (by decide) (by decide) hv (157, 149, x.base.getD 4 0)
      (by simp [sja1105et_mac_config_entry_fields]),
    packFieldsV_unpack_field _ _ [(72, 72), (81, 73), (90, 82), (91, 91), (100, 92), (109, 101), (110, 110), (119, 111), (128, 120), (129, 129), (138, 130), (147, 139), (148, 148), (157, 149), (166, 158), (167, 167), (176, 168), (185, 177), (186, 186), (195, 187), (204, 196), (205, 205), (214, 206), (223, 215), (71, 67), (66, 65), (64, 49), (48, 33), (32, 25), (24, 22), (21, 10), (9, 9), (8, 8), (7, 7), (6, 6), (5, 5), (4, 4), (3, 3), (2, 2), (1, 1)] _
      (by decide) (by simp) (by rfl) (by decide) (by decide) hv (166, 158, x.top.getD 4 0)
      (by simp [sja1105et_mac_config_entry_fields]),
    packFieldsV_unpack_field _ _ [(72, 72), (81, 73), (90, 82), (91, 91), (100, 92), (109, 101), (110, 110), (119, 111), (128, 120), (129, 129), (138, 130), (147, 139), (148, 148), (157, 149), (166, 158), (167, 167), (176, 168), (185, 177), (186, 186), (195, 187), (204, 196), (205, 205), (214, 206), (223, 215), (71, 67), (66, 65), (64, 49), (48, 33), (32, 25), (24, 22), (21, 10), (9, 9), (8, 8), (7, 7), (6, 6), (5, 5), (4, 4), (3, 3), (2, 2), (1, 1)] _
      (by decide) (by simp) (by rfl) (by decide) (by decide) hv (167, 167, x.enabled.getD 5 0)
      (by simp [sja1105et_mac_config_entry_fields]),
    packFieldsV_unpack_field _ _ [(72, 72), (81, 73), (90, 82), (91, 91), (100, 92), (109, 101), (110, 110), (119, 111), (128, 120), (129, 129), (138, 130), (147, 139), (148, 148), (157, 149), (166, 158), (167, 167), (176, 168), (185, 177), (186, 186), (195, 187), (204, 196), (205, 205), (214, 206), (223, 215), (71, 67), (66, 65), (64, 49), (48, 33), (32, 25), (24, 22), (21, 10), (9, 9), (8, 8), (7, 7), (6, 6), (5, 5), (4, 4), (3, 3), (2, 2), (1, 1)] _
      (by decide) (by simp) (by rfl) (by decide) (by decide) hv (176, 168, x.base.getD 5 0)
      (by simp [sja1105et_mac_config_entry_fields]),
    packFieldsV_unpack_field _ _ [(72, 72), (81, 73), (90, 82), (91, 91), (100, 92), (109, 101), (110, 110), (119, 111), (128, 120), (129, 129), (138, 130), (147, 139), (148, 148), (157, 149), (166, 158), (167, 167), (176, 168), (185, 177), (186, 186), (195, 187), (204, 196), (205, 205), (214, 206), (223, 215), (71, 67), (66, 65), (64, 49), (48, 33), (32, 25), (24, 22), (21, 10), (9, 9), (8, 8), (7, 7), (6, 6), (5, 5), (4, 4), (3, 3), (2, 2), (1, 1)] _
      (by decide) (by simp) (by rfl) (by decide) (by decide) hv (185, 177, x.top.getD 5 0)
      (by simp [sja1105et_mac_config_entry_fields]),
    packFieldsV_unpack_field _ _ [(72, 72), (81, 73), (90, 82), (91, 91), (100, 92), (109, 101), (110, 110), (119, 111), (128, 120), (129, 129), (138, 130), (147, 139), (148, 148), (157, 149), (166, 158), (167, 167), (176, 168), (185, 177), (186, 186), (195, 187), (204, 196), (205, 205), (214, 206), (223, 215), (71, 67), (66, 65), (64, 49), (48, 33), (32, 25), (24, 22), (21, 10), (9, 9), (8, 8), (7, 7), (6, 6), (5, 5), (4, 4), (3, 3), (2, 2), (1, 1)] _
      (by decide) (by simp) (by rfl) (by decide) (by decide) hv (186, 186, x.enabled.getD 6 0)
      (by simp [sja1105et_mac_config_entry_fields]),
    packFieldsV_unpack_field _ _ [(72, 72), (81, 73), (90, 82), (91, 91), (100, 92), (109, 101), (110, 110), (119, 111), (128, 120), (129, 129), (138, 130), (147, 139), (148, 148), (157, 149), (166, 158), (167, 167), (176, 168), (185, 177), (186, 186), (195, 187), (204, 196), (205, 205), (214, 206), (223, 215), (71, 67), (66, 65), (64, 49), (48, 33), (32, 25), (24, 22), (21, 10), (9, 9), (8, 8), (7, 7), (6, 6), (5, 5), (4, 4), (3, 3), (2, 2), (1, 1)] _
      (by decide) (by simp) (by rfl) (by decide) (by decide) hv (195, 187, x.base.getD 6 0)
      (by simp [sja1105et_mac_config_entry_fields]),
    packFieldsV_unpack_field _ _ [(72, 72), (81, 73), (90, 82), (91, 91), (100, 92), (109, 101), (110, 110), (119, 111), (128, 120), (129, 129), (138, 130), (147, 139), (148, 148), (157, 149), (166, 158), (167, 167), (176, 168), (185, 177), (186, 186), (195, 187), (204, 196), (205, 205), (214, 206), (223, 215), (71, 67), (66, 65), (64, 49), (48, 33), (32, 25), (24, 22), (21, 10), (9, 9), (8, 8), (7, 7), (6, 6), (5, 5), (4, 4), (3, 3), (2, 2), (1, 1)] _
      (by decide) (by simp) (by rfl) (by decide) (by decide) hv (204, 196, x.top.getD 6 0)
      (by simp [sja1105et_mac_config_entry_fields]),
    packFieldsV_unpack_field _ _ [(72, 72), (81, 73), (90, 82), (91, 91), (100, 92), (109, 101), (110, 110), (119, 111), (128, 120), (129, 129), (138, 130), (147, 139), (148, 148), (157, 149), (166, 158), (167, 167), (176, 168), (185, 177), (186, 186), (195, 187), (204, 196), (205, 205), (214, 206), (223, 215), (71, 67), (66, 65), (64, 49), (48, 33), (32, 25), (24, 22), (21, 10), (9, 9), (8, 8), (7, 7), (6, 6), (5, 5), (4, 4), (3, 3), (2, 2), (1, 1)] _
      (by decide) (by simp) (by rfl) (by decide) (by decide) hv (205, 205, x.enabled.getD 7 0)
      (by simp [sja1105et_mac_config_entry_fields]),
    packFieldsV_unpack_field _ _ [(72, 72), (81, 73), (90, 82), (91, 91), (100, 92), (109, 101), (110, 110), (119, 111), (128, 120), (129, 129), (138, 130), (147, 139), (148, 148), (157, 149), (166, 158), (167, 167), (176, 168), (185, 177), (186, 186), (195, 187), (204, 196), (205, 205), (214, 206), (223, 215), (71, 67), (66, 65), (64, 49), (48, 33), (32, 25), (24, 22), (21, 10), (9, 9), (8, 8), (7, 7), (6, 6), (5, 5), (4, 4), (3, 3), (2, 2), (1, 1)] _
      (by decide) (by simp) (by rfl) (by decide) (by decide) hv (214, 206, x.base.getD 7 0)
      (by simp [sja1105et_mac_config_entry_fields]),
    packFieldsV_unpack_field _ _ [(72, 72), (81, 73), (90, 82), (91, 91), (100, 92), (109, 101), (110, 110), (119, 111), (128, 120), (129, 129), (138, 130), (147, 139), (148, 148), (157, 149), (166, 158), (167, 167), (176, 168), (185, 177), (186, 186), (195, 187), (204, 196), (205, 205), (214, 206), (223, 215), (71, 67), (66, 65), (64, 49), (48, 33), (32, 25), (24, 22), (21, 10), (9, 9), (8, 8), (7, 7), (6, 6), (5, 5), (4, 4), (3, 3), (2, 2), (1, 1)] _
      (by decide) (by simp) (by rfl) (by decide) (by decide) hv (223, 215, x.top.getD 7 0)
      (by simp [sja1105et_mac_config_entry_fields]),
    packFieldsV_unpack_field _ _ [(72, 72), (81, 73), (90, 82), (91, 91), (100, 92), (109, 101), (110, 110), (119, 111), (128, 120), (129, 129), (138, 130), (147, 139), (148, 148), (157, 149), (166, 158), (167, 167), (176, 168), (185, 177), (186, 186), (195, 187), (204, 196), (205, 205), (214, 206), (223, 215), (71, 67), (66, 65), (64, 49), (48, 33), (32, 25), (24, 22), (21, 10), (9, 9), (8, 8), (7, 7), (6, 6), (5, 5), (4, 4), (3, 3), (2, 2), (1, 1)] _
      (by decide) (by simp) (by rfl) (by decide) (by decide) hv (71, 67, x.ifg)
      (by simp [sja1105et_mac_config_entry_fields]),
    packFieldsV_unpack_field _ _ [(72, 72), (81, 73), (90, 82), (91, 91), (100, 92), (109, 101), (110, 110), (119, 111), (128, 120), (129, 129), (138, 130), (147, 139), (148, 148), (157, 149), (166, 158), (167, 167), (176, 168), (185, 177), (186, 186), (195, 187), (204, 196), (205, 205), (214, 206), (223, 215), (71, 67), (66, 65), (64, 49), (48, 33), (32, 25), (24, 22), (21, 10), (9, 9), (8, 8), (7, 7), (6, 6), (5, 5), (4, 4), (3, 3), (2, 2), (1, 1)] _
      (by decide) (by simp) (by rfl) (by decide) (by decide) hv (66, 65, x.speed)
      (by simp [sja1105et_mac_config_entry_fields]),
    packFieldsV_unpack_field _ _ [(72, 72), (81, 73), (90, 82), (91, 91), (100, 92), (109, 101), (110, 110), (119, 111), (128, 120), (129, 129), (138, 130), (147, 139), (148, 148), (157, 149), (166, 158), (167, 167), (176, 168), (185, 177), (186, 186), (195, 187), (204, 196), (205, 205), (214, 206), (223, 215), (71, 67), (66, 65), (64, 49), (48, 33), (32, 25), (24, 22), (21, 10), (9, 9), (8, 8), (7, 7), (6, 6), (5, 5), (4, 4), (3, 3), (2, 2), (1, 1)] _
      (by decide) (by simp) (by rfl) (by decide) (by decide) hv (64, 49, x.tp_delin)
      (by simp [sja1105et_mac_config_entry_fields]),
    packFieldsV_unpack_field _ _ [(72, 72), (81, 73), (90, 82), (91, 91), (100, 92), (109, 101), (110, 110), (119, 111), (128, 120), (129, 129), (138, 130), (147, 139), (148, 148), (157, 149), (166, 158), (167, 167), (176, 168), (185, 177), (186, 186), (195, 187), (204, 196), (205, 205), (214, 206), (223, 215), (71, 67), (66, 65), (64, 49), (48, 33), (32, 25), (24, 22), (21, 10), (9, 9), (8, 8), (7, 7), (6, 6), (5, 5), (4, 4), (3, 3), (2, 2), (1, 1)] _
      (by decide) (by simp) (by rfl) (by decide) (by decide) hv (48, 33, x.tp_delout)
      (by simp [sja1105et_mac_config_entry_fields]),
    packFieldsV_unpack_field _ _ [(72, 72), (81, 73), (90, 82), (91, 91), (100, 92), (109, 101), (110, 110), (119, 111), (128, 120), (129, 129), (138, 130), (147, 139), (148, 148), (157, 149), (166, 158), (167, 167), (176, 168), (185, 177), (186, 186), (195, 187), (204, 196), (205, 205), (214, 206), (223, 215), (71, 67), (66, 65), (64, 49), (48, 33), (32, 25), (24, 22), (21, 10), (9, 9), (8, 8), (7, 7), (6, 6), (5, 5), (4, 4), (3, 3), (2, 2), (1, 1)] _
      (by decide) (by simp) (by rfl) (by decide) (by decide) hv (32, 25, x.maxage)
      (by simp [sja1105et_mac_config_entry_fields]),
    packFieldsV_unpack_field _ _ [(72, 72), (81, 73), (90, 82), (91, 91), (100, 92), (109, 101), (110, 110), (119, 111), (128, 120), (129, 129), (138, 130), (147, 139), (148, 148), (157, 149), (166, 158), (167, 167), (176, 168), (185, 177), (186, 186), (195, 187), (204, 196), (205, 205), (214, 206), (223, 215), (71, 67), (66, 65), (64, 49), (48, 33), (32, 25), (24, 22), (21, 10), (9, 9), (8, 8), (7, 7), (6, 6), (5, 5), (4, 4), (3, 3), (2, 2), (1, 1)] _
      (by decide) (by simp) (by rfl) (by decide) (by decide) hv (24, 22, x.vlanprio)
      (by simp [sja1105et_mac_config_entry_fields]),
    packFieldsV_unpack_field _ _ [(72, 72), (81, 73), (90, 82), (91, 91), (100, 92), (109, 101), (110, 110), (119, 111), (128, 120), (129, 129), (138, 130), (147, 139), (148, 148), (157, 149), (166, 158), (167, 167), (176, 168), (185, 177), (186, 186), (195, 187), (204, 196), (205, 205), (214, 206), (223, 215), (71, 67), (66, 65), (64, 49), (48, 33), (32, 25), (24, 22), (21, 10), (9, 9), (8, 8), (7, 7), (6, 6), (5, 5), (4, 4), (3, 3), (2, 2), (1, 1)] _
      (by decide) (by simp) (by rfl) (by decide) (by decide) hv (21, 10, x.vlanid)
      (by simp [sja1105et_mac_config_entry_fields]),
    packFieldsV_unpack_field _ _ [(72, 72), (81, 73), (90, 82), (91, 91), (100, 92), (109, 101), (110, 110), (119, 111), (128, 120), (129, 129), (138, 130), (147, 139), (148, 148), (157, 149), (166, 158), (167, 167), (176, 168), (185, 177), (186, 186), (195, 187), (204, 196), (205, 205), (214, 206), (223, 215), (71, 67), (66, 65), (64, 49), (48, 33), (32, 25), (24, 22), (21, 10), (9, 9), (8, 8), (7, 7), (6, 6), (5, 5), (4, 4), (3, 3), (2, 2), (1, 1)] _
      (by decide) (by simp) (by rfl) (by decide) (by decide) hv (9, 9, x.ing_mirr)
      (by simp [sja1105et_mac_config_entry_fields]),
    packFieldsV_unpack_field _ _ [(72, 72), (81, 73), (90, 82), (91, 91), (100, 92), (109, 101), (110, 110), (119, 111), (128, 120), (129, 129), (138, 130), (147, 139), (148, 148), (157, 149), (166, 158), (167, 167), (176, 168), (185, 177), (186, 186), (195, 187), (204, 196), (205, 205), (214, 206), (223, 215), (71, 67), (66, 65), (64, 49), (48, 33), (32, 25), (24, 22), (21, 10), (9, 9), (8, 8), (7, 7), (6, 6), (5, 5), (4, 4), (3, 3), (2, 2), (1, 1)] _
      (by decide) (by simp) (by rfl) (by decide) (by decide) hv (8, 8, x.egr_mirr)
      (by simp [sja1105et_mac_config_entry_fields]),
    packFieldsV_unpack_field _ _ [(72, 72), (81, 73), (90, 82), (91, 91), (100, 92), (109, 101), (110, 110), (119, 111), (128, 120), (129, 129), (138, 130), (147, 139), (148, 148), (157, 149), (166, 158), (167, 167), (176, 168), (185, 177), (186, 186), (195, 187), (204, 196), (205, 205), (214, 206), (223, 215), (71, 67), (66, 65), (64, 49), (48, 33), (32, 25), (24, 22), (21, 10), (9, 9), (8, 8), (7, 7), (6, 6), (5, 5), (4, 4), (3, 3), (2, 2), (1, 1)] _
      (by decide) (by simp) (by rfl) (by decide) (by decide) hv (7, 7, x.drpnona664)
      (by simp [sja1105et_mac_config_entry_fields]),
    packFieldsV_unpack_field _ _ [(72, 72), (81, 73), (90, 82), (91, 91), (100, 92), (109, 101), (110, 110), (119, 111), (128, 120), (129, 129), (138, 130), (147, 139), (148, 148), (157, 149), (166, 158), (167, 167), (176, 168), (185, 177), (186, 186), (195, 187), (204, 196), (205, 205), (214, 206), (223, 215), (71, 67), (66, 65), (64, 49), (48, 33), (32, 25), (24, 22), (21, 10), (9, 9), (8, 8), (7, 7), (6, 6), (5, 5), (4, 4), (3, 3), (2, 2), (1, 1)] _
      (by decide) (by simp) (by rfl) (by decide) (by decide) hv (6, 6, x.drpdtag)
      (by simp [sja1105et_mac_config_entry_fields]),
    packFieldsV_unpack_field _ _ [(72, 72), (81, 73), (90, 82), (91, 91), (100, 92), (109, 101), (110, 110), (119, 111), (128, 120), (129, 129), (138, 130), (147, 139), (148, 148), (157, 149), (166, 158), (167, 167), (176, 168), (185, 177), (186, 186), (195, 187), (204, 196), (205, 205), (214, 206), (223, 215), (71, 67), (66, 65), (64, 49), (48, 33), (32, 25), (24, 22), (21, 10), (9, 9), (8, 8), (7, 7), (6, 6), (5, 5), (4, 4), (3, 3), (2, 2), (1, 1)] _
      (by decide) (by simp) (by rfl) (by decide) (by decide) hv (5, 5, x.drpuntag)
      (by simp [sja1105et_mac_config_entry_fields]),
    packFieldsV_unpack_field _ _ [(72, 72), (81, 73), (90, 82), (91, 91), (100, 92), (109, 101), (110, 110), (119, 111), (128, 120), (129, 129), (138, 130), (147, 139), (148, 148), (157, 149), (166, 158), (167, 167), (176, 168), (185, 177), (186, 186), (195, 187), (204, 196), (205, 205), (214, 206), (223, 215), (71, 67), (66, 65), (64, 49), (48, 33), (32, 25), (24, 22), (21, 10), (9, 9), (8, 8), (7, 7), (6, 6), (5, 5), (4, 4), (3, 3), (2, 2), (1, 1)] _
      (by decide) (by simp) (by rfl) (by decide) (by decide) hv (4, 4, x.retag)
      (by simp [sja1105et_mac_config_entry_fields]),
    packFieldsV_unpack_field _ _ [(72, 72), (81, 73), (90, 82), (91, 91), (100, 92), (109, 101), (110, 110), (119, 111), (128, 120), (129, 129), (138, 130), (147, 139), (148, 148), (157, 149), (166, 158), (167, 167), (176, 168), (185, 177), (186, 186), (195, 187), (204, 196), (205, 205), (214, 206), (223, 215), (71, 67), (66, 65), (64, 49), (48, 33), (32, 25), (24, 22), (21, 10), (9, 9), (8, 8), (7, 7), (6, 6), (5, 5), (4, 4), (3, 3), (2, 2), (1, 1)] _
      (by decide) (by simp) (by rfl) (by decide) (by decide) hv (3, 3, x.dyn_learn)
      (by simp [sja1105et_mac_config_entry_fields]),
    packFieldsV_unpack_field _ _ [(72, 72), (81, 73), (90, 82), (91, 91), (100, 92), (109, 101), (110, 110), (119, 111), (128, 120), (129, 129), (138, 130), (147, 139), (148, 148), (157, 149), (166, 158), (167, 167), (176, 168), (185, 177), (186, 186), (195, 187), (204, 196), (205, 205), (214, 206), (223, 215), (71, 67), (66, 65), (64, 49), (48, 33), (32, 25), (24, 22), (21, 10), (9, 9), (8, 8), (7, 7), (6, 6), (5, 5), (4, 4), (3, 3), (2, 2), (1, 1)] _
      (by decide) (by simp) (by rfl) (by decide) (by decide) hv (2, 2, x.egress)
      (by simp [sja1105et_mac_config_entry_fields]),
    packFieldsV_unpack_field _ _ [(72, 72), (81, 73), (90, 82), (91, 91), (100, 92), (109, 101), (110, 110), (119, 111), (128, 120), (129, 129), (138, 130), (147, 139), (148, 148), (157, 149), (166, 158), (167, 167), (176, 168), (185, 177), (186, 186), (195, 187), (204, 196), (205, 205), (214, 206), (223, 215), (71, 67), (66, 65), (64, 49), (48, 33), (32, 25), (24, 22), (21, 10), (9, 9), (8, 8), (7, 7), (6, 6), (5, 5), (4, 4), (3, 3), (2, 2), (1, 1)] _
      (by decide) (by simp) (by rfl) (by decide) (by decide) hv (1, 1, x.ingress)
      (by simp [sja1105et_mac_config_entry_fields])]
  rw [list_eq_of_getD8 x.top hl_top]
  rw [list_eq_of_getD8 x.base hl_base]
  rw [list_eq_of_getD8 x.enabled hl_enabled]
  show (⟨x.top, x.base, x.enabled, x.ifg, x.speed, x.tp_delin, x.tp_delout, x.maxage, x.vlanprio, x.vlanid, x.ing_mirr, x.egr_mirr, x.drpnona664, x.drpdtag, (0 : Nat), (0 : Nat), x.drpuntag, x.retag, x.dyn_learn, x.egress, x.ingress, (0 : Nat), (0 : Nat), (0 : Nat), (0 : Nat), (0 : Nat)⟩ : MacConfigEntry) = ⟨x.top, x.base, x.enabled, x.ifg, x.speed, x.tp_delin, x.tp_delout, x.maxage, x.vlanprio, x.vlanid, x.ing_mirr, x.egr_mirr, x.drpnona664, x.drpdtag, x.drpsotag, x.drpsitag, x.drpuntag, x.retag, x.dyn_learn, x.egress, x.ingress, x.mirrcie, x.mirrcetag, x.ingmirrvid, x.ingmirrpcp, x.ingmirrdei⟩
  simp only [MacConfigEntry.mk.injEq, and_true, true_and]
  exact ⟨hz_drpsotag.symm, hz_drpsitag.symm, hz_mirrcie.symm, hz_mirrcetag.symm, hz_ingmirrvid.symm, hz_ingmirrpcp.symm, hz_ingmirrdei.symm⟩

def sja1105pqrs_mac_config_entry_fields (x : MacConfigEntry) : List (Nat × Nat × Nat) :=
  [(104, 104, x.enabled.getD 0 0),
   (113, 105, x.base.getD 0 0),
   (122, 114, x.top.getD 0 0),
   (123, 123, x.enabled.getD 1 0),
   (132, 124, x.base.getD 1 0),
   (141, 133, x.top.getD 1 0),
   (142, 142, x.enabled.getD 2 0),
   (151, 143, x.base.getD 2 0),
   (160, 152, x.top.getD 2 0),
   (161, 161, x.enabled.getD 3 0),
   (170, 162, x.base.getD 3 0),
   (179, 171, x.top.getD 3 0),
   (180, 180, x.enabled.getD 4 0),
   (189, 181, x.base.getD 4 0),
   (198, 190, x.top.getD 4 0),
   (199, 199, x.enabled.getD 5 0),
   (208, 200, x.base.getD 5 0),
   (217, 209, x.top.getD 5 0),
   (218, 218, x.enabled.getD 6 0),
   (227, 219, x.base.getD 6 0),
   (236, 228, x.top.getD 6 0),
   (237, 237, x.enabled.getD 7 0),
   (246, 238, x.base.getD 7 0),
   (255, 247, x.top.getD 7 0),
   (103, 99, x.ifg),
   (98, 97, x.speed),
   (96, 81, x.tp_delin),
   (80, 65, x.tp_delout),
   (64, 57, x.maxage),
   (56, 54, x.vlanprio),
   (53, 42, x.vlanid),
   (41, 41, x.ing_mirr),
   (40, 40, x.egr_mirr),
   (39, 39, x.drpnona664),
   (38, 38, x.drpdtag),
   (37, 37, x.drpsotag),
   (36, 36, x.drpsitag),
   (35, 35, x.drpuntag),
   (34, 34, x.retag),
   (33, 33, x.dyn_learn),
   (32, 32, x.egress),
   (31, 31, x.ingress),
   (30, 30, x.mirrcie),
   (29, 29, x.mirrcetag),
   (28, 17, x.ingmirrvid),
   (16, 14, x.ingmirrpcp),
   (13, 13, x.ingmirrdei)]

def sja1105pqrs_mac_config_entry_pack (x : MacConfigEntry) (buf : List Nat) : List Nat :=
  packFieldsV SIZE_MAC_CONFIG_ENTRY_PQRS (sja1105pqrs_mac_config_entry_fields x) buf

def sja1105pqrs_mac_config_entry_unpack (buf : List Nat) : MacConfigEntry :=
  ⟨[sja1105_unpack buf 122 114 SIZE_MAC_CONFIG_ENTRY_PQRS,
    sja1105_unpack buf 141 133 SIZE_MAC_CONFIG_ENTRY_PQRS,
    sja1105_unpack buf 160 152 SIZE_MAC_CONFIG_ENTRY_PQRS,
    sja1105_unpack buf 179 171 SIZE_MAC_CONFIG_ENTRY_PQRS,
    sja1105_unpack buf 198 190 SIZE_MAC_CONFIG_ENTRY_PQRS,
    sja1105_unpack buf 217 209 SIZE_MAC_CONFIG_ENTRY_PQRS,
    sja1105_unpack buf 236 228 SIZE_MAC_CONFIG_ENTRY_PQRS,
    sja1105_unpack buf 255 247 SIZE_MAC_CONFIG_ENTRY_PQRS],
   [sja1105_unpack buf 113 105 SIZE_MAC_CONFIG_ENTRY_PQRS,
    sja1105_unpack buf 132 124 SIZE_MAC_CONFIG_ENTRY_PQRS,
    sja1105_unpack buf 151 143 SIZE_MAC_CONFIG_ENTRY_PQRS,
    sja1105_unpack buf 170 162 SIZE_MAC_CONFIG_ENTRY_PQRS,
    sja1105_unpack buf 189 181 SIZE_MAC_CONFIG_ENTRY_PQRS,
    sja1105_unpack buf 208 200 SIZE_MAC_CONFIG_ENTRY_PQRS,
    sja1105_unpack buf 227 219 SIZE_MAC_CONFIG_ENTRY_PQRS,
    sja1105_unpack buf 246 238 SIZE_MAC_CONFIG_ENTRY_PQRS],
   [sja1105_unpack buf 104 104 SIZE_MAC_CONFIG_ENTRY_PQRS,
    sja1105_unpack buf 123 123 SIZE_MAC_CONFIG_ENTRY_PQRS,
    sja1105_unpack buf 142 142 SIZE_MAC_CONFIG_ENTRY_PQRS,
    sja1105_unpack buf 161 161 SIZE_MAC_CONFIG_ENTRY_PQRS,
    sja1105_unpack buf 180 180 SIZE_MAC_CONFIG_ENTRY_PQRS,
    sja1105_unpack buf 199 199 SIZE_MAC_CONFIG_ENTRY_PQRS,
    sja1105_unpack buf 218 218 SIZE_MAC_CONFIG_ENTRY_PQRS,
    sja1105_unpack buf 237 237 SIZE_MAC_CONFIG_ENTRY_PQRS],
   sja1105_unpack buf 103 99 SIZE_MAC_CONFIG_ENTRY_PQRS,
   sja1105_unpack buf 98 97 SIZE_MAC_CONFIG_ENTRY_PQRS,
   sja1105_unpack buf 96 81 SIZE_MAC_CONFIG_ENTRY_PQRS,
   sja1105_unpack buf 80 65 SIZE_MAC_CONFIG_ENTRY_PQRS,
   sja1105_unpack buf 64 57 SIZE_MAC_CONFIG_ENTRY_PQRS,
   sja1105_unpack buf 56 54 SIZE_MAC_CONFIG_ENTRY_PQRS,
   sja1105_unpack buf 53 42 SIZE_MAC_CONFIG_ENTRY_PQRS,
   sja1105_unpack buf 41 41 SIZE_MAC_CONFIG_ENTRY_PQRS,
   sja1105_unpack buf 40 40 SIZE_MAC_CONFIG_ENTRY_PQRS,
   sja1105_unpack buf 39 39 SIZE_MAC_CONFIG_ENTRY_PQRS,
   sja1105_unpack buf 38 38 SIZE_MAC_CONFIG_ENTRY_PQRS,
   sja1105_unpack buf 37 37 SIZE_MAC_CONFIG_ENTRY_PQRS,
   sja1105_unpack buf 36 36 SIZE_MAC_CONFIG_ENTRY_PQRS,
   sja1105_unpack buf 35 35 SIZE_MAC_CONFIG_ENTRY_PQRS,
   sja1105_unpack buf 34 34 SIZE_MAC_CONFIG_ENTRY_PQRS,
   sja1105_unpack buf 33 33 SIZE_MAC_CONFIG_ENTRY_PQRS,
   sja1105_unpack buf 32 32 SIZE_MAC_CONFIG_ENTRY_PQRS,
   sja1105_unpack buf 31 31 SIZE_MAC_CONFIG_ENTRY_PQRS,
   sja1105_unpack buf 30 30 SIZE_MAC_CONFIG_ENTRY_PQRS,
   sja1105_unpack buf 29 29 SIZE_MAC_CONFIG_ENTRY_PQRS,
   sja1105_unpack buf 28 17 SIZE_MAC_CONFIG_ENTRY_PQRS,
   sja1105_unpack buf 16 14 SIZE_MAC_CONFIG_ENTRY_PQRS,
   sja1105_unpack buf 13 13 SIZE_MAC_CONFIG_ENTRY_PQRS⟩

def sja1105pqrs_mac_config_entry_canonical (x : MacConfigEntry) : Prop :=
  (∀ f ∈ sja1105pqrs_mac_config_entry_fields x, wfField SIZE_MAC_CONFIG_ENTRY_PQRS f) ∧
  x.top.length = 8 ∧
  x.base.length = 8 ∧
  x.enabled.length = 8

instance (x : MacConfigEntry) : Decidable (sja1105pqrs_mac_config_entry_canonical x) := by
  unfold sja1105pqrs_mac_config_entry_canonical wfField
  infer_instance

theorem sja1105pqrs_mac_config_entry_roundtrip (x : MacConfigEntry) (hc : sja1105pqrs_mac_config_entry_canonical x) :
    sja1105pqrs_mac_config_entry_unpack (sja1105pqrs_mac_config_entry_pack x (List.replicate SIZE_MAC_CONFIG_ENTRY_PQRS 0)) = x := by
  obtain ⟨hfit, hl_top, hl_base, hl_enabled⟩ := hc
  have hv : ∀ f ∈ sja1105pqrs_mac_config_entry_fields x, f.2.2 < 2 ^ (f.1 - f.2.1 + 1) :=
    fun f hf => (hfit f hf).2.2.2
  unfold sja1105pqrs_mac_config_entry_unpack sja1105pqrs_mac_config_entry_pack
  rw [packFieldsV_unpack_field _ _ [(104, 104), (113, 105), (122, 114), (123, 123), (132, 124), (141, 133), (142, 142), (151, 143), (160, 152), (161, 161), (170, 162), (179, 171), (180, 180), (189, 181), (198, 190), (199, 199), (208, 200), (217, 209), (218, 218), (227, 219), (236, 228), (237, 237), (246, 238), (255, 247), (103, 99), (98, 97), (96, 81), (80, 65), (64, 57), (56, 54), (53, 42), (41, 41), (40, 40), (39, 39), (38, 38), (37, 37), (36, 36), (35, 35), (34, 34), (33, 33), (32, 32), (31, 31), (30, 30), (29, 29), (28, 17), (16, 14), (13, 13)] _
      (by decide) (by simp) (by rfl) (by decide) (by decide) hv (104, 104, x.enabled.getD 0 0)
      (by simp [sja1105pqrs_mac_config_entry_fields]),
    packFieldsV_unpack_field _ _ [(104, 104), (113, 105), (122, 114), (123, 123), (132, 124), (141, 133), (142, 142), (151, 143), (160, 152), (161, 161), (170, 162), (179, 171), (180, 180), (189, 181), (198, 190), (199, 199), (208, 200), (217, 209), (218, 218), (227, 219), (236, 228), (237, 237), (246, 238), (255, 247), (103, 99), (98, 97), (96, 81), (80, 65), (64, 57), (56, 54), (53, 42), (41, 41), (40, 40), (39, 39), (38, 38), (37, 37), (36, 36), (35, 35), (34, 34), (33, 33), (32, 32), (31, 31), (30, 30), (29, 29), (28, 17), (16, 14), (13, 13)] _
      (by decide) (by simp) (by rfl) (by decide) (by decide) hv (113, 105, x.base.getD 0 0)
      (by simp [sja1105pqrs_mac_config_entry_fields]),
    packFieldsV_unpack_field _ _ [(104, 104), (113, 105), (122, 114), (123, 123), (132, 124), (141, 133), (142, 142), (151, 143), (160, 152), (161, 161), (170, 162), (179, 171), (180, 180), (189, 181), (198, 190), (199, 199), (208, 200), (217, 209), (218, 218), (227, 219), (236, 228), (237, 237), (246, 238), (255, 247), (103, 99), (98, 97), (96, 81), (80, 65), (64, 57), (56, 54), (53, 42), (41, 41), (40, 40), (39, 39), (38, 38), (37, 37), (36, 36), (35, 35), (34, 34), (33, 33), (32, 32), (31, 31), (30, 30), (29, 29), (28, 17), (16, 14), (13, 13)] _
      (by decide) (by simp) (by rfl) (by decide) (by decide) hv (122, 114, x.top.getD 0 0)
      (by simp [sja1105pqrs_mac_config_entry_fields]),
    packFieldsV_unpack_field _ _ [(104, 104), (113, 105), (122, 114), (123, 123), (132, 124), (141, 133), (142, 142), (151, 143), (160, 152), (161, 161), (170, 162), (179, 171), (180, 180), (189, 181), (198, 190), (199, 199), (208, 200), (217, 209), (218, 218), (227, 219), (236, 228), (237, 237), (246, 238), (255, 247), (103, 99), (98, 97), (96, 81), (80, 65), (64, 57), (56, 54), (53, 42), (41, 41), (40, 40), (39, 39), (38, 38), (37, 37), (36, 36), (35, 35), (34, 34), (33, 33), (32, 32), (31, 31), (30, 30), (29, 29), (28, 17), (16, 14), (13, 13)] _
      (by decide) (by simp) (by rfl) (by decide) (by decide) hv (123, 123, x.enabled.getD 1 0)
      (by simp [sja1105pqrs_mac_config_entry_fields]),
    packFieldsV_unpack_field _ _ [(104, 104), (113, 105), (122, 114), (123, 123), (132, 124), (141, 133), (142, 142), (151, 143), (160, 152), (161, 161), (170, 162), (179, 171), (180, 180), (189, 181), (198, 190), (199, 199), (208, 200), (217, 209), (218, 218), (227, 219), (236, 228), (237, 237), (246, 238), (255, 247), (103, 99), (98, 97), (96, 81), (80, 65), (64, 57), (56, 54), (53, 42), (41, 41), (40, 40), (39, 39), (38, 38), (37, 37), (36, 36), (35, 35), (34, 34), (33, 33), (32, 32), (31, 31), (30, 30), (29, 29), (28, 17), (16, 14), (13, 13)] _
      (by decide) (by simp) (by rfl) (by decide) (by decide) hv (132, 124, x.base.getD 1 0)
      (by simp [sja1105pqrs_mac_config_entry_fields]),
    packFieldsV_unpack_field _ _ [(104, 104), (113, 105), (122, 114), (123, 123), (132, 124), (141, 133), (142, 142), (151, 143), (160, 152), (161, 161), (170, 162), (179, 171), (180, 180), (189, 181), (198, 190), (199, 199), (208, 200), (217, 209), (218, 218), (227, 219), (236, 228), (237, 237), (246, 238), (255, 247), (103, 99), (98, 97), (96, 81), (80, 65), (64, 57), (56, 54), (53, 42), (41, 41), (40, 40), (39, 39), (38, 38), (37, 37), (36, 36), (35, 35), (34, 34), (33, 33), (32, 32), (31, 31), (30, 30), (29, 29), (28, 17), (16, 14), (13, 13)] _
      (by decide) (by simp) (by rfl) (by decide) (by decide) hv (141, 133, x.top.getD 1 0)
      (by simp [sja1105pqrs_mac_config_entry_fields]),
    packFieldsV_unpack_field _ _ [(104, 104), (113, 105), (122, 114), (123, 123), (132, 124), (141, 133), (142, 142), (151, 143), (160, 152), (161, 161), (170, 162), (179, 171), (180, 180), (189, 181), (198, 190), (199, 199), (208, 200), (217, 209), (218, 218), (227, 219), (236, 228), (237, 237), (246, 238), (255, 247), (103, 99), (98, 97), (96, 81), (80, 65), (64, 57), (56, 54), (53, 42), (41, 41), (40, 40), (39, 39), (38, 38), (37, 37), (36, 36), (35, 35), (34, 34), (33, 33), (32, 32), (31, 31), (30, 30), (29, 29), (28, 17), (16, 14), (13, 13)] _
      (by decide) (by simp) (by rfl) (by decide) (by decide) hv (142, 142, x.enabled.getD 2 0)
      (by simp [sja1105pqrs_mac_config_entry_fields]),
    packFieldsV_unpack_field _ _ [(104, 104), (113, 105), (122, 114), (123, 123), (132, 124), (141, 133), (142, 142), (151, 143), (160, 152), (161, 161), (170, 162), (179, 171), (180, 180), (189, 181), (198, 190), (199, 199), (208, 200), (217, 209), (218, 218), (227, 219), (236, 228), (237, 237), (246, 238), (255, 247), (103, 99), (98, 97), (96, 81), (80, 65), (64, 57), (56, 54), (53, 42), (41, 41), (40, 40), (39, 39), (38, 38), (37, 37), (36, 36), (35, 35), (34, 34), (33, 33), (32, 32), (31, 31), (30, 30), (29, 29), (28, 17), (16, 14), (13, 13)] _
      (by decide) (by simp) (by rfl) (by decide) (by decide) hv (151, 143, x.base.getD 2 0)
      (by simp [sja1105pqrs_mac_config_entry_fields]),
    packFieldsV_unpack_field _ _ [(104, 104), (113, 105), (122, 114), (123, 123), (132, 124), (141, 133), (142, 142), (151, 143), (160, 152), (161, 161), (170, 162), (179, 171), (180, 180), (189, 181), (198, 190), (199, 199), (208, 200), (217, 209), (218, 218), (227, 219), (236, 228), (237, 237), (246, 238), (255, 247), (103, 99), (98, 97), (96, 81), (80, 65), (64, 57), (56, 54), (53, 42), (41, 41), (40, 40), (39, 39), (38, 38), (37, 37), (36, 36), (35, 35), (34, 34), (33, 33), (32, 32), (31, 31), (30, 30), (29, 29), (28, 17), (16, 14), (13, 13)] _
      (by decide) (by simp) (by rfl) (by decide) (by decide) hv (160, 152, x.top.getD 2 0)
      (by simp [sja1105pqrs_mac_config_entry_fields]),
    packFieldsV_unpack_field _ _ [(104, 104), (113, 105), (122, 114), (123, 123), (132, 124), (141, 133), (142, 142), (151, 143), (160, 152), (161, 161), (170, 162), (179, 171), (180, 180), (189, 181), (198, 190), (199, 199), (208, 200), (217, 209), (218, 218), (227, 219), (236, 228), (237, 237), (246, 238), (255, 247), (103, 99), (98, 97), (96, 81), (80, 65), (64, 57), (56, 54), (53, 42), (41, 41), (40, 40), (39, 39), (38, 38), (37, 37), (36, 36), (35, 35), (34, 34), (33, 33), (32, 32), (31, 31), (30, 30), (29, 29), (28, 17), (16, 14), (13, 13)] _
      (by decide) (by simp) (by rfl) (by decide) (by decide) hv (161, 161, x.enabled.getD 3 0)
      (by simp [sja1105pqrs_mac_config_entry_fields]),
    packFieldsV_unpack_field _ _ [(104, 104), (113, 105), (122, 114), (123, 123), (132, 124), (141, 133), (142, 142), (151, 143), (160, 152), (161, 161), (170, 162), (179, 171), (180, 180), (189, 181), (198, 190), (199, 199), (208, 200), (217, 209), (218, 218), (227, 219), (236, 228), (237, 237), (246, 238), (255, 247), (103, 99), (98, 97), (96, 81), (80, 65), (64, 57), (56, 54), (53, 42), (41, 41), (40, 40), (39, 39), (38, 38), (37, 37), (36, 36), (35, 35), (34, 34), (33, 33), (32, 32), (31, 31), (30, 30), (29, 29), (28, 17), (16, 14), (13, 13)] _
      (by decide) (by simp) (by rfl) (by decide) (by decide) hv (170, 162, x.base.getD 3 0)
      (by simp [sja1105pqrs_mac_config_entry_fields]),
    packFieldsV_unpack_field _ _ [(104, 104), (113, 105), (122, 114), (123, 123), (132, 124), (141, 133), (142, 142), (151, 143), (160, 152), (161, 161), (170, 162), (179, 171), (180, 180), (189, 181), (198, 190), (199, 199), (208, 200), (217, 209), (218, 218), (227, 219), (236, 228), (237, 237), (246, 238), (255, 247), (103, 99), (98, 97), (96, 81), (80, 65), (64, 57), (56, 54), (53, 42), (41, 41), (40, 40), (39, 39), (38, 38), (37, 37), (36, 36), (35, 35), (34, 34), (33, 33), (32, 32), (31, 31), (30, 30), (29, 29), (28, 17), (16, 14), (13, 13)] _
      (by decide) (by simp) (by rfl) (by decide) (by decide) hv (179, 171, x.top.getD 3 0)
      (by simp [sja1105pqrs_mac_config_entry_fields]),
    packFieldsV_unpack_field _ _ [(104, 104), (113, 105), (122, 114), (123, 123), (132, 124), (141, 133), (142, 142), (151, 143), (160, 152), (161, 161), (170, 162), (179, 171), (180, 180), (189, 181), (198, 190), (199, 199), (208, 200), (217, 209), (218, 218), (227, 219), (236, 228), (237, 237), (246, 238), (255, 247), (103, 99), (98, 97), (96, 81), (80, 65), (64, 57), (56, 54), (53, 42), (41, 41), (40, 40), (39, 39), (38, 38), (37, 37), (36, 36), (35, 35), (34, 34), (33, 33), (32, 32), (31, 31), (30, 30), (29, 29), (28, 17), (16, 14), (13, 13)] _
      (by decide) (by simp) (by rfl) (by decide) (by decide) hv (180, 180, x.enabled.getD 4 0)
      (by simp [sja1105pqrs_mac_config_entry_fields]),
    packFieldsV_unpack_field _ _ [(104, 104), (113, 105), (122, 114), (123, 123), (132, 124), (141, 133), (142, 142), (151, 143), (160, 152), (161, 161), (170, 162), (179, 171), (180, 180), (189, 181), (198, 190), (199, 199), (208, 200), (217, 209), (218, 218), (227, 219), (236, 228), (237, 237), (246, 238), (255, 247), (103, 99), (98, 97), (96, 81), (80, 65), (64, 57), (56, 54), (53, 42), (41, 41), (40, 40), (39, 39), (38, 38), (37, 37), (36, 36), (35, 35), (34, 34), (33, 33), (32, 32), (31, 31), (30, 30), (29, 29), (28, 17), (16, 14), (13, 13)] _
      (by decide) (by simp) (by rfl) (by decide) (by decide) hv (189, 181, x.base.getD 4 0)
      (by simp [sja1105pqrs_mac_config_entry_fields]),
    packFieldsV_unpack_field _ _ [(104, 104), (113, 105), (122, 114), (123, 123), (132, 124), (141, 133), (142, 142), (151, 143), (160, 152), (161, 161), (170, 162), (179, 171), (180, 180), (189, 181), (198, 190), (199, 199), (208, 200), (217, 209), (218, 218), (227, 219), (236, 228), (237, 237), (246, 238), (255, 247), (103, 99), (98, 97), (96, 81), (80, 65), (64, 57), (56, 54), (53, 42), (41, 41), (40, 40), (39, 39), (38, 38), (37, 37), (36, 36), (35, 35), (34, 34), (33, 33), (32, 32), (31, 31), (30, 30), (29, 29), (28, 17), (16, 14), (13, 13)] _
      (by decide) (by simp) (by rfl) (by decide) (by decide) hv (198, 190, x.top.getD 4 0)
      (by simp [sja1105pqrs_mac_config_entry_fields]),
    packFieldsV_unpack_field _ _ [(104, 104), (113, 105), (122, 114), (123, 123), (132, 124), (141, 133), (142, 142), (151, 143), (160, 152), (161, 161), (170, 162), (179, 171), (180, 180), (189, 181), (198, 190), (199, 199), (208, 200), (217, 209), (218, 218), (227, 219), (236, 228), (237, 237), (246, 238), (255, 247), (103, 99), (98, 97), (96, 81), (80, 65), (64, 57), (56, 54), (53, 42), (41, 41), (40, 40), (39, 39), (38, 38), (37, 37), (36, 36), (35, 35), (34, 34), (33, 33), (32, 32), (31, 31), (30, 30), (29, 29), (28, 17), (16, 14), (13, 13)] _
      (by decide) (by simp) (by rfl) (by decide) (by decide) hv (199, 199, x.enabled.getD 5 0)
      (by simp [sja1105pqrs_mac_config_entry_fields]),
    packFieldsV_unpack_field _ _ [(104, 104), (113, 105), (122, 114), (123, 123), (132, 124), (141, 133), (142, 142), (151, 143), (160, 152), (161, 161), (170, 162), (179, 171), (180, 180), (189, 181), (198, 190), (199, 199), (208, 200), (217, 209), (218, 218), (227, 219), (236, 228), (237, 237), (246, 238), (255, 247), (103, 99), (98, 97), (96, 81), (80, 65), (64, 57), (56, 54), (53, 42), (41, 41), (40, 40), (39, 39), (38, 38), (37, 37), (36, 36), (35, 35), (34, 34), (33, 33), (32, 32), (31, 31), (30, 30), (29, 29), (28, 17), (16, 14), (13, 13)] _
      (by decide) (by simp) (by rfl) (by decide) (by decide) hv (208, 200, x.base.getD 5 0)
      (by simp [sja1105pqrs_mac_config_entry_fields]),
    packFieldsV_unpack_field _ _ [(104, 104), (113, 105), (122, 114), (123, 123), (132, 124), (141, 133), (142, 142), (151, 143), (160, 152), (161, 161), (170, 162), (179, 171), (180, 180), (189, 181), (198, 190), (199, 199), (208, 200), (217, 209), (218, 218), (227, 219), (236, 228), (237, 237), (246, 238), (255, 247), (103, 99), (98, 97), (96, 81), (80, 65), (64, 57), (56, 54), (53, 42), (41, 41), (40, 40), (39, 39), (38, 38), (37, 37), (36, 36), (35, 35), (34, 34), (33, 33), (32, 32), (31, 31), (30, 30), (29, 29), (28, 17), (16, 14), (13, 13)] _
      (by decide) (by simp) (by rfl) (by decide) (by decide) hv (217, 209, x.top.getD 5 0)
      (by simp [sja1105pqrs_mac_config_entry_fields]),
    packFieldsV_unpack_field _ _ [(104, 104), (113, 105), (122, 114), (123, 123), (132, 124), (141, 133), (142, 142), (151, 143), (160, 152), (161, 161), (170, 162), (179, 171), (180, 180), (189, 181), (198, 190), (199, 199), (208, 200), (217, 209), (218, 218), (227, 219), (236, 228), (237, 237), (246, 238), (255, 247), (103, 99), (98, 97), (96, 81), (80, 65), (64, 57), (56, 54), (53, 42), (41, 41), (40, 40), (39, 39), (38, 38), (37, 37), (36, 36), (35, 35), (34, 34), (33, 33), (32, 32), (31, 31), (30, 30), (29, 29), (28, 17), (16, 14), (13, 13)] _
      (by decide) (by simp) (by rfl) (by decide) (by decide) hv (218, 218, x.enabled.getD 6 0)
      (by simp [sja1105pqrs_mac_config_entry_fields]),
    packFieldsV_unpack_field _ _ [(104, 104), (113, 105), (122, 114), (123, 123), (132, 124), (141, 133), (142, 142), (151, 143), (160, 152), (161, 161), (170, 162), (179, 171), (180, 180), (189, 181), (198, 190), (199, 199), (208, 200), (217, 209), (218, 218), (227, 219), (236, 228), (237, 237), (246, 238), (255, 247), (103, 99), (98, 97), (96, 81), (80, 65), (64, 57), (56, 54), (53, 42), (41, 41), (40, 40), (39, 39), (38, 38), (37, 37), (36, 36), (35, 35), (34, 34), (33, 33), (32, 32), (31, 31), (30, 30), (29, 29), (28, 17), (16, 14), (13, 13)] _
      (by decide) (by simp) (by rfl) (by decide) (by decide) hv (227, 219, x.base.getD 6 0)
      (by simp [sja1105pqrs_mac_config_entry_fields]),
    packFieldsV_unpack_field _ _ [(104, 104), (113, 105), (122, 114), (123, 123), (132, 124), (141, 133), (142, 142), (151, 143), (160, 152), (161, 161), (170, 162), (179, 171), (180, 180), (189, 181), (198, 190), (199, 199), (208, 200), (217, 209), (218, 218), (227, 219), (236, 228), (237, 237), (246, 238), (255, 247), (103, 99), (98, 97), (96, 81), (80, 65), (64, 57), (56, 54), (53, 42), (41, 41), (40, 40), (39, 39), (38, 38), (37, 37), (36, 36), (35, 35), (34, 34), (33, 33), (32, 32), (31, 31), (30, 30), (29, 29), (28, 17), (16, 14), (13, 13)] _
      (by decide) (by simp) (by rfl) (by decide) (by decide) hv (236, 228, x.top.getD 6 0)
      (by simp [sja1105pqrs_mac_config_entry_fields]),
    packFieldsV_unpack_field _ _ [(104, 104), (113, 105), (122, 114), (123, 123), (132, 124), (141, 133), (142, 142), (151, 143), (160, 152), (161, 161), (170, 162), (179, 171), (180, 180), (189, 181), (198, 190), (199, 199), (208, 200), (217, 209), (218, 218), (227, 219), (236, 228), (237, 237), (246, 238), (255, 247), (103, 99), (98, 97), (96, 81), (80, 65), (64, 57), (56, 54), (53, 42), (41, 41), (40, 40), (39, 39), (38, 38), (37, 37), (36, 36), (35, 35), (34, 34), (33, 33), (32, 32), (31, 31), (30, 30), (29, 29), (28, 17), (16, 14), (13, 13)] _
      (by decide) (by simp) (by rfl) (by decide) (by decide) hv (237, 237, x.enabled.getD 7 0)
      (by simp [sja1105pqrs_mac_config_entry_fields]),
    packFieldsV_unpack_field _ _ [(104, 104), (113, 105), (122, 114), (123, 123), (132, 124), (141, 133), (142, 142), (151, 143), (160, 152), (161, 161), (170, 162), (179, 171), (180, 180), (189, 181), (198, 190), (199, 199), (208, 200), (217, 209), (218, 218), (227, 219), (236, 228), (237, 237), (246, 238), (255, 247), (103, 99), (98, 97), (96, 81), (80, 65), (64, 57), (56, 54), (53, 42), (41, 41), (40, 40), (39, 39), (38, 38), (37, 37), (36, 36), (35, 35), (34, 34), (33, 33), (32, 32), (31, 31), (30, 30), (29, 29), (28, 17), (16, 14), (13, 13)] _
      (by decide) (by simp) (by rfl) (by decide) (by decide) hv (246, 238, x.base.getD 7 0)
      (by simp [sja1105pqrs_mac_config_entry_fields]),
    packFieldsV_unpack_field _ _ [(104, 104), (113, 105), (122, 114), (123, 123), (132, 124), (141, 133), (142, 142), (151, 143), (160, 152), (161, 161), (170, 162), (179, 171), (180, 180), (189, 181), (198, 190), (199, 199), (208, 200), (217, 209), (218, 218), (227, 219), (236, 228), (237, 237), (246, 238), (255, 247), (103, 99), (98, 97), (96, 81), (80, 65), (64, 57), (56, 54), (53, 42), (41, 41), (40, 40), (39, 39), (38, 38), (37, 37), (36, 36), (35, 35), (34, 34), (33, 33), (32, 32), (31, 31), (30, 30), (29, 29), (28, 17), (16, 14), (13, 13)] _
      (by decide) (by simp) (by rfl) (by decide) (by decide) hv (255, 247, x.top.getD 7 0)
      (by simp [sja1105pqrs_mac_config_entry_fields]),
    packFieldsV_unpack_field _ _ [(104, 104), (113, 105), (122, 114), (123, 123), (132, 124), (141, 133), (142, 142), (151, 143), (160, 152), (161, 161), (170, 162), (179, 171), (180, 180), (189, 181), (198, 190), (199, 199), (208, 200), (217, 209), (218, 218), (227, 219), (236, 228), (237, 237), (246, 238), (255, 247), (103, 99), (98, 97), (96, 81), (80, 65), (64, 57), (56, 54), (53, 42), (41, 41), (40, 40), (39, 39), (38, 38), (37, 37), (36, 36), (35, 35), (34, 34), (33, 33), (32, 32), (31, 31), (30, 30), (29, 29), (28, 17), (16, 14), (13, 13)] _
      (by decide) (by simp) (by rfl) (by decide) (by decide) hv (103, 99, x.ifg)
      (by simp [sja1105pqrs_mac_config_entry_fields]),
    packFieldsV_unpack_field _ _ [(104, 104), (113, 105), (122, 114), (123, 123), (132, 124), (141, 133), (142, 142), (151, 143), (160, 152), (161, 161), (170, 162), (179, 171), (180, 180), (189, 181), (198, 190), (199, 199), (208, 200), (217, 209), (218, 218), (227, 219), (236, 228), (237, 237), (246, 238), (255, 247), (103, 99), (98, 97), (96, 81), (80, 65), (64, 57), (56, 54), (53, 42), (41, 41), (40, 40), (39, 39), (38, 38), (37, 37), (36, 36), (35, 35), (34, 34), (33, 33), (32, 32), (31, 31), (30, 30), (29, 29), (28, 17), (16, 14), (13, 13)] _
      (by decide) (by simp) (by rfl) (by decide) (by decide) hv (98, 97, x.speed)
      (by simp [sja1105pqrs_mac_config_entry_fields]),
    packFieldsV_unpack_field _ _ [(104, 104), (113, 105), (122, 114), (123, 123), (132, 124), (141, 133), (142, 142), (151, 143), (160, 152), (161, 161), (170, 162), (179, 171), (180, 180), (189, 181), (198, 190), (199, 199), (208, 200), (217, 209), (218, 218), (227, 219), (236, 228), (237, 237), (246, 238), (255, 247), (103, 99), (98, 97), (96, 81), (80, 65), (64, 57), (56, 54), (53, 42), (41, 41), (40, 40), (39, 39), (38, 38), (37, 37), (36, 36), (35, 35), (34, 34), (33, 33), (32, 32), (31, 31), (30, 30), (29, 29), (28, 17), (16, 14), (13, 13)] _
      (by decide) (by simp) (by rfl) (by decide) (by decide) hv (96, 81, x.tp_delin)
      (by simp [sja1105pqrs_mac_config_entry_fields]),
    packFieldsV_unpack_field _ _ [(104, 104), (113, 105), (122, 114), (123, 123), (132, 124), (141, 133), (142, 142), (151, 143), (160, 152), (161, 161), (170, 162), (179, 171), (180, 180), (189, 181), (198, 190), (199, 199), (208, 200), (217, 209), (218, 218), (227, 219), (236, 228), (237, 237), (246, 238), (255, 247), (103, 99), (98, 97), (96, 81), (80, 65), (64, 57), (56, 54), (53, 42), (41, 41), (40, 40), (39, 39), (38, 38), (37, 37), (36, 36), (35, 35), (34, 34), (33, 33), (32, 32), (31, 31), (30, 30), (29, 29), (28, 17), (16, 14), (13, 13)] _
      (by decide) (by simp) (by rfl) (by decide) (by decide) hv (80, 65, x.tp_delout)
      (by simp [sja1105pqrs_mac_config_entry_fields]),
    packFieldsV_unpack_field _ _ [(104, 104), (113, 105), (122, 114), (123, 123), (132, 124), (141, 133), (142, 142), (151, 143), (160, 152), (161, 161), (170, 162), (179, 171), (180, 180), (189, 181), (198, 190), (199, 199), (208, 200), (217, 209), (218, 218), (227, 219), (236, 228), (237, 237), (246, 238), (255, 247), (103, 99), (98, 97), (96, 81), (80, 65), (64, 57), (56, 54), (53, 42), (41, 41), (40, 40), (39, 39), (38, 38), (37, 37), (36, 36), (35, 35), (34, 34), (33, 33), (32, 32), (31, 31), (30, 30), (29, 29), (28, 17), (16, 14), (13, 13)] _
      (by decide) (by simp) (by rfl) (by decide) (by decide) hv (64, 57, x.maxage)
      (by simp [sja1105pqrs_mac_config_entry_fields]),
    packFieldsV_unpack_field _ _ [(104, 104), (113, 105), (122, 114), (123, 123), (132, 124), (141, 133), (142, 142), (151, 143), (160, 152), (161, 161), (170, 162), (179, 171), (180, 180), (189, 181), (198, 190), (199, 199), (208, 200), (217, 209), (218, 218), (227, 219), (236, 228), (237, 237), (246, 238), (255, 247), (103, 99), (98, 97), (96, 81), (80, 65), (64, 57), (56, 54), (53, 42), (41, 41), (40, 40), (39, 39), (38, 38), (37, 37), (36, 36), (35, 35), (34, 34), (33, 33), (32, 32), (31, 31), (30, 30), (29, 29), (28, 17), (16, 14), (13, 13)] _
      (by decide) (by simp) (by rfl) (by decide) (by decide) hv (56, 54, x.vlanprio)
      (by simp [sja1105pqrs_mac_config_entry_fields]),
    packFieldsV_unpack_field _ _ [(104, 104), (113, 105), (122, 114), (123, 123), (132, 124), (141, 133), (142, 142), (151, 143), (160, 152), (161, 161), (170, 162), (179, 171), (180, 180), (189, 181), (198, 190), (199, 199), (208, 200), (217, 209), (218, 218), (227, 219), (236, 228), (237, 237), (246, 238), (255, 247), (103, 99), (98, 97), (96, 81), (80, 65), (64, 57), (56, 54), (53, 42), (41, 41), (40, 40), (39, 39), (38, 38), (37, 37), (36, 36), (35, 35), (34, 34), (33, 33), (32, 32), (31, 31), (30, 30), (29, 29), (28, 17), (16, 14), (13, 13)] _
      (by decide) (by simp) (by rfl) (by decide) (by decide) hv (53, 42, x.vlanid)
      (by simp [sja1105pqrs_mac_config_entry_fields]),
    packFieldsV_unpack_field _ _ [(104, 104), (113, 105), (122, 114), (123, 123), (132, 124), (141, 133), (142, 142), (151, 143), (160, 152), (161, 161), (170, 162), (179, 171), (180, 180), (189, 181), (198, 190), (199, 199), (208, 200), (217, 209), (218, 218), (227, 219), (236, 228), (237, 237), (246, 238), (255, 247), (103, 99), (98, 97), (96, 81), (80, 65), (64, 57), (56, 54), (53, 42), (41, 41), (40, 40), (39, 39), (38, 38), (37, 37), (36, 36), (35, 35), (34, 34), (33, 33), (32, 32), (31, 31), (30, 30), (29, 29), (28, 17), (16, 14), (13, 13)] _
      (by decide) (by simp) (by rfl) (by decide) (by decide) hv (41, 41, x.ing_mirr)
      (by simp [sja1105pqrs_mac_config_entry_fields]),
    packFieldsV_unpack_field _ _ [(104, 104), (113, 105), (122, 114), (123, 123), (132, 124), (141, 133), (142, 142), (151, 143), (160, 152), (161, 161), (170, 162), (179, 171), (180, 180), (189, 181), (198, 190), (199, 199), (208, 200), (217, 209), (218, 218), (227, 219), (236, 228), (237, 237), (246, 238), (255, 247), (103, 99), (98, 97), (96, 81), (80, 65), (64, 57), (56, 54), (53, 42), (41, 41), (40, 40), (39, 39), (38, 38), (37, 37), (36, 36), (35, 35), (34, 34), (33, 33), (32, 32), (31, 31), (30, 30), (29, 29), (28, 17), (16, 14), (13, 13)] _
      (by decide) (by simp) (by rfl) (by decide) (by decide) hv (40, 40, x.egr_mirr)
      (by simp [sja1105pqrs_mac_config_entry_fields]),
    packFieldsV_unpack_field _ _ [(104, 104), (113, 105), (122, 114), (123, 123), (132, 124), (141, 133), (142, 142), (151, 143), (160, 152), (161, 161), (170, 162), (179, 171), (180, 180), (189, 181), (198, 190), (199, 199), (208, 200), (217, 209), (218, 218), (227, 219), (236, 228), (237, 237), (246, 238), (255, 247), (103, 99), (98, 97), (96, 81), (80, 65), (64, 57), (56, 54), (53, 42), (41, 41), (40, 40), (39, 39), (38, 38), (37, 37), (36, 36), (35, 35), (34, 34), (33, 33), (32, 32), (31, 31), (30, 30), (29, 29), (28, 17), (16, 14), (13, 13)] _
      (by decide) (by simp) (by rfl) (by decide) (by decide) hv (39, 39, x.drpnona664)
      (by simp [sja1105pqrs_mac_config_entry_fields]),
    packFieldsV_unpack_field _ _ [(104, 104), (113, 105), (122, 114), (123, 123), (132, 124), (141, 133), (142, 142), (151, 143), (160, 152), (161, 161), (170, 162), (179, 171), (180, 180), (189, 181), (198, 190), (199, 199), (208, 200), (217, 209), (218, 218), (227, 219), (236, 228), (237, 237), (246, 238), (255, 247), (103, 99), (98, 97), (96, 81), (80, 65), (64, 57), (56, 54), (53, 42), (41, 41), (40, 40), (39, 39), (38, 38), (37, 37), (36, 36), (35, 35), (34, 34), (33, 33), (32, 32), (31, 31), (30, 30), (29, 29), (28, 17), (16, 14), (13, 13)] _
      (by decide) (by simp) (by rfl) (by decide) (by decide) hv (38, 38, x.drpdtag)
      (by simp [sja1105pqrs_mac_config_entry_fields]),
    packFieldsV_unpack_field _ _ [(104, 104), (113, 105), (122, 114), (123, 123), (132, 124), (141, 133), (142, 142), (151, 143), (160, 152), (161, 161), (170, 162), (179, 171), (180, 180), (189, 181), (198, 190), (199, 199), (208, 200), (217, 209), (218, 218), (227, 219), (236, 228), (237, 237), (246, 238), (255, 247), (103, 99), (98, 97), (96, 81), (80, 65), (64, 57), (56, 54), (53, 42), (41, 41), (40, 40), (39, 39), (38, 38), (37, 37), (36, 36), (35, 35), (34, 34), (33, 33), (32, 32), (31, 31), (30, 30), (29, 29), (28, 17), (16, 14), (13, 13)] _
      (by decide) (by simp) (by rfl) (by decide) (by decide) hv (37, 37, x.drpsotag)
      (by simp [sja1105pqrs_mac_config_entry_fields]),
    packFieldsV_unpack_field _ _ [(104, 104), (113, 105), (122, 114), (123, 123), (132, 124), (141, 133), (142, 142), (151, 143), (160, 152), (161, 161), (170, 162), (179, 171), (180, 180), (189, 181), (198, 190), (199, 199), (208, 200), (217, 209), (218, 218), (227, 219), (236, 228), (237, 237), (246, 238), (255, 247), (103, 99), (98, 97), (96, 81), (80, 65), (64, 57), (56, 54), (53, 42), (41, 41), (40, 40), (39, 39), (38, 38), (37, 37), (36, 36), (35, 35), (34, 34), (33, 33), (32, 32), (31, 31), (30, 30), (29, 29), (28, 17), (16, 14), (13, 13)] _
      (by decide) (by simp) (by rfl) (by decide) (by decide) hv (36, 36, x.drpsitag)
      (by simp [sja1105pqrs_mac_config_entry_fields]),
    packFieldsV_unpack_field _ _ [(104, 104), (113, 105), (122, 114), (123, 123), (132, 124), (141, 133), (142, 142), (151, 143), (160, 152), (161, 161), (170, 162), (179, 171), (180, 180), (189, 181), (198, 190), (199, 199), (208, 200), (217, 209), (218, 218), (227, 219), (236, 228), (237, 237), (246, 238), (255, 247), (103, 99), (98, 97), (96, 81), (80, 65), (64, 57), (56, 54), (53, 42), (41, 41), (40, 40), (39, 39), (38, 38), (37, 37), (36, 36), (35, 35), (34, 34), (33, 33), (32, 32), (31, 31), (30, 30), (29, 29), (28, 17), (16, 14), (13, 13)] _
      (by decide) (by simp) (by rfl) (by decide) (by decide) hv (35, 35, x.drpuntag)
      (by simp [sja1105pqrs_mac_config_entry_fields]),
    packFieldsV_unpack_field _ _ [(104, 104), (113, 105), (122, 114), (123, 123), (132, 124), (141, 133), (142, 142), (151, 143), (160, 152), (161, 161), (170, 162), (179, 171), (180, 180), (189, 181), (198, 190), (199, 199), (208, 200), (217, 209), (218, 218), (227, 219), (236, 228), (237, 237), (246, 238), (255, 247), (103, 99), (98, 97), (96, 81), (80, 65), (64, 57), (56, 54), (53, 42), (41, 41), (40, 40), (39, 39), (38, 38), (37, 37), (36, 36), (35, 35), (34, 34), (33, 33), (32, 32), (31, 31), (30, 30), (29, 29), (28, 17), (16, 14), (13, 13)] _
      (by decide) (by simp) (by rfl) (by decide) (by decide) hv (34, 34, x.retag)
      (by simp [sja1105pqrs_mac_config_entry_fields]),
    packFieldsV_unpack_field _ _ [(104, 104), (113, 105), (122, 114), (123, 123), (132, 124), (141, 133), (142, 142), (151, 143), (160, 152), (161, 161), (170, 162), (179, 171), (180, 180), (189, 181), (198, 190), (199, 199), (208, 200), (217, 209), (218, 218), (227, 219), (236, 228), (237, 237), (246, 238), (255, 247), (103, 99), (98, 97), (96, 81), (80, 65), (64, 57), (56, 54), (53, 42), (41, 41), (40, 40), (39, 39), (38, 38), (37, 37), (36, 36), (35, 35), (34, 34), (33, 33), (32, 32), (31, 31), (30, 30), (29, 29), (28, 17), (16, 14), (13, 13)] _
      (by decide) (by simp) (by rfl) (by decide) (by decide) hv (33, 33, x.dyn_learn)
      (by simp [sja1105pqrs_mac_config_entry_fields]),
    packFieldsV_unpack_field _ _ [(104, 104), (113, 105), (122, 114), (123, 123), (132, 124), (141, 133), (142, 142), (151, 143), (160, 152), (161, 161), (170, 162), (179, 171), (180, 180), (189, 181), (198, 190), (199, 199), (208, 200), (217, 209), (218, 218), (227, 219), (236, 228), (237, 237), (246, 238), (255, 247), (103, 99), (98, 97), (96, 81), (80, 65), (64, 57), (56, 54), (53, 42), (41, 41), (40, 40), (39, 39), (38, 38), (37, 37), (36, 36), (35, 35), (34, 34), (33, 33), (32, 32), (31, 31), (30, 30), (29, 29), (28, 17), (16, 14), (13, 13)] _
      (by decide) (by simp) (by rfl) (by decide) (by decide) hv (32, 32, x.egress)
      (by simp [sja1105pqrs_mac_config_entry_fields]),
    packFieldsV_unpack_field _ _ [(104, 104), (113, 105), (122, 114), (123, 123), (132, 124), (141, 133), (142, 142), (151, 143), (160, 152), (161, 161), (170, 162), (179, 171), (180, 180), (189, 181), (198, 190), (199, 199), (208, 200), (217, 209), (218, 218), (227, 219), (236, 228), (237, 237), (246, 238), (255, 247), (103, 99), (98, 97), (96, 81), (80, 65), (64, 57), (56, 54), (53, 42), (41, 41), (40, 40), (39, 39), (38, 38), (37, 37), (36, 36), (35, 35), (34, 34), (33, 33), (32, 32), (31, 31), (30, 30), (29, 29), (28, 17), (16, 14), (13, 13)] _
      (by decide) (by simp) (by rfl) (by decide) (by decide) hv (31, 31, x.ingress)
      (by simp [sja1105pqrs_mac_config_entry_fields]),
    packFieldsV_unpack_field _ _ [(104, 104), (113, 105), (122, 114), (123, 123), (132, 124), (141, 133), (142, 142), (151, 143), (160, 152), (161, 161), (170, 162), (179, 171), (180, 180), (189, 181), (198, 190), (199, 199), (208, 200), (217, 209), (218, 218), (227, 219), (236, 228), (237, 237), (246, 238), (255, 247), (103, 99), (98, 97), (96, 81), (80, 65), (64, 57), (56, 54), (53, 42), (41, 41), (40, 40), (39, 39), (38, 38), (37, 37), (36, 36), (35, 35), (34, 34), (33, 33), (32, 32), (31, 31), (30, 30), (29, 29), (28, 17), (16, 14), (13, 13)] _
      (by decide) (by simp) (by rfl) (by decide) (by decide) hv (30, 30, x.mirrcie)
      (by simp [sja1105pqrs_mac_config_entry_fields]),
    packFieldsV_unpack_field _ _ [(104, 104), (113, 105), (122, 114), (123, 123), (132, 124), (141, 133), (142, 142), (151, 143), (160, 152), (161, 161), (170, 162), (179, 171), (180, 180), (189, 181), (198, 190), (199, 199), (208, 200), (217, 209), (218, 218), (227, 219), (236, 228), (237, 237), (246, 238), (255, 247), (103, 99), (98, 97), (96, 81), (80, 65), (64, 57), (56, 54), (53, 42), (41, 41), (40, 40), (39, 39), (38, 38), (37, 37), (36, 36), (35, 35), (34, 34), (33, 33), (32, 32), (31, 31), (30, 30), (29, 29), (28, 17), (16, 14), (13, 13)] _
      (by decide) (by simp) (by rfl) (by decide) (by decide) hv (29, 29, x.mirrcetag)
      (by simp [sja1105pqrs_mac_config_entry_fields]),
    packFieldsV_unpack_field _ _ [(104, 104), (113, 105), (122, 114), (123, 123), (132, 124), (141, 133), (142, 142), (151, 143), (160, 152), (161, 161), (170, 162), (179, 171), (180, 180), (189, 181), (198, 190), (199, 199), (208, 200), (217, 209), (218, 218), (227, 219), (236, 228), (237, 237), (246, 238), (255, 247), (103, 99), (98, 97), (96, 81), (80, 65), (64, 57), (56, 54), (53, 42), (41, 41), (40, 40), (39, 39), (38, 38), (37, 37), (36, 36), (35, 35), (34, 34), (33, 33), (32, 32), (31, 31), (30, 30), (29, 29), (28, 17), (16, 14), (13, 13)] _
      (by decide) (by simp) (by rfl) (by decide) (by decide) hv (28, 17, x.ingmirrvid)
      (by simp [sja1105pqrs_mac_config_entry_fields]),
    packFieldsV_unpack_field _ _ [(104, 104), (113, 105), (122, 114), (123, 123), (132, 124), (141, 133), (142, 142), (151, 143), (160, 152), (161, 161), (170, 162), (179, 171), (180, 180), (189, 181), (198, 190), (199, 199), (208, 200), (217, 209), (218, 218), (227, 219), (236, 228), (237, 237), (246, 238), (255, 247), (103, 99), (98, 97), (96, 81), (80, 65), (64, 57), (56, 54), (53, 42), (41, 41), (40, 40), (39, 39), (38, 38), (37, 37), (36, 36), (35, 35), (34, 34), (33, 33), (32, 32), (31, 31), (30, 30), (29, 29), (28, 17), (16, 14), (13, 13)] _
      (by decide) (by simp) (by rfl) (by decide) (by decide) hv (16, 14, x.ingmirrpcp)
      (by simp [sja1105pqrs_mac_config_entry_fields]),
    packFieldsV_unpack_field _ _ [(104, 104), (113, 105), (122, 114), (123, 123), (132, 124), (141, 133), (142, 142), (151, 143), (160, 152), (161, 161), (170, 162), (179, 171), (180, 180), (189, 181), (198, 190), (199, 199), (208, 200), (217, 209), (218, 218), (227, 219), (236, 228), (237, 237), (246, 238), (255, 247), (103, 99), (98, 97), (96, 81), (80, 65), (64, 57), (56, 54), (53, 42), (41, 41), (40, 40), (39, 39), (38, 38), (37, 37), (36, 36), (35, 35), (34, 34), (33, 33), (32, 32), (31, 31), (30, 30), (29, 29), (28, 17), (16, 14), (13, 13)] _
      (by decide) (by simp) (by rfl) (by decide) (by decide) hv (13, 13, x.ingmirrdei)
      (by simp [sja1105pqrs_mac_config_entry_fields])]
  rw [list_eq_of_getD8 x.top hl_top]
  rw [list_eq_of_getD8 x.base hl_base]
  rw [list_eq_of_getD8 x.enabled hl_enabled]

def sja1105et_l2_lookup_params_entry_fields (x : L2LookupParamsEntry) : List (Nat × Nat × Nat) :=
  [(31, 17, x.maxage),
   (16, 14, x.dyn_tbsz),
   (13, 6, x.poly),
   (5, 5, x.shared_learn),
   (4, 4, x.no_enf_hostprt),
   (3, 3, x.no_mgmt_learn)]

def sja1105et_l2_lookup_params_entry_pack (x : L2LookupParamsEntry) (buf : List Nat) : List Nat :=
  packFieldsV SIZE_L2_LOOKUP_PARAMS_ENTRY_ET (sja1105et_l2_lookup_params_entry_fields x) buf

def sja1105et_l2_lookup_params_entry_unpack (buf : List Nat) : L2LookupParamsEntry :=
  ⟨0,
   0,
   0,
   List.replicate 5 0,
   0,
   0,
   0,
   0,
   0,
   sja1105_unpack buf 31 17 SIZE_L2_LOOKUP_PARAMS_ENTRY_ET,
   sja1105_unpack buf 16 14 SIZE_L2_LOOKUP_PARAMS_ENTRY_ET,
   sja1105_unpack buf 13 6 SIZE_L2_LOOKUP_PARAMS_ENTRY_ET,
   sja1105_unpack buf 5 5 SIZE_L2_LOOKUP_PARAMS_ENTRY_ET,
   sja1105_unpack buf 4 4 SIZE_L2_LOOKUP_PARAMS_ENTRY_ET,
   sja1105_unpack buf 3 3 SIZE_L2_LOOKUP_PARAMS_ENTRY_ET⟩

def sja1105et_l2_lookup_params_entry_canonical (x : L2LookupParamsEntry) : Prop :=
  (∀ f ∈ sja1105et_l2_lookup_params_entry_fields x, wfField SIZE_L2_LOOKUP_PARAMS_ENTRY_ET f) ∧
  x.drpbc = 0 ∧
  x.drpmc = 0 ∧
  x.drpuni = 0 ∧
  x.maxaddrp = List.replicate 5 0 ∧
  x.start_dynspc = 0 ∧
  x.drpnolearn = 0 ∧
  x.use_static = 0 ∧
  x.owr_dyn = 0 ∧
  x.learn_once = 0

instance (x : L2LookupParamsEntry) : Decidable (sja1105et_l2_lookup_params_entry_canonical x) := by
  unfold sja1105et_l2_lookup_params_entry_canonical wfField
  infer_instance

theorem sja1105et_l2_lookup_params_entry_roundtrip (x : L2LookupParamsEntry) (hc : sja1105et_l2_lookup_params_entry_canonical x) :
    sja1105et_l2_lookup_params_entry_unpack (sja1105et_l2_lookup_params_entry_pack x (List.replicate SIZE_L2_LOOKUP_PARAMS_ENTRY_ET 0)) = x := by
  obtain ⟨hfit, hz_drpbc, hz_drpmc, hz_drpuni, hq_maxaddrp, hz_start_dynspc, hz_drpnolearn, hz_use_static, hz_owr_dyn, hz_learn_once⟩ := hc
  have hv : ∀ f ∈ sja1105et_l2_lookup_params_entry_fields x, f.2.2 < 2 ^ (f.1 - f.2.1 + 1) :=
    fun f hf => (hfit f hf).2.2.2
  unfold sja1105et_l2_lookup_params_entry_unpack sja1105et_l2_lookup_params_entry_pack
  rw [packFieldsV_unpack_field _ _ [(31, 17), (16, 14), (13, 6), (5, 5), (4, 4), (3, 3)] _
      (by decide) (by simp) (by rfl) (by decide) (by decide) hv (31, 17, x.maxage)
      (by simp [sja1105et_l2_lookup_params_entry_fields]),
    packFieldsV_unpack_field _ _ [(31, 17), (16, 14), (13, 6), (5, 5), (4, 4), (3, 3)] _
      (by decide) (by simp) (by rfl) (by decide) (by decide) hv (16, 14, x.dyn_tbsz)
      (by simp [sja1105et_l2_lookup_params_entry_fields]),
    packFieldsV_unpack_field _ _ [(31, 17), (16, 14), (13, 6), (5, 5), (4, 4), (3, 3)] _
      (by decide) (by simp) (by rfl) (by decide) (by decide) hv (13, 6, x.poly)
      (by simp [sja1105et_l2_lookup_params_entry_fields]),
    packFieldsV_unpack_field _ _ [(31, 17), (16, 14), (13, 6), (5, 5), (4, 4), (3, 3)] _
      (by decide) (by simp) (by rfl) (by decide) (by decide) hv (5, 5, x.shared_learn)
      (by simp [sja1105et_l2_lookup_params_entry_fields]),
    packFieldsV_unpack_field _ _ [(31, 17), (16, 14), (13, 6), (5, 5), (4, 4), (3, 3)] _
      (by decide) (by simp) (by rfl) (by decide) (by decide) hv (4, 4, x.no_enf_hostprt)
      (by simp [sja1105et_l2_lookup_params_entry_fields]),
    packFieldsV_unpack_field _ _ [(31, 17), (16, 14), (13, 6), (5, 5), (4, 4), (3, 3)] _
      (by decide) (by simp) (by rfl) (by decide) (by decide) hv (3, 3, x.no_mgmt_learn)
      (by simp [sja1105et_l2_lookup_params_entry_fields])]
  show (⟨(0 : Nat), (0 : Nat), (0 : Nat), List.replicate 5 0, (0 : Nat), (0 : Nat), (0 : Nat), (0 : Nat), (0 : Nat), x.maxage, x.dyn_tbsz, x.poly, x.shared_learn, x.no_enf_hostprt, x.no_mgmt_learn⟩ : L2LookupParamsEntry) = ⟨x.drpbc, x.drpmc, x.drpuni, x.maxaddrp, x.start_dynspc, x.drpnolearn, x.use_static, x.owr_dyn, x.learn_once, x.maxage, x.dyn_tbsz, x.poly, x.shared_learn, x.no_enf_hostprt, x.no_mgmt_learn⟩
  simp only [L2LookupParamsEntry.mk.injEq, and_true, true_and]
  exact ⟨hz_drpbc.symm, hz_drpmc.symm, hz_drpuni.symm, hq_maxaddrp.symm, hz_start_dynspc.symm, hz_drpnolearn.symm, hz_use_static.symm, hz_owr_dyn.symm, hz_learn_once.symm⟩

def sja1105pqrs_l2_lookup_params_entry_fields (x : L2LookupParamsEntry) : List (Nat × Nat × Nat) :=
  [(127, 123, x.drpbc),
   (122, 118, x.drpmc),
   (117, 113, x.drpuni),
   (68, 58, x.maxaddrp.getD 0 0),
   (79, 69, x.maxaddrp.getD 1 0),
   (90, 80, x.maxaddrp.getD 2 0),
   (101, 91, x.maxaddrp.getD 3 0),
   (112, 102, x.maxaddrp.getD 4 0),
   (57, 43, x.maxage),
   (42, 33, x.start_dynspc),
   (32, 28, x.drpnolearn),
   (27, 27, x.shared_learn),
   (26, 26, x.no_enf_hostprt),
   (25, 25, x.no_mgmt_learn),
   (24, 24, x.use_static),
   (23, 23, x.owr_dyn),
   (22, 22, x.learn_once)]

def sja1105pqrs_l2_lookup_params_entry_pack (x : L2LookupParamsEntry) (buf : List Nat) : List Nat :=
  packFieldsV SIZE_L2_LOOKUP_PARAMS_ENTRY_PQRS (sja1105pqrs_l2_lookup_params_entry_fields x) buf

def sja1105pqrs_l2_lookup_params_entry_unpack (buf : List Nat) : L2LookupParamsEntry :=
  ⟨sja1105_unpack buf 127 123 SIZE_L2_LOOKUP_PARAMS_ENTRY_PQRS,
   sja1105_unpack buf 122 118 SIZE_L2_LOOKUP_PARAMS_ENTRY_PQRS,
   sja1105_unpack buf 117 113 SIZE_L2_LOOKUP_PARAMS_ENTRY_PQRS,
   [sja1105_unpack buf 68 58 SIZE_L2_LOOKUP_PARAMS_ENTRY_PQRS,
    sja1105_unpack buf 79 69 SIZE_L2_LOOKUP_PARAMS_ENTRY_PQRS,
    sja1105_unpack buf 90 80 SIZE_L2_LOOKUP_PARAMS_ENTRY_PQRS,
    sja1105_unpack buf 101 91 SIZE_L2_LOOKUP_PARAMS_ENTRY_PQRS,
    sja1105_unpack buf 112 102 SIZE_L2_LOOKUP_PARAMS_ENTRY_PQRS],
   sja1105_unpack buf 42 33 SIZE_L2_LOOKUP_PARAMS_ENTRY_PQRS,
   sja1105_unpack buf 32 28 SIZE_L2_LOOKUP_PARAMS_ENTRY_PQRS,
   sja1105_unpack buf 24 24 SIZE_L2_LOOKUP_PARAMS_ENTRY_PQRS,
   sja1105_unpack buf 23 23 SIZE_L2_LOOKUP_PARAMS_ENTRY_PQRS,
   sja1105_unpack buf 22 22 SIZE_L2_LOOKUP_PARAMS_ENTRY_PQRS,
   sja1105_unpack buf 57 43 SIZE_L2_LOOKUP_PARAMS_ENTRY_PQRS,
   0,
   0,
   sja1105_unpack buf 27 27 SIZE_L2_LOOKUP_PARAMS_ENTRY_PQRS,
   sja1105_unpack buf 26 26 SIZE_L2_LOOKUP_PARAMS_ENTRY_PQRS,
   sja1105_unpack buf 25 25 SIZE_L2_LOOKUP_PARAMS_ENTRY_PQRS⟩

def sja1105pqrs_l2_lookup_params_entry_canonical (x : L2LookupParamsEntry) : Prop :=
  (∀ f ∈ sja1105pqrs_l2_lookup_params_entry_fields x, wfField SIZE_L2_LOOKUP_PARAMS_ENTRY_PQRS f) ∧
  x.maxaddrp.length = 5 ∧
  x.dyn_tbsz = 0 ∧
  x.poly = 0

instance (x : L2LookupParamsEntry) : Decidable (sja1105pqrs_l2_lookup_params_entry_canonical x) := by
  unfold sja1105pqrs_l2_lookup_params_entry_canonical wfField
  infer_instance

theorem sja1105pqrs_l2_lookup_params_entry_roundtrip (x : L2LookupParamsEntry) (hc : sja1105pqrs_l2_lookup_params_entry_canonical x) :
    sja1105pqrs_l2_lookup_params_entry_unpack (sja1105pqrs_l2_lookup_params_entry_pack x (List.replicate SIZE_L2_LOOKUP_PARAMS_ENTRY_PQRS 0)) = x := by
  obtain ⟨hfit, hl_maxaddrp, hz_dyn_tbsz, hz_poly⟩ := hc
  have hv : ∀ f ∈ sja1105pqrs_l2_lookup_params_entry_fields x, f.2.2 < 2 ^ (f.1 - f.2.1 + 1) :=
    fun f hf => (hfit f hf).2.2.2
  unfold sja1105pqrs_l2_lookup_params_entry_unpack sja1105pqrs_l2_lookup_params_entry_pack
  rw [packFieldsV_unpack_field _ _ [(127, 123), (122, 118), (117, 113), (68, 58), (79, 69), (90, 80), (101, 91), (112, 102), (57, 43), (42, 33), (32, 28), (27, 27), (26, 26), (25, 25), (24, 24), (23, 23), (22, 22)] _
      (by decide) (by simp) (by rfl) (by decide) (by decide) hv (127, 123, x.drpbc)
      (by simp [sja1105pqrs_l2_lookup_params_entry_fields]),
    packFieldsV_unpack_field _ _ [(127, 123), (122, 118), (117, 113), (68, 58), (79, 69), (90, 80), (101, 91), (112, 102), (57, 43), (42, 33), (32, 28), (27, 27), (26, 26), (25, 25), (24, 24), (23, 23), (22, 22)] _
      (by decide) (by simp) (by rfl) (by decide) (by decide) hv (122, 118, x.drpmc)
      (by simp [sja1105pqrs_l2_lookup_params_entry_fields]),
    packFieldsV_unpack_field _ _ [(127, 123), (122, 118), (117, 113), (68, 58), (79, 69), (90, 80), (101, 91), (112, 102), (57, 43), (42, 33), (32, 28), (27, 27), (26, 26), (25, 25), (24, 24), (23, 23), (22, 22)] _
      (by decide) (by simp) (by rfl) (by decide) (by decide) hv (117, 113, x.drpuni)
      (by simp [sja1105pqrs_l2_lookup_params_entry_fields]),
    packFieldsV_unpack_field _ _ [(127, 123), (122, 118), (117, 113), (68, 58), (79, 69), (90, 80), (101, 91), (112, 102), (57, 43), (42, 33), (32, 28), (27, 27), (26, 26), (25, 25), (24, 24), (23, 23), (22, 22)] _
      (by decide) (by simp) (by rfl) (by decide) (by decide) hv (68, 58, x.maxaddrp.getD 0 0)
      (by simp [sja1105pqrs_l2_lookup_params_entry_fields]),
    packFieldsV_unpack_field _ _ [(127, 123), (122, 118), (117, 113), (68, 58), (79, 69), (90, 80), (101, 91), (112, 102), (57, 43), (42, 33), (32, 28), (27, 27), (26, 26), (25, 25), (24, 24), (23, 23), (22, 22)] _
      (by decide) (by simp) (by rfl) (by decide) (by decide) hv (79, 69, x.maxaddrp.getD 1 0)
      (by simp [sja1105pqrs_l2_lookup_params_entry_fields]),
    packFieldsV_unpack_field _ _ [(127, 123), (122, 118), (117, 113), (68, 58), (79, 69), (90, 80), (101, 91), (112, 102), (57, 43), (42, 33), (32, 28), (27, 27), (26, 26), (25, 25), (24, 24), (23, 23), (22, 22)] _
      (by decide) (by simp) (by rfl) (by decide) (by decide) hv (90, 80, x.maxaddrp.getD 2 0)
      (by simp [sja1105pqrs_l2_lookup_params_entry_fields]),
    packFieldsV_unpack_field _ _ [(127, 123), (122, 118), (117, 113), (68, 58), (79, 69), (90, 80), (101, 91), (112, 102), (57, 43), (42, 33), (32, 28), (27, 27), (26, 26), (25, 25), (24, 24), (23, 23), (22, 22)] _
      (by decide) (by simp) (by rfl) (by decide) (by decide) hv (101, 91, x.maxaddrp.getD 3 0)
      (by simp [sja1105pqrs_l2_lookup_params_entry_fields]),
    packFieldsV_unpack_field _ _ [(127, 123), (122, 118), (117, 113), (68, 58), (79, 69), (90, 80), (101, 91), (112, 102), (57, 43), (42, 33), (32, 28), (27, 27), (26, 26), (25, 25), (24, 24), (23, 23), (22, 22)] _
      (by decide) (by simp) (by rfl) (by decide) (by decide) hv (112, 102, x.maxaddrp.getD 4 0)
      (by simp [sja1105pqrs_l2_lookup_params_entry_fields]),
    packFieldsV_unpack_field _ _ [(127, 123), (122, 118), (117, 113), (68, 58), (79, 69), (90, 80), (101, 91), (112, 102), (57, 43), (42, 33), (32, 28), (27, 27), (26, 26), (25, 25), (24, 24), (23, 23), (22, 22)] _
      (by decide) (by simp) (by rfl) (by decide) (by decide) hv (57, 43, x.maxage)
      (by simp [sja1105pqrs_l2_lookup_params_entry_fields]),
    packFieldsV_unpack_field _ _ [(127, 123), (122, 118), (117, 113), (68, 58), (79, 69), (90, 80), (101, 91), (112, 102), (57, 43), (42, 33), (32, 28), (27, 27), (26, 26), (25, 25), (24, 24), (23, 23), (22, 22)] _
      (by decide) (by simp) (by rfl) (by decide) (by decide) hv (42, 33, x.start_dynspc)
      (by simp [sja1105pqrs_l2_lookup_params_entry_fields]),
    packFieldsV_unpack_field _ _ [(127, 123), (122, 118), (117, 113), (68, 58), (79, 69), (90, 80), (101, 91), (112, 102), (57, 43), (42, 33), (32, 28), (27, 27), (26, 26), (25, 25), (24, 24), (23, 23), (22, 22)] _
      (by decide) (by simp) (by rfl) (by decide) (by decide) hv (32, 28, x.drpnolearn)
      (by simp [sja1105pqrs_l2_lookup_params_entry_fields]),
    packFieldsV_unpack_field _ _ [(127, 123), (122, 118), (117, 113), (68, 58), (79, 69), (90, 80), (101, 91), (112, 102), (57, 43), (42, 33), (32, 28), (27, 27), (26, 26), (25, 25), (24, 24), (23, 23), (22, 22)] _
      (by decide) (by simp) (by rfl) (by decide) (by decide) hv (27, 27, x.shared_learn)
      (by simp [sja1105pqrs_l2_lookup_params_entry_fields]),
    packFieldsV_unpack_field _ _ [(127, 123), (122, 118), (117, 113), (68, 58), (79, 69), (90, 80), (101, 91), (112, 102), (57, 43), (42, 33), (32, 28), (27, 27), (26, 26), (25, 25), (24, 24), (23, 23), (22, 22)] _
      (by decide) (by simp) (by rfl) (by decide) (by decide) hv (26, 26, x.no_enf_hostprt)
      (by simp [sja1105pqrs_l2_lookup_params_entry_fields]),
    packFieldsV_unpack_field _ _ [(127, 123), (122, 118), (117, 113), (68, 58), (79, 69), (90, 80), (101, 91), (112, 102), (57, 43), (42, 33), (32, 28), (27, 27), (26, 26), (25, 25), (24, 24), (23, 23), (22, 22)] _
      (by decide) (by simp) (by rfl) (by decide) (by decide) hv (25, 25, x.no_mgmt_learn)
      (by simp [sja1105pqrs_l2_lookup_params_entry_fields]),
    packFieldsV_unpack_field _ _ [(127, 123), (122, 118), (117, 113), (68, 58), (79, 69), (90, 80), (101, 91), (112, 102), (57, 43), (42, 33), (32, 28), (27, 27), (26, 26), (25, 25), (24, 24), (23, 23), (22, 22)] _
      (by decide) (by simp) (by rfl) (by decide) (by decide) hv (24, 24, x.use_static)
      (by simp [sja1105pqrs_l2_lookup_params_entry_fields]),
    packFieldsV_unpack_field _ _ [(127, 123), (122, 118), (117, 113), (68, 58), (79, 69), (90, 80), (101, 91), (112, 102), (57, 43), (42, 33), (32, 28), (27, 27), (26, 26), (25, 25), (24, 24), (23, 23), (22, 22)] _
      (by decide) (by simp) (by rfl) (by decide) (by decide) hv (23, 23, x.owr_dyn)
      (by simp [sja1105pqrs_l2_lookup_params_entry_fields]),
    packFieldsV_unpack_field _ _ [(127, 123), (122, 118), (117, 113), (68, 58), (79, 69), (90, 80), (101, 91), (112, 102), (57, 43), (42, 33), (32, 28), (27, 27), (26, 26), (25, 25), (24, 24), (23, 23), (22, 22)] _
      (by decide) (by simp) (by rfl) (by decide) (by decide) hv (22, 22, x.learn_once)
      (by simp [sja1105pqrs_l2_lookup_params_entry_fields])]
  rw [list_eq_of_getD5 x.maxaddrp hl_maxaddrp]
  show (⟨x.drpbc, x.drpmc, x.drpuni, x.maxaddrp, x.start_dynspc, x.drpnolearn, x.use_static, x.owr_dyn, x.learn_once, x.maxage, (0 : Nat), (0 : Nat), x.shared_learn, x.no_enf_hostprt, x.no_mgmt_learn⟩ : L2LookupParamsEntry) = ⟨x.drpbc, x.drpmc, x.drpuni, x.maxaddrp, x.start_dynspc, x.drpnolearn, x.use_static, x.owr_dyn, x.learn_once, x.maxage, x.dyn_tbsz, x.poly, x.shared_learn, x.no_enf_hostprt, x.no_mgmt_learn⟩
  simp only [L2LookupParamsEntry.mk.injEq, and_true, true_and]
  exact ⟨hz_dyn_tbsz.symm, hz_poly.symm⟩

def sja1105_l2_forwarding_params_entry_fields (x : L2ForwardingParamsEntry) : List (Nat × Nat × Nat) :=
  [(95, 93, x.max_dynp),
   (22, 13, x.part_spc.getD 0 0),
   (32, 23, x.part_spc.getD 1 0),
   (42, 33, x.part_spc.getD 2 0),
   (52, 43, x.part_spc.getD 3 0),
   (62, 53, x.part_spc.getD 4 0),
   (72, 63, x.part_spc.getD 5 0),
   (82, 73, x.part_spc.getD 6 0),
   (92, 83, x.part_spc.getD 7 0)]

def sja1105_l2_forwarding_params_entry_pack (x : L2ForwardingParamsEntry) (buf : List Nat) : List Nat :=
  packFieldsV SIZE_L2_FORWARDING_PARAMS_ENTRY (sja1105_l2_forwarding_params_entry_fields x) buf

def sja1105_l2_forwarding_params_entry_unpack (buf : List Nat) : L2ForwardingParamsEntry :=
  ⟨sja1105_unpack buf 95 93 SIZE_L2_FORWARDING_PARAMS_ENTRY,
   [sja1105_unpack buf 22 13 SIZE_L2_FORWARDING_PARAMS_ENTRY,
    sja1105_unpack buf 32 23 SIZE_L2_FORWARDING_PARAMS_ENTRY,
    sja1105_unpack buf 42 33 SIZE_L2_FORWARDING_PARAMS_ENTRY,
    sja1105_unpack buf 52 43 SIZE_L2_FORWARDING_PARAMS_ENTRY,
    sja1105_unpack buf 62 53 SIZE_L2_FORWARDING_PARAMS_ENTRY,
    sja1105_unpack buf 72 63 SIZE_L2_FORWARDING_PARAMS_ENTRY,
    sja1105_unpack buf 82 73 SIZE_L2_FORWARDING_PARAMS_ENTRY,
    sja1105_unpack buf 92 83 SIZE_L2_FORWARDING_PARAMS_ENTRY]⟩

def sja1105_l2_forwarding_params_entry_canonical (x : L2ForwardingParamsEntry) : Prop :=
  (∀ f ∈ sja1105_l2_forwarding_params_entry_fields x, wfField SIZE_L2_FORWARDING_PARAMS_ENTRY f) ∧
  x.part_spc.length = 8

instance (x : L2ForwardingParamsEntry) : Decidable (sja1105_l2_forwarding_params_entry_canonical x) := by
  unfold sja1105_l2_forwarding_params_entry_canonical wfField
  infer_instance

theorem sja1105_l2_forwarding_params_entry_roundtrip (x : L2ForwardingParamsEntry) (hc : sja1105_l2_forwarding_params_entry_canonical x) :
    sja1105_l2_forwarding_params_entry_unpack (sja1105_l2_forwarding_params_entry_pack x (List.replicate SIZE_L2_FORWARDING_PARAMS_ENTRY 0)) = x := by
  obtain ⟨hfit, hl_part_spc⟩ := hc
  have hv : ∀ f ∈ sja1105_l2_forwarding_params_entry_fields x, f.2.2 < 2 ^ (f.1 - f.2.1 + 1) :=
    fun f hf => (hfit f hf).2.2.2
  unfold sja1105_l2_forwarding_params_entry_unpack sja1105_l2_forwarding_params_entry_pack
  rw [packFieldsV_unpack_field _ _ [(95, 93), (22, 13), (32, 23), (42, 33), (52, 43), (62, 53), (72, 63), (82, 73), (92, 83)] _
      (by decide) (by simp) (by rfl) (by decide) (by decide) hv (95, 93, x.max_dynp)
      (by simp [sja1105_l2_forwarding_params_entry_fields]),
    packFieldsV_unpack_field _ _ [(95, 93), (22, 13), (32, 23), (42, 33), (52, 43), (62, 53), (72, 63), (82, 73), (92, 83)] _
      (by decide) (by simp) (by rfl) (by decide) (by decide) hv (22, 13, x.part_spc.getD 0 0)
      (by simp [sja1105_l2_forwarding_params_entry_fields]),
    packFieldsV_unpack_field _ _ [(95, 93), (22, 13), (32, 23), (42, 33), (52, 43), (62, 53), (72, 63), (82, 73), (92, 83)] _
      (by decide) (by simp) (by rfl) (by decide) (by decide) hv (32, 23, x.part_spc.getD 1 0)
      (by simp [sja1105_l2_forwarding_params_entry_fields]),
    packFieldsV_unpack_field _ _ [(95, 93), (22, 13), (32, 23), (42, 33), (52, 43), (62, 53), (72, 63), (82, 73), (92, 83)] _
      (by decide) (by simp) (by rfl) (by decide) (by decide) hv (42, 33, x.part_spc.getD 2 0)
      (by simp [sja1105_l2_forwarding_params_entry_fields]),
    packFieldsV_unpack_field _ _ [(95, 93), (22, 13), (32, 23), (42, 33), (52, 43), (62, 53), (72, 63), (82, 73), (92, 83)] _
      (by decide) (by simp) (by rfl) (by decide) (by decide) hv (52, 43, x.part_spc.getD 3 0)
      (by simp [sja1105_l2_forwarding_params_entry_fields]),
    packFieldsV_unpack_field _ _ [(95, 93), (22, 13), (32, 23), (42, 33), (52, 43), (62, 53), (72, 63), (82, 73), (92, 83)] _
      (by decide) (by simp) (by rfl) (by decide) (by decide) hv (62, 53, x.part_spc.getD 4 0)
      (by simp [sja1105_l2_forwarding_params_entry_fields]),
    packFieldsV_unpack_field _ _ [(95, 93), (22, 13), (32, 23), (42, 33), (52, 43), (62, 53), (72, 63), (82, 73), (92, 83)] _
      (by decide) (by simp) (by rfl) (by decide) (by decide) hv (72, 63, x.part_spc.getD 5 0)
      (by simp [sja1105_l2_forwarding_params_entry_fields]),
    packFieldsV_unpack_field _ _ [(95, 93), (22, 13), (32, 23), (42, 33), (52, 43), (62, 53), (72, 63), (82, 73), (92, 83)] _
      (by decide) (by simp) (by rfl) (by decide) (by decide) hv (82, 73, x.part_spc.getD 6 0)
      (by simp [sja1105_l2_forwarding_params_entry_fields]),
    packFieldsV_unpack_field _ _ [(95, 93), (22, 13), (32, 23), (42, 33), (52, 43), (62, 53), (72, 63), (82, 73), (92, 83)] _
      (by decide) (by simp) (by rfl) (by decide) (by decide) hv (92, 83, x.part_spc.getD 7 0)
      (by simp [sja1105_l2_forwarding_params_entry_fields])]
  rw [list_eq_of_getD8 x.part_spc hl_part_spc]

def sja1105et_avb_params_entry_fields (x : AvbParamsEntry) : List (Nat × Nat × Nat) :=
  [(95, 48, x.destmeta),
   (47, 0, x.srcmeta)]

def sja1105et_avb_params_entry_pack (x : AvbParamsEntry) (buf : List Nat) : List Nat :=
  packFieldsV SIZE_AVB_PARAMS_ENTRY_ET (sja1105et_avb_params_entry_fields x) buf

def sja1105et_avb_params_entry_unpack (buf : List Nat) : AvbParamsEntry :=
  ⟨0,
   0,
   sja1105_unpack buf 95 48 SIZE_AVB_PARAMS_ENTRY_ET,
   sja1105_unpack buf 47 0 SIZE_AVB_PARAMS_ENTRY_ET⟩

def sja1105et_avb_params_entry_canonical (x : AvbParamsEntry) : Prop :=
  (∀ f ∈ sja1105et_avb_params_entry_fields x, wfField SIZE_AVB_PARAMS_ENTRY_ET f) ∧
  x.l2cbs = 0 ∧
  x.cas_master = 0

instance (x : AvbParamsEntry) : Decidable (sja1105et_avb_params_entry_canonical x) := by
  unfold sja1105et_avb_params_entry_canonical wfField
  infer_instance

theorem sja1105et_avb_params_entry_roundtrip (x : AvbParamsEntry) (hc : sja1105et_avb_params_entry_canonical x) :
    sja1105et_avb_params_entry_unpack (sja1105et_avb_params_entry_pack x (List.replicate SIZE_AVB_PARAMS_ENTRY_ET 0)) = x := by
  obtain ⟨hfit, hz_l2cbs, hz_cas_master⟩ := hc
  have hv : ∀ f ∈ sja1105et_avb_params_entry_fields x, f.2.2 < 2 ^ (f.1 - f.2.1 + 1) :=
    fun f hf => (hfit f hf).2.2.2
  unfold sja1105et_avb_params_entry_unpack sja1105et_avb_params_entry_pack
  rw [packFieldsV_unpack_field _ _ [(95, 48), (47, 0)] _
      (by decide) (by simp) (by rfl) (by decide) (by decide) hv (95, 48, x.destmeta)
      (by simp [sja1105et_avb_params_entry_fields]),
    packFieldsV_unpack_field _ _ [(95, 48), (47, 0)] _
      (by decide) (by simp) (by rfl) (by decide) (by decide) hv (47, 0, x.srcmeta)
      (by simp [sja1105et_avb_params_entry_fields])]
  show (⟨(0 : Nat), (0 : Nat), x.destmeta, x.srcmeta⟩ : AvbParamsEntry) = ⟨x.l2cbs, x.cas_master, x.destmeta, x.srcmeta⟩
  simp only [AvbParamsEntry.mk.injEq, and_true, true_and]
  exact ⟨hz_l2cbs.symm, hz_cas_master.symm⟩

def sja1105pqrs_avb_params_entry_fields (x : AvbParamsEntry) : List (Nat × Nat × Nat) :=
  [(127, 127, x.l2cbs),
   (126, 126, x.cas_master),
   (125, 78, x.destmeta),
   (77, 33, x.srcmeta)]

def sja1105pqrs_avb_params_entry_pack (x : AvbParamsEntry) (buf : List Nat) : List Nat :=
  packFieldsV SIZE_AVB_PARAMS_ENTRY_PQRS (sja1105pqrs_avb_params_entry_fields x) buf

def sja1105pqrs_avb_params_entry_unpack (buf : List Nat) : AvbParamsEntry :=
  ⟨sja1105_unpack buf 127 127 SIZE_AVB_PARAMS_ENTRY_PQRS,
   sja1105_unpack buf 126 126 SIZE_AVB_PARAMS_ENTRY_PQRS,
   sja1105_unpack buf 125 78 SIZE_AVB_PARAMS_ENTRY_PQRS,
   sja1105_unpack buf 77 33 SIZE_AVB_PARAMS_ENTRY_PQRS⟩

def sja1105pqrs_avb_params_entry_canonical (x : AvbParamsEntry) : Prop :=
  (∀ f ∈ sja1105pqrs_avb_params_entry_fields x, wfField SIZE_AVB_PARAMS_ENTRY_PQRS f)

instance (x : AvbParamsEntry) : Decidable (sja1105pqrs_avb_params_entry_canonical x) := by
  unfold sja1105pqrs_avb_params_entry_canonical wfField
  infer_instance

theorem sja1105pqrs_avb_params_entry_roundtrip (x : AvbParamsEntry) (hc : sja1105pqrs_avb_params_entry_canonical x) :
    sja1105pqrs_avb_params_entry_unpack (sja1105pqrs_avb_params_entry_pack x (List.replicate SIZE_AVB_PARAMS_ENTRY_PQRS 0)) = x := by
  have hfit := hc
  have hv : ∀ f ∈ sja1105pqrs_avb_params_entry_fields x, f.2.2 < 2 ^ (f.1 - f.2.1 + 1) :=
    fun f hf => (hfit f hf).2.2.2
  unfold sja1105pqrs_avb_params_entry_unpack sja1105pqrs_avb_params_entry_pack
  rw [packFieldsV_unpack_field _ _ [(127, 127), (126, 126), (125, 78), (77, 33)] _
      (by decide) (by simp) (by rfl) (by decide) (by decide) hv (127, 127, x.l2cbs)
      (by simp [sja1105pqrs_avb_params_entry_fields]),
    packFieldsV_unpack_field _ _ [(127, 127), (126, 126), (125, 78), (77, 33)] _
      (by decide) (by simp) (by rfl) (by decide) (by decide) hv (126, 126, x.cas_master)
      (by simp [sja1105pqrs_avb_params_entry_fields]),
    packFieldsV_unpack_field _ _ [(127, 127), (126, 126), (125, 78), (77, 33)] _
      (by decide) (by simp) (by rfl) (by decide) (by decide) hv (125, 78, x.destmeta)
      (by simp [sja1105pqrs_avb_params_entry_fields]),
    packFieldsV_unpack_field _ _ [(127, 127), (126, 126), (125, 78), (77, 33)] _
      (by decide) (by simp) (by rfl) (by decide) (by decide) hv (77, 33, x.srcmeta)
      (by simp [sja1105pqrs_avb_params_entry_fields])]

def sja1105et_general_params_entry_fields (x : GeneralParamsEntry) : List (Nat × Nat × Nat) :=
  [(319, 319, x.vllupformat),
   (318, 318, x.mirr_ptacu),
   (317, 315, x.switchid),
   (314, 312, x.hostprio),
   (311, 264, x.mac_fltres1),
   (263, 216, x.mac_fltres0),
   (215, 168, x.mac_flt1),
   (167, 120, x.mac_flt0),
   (119, 119, x.incl_srcpt1),
   (118, 118, x.incl_srcpt0),
   (117, 117, x.send_meta1),
   (116, 116, x.send_meta0),
   (115, 113, x.casc_port),
   (112, 110, x.host_port),
   (109, 107, x.mirr_port),
   (106, 75, x.vlmarker),
   (74, 43, x.vlmask),
   (42, 27, x.tpid),
   (26, 26, x.ignore2stf),
   (25, 10, x.tpid2)]

def sja1105et_general_params_entry_pack (x : GeneralParamsEntry) (buf : List Nat) : List Nat :=
  packFieldsV SIZE_GENERAL_PARAMS_ENTRY_ET (sja1105et_general_params_entry_fields x) buf

def sja1105et_general_params_entry_unpack (buf : List Nat) : GeneralParamsEntry :=
  ⟨sja1105_unpack buf 319 319 SIZE_GENERAL_PARAMS_ENTRY_ET,
   sja1105_unpack buf 318 318 SIZE_GENERAL_PARAMS_ENTRY_ET,
   sja1105_unpack buf 317 315 SIZE_GENERAL_PARAMS_ENTRY_ET,
   sja1105_unpack buf 314 312 SIZE_GENERAL_PARAMS_ENTRY_ET,
   sja1105_unpack buf 311 264 SIZE_GENERAL_PARAMS_ENTRY_ET,
   sja1105_unpack buf 263 216 SIZE_GENERAL_PARAMS_ENTRY_ET,
   sja1105_unpack buf 215 168 SIZE_GENERAL_PARAMS_ENTRY_ET,
   sja1105_unpack buf 167 120 SIZE_GENERAL_PARAMS_ENTRY_ET,
   sja1105_unpack buf 119 119 SIZE_GENERAL_PARAMS_ENTRY_ET,
   sja1105_unpack buf 118 118 SIZE_GENERAL_PARAMS_ENTRY_ET,
   sja1105_unpack buf 117 117 SIZE_GENERAL_PARAMS_ENTRY_ET,
   sja1105_unpack buf 116 116 SIZE_GENERAL_PARAMS_ENTRY_ET,
   sja1105_unpack buf 115 113 SIZE_GENERAL_PARAMS_ENTRY_ET,
   sja1105_unpack buf 112 110 SIZE_GENERAL_PARAMS_ENTRY_ET,
   sja1105_unpack buf 109 107 SIZE_GENERAL_PARAMS_ENTRY_ET,
   sja1105_unpack buf 106 75 SIZE_GENERAL_PARAMS_ENTRY_ET,
   sja1105_unpack buf 74 43 SIZE_GENERAL_PARAMS_ENTRY_ET,
   sja1105_unpack buf 42 27 SIZE_GENERAL_PARAMS_ENTRY_ET,
   sja1105_unpack buf 26 26 SIZE_GENERAL_PARAMS_ENTRY_ET,
   sja1105_unpack buf 25 10 SIZE_GENERAL_PARAMS_ENTRY_ET,
   0,
   0,
   0,
   0,
   0⟩

def sja1105et_general_params_entry_canonical (x : GeneralParamsEntry) : Prop :=
  (∀ f ∈ sja1105et_general_params_entry_fields x, wfField SIZE_GENERAL_PARAMS_ENTRY_ET f) ∧
  x.queue_ts = 0 ∧
  x.egrmirrvid = 0 ∧
  x.egrmirrpcp = 0 ∧
  x.egrmirrdei = 0 ∧
  x.replay_port = 0

instance (x : GeneralParamsEntry) : Decidable (sja1105et_general_params_entry_canonical x) := by
  unfold sja1105et_general_params_entry_canonical wfField
  infer_instance

theorem sja1105et_general_params_entry_roundtrip (x : GeneralParamsEntry) (hc : sja1105et_general_params_entry_canonical x) :
    sja1105et_general_params_entry_unpack (sja1105et_general_params_entry_pack x (List.replicate SIZE_GENERAL_PARAMS_ENTRY_ET 0)) = x := by
  obtain ⟨hfit, hz_queue_ts, hz_egrmirrvid, hz_egrmirrpcp, hz_egrmirrdei, hz_replay_port⟩ := hc
  have hv : ∀ f ∈ sja1105et_general_params_entry_fields x, f.2.2 < 2 ^ (f.1 - f.2.1 + 1) :=
    fun f hf => (hfit f hf).2.2.2
  unfold sja1105et_general_params_entry_unpack sja1105et_general_params_entry_pack
  rw [packFieldsV_unpack_field _ _ [(319, 319), (318, 318), (317, 315), (314, 312), (311, 264), (263, 216), (215, 168), (167, 120), (119, 119), (118, 118), (117, 117), (116, 116), (115, 113), (112, 110), (109, 107), (106, 75), (74, 43), (42, 27), (26, 26), (25, 10)] _
      (by decide) (by simp) (by rfl) (by decide) (by decide) hv (319, 319, x.vllupformat)
      (by simp [sja1105et_general_params_entry_fields]),
    packFieldsV_unpack_field _ _ [(319, 319), (318, 318), (317, 315), (314, 312), (311, 264), (263, 216), (215, 168), (167, 120), (119, 119), (118, 118), (117, 117), (116, 116), (115, 113), (112, 110), (109, 107), (106, 75), (74, 43), (42, 27), (26, 26), (25, 10)] _
      (by decide) (by simp) (by rfl) (by decide) (by decide) hv (318, 318, x.mirr_ptacu)
      (by simp [sja1105et_general_params_entry_fields]),
    packFieldsV_unpack_field _ _ [(319, 319), (318, 318), (317, 315), (314, 312), (311, 264), (263, 216), (215, 168), (167, 120), (119, 119), (118, 118), (117, 117), (116, 116), (115, 113), (112, 110), (109, 107), (106, 75), (74, 43), (42, 27), (26, 26), (25, 10)] _
      (by decide) (by simp) (by rfl) (by decide) (by decide) hv (317, 315, x.switchid)
      (by simp [sja1105et_general_params_entry_fields]),
    packFieldsV_unpack_field _ _ [(319, 319), (318, 318), (317, 315), (314, 312), (311, 264), (263, 216), (215, 168), (167, 120), (119, 119), (118, 118), (117, 117), (116, 116), (115, 113), (112, 110), (109, 107), (106, 75), (74, 43), (42, 27), (26, 26), (25, 10)] _
      (by decide) (by simp) (by rfl) (by decide) (by decide) hv (314, 312, x.hostprio)
      (by simp [sja1105et_general_params_entry_fields]),
    packFieldsV_unpack_field _ _ [(319, 319), (318, 318), (317, 315), (314, 312), (311, 264), (263, 216), (215, 168), (167, 120), (119, 119), (118, 118), (117, 117), (116, 116), (115, 113), (112, 110), (109, 107), (106, 75), (74, 43), (42, 27), (26, 26), (25, 10)] _
      (by decide) (by simp) (by rfl) (by decide) (by decide) hv (311, 264, x.mac_fltres1)
      (by simp [sja1105et_general_params_entry_fields]),
    packFieldsV_unpack_field _ _ [(319, 319), (318, 318), (317, 315), (314, 312), (311, 264), (263, 216), (215, 168), (167, 120), (119, 119), (118, 118), (117, 117), (116, 116), (115, 113), (112, 110), (109, 107), (106, 75), (74, 43), (42, 27), (26, 26), (25, 10)] _
      (by decide) (by simp) (by rfl) (by decide) (by decide) hv (263, 216, x.mac_fltres0)
      (by simp [sja1105et_general_params_entry_fields]),
    packFieldsV_unpack_field _ _ [(319, 319), (318, 318), (317, 315), (314, 312), (311, 264), (263, 216), (215, 168), (167, 120), (119, 119), (118, 118), (117, 117), (116, 116), (115, 113), (112, 110), (109, 107), (106, 75), (74, 43), (42, 27), (26, 26), (25, 10)] _
      (by decide) (by simp) (by rfl) (by decide) (by decide) hv (215, 168, x.mac_flt1)
      (by simp [sja1105et_general_params_entry_fields]),
    packFieldsV_unpack_field _ _ [(319, 319), (318, 318), (317, 315), (314, 312), (311, 264), (263, 216), (215, 168), (167, 120), (119, 119), (118, 118), (117, 117), (116, 116), (115, 113), (112, 110), (109, 107), (106, 75), (74, 43), (42, 27), (26, 26), (25, 10)] _
      (by decide) (by simp) (by rfl) (by decide) (by decide) hv (167, 120, x.mac_flt0)
      (by simp [sja1105et_general_params_entry_fields]),
    packFieldsV_unpack_field _ _ [(319, 319), (318, 318), (317, 315), (314, 312), (311, 264), (263, 216), (215, 168), (167, 120), (119, 119), (118, 118), (117, 117), (116, 116), (115, 113), (112, 110), (109, 107), (106, 75), (74, 43), (42, 27), (26, 26), (25, 10)] _
      (by decide) (by simp) (by rfl) (by decide) (by decide) hv (119, 119, x.incl_srcpt1)
      (by simp [sja1105et_general_params_entry_fields]),
    packFieldsV_unpack_field _ _ [(319, 319), (318, 318), (317, 315), (314, 312), (311, 264), (263, 216), (215, 168), (167, 120), (119, 119), (118, 118), (117, 117), (116, 116), (115, 113), (112, 110), (109, 107), (106, 75), (74, 43), (42, 27), (26, 26), (25, 10)] _
      (by decide) (by simp) (by rfl) (by decide) (by decide) hv (118, 118, x.incl_srcpt0)
      (by simp [sja1105et_general_params_entry_fields]),
    packFieldsV_unpack_field _ _ [(319, 319), (318, 318), (317, 315), (314, 312), (311, 264), (263, 216), (215, 168), (167, 120), (119, 119), (118, 118), (117, 117), (116, 116), (115, 113), (112, 110), (109, 107), (106, 75), (74, 43), (42, 27), (26, 26), (25, 10)] _
      (by decide) (by simp) (by rfl) (by decide) (by decide) hv (117, 117, x.send_meta1)
      (by simp [sja1105et_general_params_entry_fields]),
    packFieldsV_unpack_field _ _ [(319, 319), (318, 318), (317, 315), (314, 312), (311, 264), (263, 216), (215, 168), (167, 120), (119, 119), (118, 118), (117, 117), (116, 116), (115, 113), (112, 110), (109, 107), (106, 75), (74, 43), (42, 27), (26, 26), (25, 10)] _
      (by decide) (by simp) (by rfl) (by decide) (by decide) hv (116, 116, x.send_meta0)
      (by simp [sja1105et_general_params_entry_fields]),
    packFieldsV_unpack_field _ _ [(319, 319), (318, 318), (317, 315), (314, 312), (311, 264), (263, 216), (215, 168), (167, 120), (119, 119), (118, 118), (117, 117), (116, 116), (115, 113), (112, 110), (109, 107), (106, 75), (74, 43), (42, 27), (26, 26), (25, 10)] _
      (by decide) (by simp) (by rfl) (by decide) (by decide) hv (115, 113, x.casc_port)
      (by simp [sja1105et_general_params_entry_fields]),
    packFieldsV_unpack_field _ _ [(319, 319), (318, 318), (317, 315), (314, 312), (311, 264), (263, 216), (215, 168), (167, 120), (119, 119), (118, 118), (117, 117), (116, 116), (115, 113), (112, 110), (109, 107), (106, 75), (74, 43), (42, 27), (26, 26), (25, 10)] _
      (by decide) (by simp) (by rfl) (by decide) (by decide) hv (112, 110, x.host_port)
      (by simp [sja1105et_general_params_entry_fields]),
    packFieldsV_unpack_field _ _ [(319, 319), (318, 318), (317, 315), (314, 312), (311, 264), (263, 216), (215, 168), (167, 120), (119, 119), (118, 118), (117, 117), (116, 116), (115, 113), (112, 110), (109, 107), (106, 75), (74, 43), (42, 27), (26, 26), (25, 10)] _
      (by decide) (by simp) (by rfl) (by decide) (by decide) hv (109, 107, x.mirr_port)
      (by simp [sja1105et_general_params_entry_fields]),
    packFieldsV_unpack_field _ _ [(319, 319), (318, 318), (317, 315), (314, 312), (311, 264), (263, 216), (215, 168), (167, 120), (119, 119), (118, 118), (117, 117), (116, 116), (115, 113), (112, 110), (109, 107), (106, 75), (74, 43), (42, 27), (26, 26), (25, 10)] _
      (by decide) (by simp) (by rfl) (by decide) (by decide) hv (106, 75, x.vlmarker)
      (by simp [sja1105et_general_params_entry_fields]),
    packFieldsV_unpack_field _ _ [(319, 319), (318, 318), (317, 315), (314, 312), (311, 264), (263, 216), (215, 168), (167, 120), (119, 119), (118, 118), (117, 117), (116, 116), (115, 113), (112, 110), (109, 107), (106, 75), (74, 43), (42, 27), (26, 26), (25, 10)] _
      (by decide) (by simp) (by rfl) (by decide) (by decide) hv (74, 43, x.vlmask)
      (by simp [sja1105et_general_params_entry_fields]),
    packFieldsV_unpack_field _ _ [(319, 319), (318, 318), (317, 315), (314, 312), (311, 264), (263, 216), (215, 168), (167, 120), (119, 119), (118, 118), (117, 117), (116, 116), (115, 113), (112, 110), (109, 107), (106, 75), (74, 43), (42, 27), (26, 26), (25, 10)] _
      (by decide) (by simp) (by rfl) (by decide) (by decide) hv (42, 27, x.tpid)
      (by simp [sja1105et_general_params_entry_fields]),
    packFieldsV_unpack_field _ _ [(319, 319), (318, 318), (317, 315), (314, 312), (311, 264), (263, 216), (215, 168), (167, 120), (119, 119), (118, 118), (117, 117), (116, 116), (115, 113), (112, 110), (109, 107), (106, 75), (74, 43), (42, 27), (26, 26), (25, 10)] _
      (by decide) (by simp) (by rfl) (by decide) (by decide) hv (26, 26, x.ignore2stf)
      (by simp [sja1105et_general_params_entry_fields]),
    packFieldsV_unpack_field _ _ [(319, 319), (318, 318), (317, 315), (314, 312), (311, 264), (263, 216), (215, 168), (167, 120), (119, 119), (118, 118), (117, 117), (116, 116), (115, 113), (112, 110), (109, 107), (106, 75), (74, 43), (42, 27), (26, 26), (25, 10)] _
      (by decide) (by simp) (by rfl) (by decide) (by decide) hv (25, 10, x.tpid2)
      (by simp [sja1105et_general_params_entry_fields])]
  show (⟨x.vllupformat, x.mirr_ptacu, x.switchid, x.hostprio, x.mac_fltres1, x.mac_fltres0, x.mac_flt1, x.mac_flt0, x.incl_srcpt1, x.incl_srcpt0, x.send_meta1, x.send_meta0, x.casc_port, x.host_port, x.mirr_port, x.vlmarker, x.vlmask, x.tpid, x.ignore2stf, x.tpid2, (0 : Nat), (0 : Nat), (0 : Nat), (0 : Nat), (0 : Nat)⟩ : GeneralParamsEntry) = ⟨x.vllupformat, x.mirr_ptacu, x.switchid, x.hostprio, x.mac_fltres1, x.mac_fltres0, x.mac_flt1, x.mac_flt0, x.incl_srcpt1, x.incl_srcpt0, x.send_meta1, x.send_meta0, x.casc_port, x.host_port, x.mirr_port, x.vlmarker, x.vlmask, x.tpid, x.ignore2stf, x.tpid2, x.queue_ts, x.egrmirrvid, x.egrmirrpcp, x.egrmirrdei, x.replay_port⟩
  simp only [GeneralParamsEntry.mk.injEq, and_true, true_and]
  exact ⟨hz_queue_ts.symm, hz_egrmirrvid.symm, hz_egrmirrpcp.symm, hz_egrmirrdei.symm, hz_replay_port.symm⟩

def sja1105pqrs_general_params_entry_fields (x : GeneralParamsEntry) : List (Nat × Nat × Nat) :=
  [(351, 351, x.vllupformat),
   (350, 350, x.mirr_ptacu),
   (349, 347, x.switchid),
   (346, 344, x.hostprio),
   (343, 296, x.mac_fltres1),
   (295, 248, x.mac_fltres0),
   (247, 200, x.mac_flt1),
   (199, 152, x.mac_flt0),
   (151, 151, x.incl_srcpt1),
   (150, 150, x.incl_srcpt0),
   (149, 149, x.send_meta1),
   (148, 148, x.send_meta0),
   (147, 145, x.casc_port),
   (144, 142, x.host_port),
   (141, 139, x.mirr_port),
   (138, 107, x.vlmarker),
   (106, 75, x.vlmask),
   (74, 59, x.tpid),
   (58, 58, x.ignore2stf),
   (57, 42, x.tpid2),
   (41, 41, x.queue_ts),
   (40, 29, x.egrmirrvid),
   (28, 26, x.egrmirrpcp),
   (25, 25, x.egrmirrdei),
   (24, 22, x.replay_port)]

def sja1105pqrs_general_params_entry_pack (x : GeneralParamsEntry) (buf : List Nat) : List Nat :=
  packFieldsV SIZE_GENERAL_PARAMS_ENTRY_PQRS (sja1105pqrs_general_params_entry_fields x) buf

def sja1105pqrs_general_params_entry_unpack (buf : List Nat) : GeneralParamsEntry :=
  ⟨sja1105_unpack buf 351 351 SIZE_GENERAL_PARAMS_ENTRY_PQRS,
   sja1105_unpack buf 350 350 SIZE_GENERAL_PARAMS_ENTRY_PQRS,
   sja1105_unpack buf 349 347 SIZE_GENERAL_PARAMS_ENTRY_PQRS,
   sja1105_unpack buf 346 344 SIZE_GENERAL_PARAMS_ENTRY_PQRS,
   sja1105_unpack buf 343 296 SIZE_GENERAL_PARAMS_ENTRY_PQRS,
   sja1105_unpack buf 295 248 SIZE_GENERAL_PARAMS_ENTRY_PQRS,
   sja1105_unpack buf 247 200 SIZE_GENERAL_PARAMS_ENTRY_PQRS,
   sja1105_unpack buf 199 152 SIZE_GENERAL_PARAMS_ENTRY_PQRS,
   sja1105_unpack buf 151 151 SIZE_GENERAL_PARAMS_ENTRY_PQRS,
   sja1105_unpack buf 150 150 SIZE_GENERAL_PARAMS_ENTRY_PQRS,
   sja1105_unpack buf 149 149 SIZE_GENERAL_PARAMS_ENTRY_PQRS,
   sja1105_unpack buf 148 148 SIZE_GENERAL_PARAMS_ENTRY_PQRS,
   sja1105_unpack buf 147 145 SIZE_GENERAL_PARAMS_ENTRY_PQRS,
   sja1105_unpack buf 144 142 SIZE_GENERAL_PARAMS_ENTRY_PQRS,
   sja1105_unpack buf 141 139 SIZE_GENERAL_PARAMS_ENTRY_PQRS,
   sja1105_unpack buf 138 107 SIZE_GENERAL_PARAMS_ENTRY_PQRS,
   sja1105_unpack buf 106 75 SIZE_GENERAL_PARAMS_ENTRY_PQRS,
   sja1105_unpack buf 74 59 SIZE_GENERAL_PARAMS_ENTRY_PQRS,
   sja1105_unpack buf 58 58 SIZE_GENERAL_PARAMS_ENTRY_PQRS,
   sja1105_unpack buf 57 42 SIZE_GENERAL_PARAMS_ENTRY_PQRS,
   sja1105_unpack buf 41 41 SIZE_GENERAL_PARAMS_ENTRY_PQRS,
   sja1105_unpack buf 40 29 SIZE_GENERAL_PARAMS_ENTRY_PQRS,
   sja1105_unpack buf 28 26 SIZE_GENERAL_PARAMS_ENTRY_PQRS,
   sja1105_unpack buf 25 25 SIZE_GENERAL_PARAMS_ENTRY_PQRS,
   sja1105_unpack buf 24 22 SIZE_GENERAL_PARAMS_ENTRY_PQRS⟩

def sja1105pqrs_general_params_entry_canonical (x : GeneralParamsEntry) : Prop :=
  (∀ f ∈ sja1105pqrs_general_params_entry_fields x, wfField SIZE_GENERAL_PARAMS_ENTRY_PQRS f)

instance (x : GeneralParamsEntry) : Decidable (sja1105pqrs_general_params_entry_canonical x) := by
  unfold sja1105pqrs_general_params_entry_canonical wfField
  infer_instance

theorem sja1105pqrs_general_params_entry_roundtrip (x : GeneralParamsEntry) (hc : sja1105pqrs_general_params_entry_canonical x) :
    sja1105pqrs_general_params_entry_unpack (sja1105pqrs_general_params_entry_pack x (List.replicate SIZE_GENERAL_PARAMS_ENTRY_PQRS 0)) = x := by
  have hfit := hc
  have hv : ∀ f ∈ sja1105pqrs_general_params_entry_fields x, f.2.2 < 2 ^ (f.1 - f.2.1 + 1) :=
    fun f hf => (hfit f hf).2.2.2
  unfold sja1105pqrs_general_params_entry_unpack sja1105pqrs_general_params_entry_pack
  rw [packFieldsV_unpack_field _ _ [(351, 351), (350, 350), (349, 347), (346, 344), (343, 296), (295, 248), (247, 200), (199, 152), (151, 151), (150, 150), (149, 149), (148, 148), (147, 145), (144, 142), (141, 139), (138, 107), (106, 75), (74, 59), (58, 58), (57, 42), (41, 41), (40, 29), (28, 26), (25, 25), (24, 22)] _
      (by decide) (by simp) (by rfl) (by decide) (by decide) hv (351, 351, x.vllupformat)
      (by simp [sja1105pqrs_general_params_entry_fields]),
    packFieldsV_unpack_field _ _ [(351, 351), (350, 350), (349, 347), (346, 344), (343, 296), (295, 248), (247, 200), (199, 152), (151, 151), (150, 150), (149, 149), (148, 148), (147, 145), (144, 142), (141, 139), (138, 107), (106, 75), (74, 59), (58, 58), (57, 42), (41, 41), (40, 29), (28, 26), (25, 25), (24, 22)] _
      (by decide) (by simp) (by rfl) (by decide) (by decide) hv (350, 350, x.mirr_ptacu)
      (by simp [sja1105pqrs_general_params_entry_fields]),
    packFieldsV_unpack_field _ _ [(351, 351), (350, 350), (349, 347), (346, 344), (343, 296), (295, 248), (247, 200), (199, 152), (151, 151), (150, 150), (149, 149), (148, 148), (147, 145), (144, 142), (141, 139), (138, 107), (106, 75), (74, 59), (58, 58), (57, 42), (41, 41), (40, 29), (28, 26), (25, 25), (24, 22)] _
      (by decide) (by simp) (by rfl) (by decide) (by decide) hv (349, 347, x.switchid)
      (by simp [sja1105pqrs_general_params_entry_fields]),
    packFieldsV_unpack_field _ _ [(351, 351), (350, 350), (349, 347), (346, 344), (343, 296), (295, 248), (247, 200), (199, 152), (151, 151), (150, 150), (149, 149), (148, 148), (147, 145), (144, 142), (141, 139), (138, 107), (106, 75), (74, 59), (58, 58), (57, 42), (41, 41), (40, 29), (28, 26), (25, 25), (24, 22)] _
      (by decide) (by simp) (by rfl) (by decide) (by decide) hv (346, 344, x.hostprio)
      (by simp [sja1105pqrs_general_params_entry_fields]),
    packFieldsV_unpack_field _ _ [(351, 351), (350, 350), (349, 347), (346, 344), (343, 296), (295, 248), (247, 200), (199, 152), (151, 151), (150, 150), (149, 149), (148, 148), (147, 145), (144, 142), (141, 139), (138, 107), (106, 75), (74, 59), (58, 58), (57, 42), (41, 41), (40, 29), (28, 26), (25, 25), (24, 22)] _
      (by decide) (by simp) (by rfl) (by decide) (by decide) hv (343, 296, x.mac_fltres1)
      (by simp [sja1105pqrs_general_params_entry_fields]),
    packFieldsV_unpack_field _ _ [(351, 351), (350, 350), (349, 347), (346, 344), (343, 296), (295, 248), (247, 200), (199, 152), (151, 151), (150, 150), (149, 149), (148, 148), (147, 145), (144, 142), (141, 139), (138, 107), (106, 75), (74, 59), (58, 58), (57, 42), (41, 41), (40, 29), (28, 26), (25, 25), (24, 22)] _
      (by decide) (by simp) (by rfl) (by decide) (by decide) hv (295, 248, x.mac_fltres0)
      (by simp [sja1105pqrs_general_params_entry_fields]),
    packFieldsV_unpack_field _ _ [(351, 351), (350, 350), (349, 347), (346, 344), (343, 296), (295, 248), (247, 200), (199, 152), (151, 151), (150, 150), (149, 149), (148, 148), (147, 145), (144, 142), (141, 139), (138, 107), (106, 75), (74, 59), (58, 58), (57, 42), (41, 41), (40, 29), (28, 26), (25, 25), (24, 22)] _
      (by decide) (by simp) (by rfl) (by decide) (by decide) hv (247, 200, x.mac_flt1)
      (by simp [sja1105pqrs_general_params_entry_fields]),
    packFieldsV_unpack_field _ _ [(351, 351), (350, 350), (349, 347), (346, 344), (343, 296), (295, 248), (247, 200), (199, 152), (151, 151), (150, 150), (149, 149), (148, 148), (147, 145), (144, 142), (141, 139), (138, 107), (106, 75), (74, 59), (58, 58), (57, 42), (41, 41), (40, 29), (28, 26), (25, 25), (24, 22)] _
      (by decide) (by simp) (by rfl) (by decide) (by decide) hv (199, 152, x.mac_flt0)
      (by simp [sja1105pqrs_general_params_entry_fields]),
    packFieldsV_unpack_field _ _ [(351, 351), (350, 350), (349, 347), (346, 344), (343, 296), (295, 248), (247, 200), (199, 152), (151, 151), (150, 150), (149, 149), (148, 148), (147, 145), (144, 142), (141, 139), (138, 107), (106, 75), (74, 59), (58, 58), (57, 42), (41, 41), (40, 29), (28, 26), (25, 25), (24, 22)] _
      (by decide) (by simp) (by rfl) (by decide) (by decide) hv (151, 151, x.incl_srcpt1)
      (by simp [sja1105pqrs_general_params_entry_fields]),
    packFieldsV_unpack_field _ _ [(351, 351), (350, 350), (349, 347), (346, 344), (343, 296), (295, 248), (247, 200), (199, 152), (151, 151), (150, 150), (149, 149), (148, 148), (147, 145), (144, 142), (141, 139), (138, 107), (106, 75), (74, 59), (58, 58), (57, 42), (41, 41), (40, 29), (28, 26), (25, 25), (24, 22)] _
      (by decide) (by simp) (by rfl) (by decide) (by decide) hv (150, 150, x.incl_srcpt0)
      (by simp [sja1105pqrs_general_params_entry_fields]),
    packFieldsV_unpack_field _ _ [(351, 351), (350, 350), (349, 347), (346, 344), (343, 296), (295, 248), (247, 200), (199, 152), (151, 151), (150, 150), (149, 149), (148, 148), (147, 145), (144, 142), (141, 139), (138, 107), (106, 75), (74, 59), (58, 58), (57, 42), (41, 41), (40, 29), (28, 26), (25, 25), (24, 22)] _
      (by decide) (by simp) (by rfl) (by decide) (by decide) hv (149, 149, x.send_meta1)
      (by simp [sja1105pqrs_general_params_entry_fields]),
    packFieldsV_unpack_field _ _ [(351, 351), (350, 350), (349, 347), (346, 344), (343, 296), (295, 248), (247, 200), (199, 152), (151, 151), (150, 150), (149, 149), (148, 148), (147, 145), (144, 142), (141, 139), (138, 107), (106, 75), (74, 59), (58, 58), (57, 42), (41, 41), (40, 29), (28, 26), (25, 25), (24, 22)] _
      (by decide) (by simp) (by rfl) (by decide) (by decide) hv (148, 148, x.send_meta0)
      (by simp [sja1105pqrs_general_params_entry_fields]),
    packFieldsV_unpack_field _ _ [(351, 351), (350, 350), (349, 347), (346, 344), (343, 296), (295, 248), (247, 200), (199, 152), (151, 151), (150, 150), (149, 149), (148, 148), (147, 145), (144, 142), (141, 139), (138, 107), (106, 75), (74, 59), (58, 58), (57, 42), (41, 41), (40, 29), (28, 26), (25, 25), (24, 22)] _
      (by decide) (by simp) (by rfl) (by decide) (by decide) hv (147, 145, x.casc_port)
      (by simp [sja1105pqrs_general_params_entry_fields]),
    packFieldsV_unpack_field _ _ [(351, 351), (350, 350), (349, 347), (346, 344), (343, 296), (295, 248), (247, 200), (199, 152), (151, 151), (150, 150), (149, 149), (148, 148), (147, 145), (144, 142), (141, 139), (138, 107), (106, 75), (74, 59), (58, 58), (57, 42), (41, 41), (40, 29), (28, 26), (25, 25), (24, 22)] _
      (by decide) (by simp) (by rfl) (by decide) (by decide) hv (144, 142, x.host_port)
      (by simp [sja1105pqrs_general_params_entry_fields]),
    packFieldsV_unpack_field _ _ [(351, 351), (350, 350), (349, 347), (346, 344), (343, 296), (295, 248), (247, 200), (199, 152), (151, 151), (150, 150), (149, 149), (148, 148), (147, 145), (144, 142), (141, 139), (138, 107), (106, 75), (74, 59), (58, 58), (57, 42), (41, 41), (40, 29), (28, 26), (25, 25), (24, 22)] _
      (by decide) (by simp) (by rfl) (by decide) (by decide) hv (141, 139, x.mirr_port)
      (by simp [sja1105pqrs_general_params_entry_fields]),
    packFieldsV_unpack_field _ _ [(351, 351), (350, 350), (349, 347), (346, 344), (343, 296), (295, 248), (247, 200), (199, 152), (151, 151), (150, 150), (149, 149), (148, 148), (147, 145), (144, 142), (141, 139), (138, 107), (106, 75), (74, 59), (58, 58), (57, 42), (41, 41), (40, 29), (28, 26), (25, 25), (24, 22)] _
      (by decide) (by simp) (by rfl) (by decide) (by decide) hv (138, 107, x.vlmarker)
      (by simp [sja1105pqrs_general_params_entry_fields]),
    packFieldsV_unpack_field _ _ [(351, 351), (350, 350), (349, 347), (346, 344), (343, 296), (295, 248), (247, 200), (199, 152), (151, 151), (150, 150), (149, 149), (148, 148), (147, 145), (144, 142), (141, 139), (138, 107), (106, 75), (74, 59), (58, 58), (57, 42), (41, 41), (40, 29), (28, 26), (25, 25), (24, 22)] _
      (by decide) (by simp) (by rfl) (by decide) (by decide) hv (106, 75, x.vlmask)
      (by simp [sja1105pqrs_general_params_entry_fields]),
    packFieldsV_unpack_field _ _ [(351, 351), (350, 350), (349, 347), (346, 344), (343, 296), (295, 248), (247, 200), (199, 152), (151, 151), (150, 150), (149, 149), (148, 148), (147, 145), (144, 142), (141, 139), (138, 107), (106, 75), (74, 59), (58, 58), (57, 42), (41, 41), (40, 29), (28, 26), (25, 25), (24, 22)] _
      (by decide) (by simp) (by rfl) (by decide) (by decide) hv (74, 59, x.tpid)
      (by simp [sja1105pqrs_general_params_entry_fields]),
    packFieldsV_unpack_field _ _ [(351, 351), (350, 350), (349, 347), (346, 344), (343, 296), (295, 248), (247, 200), (199, 152), (151, 151), (150, 150), (149, 149), (148, 148), (147, 145), (144, 142), (141, 139), (138, 107), (106, 75), (74, 59), (58, 58), (57, 42), (41, 41), (40, 29), (28, 26), (25, 25), (24, 22)] _
      (by decide) (by simp) (by rfl) (by decide) (by decide) hv (58, 58, x.ignore2stf)
      (by simp [sja1105pqrs_general_params_entry_fields]),
    packFieldsV_unpack_field _ _ [(351, 351), (350, 350), (349, 347), (346, 344), (343, 296), (295, 248), (247, 200), (199, 152), (151, 151), (150, 150), (149, 149), (148, 148), (147, 145), (144, 142), (141, 139), (138, 107), (106, 75), (74, 59), (58, 58), (57, 42), (41, 41), (40, 29), (28, 26), (25, 25), (24, 22)] _
      (by decide) (by simp) (by rfl) (by decide) (by decide) hv (57, 42, x.tpid2)
      (by simp [sja1105pqrs_general_params_entry_fields]),
    packFieldsV_unpack_field _ _ [(351, 351), (350, 350), (349, 347), (346, 344), (343, 296), (295, 248), (247, 200), (199, 152), (151, 151), (150, 150), (149, 149), (148, 148), (147, 145), (144, 142), (141, 139), (138, 107), (106, 75), (74, 59), (58, 58), (57, 42), (41, 41), (40, 29), (28, 26), (25, 25), (24, 22)] _
      (by decide) (by simp) (by rfl) (by decide) (by decide) hv (41, 41, x.queue_ts)
      (by simp [sja1105pqrs_general_params_entry_fields]),
    packFieldsV_unpack_field _ _ [(351, 351), (350, 350), (349, 347), (346, 344), (343, 296), (295, 248), (247, 200), (199, 152), (151, 151), (150, 150), (149, 149), (148, 148), (147, 145), (144, 142), (141, 139), (138, 107), (106, 75), (74, 59), (58, 58), (57, 42), (41, 41), (40, 29), (28, 26), (25, 25), (24, 22)] _
      (by decide) (by simp) (by rfl) (by decide) (by decide) hv (40, 29, x.egrmirrvid)
      (by simp [sja1105pqrs_general_params_entry_fields]),
    packFieldsV_unpack_field _ _ [(351, 351), (350, 350), (349, 347), (346, 344), (343, 296), (295, 248), (247, 200), (199, 152), (151, 151), (150, 150), (149, 149), (148, 148), (147, 145), (144, 142), (141, 139), (138, 107), (106, 75), (74, 59), (58, 58), (57, 42), (41, 41), (40, 29), (28, 26), (25, 25), (24, 22)] _
      (by decide) (by simp) (by rfl) (by decide) (by decide) hv (28, 26, x.egrmirrpcp)
      (by simp [sja1105pqrs_general_params_entry_fields]),
    packFieldsV_unpack_field _ _ [(351, 351), (350, 350), (349, 347), (346, 344), (343, 296), (295, 248), (247, 200), (199, 152), (151, 151), (150, 150), (149, 149), (148, 148), (147, 145), (144, 142), (141, 139), (138, 107), (106, 75), (74, 59), (58, 58), (57, 42), (41, 41), (40, 29), (28, 26), (25, 25), (24, 22)] _
      (by decide) (by simp) (by rfl) (by decide) (by decide) hv (25, 25, x.egrmirrdei)
      (by simp [sja1105pqrs_general_params_entry_fields]),
    packFieldsV_unpack_field _ _ [(351, 351), (350, 350), (349, 347), (346, 344), (343, 296), (295, 248), (247, 200), (199, 152), (151, 151), (150, 150), (149, 149), (148, 148), (147, 145), (144, 142), (141, 139), (138, 107), (106, 75), (74, 59), (58, 58), (57, 42), (41, 41), (40, 29), (28, 26), (25, 25), (24, 22)] _
      (by decide) (by simp) (by rfl) (by decide) (by decide) hv (24, 22, x.replay_port)
      (by simp [sja1105pqrs_general_params_entry_fields])]

def sja1105_retagging_entry_fields (x : RetaggingEntry) : List (Nat × Nat × Nat) :=
  [(63, 59, x.egr_port),
   (58, 54, x.ing_port),
   (53, 42, x.vlan_ing),
   (41, 30, x.vlan_egr),
   (29, 29, x.do_not_learn),
   (27, 23, x.destports)]

def sja1105_retagging_entry_pack (x : RetaggingEntry) (buf : List Nat) : List Nat :=
  packFieldsV SIZE_RETAGGING_ENTRY (sja1105_retagging_entry_fields x) buf

def sja1105_retagging_entry_unpack (buf : List Nat) : RetaggingEntry :=
  ⟨sja1105_unpack buf 63 59 SIZE_RETAGGING_ENTRY,
   sja1105_unpack buf 58 54 SIZE_RETAGGING_ENTRY,
   sja1105_unpack buf 53 42 SIZE_RETAGGING_ENTRY,
   sja1105_unpack buf 41 30 SIZE_RETAGGING_ENTRY,
   sja1105_unpack buf 29 29 SIZE_RETAGGING_ENTRY,
   0,
   sja1105_unpack buf 27 23 SIZE_RETAGGING_ENTRY⟩

def sja1105_retagging_entry_canonical (x : RetaggingEntry) : Prop :=
  (∀ f ∈ sja1105_retagging_entry_fields x, wfField SIZE_RETAGGING_ENTRY f) ∧
  x.use_dest_ports = 0

instance (x : RetaggingEntry) : Decidable (sja1105_retagging_entry_canonical x) := by
  unfold sja1105_retagging_entry_canonical wfField
  infer_instance

theorem sja1105_retagging_entry_roundtrip (x : RetaggingEntry) (hc : sja1105_retagging_entry_canonical x) :
    sja1105_retagging_entry_unpack (sja1105_retagging_entry_pack x (List.replicate SIZE_RETAGGING_ENTRY 0)) = x := by
  obtain ⟨hfit, hz_use_dest_ports⟩ := hc
  have hv : ∀ f ∈ sja1105_retagging_entry_fields x, f.2.2 < 2 ^ (f.1 - f.2.1 + 1) :=
    fun f hf => (hfit f hf).2.2.2
  unfold sja1105_retagging_entry_unpack sja1105_retagging_entry_pack
  rw [packFieldsV_unpack_field _ _ [(63, 59), (58, 54), (53, 42), (41, 30), (29, 29), (27, 23)] _
      (by decide) (by simp) (by rfl) (by decide) (by decide) hv (63, 59, x.egr_port)
      (by simp [sja1105_retagging_entry_fields]),
    packFieldsV_unpack_field _ _ [(63, 59), (58, 54), (53, 42), (41, 30), (29, 29), (27, 23)] _
      (by decide) (by simp) (by rfl) (by decide) (by decide) hv (58, 54, x.ing_port)
      (by simp [sja1105_retagging_entry_fields]),
    packFieldsV_unpack_field _ _ [(63, 59), (58, 54), (53, 42), (41, 30), (29, 29), (27, 23)] _
      (by decide) (by simp) (by rfl) (by decide) (by decide) hv (53, 42, x.vlan_ing)
      (by simp [sja1105_retagging_entry_fields]),
    packFieldsV_unpack_field _ _ [(63, 59), (58, 54), (53, 42), (41, 30), (29, 29), (27, 23)] _
      (by decide) (by simp) (by rfl) (by decide) (by decide) hv (41, 30, x.vlan_egr)
      (by simp [sja1105_retagging_entry_fields]),
    packFieldsV_unpack_field _ _ [(63, 59), (58, 54), (53, 42), (41, 30), (29, 29), (27, 23)] _
      (by decide) (by simp) (by rfl) (by decide) (by decide) hv (29, 29, x.do_not_learn)
      (by simp [sja1105_retagging_entry_fields]),
    packFieldsV_unpack_field _ _ [(63, 59), (58, 54), (53, 42), (41, 30), (29, 29), (27, 23)] _
      (by decide) (by simp) (by rfl) (by decide) (by decide) hv (27, 23, x.destports)
      (by simp [sja1105_retagging_entry_fields])]
  show (⟨x.egr_port, x.ing_port, x.vlan_ing, x.vlan_egr, x.do_not_learn, (0 : Nat), x.destports⟩ : RetaggingEntry) = ⟨x.egr_port, x.ing_port, x.vlan_ing, x.vlan_egr, x.do_not_learn, x.use_dest_ports, x.destports⟩
  simp only [RetaggingEntry.mk.injEq, and_true, true_and]
  exact hz_use_dest_ports.symm

def sja1105_xmii_params_entry_fields (x : XmiiParamsEntry) : List (Nat × Nat × Nat) :=
  [(18, 17, x.xmii_mode.getD 0 0),
   (19, 19, x.phy_mac.getD 0 0),
   (21, 20, x.xmii_mode.getD 1 0),
   (22, 22, x.phy_mac.getD 1 0),
   (24, 23, x.xmii_mode.getD 2 0),
   (25, 25, x.phy_mac.getD 2 0),
   (27, 26, x.xmii_mode.getD 3 0),
   (28, 28, x.phy_mac.getD 3 0),
   (30, 29, x.xmii_mode.getD 4 0),
   (31, 31, x.phy_mac.getD 4 0)]

def sja1105_xmii_params_entry_pack (x : XmiiParamsEntry) (buf : List Nat) : List Nat :=
  packFieldsV SIZE_XMII_PARAMS_ENTRY (sja1105_xmii_params_entry_fields x) buf

def sja1105_xmii_params_entry_unpack (buf : List Nat) : XmiiParamsEntry :=
  ⟨[sja1105_unpack buf 19 19 SIZE_XMII_PARAMS_ENTRY,
    sja1105_unpack buf 22 22 SIZE_XMII_PARAMS_ENTRY,
    sja1105_unpack buf 25 25 SIZE_XMII_PARAMS_ENTRY,
    sja1105_unpack buf 28 28 SIZE_XMII_PARAMS_ENTRY,
    sja1105_unpack buf 31 31 SIZE_XMII_PARAMS_ENTRY],
   [sja1105_unpack buf 18 17 SIZE_XMII_PARAMS_ENTRY,
    sja1105_unpack buf 21 20 SIZE_XMII_PARAMS_ENTRY,
    sja1105_unpack buf 24 23 SIZE_XMII_PARAMS_ENTRY,
    sja1105_unpack buf 27 26 SIZE_XMII_PARAMS_ENTRY,
    sja1105_unpack buf 30 29 SIZE_XMII_PARAMS_ENTRY]⟩

def sja1105_xmii_params_entry_canonical (x : XmiiParamsEntry) : Prop :=
  (∀ f ∈ sja1105_xmii_params_entry_fields x, wfField SIZE_XMII_PARAMS_ENTRY f) ∧
  x.phy_mac.length = 5 ∧
  x.xmii_mode.length = 5

instance (x : XmiiParamsEntry) : Decidable (sja1105_xmii_params_entry_canonical x) := by
  unfold sja1105_xmii_params_entry_canonical wfField
  infer_instance

theorem sja1105_xmii_params_entry_roundtrip (x : XmiiParamsEntry) (hc : sja1105_xmii_params_entry_canonical x) :
    sja1105_xmii_params_entry_unpack (sja1105_xmii_params_entry_pack x (List.replicate SIZE_XMII_PARAMS_ENTRY 0)) = x := by
  obtain ⟨hfit, hl_phy_mac, hl_xmii_mode⟩ := hc
  have hv : ∀ f ∈ sja1105_xmii_params_entry_fields x, f.2.2 < 2 ^ (f.1 - f.2.1 + 1) :=
    fun f hf => (hfit f hf).2.2.2
  unfold sja1105_xmii_params_entry_unpack sja1105_xmii_params_entry_pack
  rw [packFieldsV_unpack_field _ _ [(18, 17), (19, 19), (21, 20), (22, 22), (24, 23), (25, 25), (27, 26), (28, 28), (30, 29), (31, 31)] _
      (by decide) (by simp) (by rfl) (by decide) (by decide) hv (18, 17, x.xmii_mode.getD 0 0)
      (by simp [sja1105_xmii_params_entry_fields]),
    packFieldsV_unpack_field _ _ [(18, 17), (19, 19), (21, 20), (22, 22), (24, 23), (25, 25), (27, 26), (28, 28), (30, 29), (31, 31)] _
      (by decide) (by simp) (by rfl) (by decide) (by decide) hv (19, 19, x.phy_mac.getD 0 0)
      (by simp [sja1105_xmii_params_entry_fields]),
    packFieldsV_unpack_field _ _ [(18, 17), (19, 19), (21, 20), (22, 22), (24, 23), (25, 25), (27, 26), (28, 28), (30, 29), (31, 31)] _
      (by decide) (by simp) (by rfl) (by decide) (by decide) hv (21, 20, x.xmii_mode.getD 1 0)
      (by simp [sja1105_xmii_params_entry_fields]),
    packFieldsV_unpack_field _ _ [(18, 17), (19, 19), (21, 20), (22, 22), (24, 23), (25, 25), (27, 26), (28, 28), (30, 29), (31, 31)] _
      (by decide) (by simp) (by rfl) (by decide) (by decide) hv (22, 22, x.phy_mac.getD 1 0)
      (by simp [sja1105_xmii_params_entry_fields]),
    packFieldsV_unpack_field _ _ [(18, 17), (19, 19), (21, 20), (22, 22), (24, 23), (25, 25), (27, 26), (28, 28), (30, 29), (31, 31)] _
      (by decide) (by simp) (by rfl) (by decide) (by decide) hv (24, 23, x.xmii_mode.getD 2 0)
      (by simp [sja1105_xmii_params_entry_fields]),
    packFieldsV_unpack_field _ _ [(18, 17), (19, 19), (21, 20), (22, 22), (24, 23), (25, 25), (27, 26), (28, 28), (30, 29), (31, 31)] _
      (by decide) (by simp) (by rfl) (by decide) (by decide) hv (25, 25, x.phy_mac.getD 2 0)
      (by simp [sja1105_xmii_params_entry_fields]),
    packFieldsV_unpack_field _ _ [(18, 17), (19, 19), (21, 20), (22, 22), (24, 23), (25, 25), (27, 26), (28, 28), (30, 29), (31, 31)] _
      (by decide) (by simp) (by rfl) (by decide) (by decide) hv (27, 26, x.xmii_mode.getD 3 0)
      (by simp [sja1105_xmii_params_entry_fields]),
    packFieldsV_unpack_field _ _ [(18, 17), (19, 19), (21, 20), (22, 22), (24, 23), (25, 25), (27, 26), (28, 28), (30, 29), (31, 31)] _
      (by decide) (by simp) (by rfl) (by decide) (by decide) hv (28, 28, x.phy_mac.getD 3 0)
      (by simp [sja1105_xmii_params_entry_fields]),
    packFieldsV_unpack_field _ _ [(18, 17), (19, 19), (21, 20), (22, 22), (24, 23), (25, 25), (27, 26), (28, 28), (30, 29), (31, 31)] _
      (by decide) (by simp) (by rfl) (by decide) (by decide) hv (30, 29, x.xmii_mode.getD 4 0)
      (by simp [sja1105_xmii_params_entry_fields]),
    packFieldsV_unpack_field _ _ [(18, 17), (19, 19), (21, 20), (22, 22), (24, 23), (25, 25), (27, 26), (28, 28), (30, 29), (31, 31)] _
      (by decide) (by simp) (by rfl) (by decide) (by decide) hv (31, 31, x.phy_mac.getD 4 0)
      (by simp [sja1105_xmii_params_entry_fields])]
  rw [list_eq_of_getD5 x.phy_mac hl_phy_mac]
  rw [list_eq_of_getD5 x.xmii_mode hl_xmii_mode]

def sja1105_sgmii_entry_fields (x : SgmiiEntry) : List (Nat × Nat × Nat) :=
  [(1151, 1120, x.digital_error_cnt),
   (1119, 1088, x.digital_control_2),
   (383, 352, x.debug_control),
   (351, 320, x.test_control),
   (287, 256, x.autoneg_control),
   (255, 224, x.digital_control_1),
   (223, 192, x.autoneg_adv),
   (191, 160, x.basic_control),
   (1087, 1056, 0),
   (1055, 1024, 0),
   (1023, 992, 0),
   (991, 960, 256),
   (959, 928, 575),
   (927, 896, 10),
   (895, 864, 7202),
   (863, 832, 1),
   (831, 800, 3),
   (799, 768, 0),
   (767, 736, 1),
   (735, 704, 5),
   (703, 672, 257),
   (671, 640, 0),
   (639, 608, 1),
   (607, 576, 0),
   (575, 544, 10),
   (543, 512, 0),
   (511, 480, 0),
   (479, 448, 0),
   (447, 416, 0),
   (415, 384, 35228),
   (319, 288, 10),
   (159, 128, 4),
   (127, 96, 0),
   (95, 64, 0),
   (63, 32, 0),
   (31, 0, 0)]

def sja1105_sgmii_entry_pack (x : SgmiiEntry) (buf : List Nat) : List Nat :=
  packFieldsV SIZE_SGMII_ENTRY (sja1105_sgmii_entry_fields x) buf

def sja1105_sgmii_entry_unpack (buf : List Nat) : SgmiiEntry :=
  ⟨sja1105_unpack buf 1151 1120 SIZE_SGMII_ENTRY,
   sja1105_unpack buf 1119 1088 SIZE_SGMII_ENTRY,
   sja1105_unpack buf 383 352 SIZE_SGMII_ENTRY,
   sja1105_unpack buf 351 320 SIZE_SGMII_ENTRY,
   sja1105_unpack buf 287 256 SIZE_SGMII_ENTRY,
   sja1105_unpack buf 255 224 SIZE_SGMII_ENTRY,
   sja1105_unpack buf 223 192 SIZE_SGMII_ENTRY,
   sja1105_unpack buf 191 160 SIZE_SGMII_ENTRY⟩

def sja1105_sgmii_entry_canonical (x : SgmiiEntry) : Prop :=
  (∀ f ∈ sja1105_sgmii_entry_fields x, wfField SIZE_SGMII_ENTRY f)

instance (x : SgmiiEntry) : Decidable (sja1105_sgmii_entry_canonical x) := by
  unfold sja1105_sgmii_entry_canonical wfField
  infer_instance

theorem sja1105_sgmii_entry_roundtrip (x : SgmiiEntry) (hc : sja1105_sgmii_entry_canonical x) :
    sja1105_sgmii_entry_unpack (sja1105_sgmii_entry_pack x (List.replicate SIZE_SGMII_ENTRY 0)) = x := by
  have hfit := hc
  have hv : ∀ f ∈ sja1105_sgmii_entry_fields x, f.2.2 < 2 ^ (f.1 - f.2.1 + 1) :=
    fun f hf => (hfit f hf).2.2.2
  unfold sja1105_sgmii_entry_unpack sja1105_sgmii_entry_pack
  rw [packFieldsV_unpack_field _ _ [(1151, 1120), (1119, 1088), (383, 352), (351, 320), (287, 256), (255, 224), (223, 192), (191, 160), (1087, 1056), (1055, 1024), (1023, 992), (991, 960), (959, 928), (927, 896), (895, 864), (863, 832), (831, 800), (799, 768), (767, 736), (735, 704), (703, 672), (671, 640), (639, 608), (607, 576), (575, 544), (543, 512), (511, 480), (479, 448), (447, 416), (415, 384), (319, 288), (159, 128), (127, 96), (95, 64), (63, 32), (31, 0)] _
      (by decide) (by simp) (by rfl) (by decide) (by decide) hv (1151, 1120, x.digital_error_cnt)
      (by simp [sja1105_sgmii_entry_fields]),
    packFieldsV_unpack_field _ _ [(1151, 1120), (1119, 1088), (383, 352), (351, 320), (287, 256), (255, 224), (223, 192), (191, 160), (1087, 1056), (1055, 1024), (1023, 992), (991, 960), (959, 928), (927, 896), (895, 864), (863, 832), (831, 800), (799, 768), (767, 736), (735, 704), (703, 672), (671, 640), (639, 608), (607, 576), (575, 544), (543, 512), (511, 480), (479, 448), (447, 416), (415, 384), (319, 288), (159, 128), (127, 96), (95, 64), (63, 32), (31, 0)] _
      (by decide) (by simp) (by rfl) (by decide) (by decide) hv (1119, 1088, x.digital_control_2)
      (by simp [sja1105_sgmii_entry_fields]),
    packFieldsV_unpack_field _ _ [(1151, 1120), (1119, 1088), (383, 352), (351, 320), (287, 256), (255, 224), (223, 192), (191, 160), (1087, 1056), (1055, 1024), (1023, 992), (991, 960), (959, 928), (927, 896), (895, 864), (863, 832), (831, 800), (799, 768), (767, 736), (735, 704), (703, 672), (671, 640), (639, 608), (607, 576), (575, 544), (543, 512), (511, 480), (479, 448), (447, 416), (415, 384), (319, 288), (159, 128), (127, 96), (95, 64), (63, 32), (31, 0)] _
      (by decide) (by simp) (by rfl) (by decide) (by decide) hv (383, 352, x.debug_control)
      (by simp [sja1105_sgmii_entry_fields]),
    packFieldsV_unpack_field _ _ [(1151, 1120), (1119, 1088), (383, 352), (351, 320), (287, 256), (255, 224), (223, 192), (191, 160), (1087, 1056), (1055, 1024), (1023, 992), (991, 960), (959, 928), (927, 896), (895, 864), (863, 832), (831, 800), (799, 768), (767, 736), (735, 704), (703, 672), (671, 640), (639, 608), (607, 576), (575, 544), (543, 512), (511, 480), (479, 448), (447, 416), (415, 384), (319, 288), (159, 128), (127, 96), (95, 64), (63, 32), (31, 0)] _
      (by decide) (by simp) (by rfl) (by decide) (by decide) hv (351, 320, x.test_control)
      (by simp [sja1105_sgmii_entry_fields]),
    packFieldsV_unpack_field _ _ [(1151, 1120), (1119, 1088), (383, 352), (351, 320), (287, 256), (255, 224), (223, 192), (191, 160), (1087, 1056), (1055, 1024), (1023, 992), (991, 960), (959, 928), (927, 896), (895, 864), (863, 832), (831, 800), (799, 768), (767, 736), (735, 704), (703, 672), (671, 640), (639, 608), (607, 576), (575, 544), (543, 512), (511, 480), (479, 448), (447, 416), (415, 384), (319, 288), (159, 128), (127, 96), (95, 64), (63, 32), (31, 0)] _
      (by decide) (by simp) (by rfl) (by decide) (by decide) hv (287, 256, x.autoneg_control)
      (by simp [sja1105_sgmii_entry_fields]),
    packFieldsV_unpack_field _ _ [(1151, 1120), (1119, 1088), (383, 352), (351, 320), (287, 256), (255, 224), (223, 192), (191, 160), (1087, 1056), (1055, 1024), (1023, 992), (991, 960), (959, 928), (927, 896), (895, 864), (863, 832), (831, 800), (799, 768), (767, 736), (735, 704), (703, 672), (671, 640), (639, 608), (607, 576), (575, 544), (543, 512), (511, 480), (479, 448), (447, 416), (415, 384), (319, 288), (159, 128), (127, 96), (95, 64), (63, 32), (31, 0)] _
      (by decide) (by simp) (by rfl) (by decide) (by decide) hv (255, 224, x.digital_control_1)
      (by simp [sja1105_sgmii_entry_fields]),
    packFieldsV_unpack_field _ _ [(1151, 1120), (1119, 1088), (383, 352), (351, 320), (287, 256), (255, 224), (223, 192), (191, 160), (1087, 1056), (1055, 1024), (1023, 992), (991, 960), (959, 928), (927, 896), (895, 864), (863, 832), (831, 800), (799, 768), (767, 736), (735, 704), (703, 672), (671, 640), (639, 608), (607, 576), (575, 544), (543, 512), (511, 480), (479, 448), (447, 416), (415, 384), (319, 288), (159, 128), (127, 96), (95, 64), (63, 32), (31, 0)] _
      (by decide) (by simp) (by rfl) (by decide) (by decide) hv (223, 192, x.autoneg_adv)
      (by simp [sja1105_sgmii_entry_fields]),
    packFieldsV_unpack_field _ _ [(1151, 1120), (1119, 1088), (383, 352), (351, 320), (287, 256), (255, 224), (223, 192), (191, 160), (1087, 1056), (1055, 1024), (1023, 992), (991, 960), (959, 928), (927, 896), (895, 864), (863, 832), (831, 800), (799, 768), (767, 736), (735, 704), (703, 672), (671, 640), (639, 608), (607, 576), (575, 544), (543, 512), (511, 480), (479, 448), (447, 416), (415, 384), (319, 288), (159, 128), (127, 96), (95, 64), (63, 32), (31, 0)] _
      (by decide) (by simp) (by rfl) (by decide) (by decide) hv (191, 160, x.basic_control)
      (by simp [sja1105_sgmii_entry_fields])]

theorem logVal_replicate (len n : Nat) : logVal len (List.replicate n 0) = 0 :=
  logVal_replicate_zero n len

/-- Reading a window that starts at a field's end bit but extends beyond
its start bit over bits no field covers returns the field's value (the
uncovered high bits of a zero-initialised buffer read as zero). -/
theorem packFieldsV_unpack_ext (size : Nat) (fs : List (Nat × Nat × Nat))
    (ws : List (Nat × Nat)) (h4 : size % 4 = 0)
    (hmap : fs.map (fun f => (f.1, f.2.1)) = ws)
    (hwfw : ∀ w ∈ ws, w.2 ≤ w.1 ∧ w.1 < 8 * size ∧ w.1 - w.2 + 1 ≤ 64)
    (hdisj : ws.Pairwise (fun w w' => w.1 < w'.2 ∨ w'.1 < w.2))
    (hv : ∀ f ∈ fs, f.2.2 < 2 ^ (f.1 - f.2.1 + 1))
    (f : Nat × Nat × Nat) (hf : f ∈ fs) (s : Nat) (hfs : f.1 ≤ s) (hs8 : s < 8 * size)
    (hw64 : s - f.2.1 + 1 ≤ 64)
    (hnc : ∀ w ∈ ws, w.1 ≤ f.1 ∨ s < w.2) :
    sja1105_unpack (packFieldsV size fs (List.replicate size 0)) s f.2.1 size = f.2.2 := by
  have hwf : ∀ g ∈ fs, wfField size g := by
    intro g hg
    have hw := hwfw (g.1, g.2.1) (by rw [← hmap]; exact List.mem_map_of_mem _ hg)
    exact ⟨hw.1, hw.2.1, hw.2.2, hv g hg⟩
  have hdisj' : fs.Pairwise (fun f g => f.1 < g.2.1 ∨ g.1 < f.2.1) := by
    subst hmap
    exact (List.pairwise_map.mp hdisj).imp (fun h => h)
  obtain ⟨hw1, hw2, hw3, hw4⟩ := hwf f hf
  have hlen : (List.replicate size 0 : List Nat).length = size := by simp
  rw [sja1105_unpack_eq size s f.2.1 _ h4 (by omega) hs8 hw64]
  apply Nat.eq_of_testBit_eq
  intro k
  rw [Nat.testBit_mod_two_pow, Nat.testBit_shiftRight]
  by_cases hk1 : k ≤ f.1 - f.2.1
  · rw [packFieldsV_field size fs _ h4 hlen hwf hdisj' f hf (f.2.1 + k) (by omega)
      (by omega), decide_eq_true (show k < s - f.2.1 + 1 by omega),
      Nat.add_sub_cancel_left, Bool.true_and]
  · have hbit : f.2.2.testBit k = false :=
      Nat.testBit_lt_two_pow (lt_of_lt_of_le hw4 (Nat.pow_le_pow_right (by omega) (by omega)))
    by_cases hk2 : k ≤ s - f.2.1
    · rw [packFieldsV_window size fs _ h4 hlen hwf (f.2.1 + k) (fun g hg => by
        have hn := hnc (g.1, g.2.1) (by rw [← hmap]; exact List.mem_map_of_mem _ hg)
        rintro ⟨c1, c2⟩
        rcases hn with hn | hn <;> omega)]
      rw [logVal_replicate, Nat.zero_testBit, hbit, Bool.and_false]
    · rw [decide_eq_false (show ¬ (k < s - f.2.1 + 1) by omega), Bool.false_and, hbit]

/-- Reading a window no field intersects from a zero-initialised packed
buffer returns zero. -/
theorem packFieldsV_unpack_none (size : Nat) (fs : List (Nat × Nat × Nat))
    (ws : List (Nat × Nat)) (h4 : size % 4 = 0)
    (hmap : fs.map (fun f => (f.1, f.2.1)) = ws)
    (hwfw : ∀ w ∈ ws, w.2 ≤ w.1 ∧ w.1 < 8 * size ∧ w.1 - w.2 + 1 ≤ 64)
    (hv : ∀ f ∈ fs, f.2.2 < 2 ^ (f.1 - f.2.1 + 1))
    (s e : Nat) (hse : e ≤ s) (hs8 : s < 8 * size) (hw64 : s - e + 1 ≤ 64)
    (hnc : ∀ w ∈ ws, w.1 < e ∨ s < w.2) :
    sja1105_unpack (packFieldsV size fs (List.replicate size 0)) s e size = 0 := by
  have hwf : ∀ g ∈ fs, wfField size g := by
    intro g hg
    have hw := hwfw (g.1, g.2.1) (by rw [← hmap]; exact List.mem_map_of_mem _ hg)
    exact ⟨hw.1, hw.2.1, hw.2.2, hv g hg⟩
  have hlen : (List.replicate size 0 : List Nat).length = size := by simp
  rw [sja1105_unpack_eq size s e _ h4 hse hs8 hw64]
  apply Nat.eq_of_testBit_eq
  intro k
  rw [Nat.testBit_mod_two_pow, Nat.testBit_shiftRight, Nat.zero_testBit]
  by_cases hk : k ≤ s - e
  · rw [packFieldsV_window size fs _ h4 hlen hwf (e + k) (fun g hg => by
      have hn := hnc (g.1, g.2.1) (by rw [← hmap]; exact List.mem_map_of_mem _ hg)
      rintro ⟨c1, c2⟩
      rcases hn with hn | hn <;> omega)]
    rw [logVal_replicate, Nat.zero_testBit, Bool.and_false]
  · rw [decide_eq_false (show ¬ (k < s - e + 1) by omega), Bool.false_and]

/-! ### The two union codecs and the unimplemented clock-sync codec -/

/-- Field list of `sja1105_vl_lookup_entry_packing`: the C function
branches on `entry->format` and packs one of the two union
interpretations (`egrmirr`, `ingrmirr` and `vlid` are the format-1
accessors of the same storage as `destports`, `iscritical` and
`macaddr`). -/
def sja1105_vl_lookup_entry_fields (x : VlLookupEntry) : List (Nat × Nat × Nat) :=
  if x.format = 0 then
    [(95, 91, x.destports), (90, 90, x.iscritical), (89, 42, x.macaddr),
     (41, 30, x.vlanid), (29, 27, x.port), (26, 24, x.vlanprior)]
  else
    [(95, 91, x.egrmirr), (90, 90, x.ingrmirr), (57, 42, x.vlid), (29, 27, x.port)]

def sja1105_vl_lookup_entry_pack (x : VlLookupEntry) (buf : List Nat) : List Nat :=
  packFieldsV SIZE_VL_LOOKUP_ENTRY (sja1105_vl_lookup_entry_fields x) buf

/-- The UNPACK direction of `sja1105_vl_lookup_entry_packing` always runs
on a freshly zeroed entry, whose `format` is 0, so it always reads the
format-0 windows; `format` itself is never unpacked and is left 0 (the
container patches it from the General Parameters `vllupformat`
afterwards). -/
def sja1105_vl_lookup_entry_unpack (buf : List Nat) : VlLookupEntry :=
  ⟨0,
   sja1105_unpack buf 29 27 SIZE_VL_LOOKUP_ENTRY,
   sja1105_unpack buf 95 91 SIZE_VL_LOOKUP_ENTRY,
   sja1105_unpack buf 90 90 SIZE_VL_LOOKUP_ENTRY,
   sja1105_unpack buf 89 42 SIZE_VL_LOOKUP_ENTRY,
   sja1105_unpack buf 41 30 SIZE_VL_LOOKUP_ENTRY,
   sja1105_unpack buf 26 24 SIZE_VL_LOOKUP_ENTRY⟩

/-- Canonicity for the VL Lookup codec: fields fit, the format flag is a
single bit, and under format 1 the fields the packed image cannot carry
must be zero (and the shared `macaddr`/`vlid` slot must fit the 16-bit
format-1 window). -/
def sja1105_vl_lookup_entry_canonical (x : VlLookupEntry) : Prop :=
  (∀ f ∈ sja1105_vl_lookup_entry_fields x, wfField SIZE_VL_LOOKUP_ENTRY f) ∧
  x.format < 2 ∧
  (x.format ≠ 0 → x.macaddr < 2 ^ 16 ∧ x.vlanid = 0 ∧ x.vlanprior = 0)

instance (x : VlLookupEntry) : Decidable (sja1105_vl_lookup_entry_canonical x) := by
  unfold sja1105_vl_lookup_entry_canonical wfField
  infer_instance

/-- The VL Lookup codec round-trips every field except `format`, which
comes back as 0. -/
theorem sja1105_vl_lookup_entry_roundtrip (x : VlLookupEntry)
    (hc : sja1105_vl_lookup_entry_canonical x) :
    sja1105_vl_lookup_entry_unpack
        (sja1105_vl_lookup_entry_pack x (List.replicate SIZE_VL_LOOKUP_ENTRY 0)) =
      ⟨0, x.port, x.destports, x.iscritical, x.macaddr, x.vlanid, x.vlanprior⟩ := by
  obtain ⟨hfit, hf2, hdead⟩ := hc
  have hv : ∀ f ∈ sja1105_vl_lookup_entry_fields x, f.2.2 < 2 ^ (f.1 - f.2.1 + 1) :=
    fun f hf => (hfit f hf).2.2.2
  unfold sja1105_vl_lookup_entry_unpack sja1105_vl_lookup_entry_pack
  by_cases h0 : x.format = 0
  · rw [show sja1105_vl_lookup_entry_fields x =
        [(95, 91, x.destports), (90, 90, x.iscritical), (89, 42, x.macaddr),
         (41, 30, x.vlanid), (29, 27, x.port), (26, 24, x.vlanprior)] from by
      unfold sja1105_vl_lookup_entry_fields at *
      rw [if_pos h0]] at hv ⊢
    rw [packFieldsV_unpack_field _ _ [(95, 91), (90, 90), (89, 42), (41, 30), (29, 27), (26, 24)] _
        (by decide) (by simp) (by rfl) (by decide) (by decide) hv (29, 27, x.port) (by simp),
      packFieldsV_unpack_field _ _ [(95, 91), (90, 90), (89, 42), (41, 30), (29, 27), (26, 24)] _
        (by decide) (by simp) (by rfl) (by decide) (by decide) hv (95, 91, x.destports) (by simp),
      packFieldsV_unpack_field _ _ [(95, 91), (90, 90), (89, 42), (41, 30), (29, 27), (26, 24)] _
        (by decide) (by simp) (by rfl) (by decide) (by decide) hv (90, 90, x.iscritical) (by simp),
      packFieldsV_unpack_field _ _ [(95, 91), (90, 90), (89, 42), (41, 30), (29, 27), (26, 24)] _
        (by decide) (by simp) (by rfl) (by decide) (by decide) hv (89, 42, x.macaddr) (by simp),
      packFieldsV_unpack_field _ _ [(95, 91), (90, 90), (89, 42), (41, 30), (29, 27), (26, 24)] _
        (by decide) (by simp) (by rfl) (by decide) (by decide) hv (41, 30, x.vlanid) (by simp),
      packFieldsV_unpack_field _ _ [(95, 91), (90, 90), (89, 42), (41, 30), (29, 27), (26, 24)] _
        (by decide) (by simp) (by rfl) (by decide) (by decide) hv (26, 24, x.vlanprior) (by simp)]
  · obtain ⟨hmac, hvid, hvp⟩ := hdead h0
    rw [show sja1105_vl_lookup_entry_fields x =
        [(95, 91, x.egrmirr), (90, 90, x.ingrmirr), (57, 42, x.vlid), (29, 27, x.port)] from by
      unfold sja1105_vl_lookup_entry_fields at *
      rw [if_neg h0]] at hv ⊢
    rw [packFieldsV_unpack_field _ _ [(95, 91), (90, 90), (57, 42), (29, 27)] _
        (by decide) (by simp) (by rfl) (by decide) (by decide) hv (29, 27, x.port) (by simp),
      packFieldsV_unpack_field _ _ [(95, 91), (90, 90), (57, 42), (29, 27)] _
        (by decide) (by simp) (by rfl) (by decide) (by decide) hv (95, 91, x.egrmirr) (by simp),
      packFieldsV_unpack_field _ _ [(95, 91), (90, 90), (57, 42), (29, 27)] _
        (by decide) (by simp) (by rfl) (by decide) (by decide) hv (90, 90, x.ingrmirr) (by simp),
      packFieldsV_unpack_ext _ _ [(95, 91), (90, 90), (57, 42), (29, 27)]
        (by decide) (by rfl) (by decide) (by decide) hv (57, 42, x.vlid) (by simp) 89
        (by simp) (by decide) (by simp)
        (by intro w hw; fin_cases hw <;> simp),
      packFieldsV_unpack_none _ _ [(95, 91), (90, 90), (57, 42), (29, 27)]
        (by decide) (by rfl) (by decide) hv 41 30 (by decide) (by decide) (by decide)
        (by decide),
      packFieldsV_unpack_none _ _ [(95, 91), (90, 90), (57, 42), (29, 27)]
        (by decide) (by rfl) (by decide) hv 26 24 (by decide) (by decide) (by decide)
        (by decide)]
    show (⟨0, x.port, x.egrmirr, x.ingrmirr, x.vlid, 0, 0⟩ : VlLookupEntry) =
      ⟨0, x.port, x.destports, x.iscritical, x.macaddr, x.vlanid, x.vlanprior⟩
    simp only [VlLookupEntry.mk.injEq, and_true, true_and]
    exact ⟨rfl, rfl, rfl, hvid.symm, hvp.symm⟩

/-- Field list of `sja1105_vl_policing_entry_packing`: `bag` and `jitter`
are packed only for rate-constrained (`type = 0`) entries. -/
def sja1105_vl_policing_entry_fields (x : VlPolicingEntry) : List (Nat × Nat × Nat) :=
  if x.type = 0 then
    [(63, 63, x.type), (62, 52, x.maxlen), (51, 42, x.sharindx),
     (41, 28, x.bag), (27, 18, x.jitter)]
  else
    [(63, 63, x.type), (62, 52, x.maxlen), (51, 42, x.sharindx)]

def sja1105_vl_policing_entry_pack (x : VlPolicingEntry) (buf : List Nat) : List Nat :=
  packFieldsV SIZE_VL_POLICING_ENTRY (sja1105_vl_policing_entry_fields x) buf

/-- UNPACK direction: the C code unpacks `type` first and then tests the
just-unpacked `entry->type`; the entry was zeroed, so `bag` and `jitter`
stay 0 for `type = 1`. -/
def sja1105_vl_policing_entry_unpack (buf : List Nat) : VlPolicingEntry :=
  ⟨sja1105_unpack buf 63 63 SIZE_VL_POLICING_ENTRY,
   sja1105_unpack buf 62 52 SIZE_VL_POLICING_ENTRY,
   sja1105_unpack buf 51 42 SIZE_VL_POLICING_ENTRY,
   if sja1105_unpack buf 63 63 SIZE_VL_POLICING_ENTRY = 0 then
     sja1105_unpack buf 41 28 SIZE_VL_POLICING_ENTRY else 0,
   if sja1105_unpack buf 63 63 SIZE_VL_POLICING_ENTRY = 0 then
     sja1105_unpack buf 27 18 SIZE_VL_POLICING_ENTRY else 0⟩

def sja1105_vl_policing_entry_canonical (x : VlPolicingEntry) : Prop :=
  (∀ f ∈ sja1105_vl_policing_entry_fields x, wfField SIZE_VL_POLICING_ENTRY f) ∧
  (x.type ≠ 0 → x.bag = 0 ∧ x.jitter = 0)

instance (x : VlPolicingEntry) : Decidable (sja1105_vl_policing_entry_canonical x) := by
  unfold sja1105_vl_policing_entry_canonical wfField
  infer_instance

theorem sja1105_vl_policing_entry_roundtrip (x : VlPolicingEntry)
    (hc : sja1105_vl_policing_entry_canonical x) :
    sja1105_vl_policing_entry_unpack
        (sja1105_vl_policing_entry_pack x (List.replicate SIZE_VL_POLICING_ENTRY 0)) = x := by
  obtain ⟨hfit, hdead⟩ := hc
  have hv : ∀ f ∈ sja1105_vl_policing_entry_fields x, f.2.2 < 2 ^ (f.1 - f.2.1 + 1) :=
    fun f hf => (hfit f hf).2.2.2
  unfold sja1105_vl_policing_entry_unpack sja1105_vl_policing_entry_pack
  by_cases h0 : x.type = 0
  · rw [show sja1105_vl_policing_entry_fields x =
        [(63, 63, x.type), (62, 52, x.maxlen), (51, 42, x.sharindx),
         (41, 28, x.bag), (27, 18, x.jitter)] from by
      unfold sja1105_vl_policing_entry_fields at *
      rw [if_pos h0]] at hv ⊢
    rw [packFieldsV_unpack_field _ _ [(63, 63), (62, 52), (51, 42), (41, 28), (27, 18)] _
        (by decide) (by simp) (by rfl) (by decide) (by decide) hv (63, 63, x.type) (by simp),
      packFieldsV_unpack_field _ _ [(63, 63), (62, 52), (51, 42), (41, 28), (27, 18)] _
        (by decide) (by simp) (by rfl) (by decide) (by decide) hv (62, 52, x.maxlen) (by simp),
      packFieldsV_unpack_field _ _ [(63, 63), (62, 52), (51, 42), (41, 28), (27, 18)] _
        (by decide) (by simp) (by rfl) (by decide) (by decide) hv (51, 42, x.sharindx) (by simp),
      packFieldsV_unpack_field _ _ [(63, 63), (62, 52), (51, 42), (41, 28), (27, 18)] _
        (by decide) (by simp) (by rfl) (by decide) (by decide) hv (41, 28, x.bag) (by simp),
      packFieldsV_unpack_field _ _ [(63, 63), (62, 52), (51, 42), (41, 28), (27, 18)] _
        (by decide) (by simp) (by rfl) (by decide) (by decide) hv (27, 18, x.jitter) (by simp),
      if_pos h0, if_pos h0]
  · obtain ⟨hbag, hjit⟩ := hdead h0
    rw [show sja1105_vl_policing_entry_fields x =
        [(63, 63, x.type), (62, 52, x.maxlen), (51, 42, x.sharindx)] from by
      unfold sja1105_vl_policing_entry_fields at *
      rw [if_neg h0]] at hv ⊢
    rw [packFieldsV_unpack_field _ _ [(63, 63), (62, 52), (51, 42)] _
        (by decide) (by simp) (by rfl) (by decide) (by decide) hv (63, 63, x.type) (by simp),
      packFieldsV_unpack_field _ _ [(63, 63), (62, 52), (51, 42)] _
        (by decide) (by simp) (by rfl) (by decide) (by decide) hv (62, 52, x.maxlen) (by simp),
      packFieldsV_unpack_field _ _ [(63, 63), (62, 52), (51, 42)] _
        (by decide) (by simp) (by rfl) (by decide) (by decide) hv (51, 42, x.sharindx) (by simp),
      if_neg h0, if_neg h0]
    show (⟨x.type, x.maxlen, x.sharindx, 0, 0⟩ : VlPolicingEntry) =
      ⟨x.type, x.maxlen, x.sharindx, x.bag, x.jitter⟩
    simp only [VlPolicingEntry.mk.injEq, and_true, true_and]
    exact ⟨hbag.symm, hjit.symm⟩

/-- The clock-sync-parameters codec is `TODO not implemented` in the C
code: it packs and unpacks nothing and just reports its size. -/
def sja1105_clk_sync_params_entry_pack (_ : ClkSyncParamsEntry) (buf : List Nat) :
    List Nat := buf

def sja1105_clk_sync_params_entry_unpack (_ : List Nat) : ClkSyncParamsEntry :=
  ⟨List.replicate 50 0⟩

def sja1105_clk_sync_params_entry_canonical (x : ClkSyncParamsEntry) : Prop :=
  x.fields = List.replicate 50 0

instance (x : ClkSyncParamsEntry) : Decidable (sja1105_clk_sync_params_entry_canonical x) := by
  unfold sja1105_clk_sync_params_entry_canonical
  infer_instance

theorem sja1105_clk_sync_params_entry_roundtrip (x : ClkSyncParamsEntry)
    (hc : sja1105_clk_sync_params_entry_canonical x) :
    sja1105_clk_sync_params_entry_unpack
        (sja1105_clk_sync_params_entry_pack x (List.replicate SIZE_CLK_SYNC_PARAMS_ENTRY 0)) =
      x := by
  unfold sja1105_clk_sync_params_entry_canonical at hc
  unfold sja1105_clk_sync_params_entry_unpack
  exact congrArg ClkSyncParamsEntry.mk hc.symm

/-! ### The table header codec and the CRC, `sja1105_static_config.c` -/

def sja1105_table_header_fields (h : TableHeader) : List (Nat × Nat × Nat) :=
  [(31, 24, h.block_id), (55, 32, h.len), (95, 64, h.crc)]

def sja1105_table_header_pack (h : TableHeader) (buf : List Nat) : List Nat :=
  packFieldsV SIZE_TABLE_HEADER (sja1105_table_header_fields h) buf

def sja1105_table_header_unpack (buf : List Nat) : TableHeader :=
  ⟨sja1105_unpack buf 31 24 SIZE_TABLE_HEADER,
   sja1105_unpack buf 55 32 SIZE_TABLE_HEADER,
   sja1105_unpack buf 95 64 SIZE_TABLE_HEADER⟩

def sja1105_table_header_canonical (h : TableHeader) : Prop :=
  ∀ f ∈ sja1105_table_header_fields h, wfField SIZE_TABLE_HEADER f

instance (h : TableHeader) : Decidable (sja1105_table_header_canonical h) := by
  unfold sja1105_table_header_canonical wfField
  infer_instance

theorem sja1105_table_header_roundtrip (h : TableHeader)
    (hc : sja1105_table_header_canonical h) :
    sja1105_table_header_unpack
        (sja1105_table_header_pack h (List.replicate SIZE_TABLE_HEADER 0)) = h := by
  have hv : ∀ f ∈ sja1105_table_header_fields h, f.2.2 < 2 ^ (f.1 - f.2.1 + 1) :=
    fun f hf => (hc f hf).2.2.2
  unfold sja1105_table_header_unpack sja1105_table_header_pack
  rw [packFieldsV_unpack_field _ _ [(31, 24), (55, 32), (95, 64)] _
      (by decide) (by simp) (by rfl) (by decide) (by decide) hv (31, 24, h.block_id)
      (by simp [sja1105_table_header_fields]),
    packFieldsV_unpack_field _ _ [(31, 24), (55, 32), (95, 64)] _
      (by decide) (by simp) (by rfl) (by decide) (by decide) hv (55, 32, h.len)
      (by simp [sja1105_table_header_fields]),
    packFieldsV_unpack_field _ _ [(31, 24), (55, 32), (95, 64)] _
      (by decide) (by simp) (by rfl) (by decide) (by decide) hv (95, 64, h.crc)
      (by simp [sja1105_table_header_fields])]

/-- CRC-32 polynomial (reflected), `0xEDB88320`.  The kernel library
`crc32_le` this driver links against is not part of this repository;
`crc32_le_rounds`/`crc32_le` below are spec-modelled: the standard
bit-serial little-endian CRC-32 (seeded and finalised by the caller). -/
def CRC32_POLY : Nat := 0xEDB88320

def crc32_le_rounds : Nat → Nat → Nat
  | 0, crc => crc
  | n + 1, crc =>
    crc32_le_rounds n (if crc % 2 = 1 then (crc / 2) ^^^ CRC32_POLY else crc / 2)

def crc32_le_byte (crc byte : Nat) : Nat := crc32_le_rounds 8 (crc ^^^ (byte % 2 ^ 8))

def crc32_le (crc : Nat) (bytes : List Nat) : Nat := bytes.foldl crc32_le_byte crc

/-- Model of `sja1105_crc32`: seed `~0`, then for each 4-byte group unpack
it as a big-endian u32 and feed its little-endian byte order to
`crc32_le`, and finalise with `~`. -/
def sja1105_crc32 (buf : List Nat) (len : Nat) : Nat :=
  (2 ^ 32 - 1) ^^^
    ((List.range ((len + 3) / 4)).foldl
      (fun crc i =>
        crc32_le crc
          [sja1105_unpack ((buf.drop (4 * i)).take 4) 31 0 4 % 2 ^ 8,
           sja1105_unpack ((buf.drop (4 * i)).take 4) 31 0 4 / 2 ^ 8 % 2 ^ 8,
           sja1105_unpack ((buf.drop (4 * i)).take 4) 31 0 4 / 2 ^ 16 % 2 ^ 8,
           sja1105_unpack ((buf.drop (4 * i)).take 4) 31 0 4 / 2 ^ 24 % 2 ^ 8])
      (2 ^ 32 - 1))

theorem crc32_le_rounds_lt (n crc : Nat) (h : crc < 2 ^ 32) :
    crc32_le_rounds n crc < 2 ^ 32 := by
  induction n generalizing crc with
  | zero => exact h
  | succ n ih =>
    rw [crc32_le_rounds]
    apply ih
    split_ifs
    · exact Nat.xor_lt_two_pow (by omega) (by decide)
    · omega

theorem crc32_le_lt (crc : Nat) (bytes : List Nat) (h : crc < 2 ^ 32) :
    crc32_le crc bytes < 2 ^ 32 := by
  induction bytes generalizing crc with
  | nil => exact h
  | cons b rest ih =>
    rw [crc32_le, List.foldl_cons]
    exact ih _ (crc32_le_rounds_lt 8 _ (Nat.xor_lt_two_pow h
      (lt_of_lt_of_le (Nat.mod_lt _ (by omega)) (by decide))))

theorem sja1105_crc32_lt (buf : List Nat) (len : Nat) :
    sja1105_crc32 buf len < 2 ^ 32 := by
  unfold sja1105_crc32
  apply Nat.xor_lt_two_pow (by decide)
  have : ∀ (l : List Nat) (crc : Nat), crc < 2 ^ 32 →
      l.foldl (fun crc i =>
        crc32_le crc
          [sja1105_unpack ((buf.drop (4 * i)).take 4) 31 0 4 % 2 ^ 8,
           sja1105_unpack ((buf.drop (4 * i)).take 4) 31 0 4 / 2 ^ 8 % 2 ^ 8,
           sja1105_unpack ((buf.drop (4 * i)).take 4) 31 0 4 / 2 ^ 16 % 2 ^ 8,
           sja1105_unpack ((buf.drop (4 * i)).take 4) 31 0 4 / 2 ^ 24 % 2 ^ 8]) crc <
        2 ^ 32 := by
    intro l
    induction l with
    | nil => intro crc h; exact h
    | cons a rest ih =>
      intro crc h
      rw [List.foldl_cons]
      exact ih _ (crc32_le_lt _ _ h)
  exact this _ _ (by decide)

/-- Model of `sja1105_table_header_pack_with_crc`: zero the 12 header
bytes, pack the three header fields, then overwrite the last 4 bytes
with the CRC of the first 8. -/
def sja1105_table_header_pack_with_crc (h : TableHeader) : List Nat :=
  let b := sja1105_table_header_pack h (List.replicate SIZE_TABLE_HEADER 0)
  b.take 8 ++
    sja1105_pack (b.drop 8) (sja1105_crc32 (b.take 8) 8) 31 0 4
/-! ## Bridging lemmas for the static-config container codec -/

theorem lswAddr_invol (b : Nat) : lswAddr (lswAddr b) = b := by
  unfold lswAddr
  omega

/-- One box step never changes the buffer length (UNPACK keeps the buffer,
PACK replaces one byte with `List.set`). -/
theorem packing_box_step_length (op : PackOp) (q : Quirks) (ps pe pl : Nat)
    (st : List Nat × Nat) (b : Nat) (buf : List Nat) (v : Nat)
    (h : packing_box_step op q ps pe pl st b = .ok buf v) :
    buf.length = st.1.length := by
  unfold packing_box_step at h
  dsimp only at h
  repeat' split at h
  all_goals
    first
    | exact PackResult.noConfusion h
    | (injection h with h1 h2; subst h1; simp)

theorem packing_loop_length (bs : List Nat) : ∀ (op : PackOp) (q : Quirks)
    (ps pe pl : Nat) (st : List Nat × Nat) (buf : List Nat) (v : Nat),
    packing_loop op q ps pe pl bs st = .ok buf v → buf.length = st.1.length := by
  induction bs with
  | nil =>
    intro op q ps pe pl st buf v h
    unfold packing_loop at h
    injection h with h1 h2
    rw [← h1]
  | cons b rest ih =>
    intro op q ps pe pl st buf v h
    unfold packing_loop at h
    cases hstep : packing_box_step op q ps pe pl st b with
    | ok b2 v2 =>
      rw [hstep] at h
      exact (ih op q ps pe pl (b2, v2) buf v h).trans
        (packing_box_step_length op q ps pe pl st b b2 v2 hstep)
    | err c =>
      rw [hstep] at h
      exact PackResult.noConfusion h
    | ub =>
      rw [hstep] at h
      exact PackResult.noConfusion h

theorem packing_length (buf : List Nat) (uval ps pe pl : Nat) (op : PackOp)
    (q : Quirks) (b2 : List Nat) (v : Nat)
    (h : packing buf uval ps pe pl op q = .ok b2 v) : b2.length = buf.length := by
  unfold packing at h
  dsimp only at h
  repeat' split at h
  all_goals
    first
    | exact PackResult.noConfusion h
    | exact packing_loop_length _ _ _ _ _ _ _ _ _ h

/-- `sja1105_pack` always preserves the buffer length: error paths return
the buffer untouched, the success path only performs byte stores. -/
theorem sja1105_pack_length (buf : List Nat) (v s e len : Nat) :
    (sja1105_pack buf v s e len).length = buf.length := by
  unfold sja1105_pack
  split
  next b2 v2 h => exact packing_length buf v s e len .PACK quirksLsw32 b2 v2 h
  next => rfl

theorem packFieldsV_length_any (size : Nat) (fs : List (Nat × Nat × Nat)) :
    ∀ (buf : List Nat), (packFieldsV size fs buf).length = buf.length := by
  induction fs with
  | nil => intro buf; rfl
  | cons f rest ih =>
    intro buf
    rw [packFieldsV, List.foldl_cons]
    exact (ih _).trans (sja1105_pack_length _ _ _ _ _)

/-- LSW32 byte addressing splits along a 4-byte-aligned append boundary. -/
theorem getD_append_lsw (a b : List Nat) (h4 : a.length % 4 = 0) (n : Nat) :
    (a ++ b).getD (lswAddr n) 0 =
      if n < a.length then a.getD (lswAddr n) 0
      else b.getD (lswAddr (n - a.length)) 0 := by
  by_cases h : n < a.length
  · rw [if_pos h]
    have hlt : lswAddr n < a.length := by unfold lswAddr; omega
    rw [List.getD_eq_getElem?_getD, List.getD_eq_getElem?_getD,
      List.getElem?_append_left hlt]
  · rw [if_neg h]
    have hge : a.length ≤ lswAddr n := by unfold lswAddr; omega
    have heq : lswAddr n - a.length = lswAddr (n - a.length) := by unfold lswAddr; omega
    rw [List.getD_eq_getElem?_getD, List.getD_eq_getElem?_getD,
      List.getElem?_append_right hge, heq]

/-- The logical value of an appended buffer splits at the byte boundary. -/
theorem logVal_append_testBit (a b : List Nat) (lb k : Nat)
    (h4 : a.length % 4 = 0) :
    (logVal (a.length + lb) (a ++ b)).testBit k =
      if k < 8 * a.length then (logVal a.length a).testBit k
      else (logVal lb b).testBit (k - 8 * a.length) := by
  rw [logVal_testBit, getD_append_lsw a b h4]
  by_cases hk : k < 8 * a.length
  · rw [if_pos hk, if_pos (show k / 8 < a.length by omega), logVal_testBit,
      decide_eq_true (show k / 8 < a.length + lb by omega),
      decide_eq_true (show k / 8 < a.length by omega)]
  · rw [if_neg hk, if_neg (show ¬ (k / 8 < a.length) by omega), logVal_testBit]
    have h1 : (k - 8 * a.length) / 8 = k / 8 - a.length := by omega
    have h2 : (k - 8 * a.length) % 8 = k % 8 := by omega
    rw [h1, h2]
    by_cases h : k / 8 < a.length + lb
    · rw [decide_eq_true h, decide_eq_true (show k / 8 - a.length < lb by omega)]
    · rw [decide_eq_false h, decide_eq_false (show ¬ (k / 8 - a.length < lb) by omega)]

/-- Unpacking a window that lies entirely within the first part of an
appended buffer ignores the appended tail. -/
theorem sja1105_unpack_append_low (a b : List Nat) (len la lb s e : Nat)
    (hla : a.length = la) (hlen : len = la + lb)
    (h4a : a.length % 4 = 0) (h4 : (a.length + lb) % 4 = 0)
    (hse : e ≤ s) (hs : s < 8 * a.length) (hw : s - e + 1 ≤ 64) :
    sja1105_unpack (a ++ b) s e len = sja1105_unpack a s e la := by
  subst hla
  subst hlen
  rw [sja1105_unpack_eq _ s e _ h4 hse (by omega) hw,
    sja1105_unpack_eq _ s e _ h4a hse hs hw]
  apply Nat.eq_of_testBit_eq
  intro k
  rw [Nat.testBit_mod_two_pow, Nat.testBit_mod_two_pow, Nat.testBit_shiftRight,
    Nat.testBit_shiftRight]
  by_cases hk : k < s - e + 1
  · rw [logVal_append_testBit a b lb (e + k) h4a, if_pos (by omega)]
  · rw [decide_eq_false hk, Bool.false_and, Bool.false_and]

/-- Unpacking a window that lies entirely within the appended tail of a
4-byte-aligned buffer reads it as if the tail were the whole buffer. -/
theorem sja1105_unpack_append_high (a b : List Nat) (len la lb s e sb eb : Nat)
    (hla : a.length = la) (hlen : len = la + lb)
    (hsb : sb = s - 8 * la) (heb : eb = e - 8 * la)
    (h4a : a.length % 4 = 0) (h4 : (a.length + lb) % 4 = 0)
    (hse : e ≤ s) (he : 8 * a.length ≤ e) (hs : s < 8 * (a.length + lb))
    (hw : s - e + 1 ≤ 64) :
    sja1105_unpack (a ++ b) s e len = sja1105_unpack b sb eb lb := by
  subst hla
  subst hlen
  subst hsb
  subst heb
  rw [sja1105_unpack_eq _ s e _ h4 hse (by omega) hw,
    sja1105_unpack_eq lb _ _ _ (by omega) (by omega) (by omega) (by omega)]
  have hww : s - 8 * a.length - (e - 8 * a.length) = s - e := by omega
  rw [hww]
  apply Nat.eq_of_testBit_eq
  intro k
  rw [Nat.testBit_mod_two_pow, Nat.testBit_mod_two_pow, Nat.testBit_shiftRight,
    Nat.testBit_shiftRight]
  by_cases hk : k < s - e + 1
  · rw [logVal_append_testBit a b lb (e + k) h4a, if_neg (by omega)]
    have : e + k - 8 * a.length = e - 8 * a.length + k := by omega
    rw [this]
  · rw [decide_eq_false hk, Bool.false_and, Bool.false_and]

/-- Round trip of one 32-bit word through the 4-byte CRC slots. -/
theorem sja1105_unpack_word (v : Nat) (hv : v < 2 ^ 32) :
    sja1105_unpack (sja1105_pack (List.replicate 4 0) v 31 0 4) 31 0 4 = v := by
  have h := packFieldsV_unpack_field 4 [(31, 0, v)] [(31, 0)] (List.replicate 4 0)
    (by decide) (by simp) (by rfl) (by decide) (by decide)
    (by intro f hf; simp at hf; subst hf; simpa using hv) (31, 0, v) (by simp)
  simpa [packFieldsV] using h

theorem sja1105_pack_word_length (v : Nat) :
    (sja1105_pack (List.replicate 4 0) v 31 0 4).length = 4 := by
  rw [sja1105_pack_length]
  simp

/-- A generic fold congruence used for the CRC loop. -/
theorem foldl_congr_mem {α β : Type} (l : List β) (f g : α → β → α) (a : α)
    (h : ∀ x ∈ l, ∀ acc, f acc x = g acc x) : l.foldl f a = l.foldl g a := by
  induction l generalizing a with
  | nil => rfl
  | cons x rest ih =>
    rw [List.foldl_cons, List.foldl_cons, h x (by simp)]
    exact ih _ (fun y hy acc => h y (by simp [hy]) acc)

theorem drop_take_append (a b : List Nat) (i n : Nat) (h : i + n ≤ a.length) :
    ((a ++ b).drop i).take n = (a.drop i).take n := by
  have h1 : (a ++ b).drop i = a.drop i ++ b :=
    List.drop_append_of_le_length (by omega)
  have h2 : n ≤ (a.drop i).length := by
    rw [List.length_drop]
    omega
  rw [h1, List.take_append_of_le_length h2]

/-- `sja1105_crc32` only reads the first `4 * ceil(len / 4)` bytes. -/
theorem sja1105_crc32_agree (a b : List Nat) (len : Nat)
    (h : 4 * ((len + 3) / 4) ≤ a.length) :
    sja1105_crc32 (a ++ b) len = sja1105_crc32 a len := by
  unfold sja1105_crc32
  apply congrArg (fun t => (2 ^ 32 - 1) ^^^ t)
  apply foldl_congr_mem
  intro i hi acc
  have hi4 : 4 * i + 4 ≤ a.length := by
    have := List.mem_range.mp hi
    omega
  rw [drop_take_append a b (4 * i) 4 hi4]

/-- Slicing a concatenation of equally-sized packed entries recovers each
entry. -/
theorem flatMap_slices {α : Type} (pk : α → List Nat) (size : Nat) (xs : List α)
    (hpk : ∀ x ∈ xs, (pk x).length = size) (tail : List Nat) (j : Nat)
    (hj : j < xs.length) :
    ((xs.flatMap pk ++ tail).drop (j * size)).take size = pk (xs.get ⟨j, hj⟩) := by
  induction xs generalizing j tail with
  | nil => exact absurd hj (by simp)
  | cons x rest ih =>
    have hx : (pk x).length = size := hpk x (by simp)
    rw [List.flatMap_cons, List.append_assoc]
    cases j with
    | zero =>
      rw [Nat.zero_mul, List.drop_zero, ← hx, List.take_left]
      rfl
    | succ j =>
      have hdrop : ((pk x ++ (rest.flatMap pk ++ tail)).drop ((j + 1) * size)) =
          ((rest.flatMap pk ++ tail).drop (j * size)) := by
        have h1 : (j + 1) * size = (pk x).length + j * size := by rw [hx]; ring
        rw [h1, List.drop_append]
      rw [hdrop]
      exact ih (fun y hy => hpk y (by simp [hy])) tail j (by simpa using hj)

/-- Reading back all entries of one packed table by index. -/
theorem parse_slices {α β : Type} (pk : α → List Nat) (upk : List Nat → β)
    (size : Nat) (xs : List α) (hpk : ∀ x ∈ xs, (pk x).length = size)
    (tail : List Nat) :
    (List.range xs.length).map
        (fun j => upk (((xs.flatMap pk ++ tail).drop (j * size)).take size)) =
      xs.map (fun x => upk (pk x)) := by
  apply List.ext_getElem (by simp)
  intro j h1 h2
  simp only [List.getElem_map, List.getElem_range]
  congr 1
  exact flatMap_slices pk size xs hpk tail j (by simpa using h1)
/-! ## The static configuration container: devices, block ids, tables -/

/-- Whether a device uses the first-generation (E/T) entry codecs. -/
def Device.isET : Device → Bool
  | .E => true
  | .T => true
  | _ => false

/-- The `packed_entry_size` column of the per-device table-ops arrays, in
`BLK_IDX` order (a `{ 0 }` row has `packed_entry_size = 0`). -/
def Device.packedSizes : Device → List Nat
  | .E => [0, 0, 0, 0, 0, 12, 8, 8, 8, 28, 0, 0, 0, 4, 12, 0, 12, 40, 8, 4, 0]
  | .T => [8, 4, 12, 8, 4, 12, 8, 8, 8, 28, 12, 4, 12, 4, 12, 52, 12, 40, 8, 4, 0]
  | .P => [0, 0, 0, 0, 0, 20, 8, 8, 8, 32, 0, 0, 0, 16, 12, 0, 16, 44, 8, 4, 0]
  | .Q => [8, 4, 12, 8, 4, 20, 8, 8, 8, 32, 12, 4, 12, 16, 12, 52, 16, 44, 8, 4, 0]
  | .R => [0, 0, 0, 0, 0, 20, 8, 8, 8, 32, 0, 0, 0, 16, 12, 0, 16, 44, 8, 4, 144]
  | .S => [8, 4, 12, 8, 4, 20, 8, 8, 8, 32, 12, 4, 12, 16, 12, 52, 16, 44, 8, 4, 144]

/-- Model of `tables[i].ops->packed_entry_size` under device `d`. -/
def tablePackedSize (d : Device) (i : Nat) : Nat := d.packedSizes.getD i 0

/-- `blk_id_map`, in `BLK_IDX` order. -/
def blkIdMap : List Nat :=
  [0x00, 0x01, 0x02, 0x03, 0x04, 0x05, 0x06, 0x07, 0x08, 0x09, 0x0A, 0x0B,
   0x0C, 0x0D, 0x0E, 0x0F, 0x10, 0x11, 0x12, 0x4E, 0xC8]

/-- Model of `blk_idx_from_blk_id`: range-check against `BLKID_MAX = 0xC8`,
then a linear scan of `blk_id_map`; `none` is `BLK_IDX_INVAL`. -/
def blk_idx_from_blk_id (block_id : Nat) : Option Nat :=
  if 0xC8 < block_id then none
  else (List.range BLK_IDX_MAX).find? (fun i => blkIdMap.getD i 0 == block_id)

/-- Model of `config->tables[i].entry_count`. -/
def tableCount (c : StaticConfig) (i : Nat) : Nat :=
  if i = 0 then c.schedule.length
  else if i = 1 then c.schedule_entry_points.length
  else if i = 2 then c.vl_lookup.length
  else if i = 3 then c.vl_policing.length
  else if i = 4 then c.vl_forwarding.length
  else if i = 5 then c.l2_lookup.length
  else if i = 6 then c.l2_policing.length
  else if i = 7 then c.vlan_lookup.length
  else if i = 8 then c.l2_forwarding.length
  else if i = 9 then c.mac_config.length
  else if i = 10 then c.schedule_params.length
  else if i = 11 then c.schedule_entry_points_params.length
  else if i = 12 then c.vl_forwarding_params.length
  else if i = 13 then c.l2_lookup_params.length
  else if i = 14 then c.l2_forwarding_params.length
  else if i = 15 then c.clk_sync_params.length
  else if i = 16 then c.avb_params.length
  else if i = 17 then c.general_params.length
  else if i = 18 then c.retagging.length
  else if i = 19 then c.xmii_params.length
  else if i = 20 then c.sgmii.length
  else 0

def imageSchedule (c : StaticConfig) : List ScheduleEntry :=
  c.schedule.map (fun x => sja1105_schedule_entry_unpack (sja1105_schedule_entry_pack x (List.replicate SIZE_SCHEDULE_ENTRY 0)))

def imageScheduleEntryPoints (c : StaticConfig) : List ScheduleEntryPointsEntry :=
  c.schedule_entry_points.map (fun x => sja1105_schedule_entry_points_entry_unpack (sja1105_schedule_entry_points_entry_pack x (List.replicate SIZE_SCHEDULE_ENTRY_POINTS_ENTRY 0)))

def imageVlLookup (c : StaticConfig) : List VlLookupEntry :=
  c.vl_lookup.map (fun x => sja1105_vl_lookup_entry_unpack (sja1105_vl_lookup_entry_pack x (List.replicate SIZE_VL_LOOKUP_ENTRY 0)))

def imageVlPolicing (c : StaticConfig) : List VlPolicingEntry :=
  c.vl_policing.map (fun x => sja1105_vl_policing_entry_unpack (sja1105_vl_policing_entry_pack x (List.replicate SIZE_VL_POLICING_ENTRY 0)))

def imageVlForwarding (c : StaticConfig) : List VlForwardingEntry :=
  c.vl_forwarding.map (fun x => sja1105_vl_forwarding_entry_unpack (sja1105_vl_forwarding_entry_pack x (List.replicate SIZE_VL_FORWARDING_ENTRY 0)))

def imageL2Lookup (c : StaticConfig) : List L2LookupEntry :=
  if c.dev.isET then
    c.l2_lookup.map (fun x => sja1105et_l2_lookup_entry_unpack (sja1105et_l2_lookup_entry_pack x (List.replicate SIZE_L2_LOOKUP_ENTRY_ET 0)))
  else
    c.l2_lookup.map (fun x => sja1105pqrs_l2_lookup_entry_unpack (sja1105pqrs_l2_lookup_entry_pack x (List.replicate SIZE_L2_LOOKUP_ENTRY_PQRS 0)))

def imageL2Policing (c : StaticConfig) : List L2PolicingEntry :=
  c.l2_policing.map (fun x => sja1105_l2_policing_entry_unpack (sja1105_l2_policing_entry_pack x (List.replicate SIZE_L2_POLICING_ENTRY 0)))

def imageVlanLookup (c : StaticConfig) : List VlanLookupEntry :=
  c.vlan_lookup.map (fun x => sja1105_vlan_lookup_entry_unpack (sja1105_vlan_lookup_entry_pack x (List.replicate SIZE_VLAN_LOOKUP_ENTRY 0)))

def imageL2Forwarding (c : StaticConfig) : List L2ForwardingEntry :=
  c.l2_forwarding.map (fun x => sja1105_l2_forwarding_entry_unpack (sja1105_l2_forwarding_entry_pack x (List.replicate SIZE_L2_FORWARDING_ENTRY 0)))

def imageMacConfig (c : StaticConfig) : List MacConfigEntry :=
  if c.dev.isET then
    c.mac_config.map (fun x => sja1105et_mac_config_entry_unpack (sja1105et_mac_config_entry_pack x (List.replicate SIZE_MAC_CONFIG_ENTRY_ET 0)))
  else
    c.mac_config.map (fun x => sja1105pqrs_mac_config_entry_unpack (sja1105pqrs_mac_config_entry_pack x (List.replicate SIZE_MAC_CONFIG_ENTRY_PQRS 0)))

def imageScheduleParams (c : StaticConfig) : List ScheduleParamsEntry :=
  c.schedule_params.map (fun x => sja1105_schedule_params_entry_unpack (sja1105_schedule_params_entry_pack x (List.replicate SIZE_SCHEDULE_PARAMS_ENTRY 0)))

def imageScheduleEntryPointsParams (c : StaticConfig) : List ScheduleEntryPointsParamsEntry :=
  c.schedule_entry_points_params.map (fun x => sja1105_schedule_entry_points_params_entry_unpack (sja1105_schedule_entry_points_params_entry_pack x (List.replicate SIZE_SCHEDULE_ENTRY_POINTS_PARAMS_ENTRY 0)))

def imageVlForwardingParams (c : StaticConfig) : List VlForwardingParamsEntry :=
  c.vl_forwarding_params.map (fun x => sja1105_vl_forwarding_params_entry_unpack (sja1105_vl_forwarding_params_entry_pack x (List.replicate SIZE_VL_FORWARDING_PARAMS_ENTRY 0)))

def imageL2LookupParams (c : StaticConfig) : List L2LookupParamsEntry :=
  if c.dev.isET then
    c.l2_lookup_params.map (fun x => sja1105et_l2_lookup_params_entry_unpack (sja1105et_l2_lookup_params_entry_pack x (List.replicate SIZE_L2_LOOKUP_PARAMS_ENTRY_ET 0)))
  else
    c.l2_lookup_params.map (fun x => sja1105pqrs_l2_lookup_params_entry_unpack (sja1105pqrs_l2_lookup_params_entry_pack x (List.replicate SIZE_L2_LOOKUP_PARAMS_ENTRY_PQRS 0)))

def imageL2ForwardingParams (c : StaticConfig) : List L2ForwardingParamsEntry :=
  c.l2_forwarding_params.map (fun x => sja1105_l2_forwarding_params_entry_unpack (sja1105_l2_forwarding_params_entry_pack x (List.replicate SIZE_L2_FORWARDING_PARAMS_ENTRY 0)))

def imageClkSyncParams (c : StaticConfig) : List ClkSyncParamsEntry :=
  c.clk_sync_params.map (fun x => sja1105_clk_sync_params_entry_unpack (sja1105_clk_sync_params_entry_pack x (List.replicate SIZE_CLK_SYNC_PARAMS_ENTRY 0)))

def imageAvbParams (c : StaticConfig) : List AvbParamsEntry :=
  if c.dev.isET then
    c.avb_params.map (fun x => sja1105et_avb_params_entry_unpack (sja1105et_avb_params_entry_pack x (List.replicate SIZE_AVB_PARAMS_ENTRY_ET 0)))
  else
    c.avb_params.map (fun x => sja1105pqrs_avb_params_entry_unpack (sja1105pqrs_avb_params_entry_pack x (List.replicate SIZE_AVB_PARAMS_ENTRY_PQRS 0)))

def imageGeneralParams (c : StaticConfig) : List GeneralParamsEntry :=
  if c.dev.isET then
    c.general_params.map (fun x => sja1105et_general_params_entry_unpack (sja1105et_general_params_entry_pack x (List.replicate SIZE_GENERAL_PARAMS_ENTRY_ET 0)))
  else
    c.general_params.map (fun x => sja1105pqrs_general_params_entry_unpack (sja1105pqrs_general_params_entry_pack x (List.replicate SIZE_GENERAL_PARAMS_ENTRY_PQRS 0)))

def imageRetagging (c : StaticConfig) : List RetaggingEntry :=
  c.retagging.map (fun x => sja1105_retagging_entry_unpack (sja1105_retagging_entry_pack x (List.replicate SIZE_RETAGGING_ENTRY 0)))

def imageXmiiParams (c : StaticConfig) : List XmiiParamsEntry :=
  c.xmii_params.map (fun x => sja1105_xmii_params_entry_unpack (sja1105_xmii_params_entry_pack x (List.replicate SIZE_XMII_PARAMS_ENTRY 0)))

def imageSgmii (c : StaticConfig) : List SgmiiEntry :=
  c.sgmii.map (fun x => sja1105_sgmii_entry_unpack (sja1105_sgmii_entry_pack x (List.replicate SIZE_SGMII_ENTRY 0)))

/-- The packed bytes of table `i`: each entry packed into its own
zeroed `packed_entry_size` slice, concatenated. -/
def tableBlob (c : StaticConfig) (i : Nat) : List Nat :=
  if i = 0 then c.schedule.flatMap (fun x => sja1105_schedule_entry_pack x (List.replicate SIZE_SCHEDULE_ENTRY 0))
  else if i = 1 then c.schedule_entry_points.flatMap (fun x => sja1105_schedule_entry_points_entry_pack x (List.replicate SIZE_SCHEDULE_ENTRY_POINTS_ENTRY 0))
  else if i = 2 then c.vl_lookup.flatMap (fun x => sja1105_vl_lookup_entry_pack x (List.replicate SIZE_VL_LOOKUP_ENTRY 0))
  else if i = 3 then c.vl_policing.flatMap (fun x => sja1105_vl_policing_entry_pack x (List.replicate SIZE_VL_POLICING_ENTRY 0))
  else if i = 4 then c.vl_forwarding.flatMap (fun x => sja1105_vl_forwarding_entry_pack x (List.replicate SIZE_VL_FORWARDING_ENTRY 0))
  else if i = 5 then
    (if c.dev.isET then c.l2_lookup.flatMap (fun x => sja1105et_l2_lookup_entry_pack x (List.replicate SIZE_L2_LOOKUP_ENTRY_ET 0))
     else c.l2_lookup.flatMap (fun x => sja1105pqrs_l2_lookup_entry_pack x (List.replicate SIZE_L2_LOOKUP_ENTRY_PQRS 0)))
  else if i = 6 then c.l2_policing.flatMap (fun x => sja1105_l2_policing_entry_pack x (List.replicate SIZE_L2_POLICING_ENTRY 0))
  else if i = 7 then c.vlan_lookup.flatMap (fun x => sja1105_vlan_lookup_entry_pack x (List.replicate SIZE_VLAN_LOOKUP_ENTRY 0))
  else if i = 8 then c.l2_forwarding.flatMap (fun x => sja1105_l2_forwarding_entry_pack x (List.replicate SIZE_L2_FORWARDING_ENTRY 0))
  else if i = 9 then
    (if c.dev.isET then c.mac_config.flatMap (fun x => sja1105et_mac_config_entry_pack x (List.replicate SIZE_MAC_CONFIG_ENTRY_ET 0))
     else c.mac_config.flatMap (fun x => sja1105pqrs_mac_config_entry_pack x (List.replicate SIZE_MAC_CONFIG_ENTRY_PQRS 0)))
  else if i = 10 then c.schedule_params.flatMap (fun x => sja1105_schedule_params_entry_pack x (List.replicate SIZE_SCHEDULE_PARAMS_ENTRY 0))
  else if i = 11 then c.schedule_entry_points_params.flatMap (fun x => sja1105_schedule_entry_points_params_entry_pack x (List.replicate SIZE_SCHEDULE_ENTRY_POINTS_PARAMS_ENTRY 0))
  else if i = 12 then c.vl_forwarding_params.flatMap (fun x => sja1105_vl_forwarding_params_entry_pack x (List.replicate SIZE_VL_FORWARDING_PARAMS_ENTRY 0))
  else if i = 13 then
    (if c.dev.isET then c.l2_lookup_params.flatMap (fun x => sja1105et_l2_lookup_params_entry_pack x (List.replicate SIZE_L2_LOOKUP_PARAMS_ENTRY_ET 0))
     else c.l2_lookup_params.flatMap (fun x => sja1105pqrs_l2_lookup_params_entry_pack x (List.replicate SIZE_L2_LOOKUP_PARAMS_ENTRY_PQRS 0)))
  else if i = 14 then c.l2_forwarding_params.flatMap (fun x => sja1105_l2_forwarding_params_entry_pack x (List.replicate SIZE_L2_FORWARDING_PARAMS_ENTRY 0))
  else if i = 15 then c.clk_sync_params.flatMap (fun x => sja1105_clk_sync_params_entry_pack x (List.replicate SIZE_CLK_SYNC_PARAMS_ENTRY 0))
  else if i = 16 then
    (if c.dev.isET then c.avb_params.flatMap (fun x => sja1105et_avb_params_entry_pack x (List.replicate SIZE_AVB_PARAMS_ENTRY_ET 0))
     else c.avb_params.flatMap (fun x => sja1105pqrs_avb_params_entry_pack x (List.replicate SIZE_AVB_PARAMS_ENTRY_PQRS 0)))
  else if i = 17 then
    (if c.dev.isET then c.general_params.flatMap (fun x => sja1105et_general_params_entry_pack x (List.replicate SIZE_GENERAL_PARAMS_ENTRY_ET 0))
     else c.general_params.flatMap (fun x => sja1105pqrs_general_params_entry_pack x (List.replicate SIZE_GENERAL_PARAMS_ENTRY_PQRS 0)))
  else if i = 18 then c.retagging.flatMap (fun x => sja1105_retagging_entry_pack x (List.replicate SIZE_RETAGGING_ENTRY 0))
  else if i = 19 then c.xmii_params.flatMap (fun x => sja1105_xmii_params_entry_pack x (List.replicate SIZE_XMII_PARAMS_ENTRY 0))
  else if i = 20 then c.sgmii.flatMap (fun x => sja1105_sgmii_entry_pack x (List.replicate SIZE_SGMII_ENTRY 0))
  else []

/-- Model of the entry-unpacking loop of `sja1105_static_config_unpack`
for one table: `n` entries are read from consecutive
`packed_entry_size` slices of `src` and appended to table `i`. -/
def addTableEntries (d : Device) (A : StaticConfig) (i : Nat) (src : List Nat)
    (n : Nat) : StaticConfig :=
  { A with
    schedule := if i = 0 then A.schedule ++ (List.range n).map (fun j => sja1105_schedule_entry_unpack ((src.drop (j * SIZE_SCHEDULE_ENTRY)).take SIZE_SCHEDULE_ENTRY)) else A.schedule,
    schedule_entry_points := if i = 1 then A.schedule_entry_points ++ (List.range n).map (fun j => sja1105_schedule_entry_points_entry_unpack ((src.drop (j * SIZE_SCHEDULE_ENTRY_POINTS_ENTRY)).take SIZE_SCHEDULE_ENTRY_POINTS_ENTRY)) else A.schedule_entry_points,
    vl_lookup := if i = 2 then A.vl_lookup ++ (List.range n).map (fun j => sja1105_vl_lookup_entry_unpack ((src.drop (j * SIZE_VL_LOOKUP_ENTRY)).take SIZE_VL_LOOKUP_ENTRY)) else A.vl_lookup,
    vl_policing := if i = 3 then A.vl_policing ++ (List.range n).map (fun j => sja1105_vl_policing_entry_unpack ((src.drop (j * SIZE_VL_POLICING_ENTRY)).take SIZE_VL_POLICING_ENTRY)) else A.vl_policing,
    vl_forwarding := if i = 4 then A.vl_forwarding ++ (List.range n).map (fun j => sja1105_vl_forwarding_entry_unpack ((src.drop (j * SIZE_VL_FORWARDING_ENTRY)).take SIZE_VL_FORWARDING_ENTRY)) else A.vl_forwarding,
    l2_lookup := if i = 5 then A.l2_lookup ++
      (if d.isET then (List.range n).map (fun j => sja1105et_l2_lookup_entry_unpack ((src.drop (j * SIZE_L2_LOOKUP_ENTRY_ET)).take SIZE_L2_LOOKUP_ENTRY_ET))
       else (List.range n).map (fun j => sja1105pqrs_l2_lookup_entry_unpack ((src.drop (j * SIZE_L2_LOOKUP_ENTRY_PQRS)).take SIZE_L2_LOOKUP_ENTRY_PQRS)))
      else A.l2_lookup,
    l2_policing := if i = 6 then A.l2_policing ++ (List.range n).map (fun j => sja1105_l2_policing_entry_unpack ((src.drop (j * SIZE_L2_POLICING_ENTRY)).take SIZE_L2_POLICING_ENTRY)) else A.l2_policing,
    vlan_lookup := if i = 7 then A.vlan_lookup ++ (List.range n).map (fun j => sja1105_vlan_lookup_entry_unpack ((src.drop (j * SIZE_VLAN_LOOKUP_ENTRY)).take SIZE_VLAN_LOOKUP_ENTRY)) else A.vlan_lookup,
    l2_forwarding := if i = 8 then A.l2_forwarding ++ (List.range n).map (fun j => sja1105_l2_forwarding_entry_unpack ((src.drop (j * SIZE_L2_FORWARDING_ENTRY)).take SIZE_L2_FORWARDING_ENTRY)) else A.l2_forwarding,
    mac_config := if i = 9 then A.mac_config ++
      (if d.isET then (List.range n).map (fun j => sja1105et_mac_config_entry_unpack ((src.drop (j * SIZE_MAC_CONFIG_ENTRY_ET)).take SIZE_MAC_CONFIG_ENTRY_ET))
       else (List.range n).map (fun j => sja1105pqrs_mac_config_entry_unpack ((src.drop (j * SIZE_MAC_CONFIG_ENTRY_PQRS)).take SIZE_MAC_CONFIG_ENTRY_PQRS)))
      else A.mac_config,
    schedule_params := if i = 10 then A.schedule_params ++ (List.range n).map (fun j => sja1105_schedule_params_entry_unpack ((src.drop (j * SIZE_SCHEDULE_PARAMS_ENTRY)).take SIZE_SCHEDULE_PARAMS_ENTRY)) else A.schedule_params,
    schedule_entry_points_params := if i = 11 then A.schedule_entry_points_params ++ (List.range n).map (fun j => sja1105_schedule_entry_points_params_entry_unpack ((src.drop (j * SIZE_SCHEDULE_ENTRY_POINTS_PARAMS_ENTRY)).take SIZE_SCHEDULE_ENTRY_POINTS_PARAMS_ENTRY)) else A.schedule_entry_points_params,
    vl_forwarding_params := if i = 12 then A.vl_forwarding_params ++ (List.range n).map (fun j => sja1105_vl_forwarding_params_entry_unpack ((src.drop (j * SIZE_VL_FORWARDING_PARAMS_ENTRY)).take SIZE_VL_FORWARDING_PARAMS_ENTRY)) else A.vl_forwarding_params,
    l2_lookup_params := if i = 13 then A.l2_lookup_params ++
      (if d.isET then (List.range n).map (fun j => sja1105et_l2_lookup_params_entry_unpack ((src.drop (j * SIZE_L2_LOOKUP_PARAMS_ENTRY_ET)).take SIZE_L2_LOOKUP_PARAMS_ENTRY_ET))
       else (List.range n).map (fun j => sja1105pqrs_l2_lookup_params_entry_unpack ((src.drop (j * SIZE_L2_LOOKUP_PARAMS_ENTRY_PQRS)).take SIZE_L2_LOOKUP_PARAMS_ENTRY_PQRS)))
      else A.l2_lookup_params,
    l2_forwarding_params := if i = 14 then A.l2_forwarding_params ++ (List.range n).map (fun j => sja1105_l2_forwarding_params_entry_unpack ((src.drop (j * SIZE_L2_FORWARDING_PARAMS_ENTRY)).take SIZE_L2_FORWARDING_PARAMS_ENTRY)) else A.l2_forwarding_params,
    clk_sync_params := if i = 15 then A.clk_sync_params ++ (List.range n).map (fun j => sja1105_clk_sync_params_entry_unpack ((src.drop (j * SIZE_CLK_SYNC_PARAMS_ENTRY)).take SIZE_CLK_SYNC_PARAMS_ENTRY)) else A.clk_sync_params,
    avb_params := if i = 16 then A.avb_params ++
      (if d.isET then (List.range n).map (fun j => sja1105et_avb_params_entry_unpack ((src.drop (j * SIZE_AVB_PARAMS_ENTRY_ET)).take SIZE_AVB_PARAMS_ENTRY_ET))
       else (List.range n).map (fun j => sja1105pqrs_avb_params_entry_unpack ((src.drop (j * SIZE_AVB_PARAMS_ENTRY_PQRS)).take SIZE_AVB_PARAMS_ENTRY_PQRS)))
      else A.avb_params,
    general_params := if i = 17 then A.general_params ++
      (if d.isET then (List.range n).map (fun j => sja1105et_general_params_entry_unpack ((src.drop (j * SIZE_GENERAL_PARAMS_ENTRY_ET)).take SIZE_GENERAL_PARAMS_ENTRY_ET))
       else (List.range n).map (fun j => sja1105pqrs_general_params_entry_unpack ((src.drop (j * SIZE_GENERAL_PARAMS_ENTRY_PQRS)).take SIZE_GENERAL_PARAMS_ENTRY_PQRS)))
      else A.general_params,
    retagging := if i = 18 then A.retagging ++ (List.range n).map (fun j => sja1105_retagging_entry_unpack ((src.drop (j * SIZE_RETAGGING_ENTRY)).take SIZE_RETAGGING_ENTRY)) else A.retagging,
    xmii_params := if i = 19 then A.xmii_params ++ (List.range n).map (fun j => sja1105_xmii_params_entry_unpack ((src.drop (j * SIZE_XMII_PARAMS_ENTRY)).take SIZE_XMII_PARAMS_ENTRY)) else A.xmii_params,
    sgmii := if i = 20 then A.sgmii ++ (List.range n).map (fun j => sja1105_sgmii_entry_unpack ((src.drop (j * SIZE_SGMII_ENTRY)).take SIZE_SGMII_ENTRY)) else A.sgmii
  }

/-- Helper for reasoning about the parse loop: overwrite table `i` of `A`
with the pack-then-unpack image of table `i` of `c`. -/
def setTableImage (c A : StaticConfig) (i : Nat) : StaticConfig :=
  { A with
    schedule := if i = 0 then imageSchedule c else A.schedule,
    schedule_entry_points := if i = 1 then imageScheduleEntryPoints c else A.schedule_entry_points,
    vl_lookup := if i = 2 then imageVlLookup c else A.vl_lookup,
    vl_policing := if i = 3 then imageVlPolicing c else A.vl_policing,
    vl_forwarding := if i = 4 then imageVlForwarding c else A.vl_forwarding,
    l2_lookup := if i = 5 then imageL2Lookup c else A.l2_lookup,
    l2_policing := if i = 6 then imageL2Policing c else A.l2_policing,
    vlan_lookup := if i = 7 then imageVlanLookup c else A.vlan_lookup,
    l2_forwarding := if i = 8 then imageL2Forwarding c else A.l2_forwarding,
    mac_config := if i = 9 then imageMacConfig c else A.mac_config,
    schedule_params := if i = 10 then imageScheduleParams c else A.schedule_params,
    schedule_entry_points_params := if i = 11 then imageScheduleEntryPointsParams c else A.schedule_entry_points_params,
    vl_forwarding_params := if i = 12 then imageVlForwardingParams c else A.vl_forwarding_params,
    l2_lookup_params := if i = 13 then imageL2LookupParams c else A.l2_lookup_params,
    l2_forwarding_params := if i = 14 then imageL2ForwardingParams c else A.l2_forwarding_params,
    clk_sync_params := if i = 15 then imageClkSyncParams c else A.clk_sync_params,
    avb_params := if i = 16 then imageAvbParams c else A.avb_params,
    general_params := if i = 17 then imageGeneralParams c else A.general_params,
    retagging := if i = 18 then imageRetagging c else A.retagging,
    xmii_params := if i = 19 then imageXmiiParams c else A.xmii_params,
    sgmii := if i = 20 then imageSgmii c else A.sgmii
  }

/-- The whole-config pack-then-unpack image (before `vllupformat`
patching): every table mapped through its device codec. -/
def configImage (c : StaticConfig) : StaticConfig :=
  { c with
    schedule := imageSchedule c,
    schedule_entry_points := imageScheduleEntryPoints c,
    vl_lookup := imageVlLookup c,
    vl_policing := imageVlPolicing c,
    vl_forwarding := imageVlForwarding c,
    l2_lookup := imageL2Lookup c,
    l2_policing := imageL2Policing c,
    vlan_lookup := imageVlanLookup c,
    l2_forwarding := imageL2Forwarding c,
    mac_config := imageMacConfig c,
    schedule_params := imageScheduleParams c,
    schedule_entry_points_params := imageScheduleEntryPointsParams c,
    vl_forwarding_params := imageVlForwardingParams c,
    l2_lookup_params := imageL2LookupParams c,
    l2_forwarding_params := imageL2ForwardingParams c,
    clk_sync_params := imageClkSyncParams c,
    avb_params := imageAvbParams c,
    general_params := imageGeneralParams c,
    retagging := imageRetagging c,
    xmii_params := imageXmiiParams c,
    sgmii := imageSgmii c
  }

/-- Model of `sja1105_static_config_patch_vllupformat`: every VL Lookup
entry's `format` is set from the first General Parameters entry (the C
dereferences that entry unconditionally; the parse loop below only
reaches this point with a non-empty General Parameters table). -/
def sja1105_static_config_patch_vllupformat (c : StaticConfig) : StaticConfig :=
  { c with vl_lookup := c.vl_lookup.map (fun e =>
      { e with format := (c.general_params.getD 0 GeneralParamsEntry.zeroed).vllupformat }) }

/-- Outcome of `sja1105_static_config_unpack`: a config, an error code
(an `enum sja1105_static_config_validity` value or `-EINVAL`), or
undefined behavior (NULL `ops->packing` dereference or division by a zero
`packed_entry_size`, for a valid block id the device has no ops for; or
the NULL dereference in `patch_vllupformat` when no General Parameters
table was parsed). -/
inductive ConfigParseResult where
  | ok (c : StaticConfig)
  | err (code : Int)
  | ub
deriving DecidableEq

/-- The `while (1)` table loop of `sja1105_static_config_unpack`.  `r` is
the unread suffix of the buffer (the C tracks the same region through
`p` and `buf_len`), `A` the partially filled config. -/
def parseLoop (d : Device) (A : StaticConfig) (r : List Nat) : ConfigParseResult :=
  if h12 : r.length < 12 then .err SJA1105_UNEXPECTED_END_OF_BUFFER
  else
    let hdr := sja1105_table_header_unpack (r.take 12)
    if hdr.len = 0 then
      if r.length ≠ 12 then .err SJA1105_EXTRA_BYTES_AT_END_OF_BUFFER
      else if A.general_params.length = 0 then .ub
      else .ok (sja1105_static_config_patch_vllupformat A)
    else if hdr.crc ≠ sja1105_crc32 r 8 then .err SJA1105_INVALID_TABLE_HEADER_CRC
    else if r.length - 12 < hdr.len * 4 then .err SJA1105_UNEXPECTED_END_OF_BUFFER
    else
      match blk_idx_from_blk_id hdr.block_id with
      | none => .err (-EINVAL)
      | some i =>
        if tableCount A i ≠ 0 then .err (-EINVAL)
        else if tablePackedSize d i = 0 then .ub
        else
          let n := (hdr.len * 4 + tablePackedSize d i - 1) / tablePackedSize d i
          if tableMaxCount d i < n then .err SJA1105_INVALID_TABLE_HEADER
          else if n * tablePackedSize d i ≠ hdr.len * 4 then
            .err SJA1105_INCORRECT_TABLE_LENGTH
          else if r.length - 12 - hdr.len * 4 < 4 then
            .err SJA1105_UNEXPECTED_END_OF_BUFFER
          else if sja1105_crc32 (r.drop 12) (hdr.len * 4) ≠
              sja1105_unpack (((r.drop 12).drop (hdr.len * 4)).take 4) 31 0 4 then
            .err SJA1105_DATA_CRC_INVALID
          else parseLoop d (addTableEntries d A i (r.drop 12) n)
            (r.drop (12 + hdr.len * 4 + 4))
termination_by r.length
decreasing_by
  simp only [List.length_drop]
  omega

/-- A fresh config as `sja1105_static_config_init` leaves it for device
`d`: zero everywhere, with the device ops array installed. -/
def zeroedStaticConfig (d : Device) : StaticConfig :=
  ⟨0, d, [], [], [], [], [], [], [], [], [], [], [], [], [], [], [], [], [], [],
   [], [], []⟩

/-- Model of `sja1105_static_config_unpack`, parametrized by the device
whose ops arrays the caller installed into the config being filled. -/
def sja1105_static_config_unpack (d : Device) (buf : List Nat) : ConfigParseResult :=
  if buf.length < 4 then .err SJA1105_UNEXPECTED_END_OF_BUFFER
  else
    let device_id := sja1105_unpack (buf.take 4) 31 0 4
    if ¬ DEVICE_ID_VALID device_id then .err SJA1105_INVALID_DEVICE_ID
    else parseLoop d { zeroedStaticConfig d with device_id := device_id } (buf.drop 4)

/-- One non-empty table's bytes in `sja1105_static_config_pack`: header
with CRC, packed entries, data CRC word.  The reused C `header` struct
carries the previous block's CRC in its `crc` field at this point; that
field only ever lands in bytes 8-11, which `pack_with_crc` overwrites
(`table_header_pack_take8`), so it is modelled as 0. -/
def blockBytes (c : StaticConfig) (i : Nat) : List Nat :=
  sja1105_table_header_pack_with_crc
    ⟨blkIdMap.getD i 0, tableCount c i * tablePackedSize c.dev i / 4, 0⟩ ++
  tableBlob c i ++
  sja1105_pack (List.replicate 4 0)
    (sja1105_crc32 (tableBlob c i) (tableCount c i * tablePackedSize c.dev i)) 31 0 4

/-- Model of `sja1105_static_config_pack`: device id word, one block per
non-empty table in `BLK_IDX` order, final header with `len = 0` and CRC
`0xDEADBEEF`.  `none` models the NULL `ops->packing` call (and zero
`packed_entry_size`) for a non-empty table the device has no ops row
for. -/
def sja1105_static_config_pack (c : StaticConfig) : Option (List Nat) :=
  if ∃ i ∈ List.range BLK_IDX_MAX, tableCount c i ≠ 0 ∧ tablePackedSize c.dev i = 0 then
    none
  else
    some (sja1105_pack (List.replicate 4 0) c.device_id 31 0 4 ++
      (((List.range BLK_IDX_MAX).filter
          (fun i => decide (tableCount c i ≠ 0))).flatMap (fun i => blockBytes c i)) ++
      sja1105_table_header_pack ⟨0, 0, 0xDEADBEEF⟩ (List.replicate 12 0))

/-- Model of `sja1105_static_config_get_length`. -/
def sja1105_static_config_get_length (c : StaticConfig) : Nat :=
  let header_count :=
    1 + ((List.range BLK_IDX_MAX).filter (fun i => decide (tableCount c i ≠ 0))).length
  let sum := SIZE_SJA1105_DEVICE_ID +
    ((List.range BLK_IDX_MAX).map
      (fun i => tablePackedSize c.dev i * tableCount c i)).sum
  sum + header_count * (SIZE_TABLE_HEADER + 4) - 4
/-! ## Byte-level lemmas for the two-stage header CRC -/

theorem getElem?_eq_some_getD (l : List Nat) (n : Nat) (h : n < l.length) :
    l[n]? = some (l.getD n 0) := by
  rw [List.getD_eq_getElem?_getD, List.getElem?_eq_getElem h]
  rfl

theorem getD_take (l : List Nat) (t n : Nat) (h : n < t) :
    (l.take t).getD n 0 = l.getD n 0 := by
  rw [List.getD_eq_getElem?_getD, List.getD_eq_getElem?_getD, List.getElem?_take,
    if_pos h]

theorem getD_drop (l : List Nat) (t n : Nat) :
    (l.drop t).getD n 0 = l.getD (t + n) 0 := by
  rw [List.getD_eq_getElem?_getD, List.getD_eq_getElem?_getD, List.getElem?_drop]

/-- A byte left of a word-aligned prefix boundary is untouched by a pack
whose window lies entirely at or above that boundary. -/
theorem packBytes_getD_lo (L s e v : Nat) (buf : List Nat) (n t : Nat)
    (hbuf : buf.length = L) (h4 : L % 4 = 0) (hse : e ≤ s) (hn : n < t)
    (ht4 : t % 4 = 0) (hte : 8 * t ≤ e) (htL : t ≤ L) :
    (packBytes L s e v buf).getD n 0 = buf.getD n 0 := by
  have hb : lswAddr n < L := by unfold lswAddr; omega
  conv_lhs => rw [← lswAddr_invol n]
  rw [packBytes_getD L s e v buf (lswAddr n) h4 hse hbuf hb,
    if_neg (by unfold lswAddr; omega), lswAddr_invol]

theorem packBytes_getD_hi (L s e v : Nat) (buf : List Nat) (n : Nat)
    (hbuf : buf.length = L) (h4 : L % 4 = 0) (hse : e ≤ s) (hnL : n < L)
    (hwin : e / 8 ≤ lswAddr n ∧ lswAddr n ≤ s / 8) :
    (packBytes L s e v buf).getD n 0 =
      packBoxByte s e v (lswAddr n) (buf.getD n 0) := by
  have hb : lswAddr n < L := by unfold lswAddr; omega
  conv_lhs => rw [← lswAddr_invol n]
  rw [packBytes_getD L s e v buf (lswAddr n) h4 hse hbuf hb, if_pos hwin, lswAddr_invol]

/-- A truncated pack never alters bytes below a word-aligned boundary
under its window. -/
theorem sja1105_pack_take (buf : List Nat) (v s e L t : Nat)
    (hbuf : buf.length = L) (h4 : L % 4 = 0) (ht4 : t % 4 = 0) (hte : 8 * t ≤ e)
    (hse : e ≤ s) (hs : s < 8 * L) (hw : s - e + 1 ≤ 64) (hv : v < 2 ^ (s - e + 1)) :
    (sja1105_pack buf v s e L).take t = buf.take t := by
  rw [sja1105_pack_eq L s e v buf h4 hse hs hw hv]
  apply List.ext_getElem?
  intro n
  rw [List.getElem?_take, List.getElem?_take]
  by_cases hn : n < t
  · rw [if_pos hn, if_pos hn]
    have hnL : n < L := by omega
    rw [getElem?_eq_some_getD _ _ (by rw [packBytes_length, hbuf]; exact hnL),
      getElem?_eq_some_getD _ _ (by rw [hbuf]; exact hnL)]
    exact congrArg some (packBytes_getD_lo L s e v buf n t hbuf h4 hse hn ht4 hte (by omega))
  · rw [if_neg hn, if_neg hn]

/-- Packing a 32-bit value into the 4 bytes behind an 8-byte prefix is
one byte-aligned store per byte, whatever was there before. -/
theorem packBoxByte_crc_byte (v b y z : Nat) (hb1 : 8 ≤ b) (hb2 : b ≤ 11) :
    packBoxByte 31 0 v (b - 8) z = packBoxByte 95 64 v b y := by
  apply Nat.eq_of_testBit_eq
  intro r
  by_cases hr : r < 8
  · rw [packBoxByte_testBit 31 0 v (b - 8) z r (by omega) (by omega) (by omega)
      (by omega) hr,
      packBoxByte_testBit 95 64 v b y r (by omega) (by omega) (by omega) (by omega) hr,
      if_pos (by omega), if_pos (by omega)]
    congr 1
    omega
  · rw [Nat.testBit_lt_two_pow (lt_of_lt_of_le (packBoxByte_lt _ _ _ _ _)
        (Nat.pow_le_pow_right (by omega) (by omega))),
      Nat.testBit_lt_two_pow (lt_of_lt_of_le (packBoxByte_lt _ _ _ _ _)
        (Nat.pow_le_pow_right (by omega) (by omega)))]

/-- The two-stage header CRC write is one direct pack of the CRC into the
crc field window: packing `v` over bytes 8-11 of the already packed
header equals packing the header with `crc = v` in one go. -/
theorem packBytes_crc_stage (P2 : List Nat) (v : Nat) (hP2 : P2.length = 12) :
    (packBytes 12 95 64 0 P2).take 8 ++
      packBytes 4 31 0 v ((packBytes 12 95 64 0 P2).drop 8) =
      packBytes 12 95 64 v P2 := by
  have hlen0 : (packBytes 12 95 64 0 P2).length = 12 := by rw [packBytes_length, hP2]
  have hlenv : (packBytes 12 95 64 v P2).length = 12 := by rw [packBytes_length, hP2]
  have hlentake : ((packBytes 12 95 64 0 P2).take 8).length = 8 := by
    rw [List.length_take, hlen0]
    omega
  have hlendrop : ((packBytes 12 95 64 0 P2).drop 8).length = 4 := by
    rw [List.length_drop, hlen0]
  have hlenw : (packBytes 4 31 0 v ((packBytes 12 95 64 0 P2).drop 8)).length = 4 := by
    rw [packBytes_length, hlendrop]
  apply List.ext_getElem?
  intro n
  by_cases hn8 : n < 8
  · rw [List.getElem?_append_left (by rw [hlentake]; exact hn8),
      getElem?_eq_some_getD _ _ (by rw [hlentake]; exact hn8),
      getElem?_eq_some_getD _ _ (by rw [hlenv]; omega)]
    apply congrArg some
    rw [getD_take _ _ _ hn8,
      packBytes_getD_lo 12 95 64 0 P2 n 8 hP2 (by decide) (by decide) hn8 (by decide)
        (by decide) (by decide),
      packBytes_getD_lo 12 95 64 v P2 n 8 hP2 (by decide) (by decide) hn8 (by decide)
        (by decide) (by decide)]
  · by_cases hn12 : n < 12
    · rw [List.getElem?_append_right (by rw [hlentake]; omega), hlentake,
        getElem?_eq_some_getD _ _ (by rw [hlenw]; omega),
        getElem?_eq_some_getD _ _ (by rw [hlenv]; exact hn12)]
      apply congrArg some
      rw [packBytes_getD_hi 4 31 0 v _ (n - 8) hlendrop (by decide) (by decide)
        (by omega) (by unfold lswAddr; omega)]
      rw [getD_drop, show 8 + (n - 8) = n from by omega,
        packBytes_getD_hi 12 95 64 0 P2 n hP2 (by decide) (by decide) hn12
          (by unfold lswAddr; omega),
        packBytes_getD_hi 12 95 64 v P2 n hP2 (by decide) (by decide) hn12
          (by unfold lswAddr; omega)]
      rw [show lswAddr (n - 8) = lswAddr n - 8 from by unfold lswAddr; omega]
      exact packBoxByte_crc_byte v (lswAddr n) (P2.getD n 0) _
        (by unfold lswAddr; omega) (by unfold lswAddr; omega)
    · rw [List.getElem?_eq_none (by rw [List.length_append, hlentake, hlenw]; omega),
        List.getElem?_eq_none (by rw [hlenv]; omega)]

/-- `sja1105_table_header_pack_with_crc` equals a one-stage pack of the
header with its computed CRC in the `crc` field. -/
theorem sja1105_table_header_pack_with_crc_eq (bid len : Nat) :
    sja1105_table_header_pack_with_crc ⟨bid, len, 0⟩ =
      sja1105_table_header_pack
        ⟨bid, len,
         sja1105_crc32
           ((sja1105_table_header_pack ⟨bid, len, 0⟩ (List.replicate 12 0)).take 8) 8⟩
        (List.replicate 12 0) := by
  have hP2 : (sja1105_pack (sja1105_pack (List.replicate 12 0) bid 31 24 12)
      len 55 32 12).length = 12 := by
    rw [sja1105_pack_length, sja1105_pack_length]
    simp
  unfold sja1105_table_header_pack_with_crc
  simp only [sja1105_table_header_pack, sja1105_table_header_fields, SIZE_TABLE_HEADER,
    packFieldsV, List.foldl_cons, List.foldl_nil]
  rw [sja1105_pack_eq 12 95 64 _ _ (by decide) (by decide) (by decide) (by decide)
      (sja1105_crc32_lt _ _),
    sja1105_pack_eq 12 95 64 0 _ (by decide) (by decide) (by decide) (by decide)
      (by decide),
    sja1105_pack_eq 4 31 0 _ _ (by decide) (by decide) (by decide) (by decide)
      (sja1105_crc32_lt _ _)]
  exact packBytes_crc_stage _ _ hP2

/-- The first 8 header bytes do not depend on the `crc` field. -/
theorem table_header_pack_take8 (bid len c1 c2 : Nat) (h1 : c1 < 2 ^ 32)
    (h2 : c2 < 2 ^ 32) :
    (sja1105_table_header_pack ⟨bid, len, c1⟩ (List.replicate 12 0)).take 8 =
      (sja1105_table_header_pack ⟨bid, len, c2⟩ (List.replicate 12 0)).take 8 := by
  have hP2 : (sja1105_pack (sja1105_pack (List.replicate 12 0) bid 31 24 12)
      len 55 32 12).length = 12 := by
    rw [sja1105_pack_length, sja1105_pack_length]
    simp
  simp only [sja1105_table_header_pack, sja1105_table_header_fields, SIZE_TABLE_HEADER,
    packFieldsV, List.foldl_cons, List.foldl_nil]
  rw [sja1105_pack_take _ c1 95 64 12 8 hP2 (by decide) (by decide) (by decide)
      (by decide) (by decide) (by decide) h1,
    sja1105_pack_take _ c2 95 64 12 8 hP2 (by decide) (by decide) (by decide)
      (by decide) (by decide) (by decide) h2]

theorem table_header_pack_length_any (h : TableHeader) (buf : List Nat) :
    (sja1105_table_header_pack h buf).length = buf.length :=
  packFieldsV_length_any _ _ _

theorem table_header_pack_with_crc_length (h : TableHeader) :
    (sja1105_table_header_pack_with_crc h).length = 12 := by
  unfold sja1105_table_header_pack_with_crc
  rw [List.length_append, List.length_take, sja1105_pack_length, List.length_drop,
    table_header_pack_length_any]
  decide

/-- What the parser reads back from a packed block header. -/
theorem table_header_read (bid len : Nat) (hbid : bid < 2 ^ 8) (hl : len < 2 ^ 24) :
    sja1105_table_header_unpack (sja1105_table_header_pack_with_crc ⟨bid, len, 0⟩) =
      ⟨bid, len,
       sja1105_crc32
         ((sja1105_table_header_pack ⟨bid, len, 0⟩ (List.replicate 12 0)).take 8) 8⟩ := by
  rw [sja1105_table_header_pack_with_crc_eq bid len]
  exact sja1105_table_header_roundtrip _
    (by
      intro f hf
      unfold sja1105_table_header_fields at hf
      simp only [List.mem_cons, List.not_mem_nil, or_false] at hf
      rcases hf with rfl | rfl | rfl
      · exact ⟨by simp, by simp [SIZE_TABLE_HEADER], by simp, hbid⟩
      · exact ⟨by simp, by simp [SIZE_TABLE_HEADER], by simp, hl⟩
      · exact ⟨by simp, by simp [SIZE_TABLE_HEADER], by simp, sja1105_crc32_lt _ _⟩)

theorem sja1105_crc32_take8 (X : List Nat) (h : 8 ≤ X.length) :
    sja1105_crc32 X 8 = sja1105_crc32 (X.take 8) 8 := by
  conv_lhs => rw [← List.take_append_drop 8 X]
  exact sja1105_crc32_agree _ _ 8 (by rw [List.length_take]; omega)

/-- The header CRC the parser computes over the first 8 received bytes
matches the CRC packed into the header. -/
theorem table_header_crc_match (bid len : Nat) (rest : List Nat) :
    sja1105_crc32 (sja1105_table_header_pack_with_crc ⟨bid, len, 0⟩ ++ rest) 8 =
      sja1105_crc32
        ((sja1105_table_header_pack ⟨bid, len, 0⟩ (List.replicate 12 0)).take 8) 8 := by
  rw [sja1105_crc32_agree _ _ 8 (by rw [table_header_pack_with_crc_length]; decide),
    sja1105_crc32_take8 _ (by rw [table_header_pack_with_crc_length]; decide),
    sja1105_table_header_pack_with_crc_eq bid len,
    table_header_pack_take8 bid len _ 0 (sja1105_crc32_lt _ _) (by decide)]

/-- Round trip of one 32-bit word packed over any 4-byte buffer. -/
theorem sja1105_pack_unpack_word (B : List Nat) (hB : B.length = 4) (v : Nat)
    (hv : v < 2 ^ 32) :
    sja1105_unpack (sja1105_pack B v 31 0 4) 31 0 4 = v := by
  rw [sja1105_pack_eq 4 31 0 v B (by decide) (by decide) (by decide) (by decide) hv,
    sja1105_unpack_eq 4 31 0 _ (by decide) (by decide) (by decide) (by decide)]
  apply Nat.eq_of_testBit_eq
  intro k
  rw [Nat.testBit_mod_two_pow, Nat.testBit_shiftRight]
  by_cases hk : k < 32
  · rw [decide_eq_true (show k < 31 - 0 + 1 by omega), Bool.true_and,
      packBytes_logVal_testBit 4 31 0 v B (by decide) (by decide) (by decide)
        (by decide) hB (0 + k),
      if_pos (by omega)]
    congr 1
    omega
  · rw [decide_eq_false (show ¬ (k < 31 - 0 + 1) by omega), Bool.false_and,
      Nat.testBit_lt_two_pow
        (lt_of_lt_of_le hv (Nat.pow_le_pow_right (by omega) (by omega)))]
/-! ## Structural facts about the per-device table ops -/

theorem sja1105_schedule_entry_pack_length (x) (buf : List Nat) :
    (sja1105_schedule_entry_pack x buf).length = buf.length :=
  packFieldsV_length_any _ _ _

theorem sja1105_schedule_entry_points_entry_pack_length (x) (buf : List Nat) :
    (sja1105_schedule_entry_points_entry_pack x buf).length = buf.length :=
  packFieldsV_length_any _ _ _

theorem sja1105_vl_lookup_entry_pack_length (x) (buf : List Nat) :
    (sja1105_vl_lookup_entry_pack x buf).length = buf.length :=
  packFieldsV_length_any _ _ _

theorem sja1105_vl_policing_entry_pack_length (x) (buf : List Nat) :
    (sja1105_vl_policing_entry_pack x buf).length = buf.length :=
  packFieldsV_length_any _ _ _

theorem sja1105_vl_forwarding_entry_pack_length (x) (buf : List Nat) :
    (sja1105_vl_forwarding_entry_pack x buf).length = buf.length :=
  packFieldsV_length_any _ _ _

theorem sja1105et_l2_lookup_entry_pack_length (x) (buf : List Nat) :
    (sja1105et_l2_lookup_entry_pack x buf).length = buf.length :=
  packFieldsV_length_any _ _ _

theorem sja1105pqrs_l2_lookup_entry_pack_length (x) (buf : List Nat) :
    (sja1105pqrs_l2_lookup_entry_pack x buf).length = buf.length :=
  packFieldsV_length_any _ _ _

theorem sja1105_l2_policing_entry_pack_length (x) (buf : List Nat) :
    (sja1105_l2_policing_entry_pack x buf).length = buf.length :=
  packFieldsV_length_any _ _ _

theorem sja1105_vlan_lookup_entry_pack_length (x) (buf : List Nat) :
    (sja1105_vlan_lookup_entry_pack x buf).length = buf.length :=
  packFieldsV_length_any _ _ _

theorem sja1105_l2_forwarding_entry_pack_length (x) (buf : List Nat) :
    (sja1105_l2_forwarding_entry_pack x buf).length = buf.length :=
  packFieldsV_length_any _ _ _

theorem sja1105et_mac_config_entry_pack_length (x) (buf : List Nat) :
    (sja1105et_mac_config_entry_pack x buf).length = buf.length :=
  packFieldsV_length_any _ _ _

theorem sja1105pqrs_mac_config_entry_pack_length (x) (buf : List Nat) :
    (sja1105pqrs_mac_config_entry_pack x buf).length = buf.length :=
  packFieldsV_length_any _ _ _

theorem sja1105_schedule_params_entry_pack_length (x) (buf : List Nat) :
    (sja1105_schedule_params_entry_pack x buf).length = buf.length :=
  packFieldsV_length_any _ _ _

theorem sja1105_schedule_entry_points_params_entry_pack_length (x) (buf : List Nat) :
    (sja1105_schedule_entry_points_params_entry_pack x buf).length = buf.length :=
  packFieldsV_length_any _ _ _

theorem sja1105_vl_forwarding_params_entry_pack_length (x) (buf : List Nat) :
    (sja1105_vl_forwarding_params_entry_pack x buf).length = buf.length :=
  packFieldsV_length_any _ _ _

theorem sja1105et_l2_lookup_params_entry_pack_length (x) (buf : List Nat) :
    (sja1105et_l2_lookup_params_entry_pack x buf).length = buf.length :=
  packFieldsV_length_any _ _ _

theorem sja1105pqrs_l2_lookup_params_entry_pack_length (x) (buf : List Nat) :
    (sja1105pqrs_l2_lookup_params_entry_pack x buf).length = buf.length :=
  packFieldsV_length_any _ _ _

theorem sja1105_l2_forwarding_params_entry_pack_length (x) (buf : List Nat) :
    (sja1105_l2_forwarding_params_entry_pack x buf).length = buf.length :=
  packFieldsV_length_any _ _ _

theorem sja1105_clk_sync_params_entry_pack_length (x : ClkSyncParamsEntry) (buf : List Nat) :
    (sja1105_clk_sync_params_entry_pack x buf).length = buf.length := rfl

theorem sja1105et_avb_params_entry_pack_length (x) (buf : List Nat) :
    (sja1105et_avb_params_entry_pack x buf).length = buf.length :=
  packFieldsV_length_any _ _ _

theorem sja1105pqrs_avb_params_entry_pack_length (x) (buf : List Nat) :
    (sja1105pqrs_avb_params_entry_pack x buf).length = buf.length :=
  packFieldsV_length_any _ _ _

theorem sja1105et_general_params_entry_pack_length (x) (buf : List Nat) :
    (sja1105et_general_params_entry_pack x buf).length = buf.length :=
  packFieldsV_length_any _ _ _

theorem sja1105pqrs_general_params_entry_pack_length (x) (buf : List Nat) :
    (sja1105pqrs_general_params_entry_pack x buf).length = buf.length :=
  packFieldsV_length_any _ _ _

theorem sja1105_retagging_entry_pack_length (x) (buf : List Nat) :
    (sja1105_retagging_entry_pack x buf).length = buf.length :=
  packFieldsV_length_any _ _ _

theorem sja1105_xmii_params_entry_pack_length (x) (buf : List Nat) :
    (sja1105_xmii_params_entry_pack x buf).length = buf.length :=
  packFieldsV_length_any _ _ _

theorem sja1105_sgmii_entry_pack_length (x) (buf : List Nat) :
    (sja1105_sgmii_entry_pack x buf).length = buf.length :=
  packFieldsV_length_any _ _ _

theorem sum_map_const_length {α : Type} (l : List α) (f : α → List Nat) (s : Nat)
    (h : ∀ x ∈ l, (f x).length = s) : (l.flatMap f).length = l.length * s := by
  induction l with
  | nil => simp
  | cons x rest ih =>
    rw [List.flatMap_cons, List.length_append, h x (by simp),
      ih (fun y hy => h y (by simp [hy])), List.length_cons]
    ring

theorem Device.maxCounts_length (d : Device) : d.maxCounts.length = 21 := by
  cases d <;> rfl

theorem Device.packedSizes_length (d : Device) : d.packedSizes.length = 21 := by
  cases d <;> rfl

theorem tableMaxCount_le (d : Device) (i : Nat) : tableMaxCount d i ≤ 4096 := by
  rcases Nat.lt_or_ge i 21 with h | h
  · have hb : ∀ j, j < 21 → tableMaxCount d j ≤ 4096 := by cases d <;> decide
    exact hb i h
  · unfold tableMaxCount
    rw [List.getD_eq_default _ 0 (by rw [Device.maxCounts_length]; omega)]
    omega

theorem tablePackedSize_le (d : Device) (i : Nat) : tablePackedSize d i ≤ 144 := by
  rcases Nat.lt_or_ge i 21 with h | h
  · have hb : ∀ j, j < 21 → tablePackedSize d j ≤ 144 := by cases d <;> decide
    exact hb i h
  · unfold tablePackedSize
    rw [List.getD_eq_default _ 0 (by rw [Device.packedSizes_length]; omega)]
    omega

theorem tablePackedSize_mod4 (d : Device) (i : Nat) : tablePackedSize d i % 4 = 0 := by
  rcases Nat.lt_or_ge i 21 with h | h
  · have hb : ∀ j, j < 21 → tablePackedSize d j % 4 = 0 := by cases d <;> decide
    exact hb i h
  · unfold tablePackedSize
    rw [List.getD_eq_default _ 0 (by rw [Device.packedSizes_length]; omega)]

/-- Every `{ 0 }` ops row has both `packed_entry_size` and
`max_entry_count` zero. -/
theorem tablePackedSize_zero_max (d : Device) (i : Nat)
    (h : tablePackedSize d i = 0) : tableMaxCount d i = 0 := by
  rcases Nat.lt_or_ge i 21 with hlt | hge
  · have hb : ∀ j, j < 21 → tablePackedSize d j = 0 → tableMaxCount d j = 0 := by
      cases d <;> decide
    exact hb i hlt h
  · unfold tableMaxCount
    rw [List.getD_eq_default _ 0 (by rw [Device.maxCounts_length]; omega)]

theorem blk_idx_of_map : ∀ i, i < 21 → blk_idx_from_blk_id (blkIdMap.getD i 0) = some i := by
  decide

theorem blkIdMap_lt : ∀ i, i < 21 → blkIdMap.getD i 0 < 2 ^ 8 := by
  decide

theorem tableCount_mk_zero (d : Device) (v : Nat) (i : Nat) (hi : i < 21) :
    tableCount { zeroedStaticConfig d with device_id := v } i = 0 := by
  interval_cases i <;> rfl

theorem tableCount_setTableImage_ne (c A : StaticConfig) (i j : Nat) (hj : j < 21)
    (hij : i ≠ j) :
    tableCount (setTableImage c A i) j = tableCount A j := by
  interval_cases j <;>
  · simp +decide only [tableCount, setTableImage, if_true, if_false]
    rw [if_neg (by omega)]

/-- The packed length of one table: entry count times packed entry size
(for a table the device has an ops row for). -/
theorem tableBlob_length (c : StaticConfig) (i : Nat) (hi : i < 21)
    (hsz : tablePackedSize c.dev i ≠ 0) :
    (tableBlob c i).length = tableCount c i * tablePackedSize c.dev i := by
  interval_cases i
  · simp +decide only [tableBlob, tableCount, if_true, if_false]
    rw [sum_map_const_length c.schedule (fun x => sja1105_schedule_entry_pack x (List.replicate SIZE_SCHEDULE_ENTRY 0)) SIZE_SCHEDULE_ENTRY
      (fun x hx => by simp [sja1105_schedule_entry_pack_length])]
    cases hdev : c.dev
    all_goals first
      | (rw [hdev] at hsz; exact absurd rfl hsz)
      | rfl
  · simp +decide only [tableBlob, tableCount, if_true, if_false]
    rw [sum_map_const_length c.schedule_entry_points (fun x => sja1105_schedule_entry_points_entry_pack x (List.replicate SIZE_SCHEDULE_ENTRY_POINTS_ENTRY 0)) SIZE_SCHEDULE_ENTRY_POINTS_ENTRY
      (fun x hx => by simp [sja1105_schedule_entry_points_entry_pack_length])]
    cases hdev : c.dev
    all_goals first
      | (rw [hdev] at hsz; exact absurd rfl hsz)
      | rfl
  · simp +decide only [tableBlob, tableCount, if_true, if_false]
    rw [sum_map_const_length c.vl_lookup (fun x => sja1105_vl_lookup_entry_pack x (List.replicate SIZE_VL_LOOKUP_ENTRY 0)) SIZE_VL_LOOKUP_ENTRY
      (fun x hx => by simp [sja1105_vl_lookup_entry_pack_length])]
    cases hdev : c.dev
    all_goals first
      | (rw [hdev] at hsz; exact absurd rfl hsz)
      | rfl
  · simp +decide only [tableBlob, tableCount, if_true, if_false]
    rw [sum_map_const_length c.vl_policing (fun x => sja1105_vl_policing_entry_pack x (List.replicate SIZE_VL_POLICING_ENTRY 0)) SIZE_VL_POLICING_ENTRY
      (fun x hx => by simp [sja1105_vl_policing_entry_pack_length])]
    cases hdev : c.dev
    all_goals first
      | (rw [hdev] at hsz; exact absurd rfl hsz)
      | rfl
  · simp +decide only [tableBlob, tableCount, if_true, if_false]
    rw [sum_map_const_length c.vl_forwarding (fun x => sja1105_vl_forwarding_entry_pack x (List.replicate SIZE_VL_FORWARDING_ENTRY 0)) SIZE_VL_FORWARDING_ENTRY
      (fun x hx => by simp [sja1105_vl_forwarding_entry_pack_length])]
    cases hdev : c.dev
    all_goals first
      | (rw [hdev] at hsz; exact absurd rfl hsz)
      | rfl
  · simp +decide only [tableBlob, tableCount, if_true, if_false]
    cases hdev : c.dev <;> simp +decide only [Device.isET, if_true, if_false]
    all_goals first
      | (rw [sum_map_const_length c.l2_lookup (fun x => sja1105et_l2_lookup_entry_pack x (List.replicate SIZE_L2_LOOKUP_ENTRY_ET 0))
            SIZE_L2_LOOKUP_ENTRY_ET (fun x hx => by simp [sja1105et_l2_lookup_entry_pack_length])]; rfl)
      | (rw [sum_map_const_length c.l2_lookup (fun x => sja1105pqrs_l2_lookup_entry_pack x (List.replicate SIZE_L2_LOOKUP_ENTRY_PQRS 0))
            SIZE_L2_LOOKUP_ENTRY_PQRS (fun x hx => by simp [sja1105pqrs_l2_lookup_entry_pack_length])]; rfl)
  · simp +decide only [tableBlob, tableCount, if_true, if_false]
    rw [sum_map_const_length c.l2_policing (fun x => sja1105_l2_policing_entry_pack x (List.replicate SIZE_L2_POLICING_ENTRY 0)) SIZE_L2_POLICING_ENTRY
      (fun x hx => by simp [sja1105_l2_policing_entry_pack_length])]
    cases hdev : c.dev
    all_goals first
      | (rw [hdev] at hsz; exact absurd rfl hsz)
      | rfl
  · simp +decide only [tableBlob, tableCount, if_true, if_false]
    rw [sum_map_const_length c.vlan_lookup (fun x => sja1105_vlan_lookup_entry_pack x (List.replicate SIZE_VLAN_LOOKUP_ENTRY 0)) SIZE_VLAN_LOOKUP_ENTRY
      (fun x hx => by simp [sja1105_vlan_lookup_entry_pack_length])]
    cases hdev : c.dev
    all_goals first
      | (rw [hdev] at hsz; exact absurd rfl hsz)
      | rfl
  · simp +decide only [tableBlob, tableCount, if_true, if_false]
    rw [sum_map_const_length c.l2_forwarding (fun x => sja1105_l2_forwarding_entry_pack x (List.replicate SIZE_L2_FORWARDING_ENTRY 0)) SIZE_L2_FORWARDING_ENTRY
      (fun x hx => by simp [sja1105_l2_forwarding_entry_pack_length])]
    cases hdev : c.dev
    all_goals first
      | (rw [hdev] at hsz; exact absurd rfl hsz)
      | rfl
  · simp +decide only [tableBlob, tableCount, if_true, if_false]
    cases hdev : c.dev <;> simp +decide only [Device.isET, if_true, if_false]
    all_goals first
      | (rw [sum_map_const_length c.mac_config (fun x => sja1105et_mac_config_entry_pack x (List.replicate SIZE_MAC_CONFIG_ENTRY_ET 0))
            SIZE_MAC_CONFIG_ENTRY_ET (fun x hx => by simp [sja1105et_mac_config_entry_pack_length])]; rfl)
      | (rw [sum_map_const_length c.mac_config (fun x => sja1105pqrs_mac_config_entry_pack x (List.replicate SIZE_MAC_CONFIG_ENTRY_PQRS 0))
            SIZE_MAC_CONFIG_ENTRY_PQRS (fun x hx => by simp [sja1105pqrs_mac_config_entry_pack_length])]; rfl)
  · simp +decide only [tableBlob, tableCount, if_true, if_false]
    rw [sum_map_const_length c.schedule_params (fun x => sja1105_schedule_params_entry_pack x (List.replicate SIZE_SCHEDULE_PARAMS_ENTRY 0)) SIZE_SCHEDULE_PARAMS_ENTRY
      (fun x hx => by simp [sja1105_schedule_params_entry_pack_length])]
    cases hdev : c.dev
    all_goals first
      | (rw [hdev] at hsz; exact absurd rfl hsz)
      | rfl
  · simp +decide only [tableBlob, tableCount, if_true, if_false]
    rw [sum_map_const_length c.schedule_entry_points_params (fun x => sja1105_schedule_entry_points_params_entry_pack x (List.replicate SIZE_SCHEDULE_ENTRY_POINTS_PARAMS_ENTRY 0)) SIZE_SCHEDULE_ENTRY_POINTS_PARAMS_ENTRY
      (fun x hx => by simp [sja1105_schedule_entry_points_params_entry_pack_length])]
    cases hdev : c.dev
    all_goals first
      | (rw [hdev] at hsz; exact absurd rfl hsz)
      | rfl
  · simp +decide only [tableBlob, tableCount, if_true, if_false]
    rw [sum_map_const_length c.vl_forwarding_params (fun x => sja1105_vl_forwarding_params_entry_pack x (List.replicate SIZE_VL_FORWARDING_PARAMS_ENTRY 0)) SIZE_VL_FORWARDING_PARAMS_ENTRY
      (fun x hx => by simp [sja1105_vl_forwarding_params_entry_pack_length])]
    cases hdev : c.dev
    all_goals first
      | (rw [hdev] at hsz; exact absurd rfl hsz)
      | rfl
  · simp +decide only [tableBlob, tableCount, if_true, if_false]
    cases hdev : c.dev <;> simp +decide only [Device.isET, if_true, if_false]
    all_goals first
      | (rw [sum_map_const_length c.l2_lookup_params (fun x => sja1105et_l2_lookup_params_entry_pack x (List.replicate SIZE_L2_LOOKUP_PARAMS_ENTRY_ET 0))
            SIZE_L2_LOOKUP_PARAMS_ENTRY_ET (fun x hx => by simp [sja1105et_l2_lookup_params_entry_pack_length])]; rfl)
      | (rw [sum_map_const_length c.l2_lookup_params (fun x => sja1105pqrs_l2_lookup_params_entry_pack x (List.replicate SIZE_L2_LOOKUP_PARAMS_ENTRY_PQRS 0))
            SIZE_L2_LOOKUP_PARAMS_ENTRY_PQRS (fun x hx => by simp [sja1105pqrs_l2_lookup_params_entry_pack_length])]; rfl)
  · simp +decide only [tableBlob, tableCount, if_true, if_false]
    rw [sum_map_const_length c.l2_forwarding_params (fun x => sja1105_l2_forwarding_params_entry_pack x (List.replicate SIZE_L2_FORWARDING_PARAMS_ENTRY 0)) SIZE_L2_FORWARDING_PARAMS_ENTRY
      (fun x hx => by simp [sja1105_l2_forwarding_params_entry_pack_length])]
    cases hdev : c.dev
    all_goals first
      | (rw [hdev] at hsz; exact absurd rfl hsz)
      | rfl
  · simp +decide only [tableBlob, tableCount, if_true, if_false]
    rw [sum_map_const_length c.clk_sync_params (fun x => sja1105_clk_sync_params_entry_pack x (List.replicate SIZE_CLK_SYNC_PARAMS_ENTRY 0)) SIZE_CLK_SYNC_PARAMS_ENTRY
      (fun x hx => by simp [sja1105_clk_sync_params_entry_pack_length])]
    cases hdev : c.dev
    all_goals first
      | (rw [hdev] at hsz; exact absurd rfl hsz)
      | rfl
  · simp +decide only [tableBlob, tableCount, if_true, if_false]
    cases hdev : c.dev <;> simp +decide only [Device.isET, if_true, if_false]
    all_goals first
      | (rw [sum_map_const_length c.avb_params (fun x => sja1105et_avb_params_entry_pack x (List.replicate SIZE_AVB_PARAMS_ENTRY_ET 0))
            SIZE_AVB_PARAMS_ENTRY_ET (fun x hx => by simp [sja1105et_avb_params_entry_pack_length])]; rfl)
      | (rw [sum_map_const_length c.avb_params (fun x => sja1105pqrs_avb_params_entry_pack x (List.replicate SIZE_AVB_PARAMS_ENTRY_PQRS 0))
            SIZE_AVB_PARAMS_ENTRY_PQRS (fun x hx => by simp [sja1105pqrs_avb_params_entry_pack_length])]; rfl)
  · simp +decide only [tableBlob, tableCount, if_true, if_false]
    cases hdev : c.dev <;> simp +decide only [Device.isET, if_true, if_false]
    all_goals first
      | (rw [sum_map_const_length c.general_params (fun x => sja1105et_general_params_entry_pack x (List.replicate SIZE_GENERAL_PARAMS_ENTRY_ET 0))
            SIZE_GENERAL_PARAMS_ENTRY_ET (fun x hx => by simp [sja1105et_general_params_entry_pack_length])]; rfl)
      | (rw [sum_map_const_length c.general_params (fun x => sja1105pqrs_general_params_entry_pack x (List.replicate SIZE_GENERAL_PARAMS_ENTRY_PQRS 0))
            SIZE_GENERAL_PARAMS_ENTRY_PQRS (fun x hx => by simp [sja1105pqrs_general_params_entry_pack_length])]; rfl)
  · simp +decide only [tableBlob, tableCount, if_true, if_false]
    rw [sum_map_const_length c.retagging (fun x => sja1105_retagging_entry_pack x (List.replicate SIZE_RETAGGING_ENTRY 0)) SIZE_RETAGGING_ENTRY
      (fun x hx => by simp [sja1105_retagging_entry_pack_length])]
    cases hdev : c.dev
    all_goals first
      | (rw [hdev] at hsz; exact absurd rfl hsz)
      | rfl
  · simp +decide only [tableBlob, tableCount, if_true, if_false]
    rw [sum_map_const_length c.xmii_params (fun x => sja1105_xmii_params_entry_pack x (List.replicate SIZE_XMII_PARAMS_ENTRY 0)) SIZE_XMII_PARAMS_ENTRY
      (fun x hx => by simp [sja1105_xmii_params_entry_pack_length])]
    cases hdev : c.dev
    all_goals first
      | (rw [hdev] at hsz; exact absurd rfl hsz)
      | rfl
  · simp +decide only [tableBlob, tableCount, if_true, if_false]
    rw [sum_map_const_length c.sgmii (fun x => sja1105_sgmii_entry_pack x (List.replicate SIZE_SGMII_ENTRY 0)) SIZE_SGMII_ENTRY
      (fun x hx => by simp [sja1105_sgmii_entry_pack_length])]
    cases hdev : c.dev
    all_goals first
      | (rw [hdev] at hsz; exact absurd rfl hsz)
      | rfl

/-- Unpacking one table's blob appends exactly the image of that table. -/
theorem addTableEntries_blob (c A : StaticConfig) (i : Nat) (hi : i < 21)
    (tail : List Nat) (hAi : tableCount A i = 0) :
    addTableEntries c.dev A i (tableBlob c i ++ tail) (tableCount c i) =
      setTableImage c A i := by
  interval_cases i
  · have hA : A.schedule = [] := by
      have h := hAi
      simp +decide only [tableCount, if_true, if_false] at h
      exact List.length_eq_zero.mp h
    simp +decide only [addTableEntries, setTableImage, tableBlob, tableCount, imageSchedule, if_true, if_false]
    congr 1
    rw [hA, List.nil_append]
    exact parse_slices (fun x => sja1105_schedule_entry_pack x (List.replicate SIZE_SCHEDULE_ENTRY 0))
      sja1105_schedule_entry_unpack SIZE_SCHEDULE_ENTRY c.schedule
      (fun x hx => by simp [sja1105_schedule_entry_pack_length]) tail
  · have hA : A.schedule_entry_points = [] := by
      have h := hAi
      simp +decide only [tableCount, if_true, if_false] at h
      exact List.length_eq_zero.mp h
    simp +decide only [addTableEntries, setTableImage, tableBlob, tableCount, imageScheduleEntryPoints, if_true, if_false]
    congr 1
    rw [hA, List.nil_append]
    exact parse_slices (fun x => sja1105_schedule_entry_points_entry_pack x (List.replicate SIZE_SCHEDULE_ENTRY_POINTS_ENTRY 0))
      sja1105_schedule_entry_points_entry_unpack SIZE_SCHEDULE_ENTRY_POINTS_ENTRY c.schedule_entry_points
      (fun x hx => by simp [sja1105_schedule_entry_points_entry_pack_length]) tail
  · have hA : A.vl_lookup = [] := by
      have h := hAi
      simp +decide only [tableCount, if_true, if_false] at h
      exact List.length_eq_zero.mp h
    simp +decide only [addTableEntries, setTableImage, tableBlob, tableCount, imageVlLookup, if_true, if_false]
    congr 1
    rw [hA, List.nil_append]
    exact parse_slices (fun x => sja1105_vl_lookup_entry_pack x (List.replicate SIZE_VL_LOOKUP_ENTRY 0))
      sja1105_vl_lookup_entry_unpack SIZE_VL_LOOKUP_ENTRY c.vl_lookup
      (fun x hx => by simp [sja1105_vl_lookup_entry_pack_length]) tail
  · have hA : A.vl_policing = [] := by
      have h := hAi
      simp +decide only [tableCount, if_true, if_false] at h
      exact List.length_eq_zero.mp h
    simp +decide only [addTableEntries, setTableImage, tableBlob, tableCount, imageVlPolicing, if_true, if_false]
    congr 1
    rw [hA, List.nil_append]
    exact parse_slices (fun x => sja1105_vl_policing_entry_pack x (List.replicate SIZE_VL_POLICING_ENTRY 0))
      sja1105_vl_policing_entry_unpack SIZE_VL_POLICING_ENTRY c.vl_policing
      (fun x hx => by simp [sja1105_vl_policing_entry_pack_length]) tail
  · have hA : A.vl_forwarding = [] := by
      have h := hAi
      simp +decide only [tableCount, if_true, if_false] at h
      exact List.length_eq_zero.mp h
    simp +decide only [addTableEntries, setTableImage, tableBlob, tableCount, imageVlForwarding, if_true, if_false]
    congr 1
    rw [hA, List.nil_append]
    exact parse_slices (fun x => sja1105_vl_forwarding_entry_pack x (List.replicate SIZE_VL_FORWARDING_ENTRY 0))
      sja1105_vl_forwarding_entry_unpack SIZE_VL_FORWARDING_ENTRY c.vl_forwarding
      (fun x hx => by simp [sja1105_vl_forwarding_entry_pack_length]) tail
  · have hA : A.l2_lookup = [] := by
      have h := hAi
      simp +decide only [tableCount, if_true, if_false] at h
      exact List.length_eq_zero.mp h
    simp +decide only [addTableEntries, setTableImage, tableBlob, tableCount, if_true, if_false]
    congr 1
    rw [hA, List.nil_append]
    unfold imageL2Lookup
    cases hdev : c.dev
    · simp +decide only [Device.isET, if_true, if_false]
      exact parse_slices (fun x => sja1105et_l2_lookup_entry_pack x (List.replicate SIZE_L2_LOOKUP_ENTRY_ET 0))
        sja1105et_l2_lookup_entry_unpack SIZE_L2_LOOKUP_ENTRY_ET c.l2_lookup
        (fun x hx => by simp [sja1105et_l2_lookup_entry_pack_length]) tail
    · simp +decide only [Device.isET, if_true, if_false]
      exact parse_slices (fun x => sja1105et_l2_lookup_entry_pack x (List.replicate SIZE_L2_LOOKUP_ENTRY_ET 0))
        sja1105et_l2_lookup_entry_unpack SIZE_L2_LOOKUP_ENTRY_ET c.l2_lookup
        (fun x hx => by simp [sja1105et_l2_lookup_entry_pack_length]) tail
    · simp +decide only [Device.isET, if_true, if_false]
      exact parse_slices (fun x => sja1105pqrs_l2_lookup_entry_pack x (List.replicate SIZE_L2_LOOKUP_ENTRY_PQRS 0))
        sja1105pqrs_l2_lookup_entry_unpack SIZE_L2_LOOKUP_ENTRY_PQRS c.l2_lookup
        (fun x hx => by simp [sja1105pqrs_l2_lookup_entry_pack_length]) tail
    · simp +decide only [Device.isET, if_true, if_false]
      exact parse_slices (fun x => sja1105pqrs_l2_lookup_entry_pack x (List.replicate SIZE_L2_LOOKUP_ENTRY_PQRS 0))
        sja1105pqrs_l2_lookup_entry_unpack SIZE_L2_LOOKUP_ENTRY_PQRS c.l2_lookup
        (fun x hx => by simp [sja1105pqrs_l2_lookup_entry_pack_length]) tail
    · simp +decide only [Device.isET, if_true, if_false]
      exact parse_slices (fun x => sja1105pqrs_l2_lookup_entry_pack x (List.replicate SIZE_L2_LOOKUP_ENTRY_PQRS 0))
        sja1105pqrs_l2_lookup_entry_unpack SIZE_L2_LOOKUP_ENTRY_PQRS c.l2_lookup
        (fun x hx => by simp [sja1105pqrs_l2_lookup_entry_pack_length]) tail
    · simp +decide only [Device.isET, if_true, if_false]
      exact parse_slices (fun x => sja1105pqrs_l2_lookup_entry_pack x (List.replicate SIZE_L2_LOOKUP_ENTRY_PQRS 0))
        sja1105pqrs_l2_lookup_entry_unpack SIZE_L2_LOOKUP_ENTRY_PQRS c.l2_lookup
        (fun x hx => by simp [sja1105pqrs_l2_lookup_entry_pack_length]) tail
  · have hA : A.l2_policing = [] := by
      have h := hAi
      simp +decide only [tableCount, if_true, if_false] at h
      exact List.length_eq_zero.mp h
    simp +decide only [addTableEntries, setTableImage, tableBlob, tableCount, imageL2Policing, if_true, if_false]
    congr 1
    rw [hA, List.nil_append]
    exact parse_slices (fun x => sja1105_l2_policing_entry_pack x (List.replicate SIZE_L2_POLICING_ENTRY 0))
      sja1105_l2_policing_entry_unpack SIZE_L2_POLICING_ENTRY c.l2_policing
      (fun x hx => by simp [sja1105_l2_policing_entry_pack_length]) tail
  · have hA : A.vlan_lookup = [] := by
      have h := hAi
      simp +decide only [tableCount, if_true, if_false] at h
      exact List.length_eq_zero.mp h
    simp +decide only [addTableEntries, setTableImage, tableBlob, tableCount, imageVlanLookup, if_true, if_false]
    congr 1
    rw [hA, List.nil_append]
    exact parse_slices (fun x => sja1105_vlan_lookup_entry_pack x (List.replicate SIZE_VLAN_LOOKUP_ENTRY 0))
      sja1105_vlan_lookup_entry_unpack SIZE_VLAN_LOOKUP_ENTRY c.vlan_lookup
      (fun x hx => by simp [sja1105_vlan_lookup_entry_pack_length]) tail
  · have hA : A.l2_forwarding = [] := by
      have h := hAi
      simp +decide only [tableCount, if_true, if_false] at h
      exact List.length_eq_zero.mp h
    simp +decide only [addTableEntries, setTableImage, tableBlob, tableCount, imageL2Forwarding, if_true, if_false]
    congr 1
    rw [hA, List.nil_append]
    exact parse_slices (fun x => sja1105_l2_forwarding_entry_pack x (List.replicate SIZE_L2_FORWARDING_ENTRY 0))
      sja1105_l2_forwarding_entry_unpack SIZE_L2_FORWARDING_ENTRY c.l2_forwarding
      (fun x hx => by simp [sja1105_l2_forwarding_entry_pack_length]) tail
  · have hA : A.mac_config = [] := by
      have h := hAi
      simp +decide only [tableCount, if_true, if_false] at h
      exact List.length_eq_zero.mp h
    simp +decide only [addTableEntries, setTableImage, tableBlob, tableCount, if_true, if_false]
    congr 1
    rw [hA, List.nil_append]
    unfold imageMacConfig
    cases hdev : c.dev
    · simp +decide only [Device.isET, if_true, if_false]
      exact parse_slices (fun x => sja1105et_mac_config_entry_pack x (List.replicate SIZE_MAC_CONFIG_ENTRY_ET 0))
        sja1105et_mac_config_entry_unpack SIZE_MAC_CONFIG_ENTRY_ET c.mac_config
        (fun x hx => by simp [sja1105et_mac_config_entry_pack_length]) tail
    · simp +decide only [Device.isET, if_true, if_false]
      exact parse_slices (fun x => sja1105et_mac_config_entry_pack x (List.replicate SIZE_MAC_CONFIG_ENTRY_ET 0))
        sja1105et_mac_config_entry_unpack SIZE_MAC_CONFIG_ENTRY_ET c.mac_config
        (fun x hx => by simp [sja1105et_mac_config_entry_pack_length]) tail
    · simp +decide only [Device.isET, if_true, if_false]
      exact parse_slices (fun x => sja1105pqrs_mac_config_entry_pack x (List.replicate SIZE_MAC_CONFIG_ENTRY_PQRS 0))
        sja1105pqrs_mac_config_entry_unpack SIZE_MAC_CONFIG_ENTRY_PQRS c.mac_config
        (fun x hx => by simp [sja1105pqrs_mac_config_entry_pack_length]) tail
    · simp +decide only [Device.isET, if_true, if_false]
      exact parse_slices (fun x => sja1105pqrs_mac_config_entry_pack x (List.replicate SIZE_MAC_CONFIG_ENTRY_PQRS 0))
        sja1105pqrs_mac_config_entry_unpack SIZE_MAC_CONFIG_ENTRY_PQRS c.mac_config
        (fun x hx => by simp [sja1105pqrs_mac_config_entry_pack_length]) tail
    · simp +decide only [Device.isET, if_true, if_false]
      exact parse_slices (fun x => sja1105pqrs_mac_config_entry_pack x (List.replicate SIZE_MAC_CONFIG_ENTRY_PQRS 0))
        sja1105pqrs_mac_config_entry_unpack SIZE_MAC_CONFIG_ENTRY_PQRS c.mac_config
        (fun x hx => by simp [sja1105pqrs_mac_config_entry_pack_length]) tail
    · simp +decide only [Device.isET, if_true, if_false]
      exact parse_slices (fun x => sja1105pqrs_mac_config_entry_pack x (List.replicate SIZE_MAC_CONFIG_ENTRY_PQRS 0))
        sja1105pqrs_mac_config_entry_unpack SIZE_MAC_CONFIG_ENTRY_PQRS c.mac_config
        (fun x hx => by simp [sja1105pqrs_mac_config_entry_pack_length]) tail
  · have hA : A.schedule_params = [] := by
      have h := hAi
      simp +decide only [tableCount, if_true, if_false] at h
      exact List.length_eq_zero.mp h
    simp +decide only [addTableEntries, setTableImage, tableBlob, tableCount, imageScheduleParams, if_true, if_false]
    congr 1
    rw [hA, List.nil_append]
    exact parse_slices (fun x => sja1105_schedule_params_entry_pack x (List.replicate SIZE_SCHEDULE_PARAMS_ENTRY 0))
      sja1105_schedule_params_entry_unpack SIZE_SCHEDULE_PARAMS_ENTRY c.schedule_params
      (fun x hx => by simp [sja1105_schedule_params_entry_pack_length]) tail
  · have hA : A.schedule_entry_points_params = [] := by
      have h := hAi
      simp +decide only [tableCount, if_true, if_false] at h
      exact List.length_eq_zero.mp h
    simp +decide only [addTableEntries, setTableImage, tableBlob, tableCount, imageScheduleEntryPointsParams, if_true, if_false]
    congr 1
    rw [hA, List.nil_append]
    exact parse_slices (fun x => sja1105_schedule_entry_points_params_entry_pack x (List.replicate SIZE_SCHEDULE_ENTRY_POINTS_PARAMS_ENTRY 0))
      sja1105_schedule_entry_points_params_entry_unpack SIZE_SCHEDULE_ENTRY_POINTS_PARAMS_ENTRY c.schedule_entry_points_params
      (fun x hx => by simp [sja1105_schedule_entry_points_params_entry_pack_length]) tail
  · have hA : A.vl_forwarding_params = [] := by
      have h := hAi
      simp +decide only [tableCount, if_true, if_false] at h
      exact List.length_eq_zero.mp h
    simp +decide only [addTableEntries, setTableImage, tableBlob, tableCount, imageVlForwardingParams, if_true, if_false]
    congr 1
    rw [hA, List.nil_append]
    exact parse_slices (fun x => sja1105_vl_forwarding_params_entry_pack x (List.replicate SIZE_VL_FORWARDING_PARAMS_ENTRY 0))
      sja1105_vl_forwarding_params_entry_unpack SIZE_VL_FORWARDING_PARAMS_ENTRY c.vl_forwarding_params
      (fun x hx => by simp [sja1105_vl_forwarding_params_entry_pack_length]) tail
  · have hA : A.l2_lookup_params = [] := by
      have h := hAi
      simp +decide only [tableCount, if_true, if_false] at h
      exact List.length_eq_zero.mp h
    simp +decide only [addTableEntries, setTableImage, tableBlob, tableCount, if_true, if_false]
    congr 1
    rw [hA, List.nil_append]
    unfold imageL2LookupParams
    cases hdev : c.dev
    · simp +decide only [Device.isET, if_true, if_false]
      exact parse_slices (fun x => sja1105et_l2_lookup_params_entry_pack x (List.replicate SIZE_L2_LOOKUP_PARAMS_ENTRY_ET 0))
        sja1105et_l2_lookup_params_entry_unpack SIZE_L2_LOOKUP_PARAMS_ENTRY_ET c.l2_lookup_params
        (fun x hx => by simp [sja1105et_l2_lookup_params_entry_pack_length]) tail
    · simp +decide only [Device.isET, if_true, if_false]
      exact parse_slices (fun x => sja1105et_l2_lookup_params_entry_pack x (List.replicate SIZE_L2_LOOKUP_PARAMS_ENTRY_ET 0))
        sja1105et_l2_lookup_params_entry_unpack SIZE_L2_LOOKUP_PARAMS_ENTRY_ET c.l2_lookup_params
        (fun x hx => by simp [sja1105et_l2_lookup_params_entry_pack_length]) tail
    · simp +decide only [Device.isET, if_true, if_false]
      exact parse_slices (fun x => sja1105pqrs_l2_lookup_params_entry_pack x (List.replicate SIZE_L2_LOOKUP_PARAMS_ENTRY_PQRS 0))
        sja1105pqrs_l2_lookup_params_entry_unpack SIZE_L2_LOOKUP_PARAMS_ENTRY_PQRS c.l2_lookup_params
        (fun x hx => by simp [sja1105pqrs_l2_lookup_params_entry_pack_length]) tail
    · simp +decide only [Device.isET, if_true, if_false]
      exact parse_slices (fun x => sja1105pqrs_l2_lookup_params_entry_pack x (List.replicate SIZE_L2_LOOKUP_PARAMS_ENTRY_PQRS 0))
        sja1105pqrs_l2_lookup_params_entry_unpack SIZE_L2_LOOKUP_PARAMS_ENTRY_PQRS c.l2_lookup_params
        (fun x hx => by simp [sja1105pqrs_l2_lookup_params_entry_pack_length]) tail
    · simp +decide only [Device.isET, if_true, if_false]
      exact parse_slices (fun x => sja1105pqrs_l2_lookup_params_entry_pack x (List.replicate SIZE_L2_LOOKUP_PARAMS_ENTRY_PQRS 0))
        sja1105pqrs_l2_lookup_params_entry_unpack SIZE_L2_LOOKUP_PARAMS_ENTRY_PQRS c.l2_lookup_params
        (fun x hx => by simp [sja1105pqrs_l2_lookup_params_entry_pack_length]) tail
    · simp +decide only [Device.isET, if_true, if_false]
      exact parse_slices (fun x => sja1105pqrs_l2_lookup_params_entry_pack x (List.replicate SIZE_L2_LOOKUP_PARAMS_ENTRY_PQRS 0))
        sja1105pqrs_l2_lookup_params_entry_unpack SIZE_L2_LOOKUP_PARAMS_ENTRY_PQRS c.l2_lookup_params
        (fun x hx => by simp [sja1105pqrs_l2_lookup_params_entry_pack_length]) tail
  · have hA : A.l2_forwarding_params = [] := by
      have h := hAi
      simp +decide only [tableCount, if_true, if_false] at h
      exact List.length_eq_zero.mp h
    simp +decide only [addTableEntries, setTableImage, tableBlob, tableCount, imageL2ForwardingParams, if_true, if_false]
    congr 1
    rw [hA, List.nil_append]
    exact parse_slices (fun x => sja1105_l2_forwarding_params_entry_pack x (List.replicate SIZE_L2_FORWARDING_PARAMS_ENTRY 0))
      sja1105_l2_forwarding_params_entry_unpack SIZE_L2_FORWARDING_PARAMS_ENTRY c.l2_forwarding_params
      (fun x hx => by simp [sja1105_l2_forwarding_params_entry_pack_length]) tail
  · have hA : A.clk_sync_params = [] := by
      have h := hAi
      simp +decide only [tableCount, if_true, if_false] at h
      exact List.length_eq_zero.mp h
    simp +decide only [addTableEntries, setTableImage, tableBlob, tableCount, imageClkSyncParams, if_true, if_false]
    congr 1
    rw [hA, List.nil_append]
    exact parse_slices (fun x => sja1105_clk_sync_params_entry_pack x (List.replicate SIZE_CLK_SYNC_PARAMS_ENTRY 0))
      sja1105_clk_sync_params_entry_unpack SIZE_CLK_SYNC_PARAMS_ENTRY c.clk_sync_params
      (fun x hx => by simp [sja1105_clk_sync_params_entry_pack_length]) tail
  · have hA : A.avb_params = [] := by
      have h := hAi
      simp +decide only [tableCount, if_true, if_false] at h
      exact List.length_eq_zero.mp h
    simp +decide only [addTableEntries, setTableImage, tableBlob, tableCount, if_true, if_false]
    congr 1
    rw [hA, List.nil_append]
    unfold imageAvbParams
    cases hdev : c.dev
    · simp +decide only [Device.isET, if_true, if_false]
      exact parse_slices (fun x => sja1105et_avb_params_entry_pack x (List.replicate SIZE_AVB_PARAMS_ENTRY_ET 0))
        sja1105et_avb_params_entry_unpack SIZE_AVB_PARAMS_ENTRY_ET c.avb_params
        (fun x hx => by simp [sja1105et_avb_params_entry_pack_length]) tail
    · simp +decide only [Device.isET, if_true, if_false]
      exact parse_slices (fun x => sja1105et_avb_params_entry_pack x (List.replicate SIZE_AVB_PARAMS_ENTRY_ET 0))
        sja1105et_avb_params_entry_unpack SIZE_AVB_PARAMS_ENTRY_ET c.avb_params
        (fun x hx => by simp [sja1105et_avb_params_entry_pack_length]) tail
    · simp +decide only [Device.isET, if_true, if_false]
      exact parse_slices (fun x => sja1105pqrs_avb_params_entry_pack x (List.replicate SIZE_AVB_PARAMS_ENTRY_PQRS 0))
        sja1105pqrs_avb_params_entry_unpack SIZE_AVB_PARAMS_ENTRY_PQRS c.avb_params
        (fun x hx => by simp [sja1105pqrs_avb_params_entry_pack_length]) tail
    · simp +decide only [Device.isET, if_true, if_false]
      exact parse_slices (fun x => sja1105pqrs_avb_params_entry_pack x (List.replicate SIZE_AVB_PARAMS_ENTRY_PQRS 0))
        sja1105pqrs_avb_params_entry_unpack SIZE_AVB_PARAMS_ENTRY_PQRS c.avb_params
        (fun x hx => by simp [sja1105pqrs_avb_params_entry_pack_length]) tail
    · simp +decide only [Device.isET, if_true, if_false]
      exact parse_slices (fun x => sja1105pqrs_avb_params_entry_pack x (List.replicate SIZE_AVB_PARAMS_ENTRY_PQRS 0))
        sja1105pqrs_avb_params_entry_unpack SIZE_AVB_PARAMS_ENTRY_PQRS c.avb_params
        (fun x hx => by simp [sja1105pqrs_avb_params_entry_pack_length]) tail
    · simp +decide only [Device.isET, if_true, if_false]
      exact parse_slices (fun x => sja1105pqrs_avb_params_entry_pack x (List.replicate SIZE_AVB_PARAMS_ENTRY_PQRS 0))
        sja1105pqrs_avb_params_entry_unpack SIZE_AVB_PARAMS_ENTRY_PQRS c.avb_params
        (fun x hx => by simp [sja1105pqrs_avb_params_entry_pack_length]) tail
  · have hA : A.general_params = [] := by
      have h := hAi
      simp +decide only [tableCount, if_true, if_false] at h
      exact List.length_eq_zero.mp h
    simp +decide only [addTableEntries, setTableImage, tableBlob, tableCount, if_true, if_false]
    congr 1
    rw [hA, List.nil_append]
    unfold imageGeneralParams
    cases hdev : c.dev
    · simp +decide only [Device.isET, if_true, if_false]
      exact parse_slices (fun x => sja1105et_general_params_entry_pack x (List.replicate SIZE_GENERAL_PARAMS_ENTRY_ET 0))
        sja1105et_general_params_entry_unpack SIZE_GENERAL_PARAMS_ENTRY_ET c.general_params
        (fun x hx => by simp [sja1105et_general_params_entry_pack_length]) tail
    · simp +decide only [Device.isET, if_true, if_false]
      exact parse_slices (fun x => sja1105et_general_params_entry_pack x (List.replicate SIZE_GENERAL_PARAMS_ENTRY_ET 0))
        sja1105et_general_params_entry_unpack SIZE_GENERAL_PARAMS_ENTRY_ET c.general_params
        (fun x hx => by simp [sja1105et_general_params_entry_pack_length]) tail
    · simp +decide only [Device.isET, if_true, if_false]
      exact parse_slices (fun x => sja1105pqrs_general_params_entry_pack x (List.replicate SIZE_GENERAL_PARAMS_ENTRY_PQRS 0))
        sja1105pqrs_general_params_entry_unpack SIZE_GENERAL_PARAMS_ENTRY_PQRS c.general_params
        (fun x hx => by simp [sja1105pqrs_general_params_entry_pack_length]) tail
    · simp +decide only [Device.isET, if_true, if_false]
      exact parse_slices (fun x => sja1105pqrs_general_params_entry_pack x (List.replicate SIZE_GENERAL_PARAMS_ENTRY_PQRS 0))
        sja1105pqrs_general_params_entry_unpack SIZE_GENERAL_PARAMS_ENTRY_PQRS c.general_params
        (fun x hx => by simp [sja1105pqrs_general_params_entry_pack_length]) tail
    · simp +decide only [Device.isET, if_true, if_false]
      exact parse_slices (fun x => sja1105pqrs_general_params_entry_pack x (List.replicate SIZE_GENERAL_PARAMS_ENTRY_PQRS 0))
        sja1105pqrs_general_params_entry_unpack SIZE_GENERAL_PARAMS_ENTRY_PQRS c.general_params
        (fun x hx => by simp [sja1105pqrs_general_params_entry_pack_length]) tail
    · simp +decide only [Device.isET, if_true, if_false]
      exact parse_slices (fun x => sja1105pqrs_general_params_entry_pack x (List.replicate SIZE_GENERAL_PARAMS_ENTRY_PQRS 0))
        sja1105pqrs_general_params_entry_unpack SIZE_GENERAL_PARAMS_ENTRY_PQRS c.general_params
        (fun x hx => by simp [sja1105pqrs_general_params_entry_pack_length]) tail
  · have hA : A.retagging = [] := by
      have h := hAi
      simp +decide only [tableCount, if_true, if_false] at h
      exact List.length_eq_zero.mp h
    simp +decide only [addTableEntries, setTableImage, tableBlob, tableCount, imageRetagging, if_true, if_false]
    congr 1
    rw [hA, List.nil_append]
    exact parse_slices (fun x => sja1105_retagging_entry_pack x (List.replicate SIZE_RETAGGING_ENTRY 0))
      sja1105_retagging_entry_unpack SIZE_RETAGGING_ENTRY c.retagging
      (fun x hx => by simp [sja1105_retagging_entry_pack_length]) tail
  · have hA : A.xmii_params = [] := by
      have h := hAi
      simp +decide only [tableCount, if_true, if_false] at h
      exact List.length_eq_zero.mp h
    simp +decide only [addTableEntries, setTableImage, tableBlob, tableCount, imageXmiiParams, if_true, if_false]
    congr 1
    rw [hA, List.nil_append]
    exact parse_slices (fun x => sja1105_xmii_params_entry_pack x (List.replicate SIZE_XMII_PARAMS_ENTRY 0))
      sja1105_xmii_params_entry_unpack SIZE_XMII_PARAMS_ENTRY c.xmii_params
      (fun x hx => by simp [sja1105_xmii_params_entry_pack_length]) tail
  · have hA : A.sgmii = [] := by
      have h := hAi
      simp +decide only [tableCount, if_true, if_false] at h
      exact List.length_eq_zero.mp h
    simp +decide only [addTableEntries, setTableImage, tableBlob, tableCount, imageSgmii, if_true, if_false]
    congr 1
    rw [hA, List.nil_append]
    exact parse_slices (fun x => sja1105_sgmii_entry_pack x (List.replicate SIZE_SGMII_ENTRY 0))
      sja1105_sgmii_entry_unpack SIZE_SGMII_ENTRY c.sgmii
      (fun x hx => by simp [sja1105_sgmii_entry_pack_length]) tail
/-! ## One block through the parse loop -/

theorem parseLoop_step (c A : StaticConfig) (i : Nat) (rest : List Nat)
    (hi : i < 21)
    (hcnt0 : tableCount c i ≠ 0)
    (hmax : tableCount c i ≤ tableMaxCount c.dev i)
    (hAi : tableCount A i = 0) :
    parseLoop c.dev A (blockBytes c i ++ rest) =
      parseLoop c.dev (setTableImage c A i) rest := by
  have hsz : tablePackedSize c.dev i ≠ 0 := by
    intro h
    rw [tablePackedSize_zero_max c.dev i h] at hmax
    omega
  have h4 : tablePackedSize c.dev i % 4 = 0 := tablePackedSize_mod4 _ _
  have hszle : tablePackedSize c.dev i ≤ 144 := tablePackedSize_le _ _
  have hmaxle : tableMaxCount c.dev i ≤ 4096 := tableMaxCount_le _ _
  have hblob : (tableBlob c i).length = tableCount c i * tablePackedSize c.dev i :=
    tableBlob_length c i hi hsz
  have hL4ge : 4 ≤ tableCount c i * tablePackedSize c.dev i := by
    have h1 : 1 * 4 ≤ tableCount c i * tablePackedSize c.dev i :=
      Nat.mul_le_mul (by omega) (by omega)
    omega
  have hL4le : tableCount c i * tablePackedSize c.dev i ≤ 589824 := by
    have h1 := Nat.mul_le_mul (show tableCount c i ≤ 4096 by omega) hszle
    omega
  have hlen4 : tableCount c i * tablePackedSize c.dev i / 4 * 4 =
      tableCount c i * tablePackedSize c.dev i := by
    obtain ⟨k, hk⟩ : ∃ k, tablePackedSize c.dev i = 4 * k :=
      ⟨tablePackedSize c.dev i / 4, by omega⟩
    have h1 : tableCount c i * (4 * k) = 4 * (tableCount c i * k) := by ring
    rw [hk, h1, Nat.mul_div_cancel_left _ (by omega : (0 : Nat) < 4)]
    ring
  have hn : (tableCount c i * tablePackedSize c.dev i + tablePackedSize c.dev i - 1) /
      tablePackedSize c.dev i = tableCount c i := by
    have h1 : tableCount c i * tablePackedSize c.dev i + tablePackedSize c.dev i - 1 =
        (tablePackedSize c.dev i - 1) + tableCount c i * tablePackedSize c.dev i := by
      omega
    rw [h1, Nat.add_mul_div_right _ _ (by omega : 0 < tablePackedSize c.dev i),
      Nat.div_eq_of_lt (by omega)]
    omega
  have hbid8 : blkIdMap.getD i 0 < 2 ^ 8 := blkIdMap_lt i hi
  have hlen24 : tableCount c i * tablePackedSize c.dev i / 4 < 2 ^ 24 := by omega
  have hH : (sja1105_table_header_pack_with_crc
      ⟨blkIdMap.getD i 0, tableCount c i * tablePackedSize c.dev i / 4, 0⟩).length = 12 :=
    table_header_pack_with_crc_length _
  have hW : (sja1105_pack (List.replicate 4 0)
      (sja1105_crc32 (tableBlob c i) (tableCount c i * tablePackedSize c.dev i))
      31 0 4).length = 4 := sja1105_pack_word_length _
  rw [blockBytes, List.append_assoc, List.append_assoc]
  have hrlen : (sja1105_table_header_pack_with_crc
        ⟨blkIdMap.getD i 0, tableCount c i * tablePackedSize c.dev i / 4, 0⟩ ++
      (tableBlob c i ++
        (sja1105_pack (List.replicate 4 0)
          (sja1105_crc32 (tableBlob c i) (tableCount c i * tablePackedSize c.dev i))
          31 0 4 ++ rest))).length =
      12 + (tableCount c i * tablePackedSize c.dev i + (4 + rest.length)) := by
    rw [List.length_append, List.length_append, List.length_append, hH, hblob, hW]
  conv_lhs => rw [parseLoop]
  rw [dif_neg (by rw [hrlen]; omega)]
  dsimp only
  rw [List.take_left' hH, table_header_read _ _ hbid8 hlen24]
  dsimp only
  rw [if_neg (show ¬ (tableCount c i * tablePackedSize c.dev i / 4 = 0) by omega),
    if_neg (by
      rw [table_header_crc_match]
      exact fun h => h rfl),
    if_neg (by rw [hrlen]; omega)]
  rw [blk_idx_of_map i hi]
  dsimp only
  rw [hlen4, hn]
  rw [if_neg (by omega), if_neg hsz, if_neg (by omega), if_neg (by omega),
    if_neg (by rw [hrlen]; omega)]
  rw [List.drop_left' hH, sja1105_crc32_agree _ _ _ (by rw [hblob]; omega)]
  rw [List.drop_left' hblob, List.take_left' hW,
    sja1105_pack_unpack_word _ (by simp) _ (sja1105_crc32_lt _ _)]
  rw [if_neg (fun h => h rfl)]
  rw [addTableEntries_blob c A i hi _ hAi]
  have hdropAll : (sja1105_table_header_pack_with_crc
        ⟨blkIdMap.getD i 0, tableCount c i * tablePackedSize c.dev i / 4, 0⟩ ++
      (tableBlob c i ++
        (sja1105_pack (List.replicate 4 0)
          (sja1105_crc32 (tableBlob c i) (tableCount c i * tablePackedSize c.dev i))
          31 0 4 ++ rest))).drop
      (12 + tableCount c i * tablePackedSize c.dev i + 4) = rest := by
    rw [show 12 + tableCount c i * tablePackedSize c.dev i + 4 =
        (sja1105_table_header_pack_with_crc
          ⟨blkIdMap.getD i 0, tableCount c i * tablePackedSize c.dev i / 4, 0⟩).length +
        ((tableBlob c i).length +
          ((sja1105_pack (List.replicate 4 0)
            (sja1105_crc32 (tableBlob c i) (tableCount c i * tablePackedSize c.dev i))
            31 0 4).length + 0)) from by rw [hH, hblob, hW]; omega]
    rw [List.drop_append, List.drop_append, List.drop_append, List.drop_zero]
  rw [hdropAll]

/-- The final header (`len = 0`) ends the loop; exact fit is checked, then
`patch_vllupformat` runs (dereferencing the first General Parameters
entry). -/
theorem parseLoop_final (d : Device) (A : StaticConfig) :
    parseLoop d A (sja1105_table_header_pack ⟨0, 0, 0xDEADBEEF⟩ (List.replicate 12 0)) =
      (if A.general_params.length = 0 then .ub
       else .ok (sja1105_static_config_patch_vllupformat A)) := by
  have hlen : (sja1105_table_header_pack ⟨0, 0, 0xDEADBEEF⟩
      (List.replicate 12 0)).length = 12 := by
    rw [table_header_pack_length_any]
    simp
  conv_lhs => rw [parseLoop]
  rw [dif_neg (by rw [hlen]; omega)]
  dsimp only
  rw [List.take_of_length_le (le_of_eq hlen)]
  have hrt : sja1105_table_header_unpack
      (sja1105_table_header_pack ⟨0, 0, 0xDEADBEEF⟩ (List.replicate 12 0)) =
      (⟨0, 0, 0xDEADBEEF⟩ : TableHeader) :=
    sja1105_table_header_roundtrip ⟨0, 0, 0xDEADBEEF⟩ (by decide)
  rw [hrt]
  dsimp only
  rw [if_pos rfl, if_neg (show ¬ ((sja1105_table_header_pack ⟨0, 0, 0xDEADBEEF⟩
      (List.replicate 12 0)).length ≠ 12) by rw [hlen]; exact fun h => h rfl)]

/-- The whole block sequence through the parse loop. -/
theorem parseLoop_blocks (c : StaticConfig) (is : List Nat) : ∀ (A : StaticConfig),
    (∀ i ∈ is, i < 21 ∧ tableCount c i ≠ 0 ∧ tableCount c i ≤ tableMaxCount c.dev i) →
    (∀ i ∈ is, tableCount A i = 0) →
    is.Nodup →
    parseLoop c.dev A (is.flatMap (blockBytes c) ++
        sja1105_table_header_pack ⟨0, 0, 0xDEADBEEF⟩ (List.replicate 12 0)) =
      (if (is.foldl (setTableImage c) A).general_params.length = 0 then .ub
       else .ok (sja1105_static_config_patch_vllupformat
         (is.foldl (setTableImage c) A))) := by
  induction is with
  | nil =>
    intro A _ _ _
    rw [List.flatMap_nil, List.nil_append, List.foldl_nil]
    exact parseLoop_final c.dev A
  | cons i rest ih =>
    intro A hmem hA hnd
    obtain ⟨hi, hcnt0, hmax⟩ := hmem i (by simp)
    rw [List.flatMap_cons, List.append_assoc,
      parseLoop_step c A i _ hi hcnt0 hmax (hA i (by simp)),
      List.foldl_cons]
    exact ih (setTableImage c A i) (fun j hj => hmem j (by simp [hj]))
      (fun j hj => by
        rw [tableCount_setTableImage_ne c A i j (hmem j (by simp [hj])).1
          (fun he => absurd (he ▸ hj) (List.nodup_cons.mp hnd).1)]
        exact hA j (by simp [hj]))
      (List.nodup_cons.mp hnd).2

theorem blockBytes_length (c : StaticConfig) (i : Nat) (hi : i < 21)
    (hsz : tablePackedSize c.dev i ≠ 0) :
    (blockBytes c i).length = 16 + tablePackedSize c.dev i * tableCount c i := by
  rw [blockBytes, List.length_append, List.length_append,
    table_header_pack_with_crc_length, tableBlob_length c i hi hsz,
    sja1105_pack_word_length]
  ring

theorem filter_blocks_length (c : StaticConfig) (l : List Nat)
    (h : ∀ i ∈ l, tableCount c i ≠ 0 →
      (blockBytes c i).length = 16 + tablePackedSize c.dev i * tableCount c i) :
    ((l.filter (fun i => decide (tableCount c i ≠ 0))).flatMap (blockBytes c)).length =
      (l.map (fun i => tablePackedSize c.dev i * tableCount c i)).sum +
        16 * (l.filter (fun i => decide (tableCount c i ≠ 0))).length := by
  induction l with
  | nil => rfl
  | cons i rest ih =>
    by_cases hc : tableCount c i ≠ 0
    · rw [List.filter_cons_of_pos (by simpa using hc), List.flatMap_cons,
        List.length_append, h i (by simp) hc, List.map_cons, List.sum_cons,
        List.length_cons, ih (fun j hj hcj => h j (by simp [hj]) hcj)]
      ring
    · rw [List.filter_cons_of_neg (by simpa using hc), List.map_cons, List.sum_cons,
        ih (fun j hj hcj => h j (by simp [hj]) hcj)]
      have h0 : tableCount c i = 0 := by omega
      rw [h0]
      ring
/-! ## Folding the parse loop's table writes into the whole-config image -/

theorem ite_mem_cons {α : Type} (i k : Nat) (rest : List Nat) (img a : α) :
    (if k ∈ rest then img else if i = k then img else a) =
      (if k ∈ i :: rest then img else a) := by
  by_cases h1 : k ∈ rest
  · rw [if_pos h1, if_pos (List.mem_cons_of_mem i h1)]
  · rw [if_neg h1]
    by_cases h2 : i = k
    · rw [if_pos h2, if_pos (show k ∈ i :: rest by
        rw [← h2]
        exact List.mem_cons_self i rest)]
    · rw [if_neg h2, if_neg (by
        simp only [List.mem_cons]
        rintro (h | h)
        exacts [h2 h.symm, h1 h])]

theorem map_congr_mem {α β : Type} (l : List α) (f g : α → β)
    (h : ∀ x ∈ l, f x = g x) : l.map f = l.map g := by
  induction l with
  | nil => rfl
  | cons x rest ih =>
    rw [List.map_cons, List.map_cons, h x (by simp),
      ih (fun y hy => h y (by simp [hy]))]

theorem map_self_of_mem {α : Type} (l : List α) (f : α → α)
    (h : ∀ x ∈ l, f x = x) : l.map f = l := by
  induction l with
  | nil => rfl
  | cons x rest ih =>
    rw [List.map_cons, h x (by simp), ih (fun y hy => h y (by simp [hy]))]

/-- The parse loop's accumulated table writes, as one record: a table is
the image of `c`'s table exactly when its index was folded over. -/
theorem foldl_setTableImage (c : StaticConfig) (is : List Nat) :
    ∀ (A : StaticConfig), is.foldl (setTableImage c) A =
      { A with
        schedule := if (0 : Nat) ∈ is then imageSchedule c else A.schedule,
        schedule_entry_points := if (1 : Nat) ∈ is then imageScheduleEntryPoints c else A.schedule_entry_points,
        vl_lookup := if (2 : Nat) ∈ is then imageVlLookup c else A.vl_lookup,
        vl_policing := if (3 : Nat) ∈ is then imageVlPolicing c else A.vl_policing,
        vl_forwarding := if (4 : Nat) ∈ is then imageVlForwarding c else A.vl_forwarding,
        l2_lookup := if (5 : Nat) ∈ is then imageL2Lookup c else A.l2_lookup,
        l2_policing := if (6 : Nat) ∈ is then imageL2Policing c else A.l2_policing,
        vlan_lookup := if (7 : Nat) ∈ is then imageVlanLookup c else A.vlan_lookup,
        l2_forwarding := if (8 : Nat) ∈ is then imageL2Forwarding c else A.l2_forwarding,
        mac_config := if (9 : Nat) ∈ is then imageMacConfig c else A.mac_config,
        schedule_params := if (10 : Nat) ∈ is then imageScheduleParams c else A.schedule_params,
        schedule_entry_points_params := if (11 : Nat) ∈ is then imageScheduleEntryPointsParams c else A.schedule_entry_points_params,
        vl_forwarding_params := if (12 : Nat) ∈ is then imageVlForwardingParams c else A.vl_forwarding_params,
        l2_lookup_params := if (13 : Nat) ∈ is then imageL2LookupParams c else A.l2_lookup_params,
        l2_forwarding_params := if (14 : Nat) ∈ is then imageL2ForwardingParams c else A.l2_forwarding_params,
        clk_sync_params := if (15 : Nat) ∈ is then imageClkSyncParams c else A.clk_sync_params,
        avb_params := if (16 : Nat) ∈ is then imageAvbParams c else A.avb_params,
        general_params := if (17 : Nat) ∈ is then imageGeneralParams c else A.general_params,
        retagging := if (18 : Nat) ∈ is then imageRetagging c else A.retagging,
        xmii_params := if (19 : Nat) ∈ is then imageXmiiParams c else A.xmii_params,
        sgmii := if (20 : Nat) ∈ is then imageSgmii c else A.sgmii } := by
  induction is with
  | nil =>
    intro A
    rw [List.foldl_nil,
      if_neg (List.not_mem_nil (0 : Nat)),
      if_neg (List.not_mem_nil (1 : Nat)),
      if_neg (List.not_mem_nil (2 : Nat)),
      if_neg (List.not_mem_nil (3 : Nat)),
      if_neg (List.not_mem_nil (4 : Nat)),
      if_neg (List.not_mem_nil (5 : Nat)),
      if_neg (List.not_mem_nil (6 : Nat)),
      if_neg (List.not_mem_nil (7 : Nat)),
      if_neg (List.not_mem_nil (8 : Nat)),
      if_neg (List.not_mem_nil (9 : Nat)),
      if_neg (List.not_mem_nil (10 : Nat)),
      if_neg (List.not_mem_nil (11 : Nat)),
      if_neg (List.not_mem_nil (12 : Nat)),
      if_neg (List.not_mem_nil (13 : Nat)),
      if_neg (List.not_mem_nil (14 : Nat)),
      if_neg (List.not_mem_nil (15 : Nat)),
      if_neg (List.not_mem_nil (16 : Nat)),
      if_neg (List.not_mem_nil (17 : Nat)),
      if_neg (List.not_mem_nil (18 : Nat)),
      if_neg (List.not_mem_nil (19 : Nat)),
      if_neg (List.not_mem_nil (20 : Nat))]
  | cons i rest ih =>
    intro A
    rw [List.foldl_cons, ih]
    rw [StaticConfig.mk.injEq]
    refine ⟨rfl, rfl, ?_, ?_, ?_, ?_, ?_, ?_, ?_, ?_, ?_, ?_, ?_, ?_, ?_, ?_, ?_, ?_, ?_, ?_, ?_, ?_, ?_⟩
    all_goals
      dsimp only [setTableImage]
    all_goals
      exact ite_mem_cons i _ rest _ _

/-- Folding all non-empty tables' writes over a fresh config yields the
whole-config image (with the device id read from the buffer). -/
theorem foldl_blocks_configImage (c : StaticConfig) (v : Nat) :
    ((List.range BLK_IDX_MAX).filter
        (fun i => decide (tableCount c i ≠ 0))).foldl (setTableImage c)
      { zeroedStaticConfig c.dev with device_id := v } =
      { configImage c with device_id := v } := by
  rw [foldl_setTableImage]
  rw [StaticConfig.mk.injEq]
  refine ⟨rfl, rfl, ?_, ?_, ?_, ?_, ?_, ?_, ?_, ?_, ?_, ?_, ?_, ?_, ?_, ?_, ?_, ?_, ?_, ?_, ?_, ?_, ?_⟩
  all_goals
    dsimp only [configImage, zeroedStaticConfig]
  · by_cases hX : c.schedule = []
    · have himg : imageSchedule c = [] := by
        simp only [imageSchedule, hX, List.map_nil]
      rw [himg, ite_self]
    · have hlen : tableCount c 0 ≠ 0 := by
        simp +decide only [ne_eq, tableCount, if_true, if_false]
        exact fun h => hX (List.length_eq_zero.mp h)
      rw [if_pos (by
        rw [List.mem_filter]
        exact ⟨by decide, by simpa using hlen⟩)]
  · by_cases hX : c.schedule_entry_points = []
    · have himg : imageScheduleEntryPoints c = [] := by
        simp only [imageScheduleEntryPoints, hX, List.map_nil]
      rw [himg, ite_self]
    · have hlen : tableCount c 1 ≠ 0 := by
        simp +decide only [ne_eq, tableCount, if_true, if_false]
        exact fun h => hX (List.length_eq_zero.mp h)
      rw [if_pos (by
        rw [List.mem_filter]
        exact ⟨by decide, by simpa using hlen⟩)]
  · by_cases hX : c.vl_lookup = []
    · have himg : imageVlLookup c = [] := by
        simp only [imageVlLookup, hX, List.map_nil]
      rw [himg, ite_self]
    · have hlen : tableCount c 2 ≠ 0 := by
        simp +decide only [ne_eq, tableCount, if_true, if_false]
        exact fun h => hX (List.length_eq_zero.mp h)
      rw [if_pos (by
        rw [List.mem_filter]
        exact ⟨by decide, by simpa using hlen⟩)]
  · by_cases hX : c.vl_policing = []
    · have himg : imageVlPolicing c = [] := by
        simp only [imageVlPolicing, hX, List.map_nil]
      rw [himg, ite_self]
    · have hlen : tableCount c 3 ≠ 0 := by
        simp +decide only [ne_eq, tableCount, if_true, if_false]
        exact fun h => hX (List.length_eq_zero.mp h)
      rw [if_pos (by
        rw [List.mem_filter]
        exact ⟨by decide, by simpa using hlen⟩)]
  · by_cases hX : c.vl_forwarding = []
    · have himg : imageVlForwarding c = [] := by
        simp only [imageVlForwarding, hX, List.map_nil]
      rw [himg, ite_self]
    · have hlen : tableCount c 4 ≠ 0 := by
        simp +decide only [ne_eq, tableCount, if_true, if_false]
        exact fun h => hX (List.length_eq_zero.mp h)
      rw [if_pos (by
        rw [List.mem_filter]
        exact ⟨by decide, by simpa using hlen⟩)]
  · by_cases hX : c.l2_lookup = []
    · have himg : imageL2Lookup c = [] := by
        simp only [imageL2Lookup, hX, List.map_nil, ite_self]
      rw [himg, ite_self]
    · have hlen : tableCount c 5 ≠ 0 := by
        simp +decide only [ne_eq, tableCount, if_true, if_false]
        exact fun h => hX (List.length_eq_zero.mp h)
      rw [if_pos (by
        rw [List.mem_filter]
        exact ⟨by decide, by simpa using hlen⟩)]
  · by_cases hX : c.l2_policing = []
    · have himg : imageL2Policing c = [] := by
        simp only [imageL2Policing, hX, List.map_nil]
      rw [himg, ite_self]
    · have hlen : tableCount c 6 ≠ 0 := by
        simp +decide only [ne_eq, tableCount, if_true, if_false]
        exact fun h => hX (List.length_eq_zero.mp h)
      rw [if_pos (by
        rw [List.mem_filter]
        exact ⟨by decide, by simpa using hlen⟩)]
  · by_cases hX : c.vlan_lookup = []
    · have himg : imageVlanLookup c = [] := by
        simp only [imageVlanLookup, hX, List.map_nil]
      rw [himg, ite_self]
    · have hlen : tableCount c 7 ≠ 0 := by
        simp +decide only [ne_eq, tableCount, if_true, if_false]
        exact fun h => hX (List.length_eq_zero.mp h)
      rw [if_pos (by
        rw [List.mem_filter]
        exact ⟨by decide, by simpa using hlen⟩)]
  · by_cases hX : c.l2_forwarding = []
    · have himg : imageL2Forwarding c = [] := by
        simp only [imageL2Forwarding, hX, List.map_nil]
      rw [himg, ite_self]
    · have hlen : tableCount c 8 ≠ 0 := by
        simp +decide only [ne_eq, tableCount, if_true, if_false]
        exact fun h => hX (List.length_eq_zero.mp h)
      rw [if_pos (by
        rw [List.mem_filter]
        exact ⟨by decide, by simpa using hlen⟩)]
  · by_cases hX : c.mac_config = []
    · have himg : imageMacConfig c = [] := by
        simp only [imageMacConfig, hX, List.map_nil, ite_self]
      rw [himg, ite_self]
    · have hlen : tableCount c 9 ≠ 0 := by
        simp +decide only [ne_eq, tableCount, if_true, if_false]
        exact fun h => hX (List.length_eq_zero.mp h)
      rw [if_pos (by
        rw [List.mem_filter]
        exact ⟨by decide, by simpa using hlen⟩)]
  · by_cases hX : c.schedule_params = []
    · have himg : imageScheduleParams c = [] := by
        simp only [imageScheduleParams, hX, List.map_nil]
      rw [himg, ite_self]
    · have hlen : tableCount c 10 ≠ 0 := by
        simp +decide only [ne_eq, tableCount, if_true, if_false]
        exact fun h => hX (List.length_eq_zero.mp h)
      rw [if_pos (by
        rw [List.mem_filter]
        exact ⟨by decide, by simpa using hlen⟩)]
  · by_cases hX : c.schedule_entry_points_params = []
    · have himg : imageScheduleEntryPointsParams c = [] := by
        simp only [imageScheduleEntryPointsParams, hX, List.map_nil]
      rw [himg, ite_self]
    · have hlen : tableCount c 11 ≠ 0 := by
        simp +decide only [ne_eq, tableCount, if_true, if_false]
        exact fun h => hX (List.length_eq_zero.mp h)
      rw [if_pos (by
        rw [List.mem_filter]
        exact ⟨by decide, by simpa using hlen⟩)]
  · by_cases hX : c.vl_forwarding_params = []
    · have himg : imageVlForwardingParams c = [] := by
        simp only [imageVlForwardingParams, hX, List.map_nil]
      rw [himg, ite_self]
    · have hlen : tableCount c 12 ≠ 0 := by
        simp +decide only [ne_eq, tableCount, if_true, if_false]
        exact fun h => hX (List.length_eq_zero.mp h)
      rw [if_pos (by
        rw [List.mem_filter]
        exact ⟨by decide, by simpa using hlen⟩)]
  · by_cases hX : c.l2_lookup_params = []
    · have himg : imageL2LookupParams c = [] := by
        simp only [imageL2LookupParams, hX, List.map_nil, ite_self]
      rw [himg, ite_self]
    · have hlen : tableCount c 13 ≠ 0 := by
        simp +decide only [ne_eq, tableCount, if_true, if_false]
        exact fun h => hX (List.length_eq_zero.mp h)
      rw [if_pos (by
        rw [List.mem_filter]
        exact ⟨by decide, by simpa using hlen⟩)]
  · by_cases hX : c.l2_forwarding_params = []
    · have himg : imageL2ForwardingParams c = [] := by
        simp only [imageL2ForwardingParams, hX, List.map_nil]
      rw [himg, ite_self]
    · have hlen : tableCount c 14 ≠ 0 := by
        simp +decide only [ne_eq, tableCount, if_true, if_false]
        exact fun h => hX (List.length_eq_zero.mp h)
      rw [if_pos (by
        rw [List.mem_filter]
        exact ⟨by decide, by simpa using hlen⟩)]
  · by_cases hX : c.clk_sync_params = []
    · have himg : imageClkSyncParams c = [] := by
        simp only [imageClkSyncParams, hX, List.map_nil]
      rw [himg, ite_self]
    · have hlen : tableCount c 15 ≠ 0 := by
        simp +decide only [ne_eq, tableCount, if_true, if_false]
        exact fun h => hX (List.length_eq_zero.mp h)
      rw [if_pos (by
        rw [List.mem_filter]
        exact ⟨by decide, by simpa using hlen⟩)]
  · by_cases hX : c.avb_params = []
    · have himg : imageAvbParams c = [] := by
        simp only [imageAvbParams, hX, List.map_nil, ite_self]
      rw [himg, ite_self]
    · have hlen : tableCount c 16 ≠ 0 := by
        simp +decide only [ne_eq, tableCount, if_true, if_false]
        exact fun h => hX (List.length_eq_zero.mp h)
      rw [if_pos (by
        rw [List.mem_filter]
        exact ⟨by decide, by simpa using hlen⟩)]
  · by_cases hX : c.general_params = []
    · have himg : imageGeneralParams c = [] := by
        simp only [imageGeneralParams, hX, List.map_nil, ite_self]
      rw [himg, ite_self]
    · have hlen : tableCount c 17 ≠ 0 := by
        simp +decide only [ne_eq, tableCount, if_true, if_false]
        exact fun h => hX (List.length_eq_zero.mp h)
      rw [if_pos (by
        rw [List.mem_filter]
        exact ⟨by decide, by simpa using hlen⟩)]
  · by_cases hX : c.retagging = []
    · have himg : imageRetagging c = [] := by
        simp only [imageRetagging, hX, List.map_nil]
      rw [himg, ite_self]
    · have hlen : tableCount c 18 ≠ 0 := by
        simp +decide only [ne_eq, tableCount, if_true, if_false]
        exact fun h => hX (List.length_eq_zero.mp h)
      rw [if_pos (by
        rw [List.mem_filter]
        exact ⟨by decide, by simpa using hlen⟩)]
  · by_cases hX : c.xmii_params = []
    · have himg : imageXmiiParams c = [] := by
        simp only [imageXmiiParams, hX, List.map_nil]
      rw [himg, ite_self]
    · have hlen : tableCount c 19 ≠ 0 := by
        simp +decide only [ne_eq, tableCount, if_true, if_false]
        exact fun h => hX (List.length_eq_zero.mp h)
      rw [if_pos (by
        rw [List.mem_filter]
        exact ⟨by decide, by simpa using hlen⟩)]
  · by_cases hX : c.sgmii = []
    · have himg : imageSgmii c = [] := by
        simp only [imageSgmii, hX, List.map_nil]
      rw [himg, ite_self]
    · have hlen : tableCount c 20 ≠ 0 := by
        simp +decide only [ne_eq, tableCount, if_true, if_false]
        exact fun h => hX (List.length_eq_zero.mp h)
      rw [if_pos (by
        rw [List.mem_filter]
        exact ⟨by decide, by simpa using hlen⟩)]

theorem imageGeneralParams_length (c : StaticConfig) :
    (imageGeneralParams c).length = c.general_params.length := by
  unfold imageGeneralParams
  split <;> rw [List.length_map]

/-- `sja1105_static_config_pack` followed by `sja1105_static_config_unpack`:
for a config whose device id is valid and whose table counts respect the
device's `max_entry_count` limits, packing succeeds, fills exactly
`sja1105_static_config_get_length` bytes, and unpacking the result yields
the per-entry pack-then-unpack image of the config, with `vllupformat`
patched into every VL Lookup entry. -/
theorem static_config_pack_unpack (c : StaticConfig)
    (hdev : DEVICE_ID_VALID c.device_id) (h32 : c.device_id < 2 ^ 32)
    (hcnt : ∀ i, i < 21 → tableCount c i ≤ tableMaxCount c.dev i)
    (hgp : c.general_params ≠ []) :
    ∃ B, sja1105_static_config_pack c = some B ∧
      B.length = sja1105_static_config_get_length c ∧
      sja1105_static_config_unpack c.dev B =
        .ok (sja1105_static_config_patch_vllupformat (configImage c)) := by
  have hsz : ∀ i, i < 21 → tableCount c i ≠ 0 → tablePackedSize c.dev i ≠ 0 := by
    intro i hi hc0 h0
    have hm := hcnt i hi
    rw [tablePackedSize_zero_max c.dev i h0] at hm
    omega
  have hguard : ¬ ∃ i ∈ List.range BLK_IDX_MAX,
      tableCount c i ≠ 0 ∧ tablePackedSize c.dev i = 0 := by
    rintro ⟨i, hi, hc0, h0⟩
    exact hsz i (List.mem_range.mp hi) hc0 h0
  have hdv : (sja1105_pack (List.replicate 4 0) c.device_id 31 0 4).length = 4 :=
    sja1105_pack_word_length _
  have hblocks : (((List.range BLK_IDX_MAX).filter
          (fun i => decide (tableCount c i ≠ 0))).flatMap
        (fun i => blockBytes c i)).length =
      ((List.range BLK_IDX_MAX).map
        (fun i => tablePackedSize c.dev i * tableCount c i)).sum +
        16 * ((List.range BLK_IDX_MAX).filter
          (fun i => decide (tableCount c i ≠ 0))).length :=
    filter_blocks_length c _ (fun i hi hc0 =>
      blockBytes_length c i (List.mem_range.mp hi) (hsz i (List.mem_range.mp hi) hc0))
  have hfinal : (sja1105_table_header_pack ⟨0, 0, 0xDEADBEEF⟩
      (List.replicate 12 0)).length = 12 := by
    rw [table_header_pack_length_any]
    simp
  refine ⟨sja1105_pack (List.replicate 4 0) c.device_id 31 0 4 ++
      (((List.range BLK_IDX_MAX).filter
          (fun i => decide (tableCount c i ≠ 0))).flatMap
        (fun i => blockBytes c i)) ++
      sja1105_table_header_pack ⟨0, 0, 0xDEADBEEF⟩ (List.replicate 12 0), ?_, ?_, ?_⟩
  · unfold sja1105_static_config_pack
    rw [if_neg hguard]
  · rw [List.length_append, List.length_append, hdv, hblocks, hfinal]
    simp only [sja1105_static_config_get_length]
    rw [show SIZE_SJA1105_DEVICE_ID = 4 from rfl, show SIZE_TABLE_HEADER = 12 from rfl]
    omega
  · rw [List.append_assoc]
    unfold sja1105_static_config_unpack
    rw [if_neg (by
      rw [List.length_append, hdv]
      omega)]
    dsimp only
    rw [List.take_left' hdv,
      sja1105_pack_unpack_word (List.replicate 4 0) (by simp) c.device_id h32,
      if_neg (not_not_intro hdev), List.drop_left' hdv]
    rw [show ((List.range BLK_IDX_MAX).filter
          (fun i => decide (tableCount c i ≠ 0))).flatMap
        (fun i => blockBytes c i) =
        ((List.range BLK_IDX_MAX).filter
          (fun i => decide (tableCount c i ≠ 0))).flatMap (blockBytes c) from rfl]
    rw [parseLoop_blocks c
      ((List.range BLK_IDX_MAX).filter (fun i => decide (tableCount c i ≠ 0)))
      { zeroedStaticConfig c.dev with device_id := c.device_id }
      (fun i hi => by
        rw [List.mem_filter] at hi
        obtain ⟨hr, hp⟩ := hi
        have hlt : i < 21 := List.mem_range.mp hr
        exact ⟨hlt, of_decide_eq_true hp, hcnt i hlt⟩)
      (fun i hi => by
        rw [List.mem_filter] at hi
        exact tableCount_mk_zero c.dev c.device_id i (List.mem_range.mp hi.1))
      (List.Nodup.filter _ (List.nodup_range BLK_IDX_MAX))]
    rw [foldl_blocks_configImage c c.device_id]
    rw [if_neg (show ¬ (({ configImage c with device_id := c.device_id } :
        StaticConfig).general_params.length = 0) from by
      show ¬ ((imageGeneralParams c).length = 0)
      rw [imageGeneralParams_length]
      exact fun h => hgp (List.length_eq_zero.mp h))]
    rfl
/-! ## Canonical configurations: the parse image is the identity -/

theorem imageSchedule_eq_self (c : StaticConfig)
    (h : ∀ e ∈ c.schedule, sja1105_schedule_entry_canonical e) :
    imageSchedule c = c.schedule := by
  unfold imageSchedule
  exact map_self_of_mem _ _ (fun x hx => sja1105_schedule_entry_roundtrip x (h x hx))

theorem imageScheduleEntryPoints_eq_self (c : StaticConfig)
    (h : ∀ e ∈ c.schedule_entry_points, sja1105_schedule_entry_points_entry_canonical e) :
    imageScheduleEntryPoints c = c.schedule_entry_points := by
  unfold imageScheduleEntryPoints
  exact map_self_of_mem _ _ (fun x hx => sja1105_schedule_entry_points_entry_roundtrip x (h x hx))

/-- The VL Lookup image: every entry round-trips except `format`, which
the codec brings back as 0 (to be patched from General Parameters). -/
theorem imageVlLookup_format0 (c : StaticConfig)
    (h : ∀ e ∈ c.vl_lookup, sja1105_vl_lookup_entry_canonical e) :
    imageVlLookup c = c.vl_lookup.map (fun x =>
      ⟨0, x.port, x.destports, x.iscritical, x.macaddr, x.vlanid, x.vlanprior⟩) := by
  unfold imageVlLookup
  exact map_congr_mem _ _ _
    (fun x hx => sja1105_vl_lookup_entry_roundtrip x (h x hx))

theorem imageVlPolicing_eq_self (c : StaticConfig)
    (h : ∀ e ∈ c.vl_policing, sja1105_vl_policing_entry_canonical e) :
    imageVlPolicing c = c.vl_policing := by
  unfold imageVlPolicing
  exact map_self_of_mem _ _ (fun x hx => sja1105_vl_policing_entry_roundtrip x (h x hx))

theorem imageVlForwarding_eq_self (c : StaticConfig)
    (h : ∀ e ∈ c.vl_forwarding, sja1105_vl_forwarding_entry_canonical e) :
    imageVlForwarding c = c.vl_forwarding := by
  unfold imageVlForwarding
  exact map_self_of_mem _ _ (fun x hx => sja1105_vl_forwarding_entry_roundtrip x (h x hx))

theorem imageL2Lookup_eq_self (c : StaticConfig)
    (het : c.dev.isET = true → ∀ e ∈ c.l2_lookup, sja1105et_l2_lookup_entry_canonical e)
    (hpq : c.dev.isET = false → ∀ e ∈ c.l2_lookup, sja1105pqrs_l2_lookup_entry_canonical e) :
    imageL2Lookup c = c.l2_lookup := by
  unfold imageL2Lookup
  cases hET : c.dev.isET
  · rw [if_neg (by simp)]
    exact map_self_of_mem _ _ (fun x hx => sja1105pqrs_l2_lookup_entry_roundtrip x (hpq hET x hx))
  · rw [if_pos rfl]
    exact map_self_of_mem _ _ (fun x hx => sja1105et_l2_lookup_entry_roundtrip x (het hET x hx))

theorem imageL2Policing_eq_self (c : StaticConfig)
    (h : ∀ e ∈ c.l2_policing, sja1105_l2_policing_entry_canonical e) :
    imageL2Policing c = c.l2_policing := by
  unfold imageL2Policing
  exact map_self_of_mem _ _ (fun x hx => sja1105_l2_policing_entry_roundtrip x (h x hx))

theorem imageVlanLookup_eq_self (c : StaticConfig)
    (h : ∀ e ∈ c.vlan_lookup, sja1105_vlan_lookup_entry_canonical e) :
    imageVlanLookup c = c.vlan_lookup := by
  unfold imageVlanLookup
  exact map_self_of_mem _ _ (fun x hx => sja1105_vlan_lookup_entry_roundtrip x (h x hx))

theorem imageL2Forwarding_eq_self (c : StaticConfig)
    (h : ∀ e ∈ c.l2_forwarding, sja1105_l2_forwarding_entry_canonical e) :
    imageL2Forwarding c = c.l2_forwarding := by
  unfold imageL2Forwarding
  exact map_self_of_mem _ _ (fun x hx => sja1105_l2_forwarding_entry_roundtrip x (h x hx))

theorem imageMacConfig_eq_self (c : StaticConfig)
    (het : c.dev.isET = true → ∀ e ∈ c.mac_config, sja1105et_mac_config_entry_canonical e)
    (hpq : c.dev.isET = false → ∀ e ∈ c.mac_config, sja1105pqrs_mac_config_entry_canonical e) :
    imageMacConfig c = c.mac_config := by
  unfold imageMacConfig
  cases hET : c.dev.isET
  · rw [if_neg (by simp)]
    exact map_self_of_mem _ _ (fun x hx => sja1105pqrs_mac_config_entry_roundtrip x (hpq hET x hx))
  · rw [if_pos rfl]
    exact map_self_of_mem _ _ (fun x hx => sja1105et_mac_config_entry_roundtrip x (het hET x hx))

theorem imageScheduleParams_eq_self (c : StaticConfig)
    (h : ∀ e ∈ c.schedule_params, sja1105_schedule_params_entry_canonical e) :
    imageScheduleParams c = c.schedule_params := by
  unfold imageScheduleParams
  exact map_self_of_mem _ _ (fun x hx => sja1105_schedule_params_entry_roundtrip x (h x hx))

theorem imageScheduleEntryPointsParams_eq_self (c : StaticConfig)
    (h : ∀ e ∈ c.schedule_entry_points_params, sja1105_schedule_entry_points_params_entry_canonical e) :
    imageScheduleEntryPointsParams c = c.schedule_entry_points_params := by
  unfold imageScheduleEntryPointsParams
  exact map_self_of_mem _ _ (fun x hx => sja1105_schedule_entry_points_params_entry_roundtrip x (h x hx))

theorem imageVlForwardingParams_eq_self (c : StaticConfig)
    (h : ∀ e ∈ c.vl_forwarding_params, sja1105_vl_forwarding_params_entry_canonical e) :
    imageVlForwardingParams c = c.vl_forwarding_params := by
  unfold imageVlForwardingParams
  exact map_self_of_mem _ _ (fun x hx => sja1105_vl_forwarding_params_entry_roundtrip x (h x hx))

theorem imageL2LookupParams_eq_self (c : StaticConfig)
    (het : c.dev.isET = true → ∀ e ∈ c.l2_lookup_params, sja1105et_l2_lookup_params_entry_canonical e)
    (hpq : c.dev.isET = false → ∀ e ∈ c.l2_lookup_params, sja1105pqrs_l2_lookup_params_entry_canonical e) :
    imageL2LookupParams c = c.l2_lookup_params := by
  unfold imageL2LookupParams
  cases hET : c.dev.isET
  · rw [if_neg (by simp)]
    exact map_self_of_mem _ _ (fun x hx => sja1105pqrs_l2_lookup_params_entry_roundtrip x (hpq hET x hx))
  · rw [if_pos rfl]
    exact map_self_of_mem _ _ (fun x hx => sja1105et_l2_lookup_params_entry_roundtrip x (het hET x hx))

theorem imageL2ForwardingParams_eq_self (c : StaticConfig)
    (h : ∀ e ∈ c.l2_forwarding_params, sja1105_l2_forwarding_params_entry_canonical e) :
    imageL2ForwardingParams c = c.l2_forwarding_params := by
  unfold imageL2ForwardingParams
  exact map_self_of_mem _ _ (fun x hx => sja1105_l2_forwarding_params_entry_roundtrip x (h x hx))

theorem imageClkSyncParams_eq_self (c : StaticConfig)
    (h : ∀ e ∈ c.clk_sync_params, sja1105_clk_sync_params_entry_canonical e) :
    imageClkSyncParams c = c.clk_sync_params := by
  unfold imageClkSyncParams
  exact map_self_of_mem _ _ (fun x hx => sja1105_clk_sync_params_entry_roundtrip x (h x hx))

theorem imageAvbParams_eq_self (c : StaticConfig)
    (het : c.dev.isET = true → ∀ e ∈ c.avb_params, sja1105et_avb_params_entry_canonical e)
    (hpq : c.dev.isET = false → ∀ e ∈ c.avb_params, sja1105pqrs_avb_params_entry_canonical e) :
    imageAvbParams c = c.avb_params := by
  unfold imageAvbParams
  cases hET : c.dev.isET
  · rw [if_neg (by simp)]
    exact map_self_of_mem _ _ (fun x hx => sja1105pqrs_avb_params_entry_roundtrip x (hpq hET x hx))
  · rw [if_pos rfl]
    exact map_self_of_mem _ _ (fun x hx => sja1105et_avb_params_entry_roundtrip x (het hET x hx))

theorem imageGeneralParams_eq_self (c : StaticConfig)
    (het : c.dev.isET = true → ∀ e ∈ c.general_params, sja1105et_general_params_entry_canonical e)
    (hpq : c.dev.isET = false → ∀ e ∈ c.general_params, sja1105pqrs_general_params_entry_canonical e) :
    imageGeneralParams c = c.general_params := by
  unfold imageGeneralParams
  cases hET : c.dev.isET
  · rw [if_neg (by simp)]
    exact map_self_of_mem _ _ (fun x hx => sja1105pqrs_general_params_entry_roundtrip x (hpq hET x hx))
  · rw [if_pos rfl]
    exact map_self_of_mem _ _ (fun x hx => sja1105et_general_params_entry_roundtrip x (het hET x hx))

theorem imageRetagging_eq_self (c : StaticConfig)
    (h : ∀ e ∈ c.retagging, sja1105_retagging_entry_canonical e) :
    imageRetagging c = c.retagging := by
  unfold imageRetagging
  exact map_self_of_mem _ _ (fun x hx => sja1105_retagging_entry_roundtrip x (h x hx))

theorem imageXmiiParams_eq_self (c : StaticConfig)
    (h : ∀ e ∈ c.xmii_params, sja1105_xmii_params_entry_canonical e) :
    imageXmiiParams c = c.xmii_params := by
  unfold imageXmiiParams
  exact map_self_of_mem _ _ (fun x hx => sja1105_xmii_params_entry_roundtrip x (h x hx))

theorem imageSgmii_eq_self (c : StaticConfig)
    (h : ∀ e ∈ c.sgmii, sja1105_sgmii_entry_canonical e) :
    imageSgmii c = c.sgmii := by
  unfold imageSgmii
  exact map_self_of_mem _ _ (fun x hx => sja1105_sgmii_entry_roundtrip x (h x hx))

/-- A configuration all of whose entries are canonical for the codec the
device will use for them: every field fits its packed width and fields
the codec does not pack (or packs conditionally) are zero. -/
def canonicalStaticConfig (c : StaticConfig) : Prop :=
  (∀ e ∈ c.schedule, sja1105_schedule_entry_canonical e) ∧
  (∀ e ∈ c.schedule_entry_points, sja1105_schedule_entry_points_entry_canonical e) ∧
  (∀ e ∈ c.vl_lookup, sja1105_vl_lookup_entry_canonical e) ∧
  (∀ e ∈ c.vl_policing, sja1105_vl_policing_entry_canonical e) ∧
  (∀ e ∈ c.vl_forwarding, sja1105_vl_forwarding_entry_canonical e) ∧
  (c.dev.isET = true → ∀ e ∈ c.l2_lookup, sja1105et_l2_lookup_entry_canonical e) ∧
  (c.dev.isET = false → ∀ e ∈ c.l2_lookup, sja1105pqrs_l2_lookup_entry_canonical e) ∧
  (∀ e ∈ c.l2_policing, sja1105_l2_policing_entry_canonical e) ∧
  (∀ e ∈ c.vlan_lookup, sja1105_vlan_lookup_entry_canonical e) ∧
  (∀ e ∈ c.l2_forwarding, sja1105_l2_forwarding_entry_canonical e) ∧
  (c.dev.isET = true → ∀ e ∈ c.mac_config, sja1105et_mac_config_entry_canonical e) ∧
  (c.dev.isET = false → ∀ e ∈ c.mac_config, sja1105pqrs_mac_config_entry_canonical e) ∧
  (∀ e ∈ c.schedule_params, sja1105_schedule_params_entry_canonical e) ∧
  (∀ e ∈ c.schedule_entry_points_params, sja1105_schedule_entry_points_params_entry_canonical e) ∧
  (∀ e ∈ c.vl_forwarding_params, sja1105_vl_forwarding_params_entry_canonical e) ∧
  (c.dev.isET = true → ∀ e ∈ c.l2_lookup_params, sja1105et_l2_lookup_params_entry_canonical e) ∧
  (c.dev.isET = false → ∀ e ∈ c.l2_lookup_params, sja1105pqrs_l2_lookup_params_entry_canonical e) ∧
  (∀ e ∈ c.l2_forwarding_params, sja1105_l2_forwarding_params_entry_canonical e) ∧
  (∀ e ∈ c.clk_sync_params, sja1105_clk_sync_params_entry_canonical e) ∧
  (c.dev.isET = true → ∀ e ∈ c.avb_params, sja1105et_avb_params_entry_canonical e) ∧
  (c.dev.isET = false → ∀ e ∈ c.avb_params, sja1105pqrs_avb_params_entry_canonical e) ∧
  (c.dev.isET = true → ∀ e ∈ c.general_params, sja1105et_general_params_entry_canonical e) ∧
  (c.dev.isET = false → ∀ e ∈ c.general_params, sja1105pqrs_general_params_entry_canonical e) ∧
  (∀ e ∈ c.retagging, sja1105_retagging_entry_canonical e) ∧
  (∀ e ∈ c.xmii_params, sja1105_xmii_params_entry_canonical e) ∧
  (∀ e ∈ c.sgmii, sja1105_sgmii_entry_canonical e)

instance (c : StaticConfig) : Decidable (canonicalStaticConfig c) := by
  unfold canonicalStaticConfig
  infer_instance

/-- For a canonical configuration whose VL Lookup `format` flags agree
with the first General Parameters entry's `vllupformat` (as
`sja1105_static_config_patch_vllupformat` enforces on every parse),
parsing back the packed image reproduces the configuration exactly. -/
theorem patch_configImage_eq_self (c : StaticConfig)
    (hc : canonicalStaticConfig c)
    (hfmt : ∀ e ∈ c.vl_lookup,
      e.format = (c.general_params.getD 0 GeneralParamsEntry.zeroed).vllupformat) :
    sja1105_static_config_patch_vllupformat (configImage c) = c := by
  obtain ⟨h_schedule, h_schedule_entry_points, h_vl, h_vl_policing, h_vl_forwarding, h_l2_lookup_et, h_l2_lookup_pq, h_l2_policing, h_vlan_lookup, h_l2_forwarding, h_mac_config_et, h_mac_config_pq, h_schedule_params, h_schedule_entry_points_params, h_vl_forwarding_params, h_l2_lookup_params_et, h_l2_lookup_params_pq, h_l2_forwarding_params, h_clk_sync_params, h_avb_params_et, h_avb_params_pq, h_general_params_et, h_general_params_pq, h_retagging, h_xmii_params, h_sgmii⟩ := hc
  have e_schedule : imageSchedule c = c.schedule := imageSchedule_eq_self c h_schedule
  have e_schedule_entry_points : imageScheduleEntryPoints c = c.schedule_entry_points := imageScheduleEntryPoints_eq_self c h_schedule_entry_points
  have e_vl_policing : imageVlPolicing c = c.vl_policing := imageVlPolicing_eq_self c h_vl_policing
  have e_vl_forwarding : imageVlForwarding c = c.vl_forwarding := imageVlForwarding_eq_self c h_vl_forwarding
  have e_l2_lookup : imageL2Lookup c = c.l2_lookup := imageL2Lookup_eq_self c h_l2_lookup_et h_l2_lookup_pq
  have e_l2_policing : imageL2Policing c = c.l2_policing := imageL2Policing_eq_self c h_l2_policing
  have e_vlan_lookup : imageVlanLookup c = c.vlan_lookup := imageVlanLookup_eq_self c h_vlan_lookup
  have e_l2_forwarding : imageL2Forwarding c = c.l2_forwarding := imageL2Forwarding_eq_self c h_l2_forwarding
  have e_mac_config : imageMacConfig c = c.mac_config := imageMacConfig_eq_self c h_mac_config_et h_mac_config_pq
  have e_schedule_params : imageScheduleParams c = c.schedule_params := imageScheduleParams_eq_self c h_schedule_params
  have e_schedule_entry_points_params : imageScheduleEntryPointsParams c = c.schedule_entry_points_params := imageScheduleEntryPointsParams_eq_self c h_schedule_entry_points_params
  have e_vl_forwarding_params : imageVlForwardingParams c = c.vl_forwarding_params := imageVlForwardingParams_eq_self c h_vl_forwarding_params
  have e_l2_lookup_params : imageL2LookupParams c = c.l2_lookup_params := imageL2LookupParams_eq_self c h_l2_lookup_params_et h_l2_lookup_params_pq
  have e_l2_forwarding_params : imageL2ForwardingParams c = c.l2_forwarding_params := imageL2ForwardingParams_eq_self c h_l2_forwarding_params
  have e_clk_sync_params : imageClkSyncParams c = c.clk_sync_params := imageClkSyncParams_eq_self c h_clk_sync_params
  have e_avb_params : imageAvbParams c = c.avb_params := imageAvbParams_eq_self c h_avb_params_et h_avb_params_pq
  have e_general_params : imageGeneralParams c = c.general_params := imageGeneralParams_eq_self c h_general_params_et h_general_params_pq
  have e_retagging : imageRetagging c = c.retagging := imageRetagging_eq_self c h_retagging
  have e_xmii_params : imageXmiiParams c = c.xmii_params := imageXmiiParams_eq_self c h_xmii_params
  have e_sgmii : imageSgmii c = c.sgmii := imageSgmii_eq_self c h_sgmii
  have e_vl := imageVlLookup_format0 c h_vl
  have hvlmap : ((c.vl_lookup.map (fun x => (⟨0, x.port, x.destports, x.iscritical,
        x.macaddr, x.vlanid, x.vlanprior⟩ : VlLookupEntry))).map
      (fun e => { e with format :=
        (c.general_params.getD 0 GeneralParamsEntry.zeroed).vllupformat })) =
      c.vl_lookup := by
    rw [List.map_map]
    exact map_self_of_mem _ _ (fun x hx => by
      show (⟨(c.general_params.getD 0 GeneralParamsEntry.zeroed).vllupformat,
        x.port, x.destports, x.iscritical, x.macaddr, x.vlanid, x.vlanprior⟩ :
          VlLookupEntry) = x
      rw [← hfmt x hx])
  unfold sja1105_static_config_patch_vllupformat
  dsimp only [configImage]
  rw [e_schedule, e_schedule_entry_points, e_vl_policing, e_vl_forwarding, e_l2_lookup, e_l2_policing, e_vlan_lookup, e_l2_forwarding, e_mac_config, e_schedule_params, e_schedule_entry_points_params, e_vl_forwarding_params, e_l2_lookup_params, e_l2_forwarding_params, e_clk_sync_params, e_avb_params, e_general_params, e_retagging, e_xmii_params, e_sgmii]
  rw [e_vl, hvlmap]

/-- What the E/T General Parameters codec preserves with no canonicity
assumption beyond field widths: the five P/Q/R/S-only fields come back
as zero, everything else round-trips. -/
theorem sja1105et_general_params_entry_image (x : GeneralParamsEntry)
    (hfit : ∀ f ∈ sja1105et_general_params_entry_fields x,
      wfField SIZE_GENERAL_PARAMS_ENTRY_ET f) :
    sja1105et_general_params_entry_unpack
        (sja1105et_general_params_entry_pack x
          (List.replicate SIZE_GENERAL_PARAMS_ENTRY_ET 0)) =
      { x with queue_ts := 0, egrmirrvid := 0, egrmirrpcp := 0,
               egrmirrdei := 0, replay_port := 0 } := by
  have hpk : sja1105et_general_params_entry_pack x
        (List.replicate SIZE_GENERAL_PARAMS_ENTRY_ET 0) =
      sja1105et_general_params_entry_pack
        { x with queue_ts := 0, egrmirrvid := 0, egrmirrpcp := 0,
                 egrmirrdei := 0, replay_port := 0 }
        (List.replicate SIZE_GENERAL_PARAMS_ENTRY_ET 0) := rfl
  rw [hpk]
  exact sja1105et_general_params_entry_roundtrip _ ⟨hfit, rfl, rfl, rfl, rfl, rfl⟩

/-- `memDemoConfig` with `queue_ts = 1` in its General Parameters entry:
still structurally valid (`check_valid` inspects no entry field), but
`queue_ts` is not packed by the E-series codec, so the round trip loses
it. -/
def cexC2Config : StaticConfig :=
  { memDemoConfig with
    general_params := [{ GeneralParamsEntry.zeroed with queue_ts := 1 }] }

/-- A buffer whose single non-sentinel table header carries block id
`bid`: the device id word, then a 12-byte header with `len = 1` and a
correct header CRC, then 4 bytes of table data (never reached when `bid`
is unknown). -/
def unknownBlockBuf (bid : Nat) : List Nat :=
  sja1105_pack (List.replicate 4 0) SJA1105E_DEVICE_ID 31 0 4 ++
  (sja1105_table_header_pack_with_crc ⟨bid, 1, 0⟩ ++ List.replicate 4 0)

/-- `sja1105_static_config_unpack` on a header whose block id
`blk_idx_from_blk_id` does not recognise: the parse returns `-EINVAL`
(not a `sja1105_static_config_validity` code). -/
theorem unpack_unknown_block_id (bid : Nat) (hbid : bid < 2 ^ 8)
    (hnone : blk_idx_from_blk_id bid = none) :
    sja1105_static_config_unpack .E (unknownBlockBuf bid) = .err (-EINVAL) := by
  have hdv : (sja1105_pack (List.replicate 4 0) SJA1105E_DEVICE_ID 31 0 4).length = 4 :=
    sja1105_pack_word_length _
  have hH : (sja1105_table_header_pack_with_crc ⟨bid, 1, 0⟩).length = 12 :=
    table_header_pack_with_crc_length _
  have hr : (sja1105_table_header_pack_with_crc ⟨bid, 1, 0⟩ ++
      List.replicate 4 0).length = 16 := by
    rw [List.length_append, hH]
    rfl
  unfold unknownBlockBuf sja1105_static_config_unpack
  rw [if_neg (by
    rw [List.length_append, hdv]
    omega)]
  dsimp only
  rw [List.take_left' hdv,
    sja1105_pack_unpack_word (List.replicate 4 0) (by simp) SJA1105E_DEVICE_ID
      (by decide),
    if_neg (by decide), List.drop_left' hdv]
  rw [parseLoop]
  rw [dif_neg (by rw [hr]; omega)]
  dsimp only
  rw [List.take_left' hH, table_header_read bid 1 hbid (by decide)]
  dsimp only
  rw [if_neg (by decide),
    if_neg (by
      rw [table_header_crc_match]
      exact fun h => h rfl),
    if_neg (by rw [hr]; omega)]
  rw [hnone]
/-! ## Claims C2 and C9: the container round trip and the unknown-block-id error -/

/-- Claim C2, amended: the container round trip
`sja1105_static_config_unpack ∘ sja1105_static_config_pack` reproduces a
structurally valid configuration exactly when, additionally, every entry
is canonical for its device codec (each field fits its packed width and
fields the codec does not transmit are zero — the packed image simply
cannot carry other values), the table counts respect the device's
`max_entry_count` limits, the General Parameters table is non-empty, and
every VL Lookup entry's `format` equals the first General Parameters
entry's `vllupformat` (which `sja1105_static_config_patch_vllupformat`
overwrites it with on every parse).  Under those hypotheses packing
succeeds, produces exactly `sja1105_static_config_get_length` bytes, and
unpacking returns the original configuration entry for entry and field
for field. -/
theorem claim_C2 (c : StaticConfig)
    (hvalid : sja1105_static_config_check_valid c = SJA1105_CONFIG_OK)
    (h32 : c.device_id < 2 ^ 32)
    (hcnt : ∀ i, i < 21 → tableCount c i ≤ tableMaxCount c.dev i)
    (hgp : c.general_params ≠ [])
    (hcan : canonicalStaticConfig c)
    (hfmt : ∀ e ∈ c.vl_lookup,
      e.format = (c.general_params.getD 0 GeneralParamsEntry.zeroed).vllupformat) :
    ∃ B, sja1105_static_config_pack c = some B ∧
      B.length = sja1105_static_config_get_length c ∧
      sja1105_static_config_unpack c.dev B = .ok c := by
  have hdev : DEVICE_ID_VALID c.device_id := by
    by_contra hnd
    unfold sja1105_static_config_check_valid at hvalid
    rw [if_pos hnd] at hvalid
    exact absurd hvalid (by decide)
  obtain ⟨B, hpack, hlen, hun⟩ := static_config_pack_unpack c hdev h32 hcnt hgp
  refine ⟨B, hpack, hlen, ?_⟩
  rw [hun, patch_configImage_eq_self c hcan hfmt]

/-- Claim C2 counterexample: `cexC2Config` passes
`sja1105_static_config_check_valid` (which inspects table counts, never
entry fields), yet packing and unpacking it changes its contents: the
E-series General Parameters codec does not pack `queue_ts`, so the value
1 comes back as 0. -/
theorem claim_C2_counterexample :
    sja1105_static_config_check_valid cexC2Config = SJA1105_CONFIG_OK ∧
    ∃ B c2, sja1105_static_config_pack cexC2Config = some B ∧
      sja1105_static_config_unpack cexC2Config.dev B = .ok c2 ∧
      c2 ≠ cexC2Config := by
  refine ⟨by decide, ?_⟩
  obtain ⟨B, hpack, hlen, hun⟩ := static_config_pack_unpack cexC2Config
    (by decide) (by decide) (by decide) (by decide)
  refine ⟨B, sja1105_static_config_patch_vllupformat (configImage cexC2Config),
    hpack, hun, ?_⟩
  intro h
  have hgp2 : (sja1105_static_config_patch_vllupformat
      (configImage cexC2Config)).general_params = [GeneralParamsEntry.zeroed] := by
    show imageGeneralParams cexC2Config = [GeneralParamsEntry.zeroed]
    have h1 : imageGeneralParams cexC2Config =
        [sja1105et_general_params_entry_unpack (sja1105et_general_params_entry_pack
          { GeneralParamsEntry.zeroed with queue_ts := 1 }
          (List.replicate SIZE_GENERAL_PARAMS_ENTRY_ET 0))] := rfl
    rw [h1, sja1105et_general_params_entry_image _ (by
      unfold wfField
      decide)]
    rfl
  rw [h] at hgp2
  exact absurd hgp2 (by decide)

/-- Claim C2 witness: `memDemoConfig` satisfies every hypothesis of the
amended round-trip theorem, so it packs into its computed length and
parses back unchanged. -/
theorem claim_C2_witness :
    ∃ B, sja1105_static_config_pack memDemoConfig = some B ∧
      B.length = sja1105_static_config_get_length memDemoConfig ∧
      sja1105_static_config_unpack memDemoConfig.dev B = .ok memDemoConfig :=
  claim_C2 memDemoConfig (by decide) (by decide) (by decide) (by decide)
    (by decide) (by decide)

/-- Claim C9, amended: a non-sentinel table header whose block id does
not map to any known table kind makes `sja1105_static_config_unpack`
fail with `-EINVAL` — not with the `SJA1105_INVALID_TABLE_HEADER`
validity result, which the parser reserves for a table whose entries
overflow `max_entry_count` (and the same `return -EINVAL` line handles a
duplicated block id). -/
theorem claim_C9 (bid : Nat) (hbid : bid < 2 ^ 8)
    (hnone : blk_idx_from_blk_id bid = none) :
    sja1105_static_config_unpack .E (unknownBlockBuf bid) = .err (-EINVAL) ∧
    (-EINVAL : Int) ≠ SJA1105_INVALID_TABLE_HEADER :=
  ⟨unpack_unknown_block_id bid hbid hnone, by decide⟩

/-- Claim C9 counterexample: block id `0x13` is outside `blk_id_map`, and
parsing a buffer whose one table header carries it returns `-EINVAL`,
which is a different outcome from `.err SJA1105_INVALID_TABLE_HEADER`. -/
theorem claim_C9_counterexample :
    blk_idx_from_blk_id 0x13 = none ∧
    sja1105_static_config_unpack .E (unknownBlockBuf 0x13) = .err (-EINVAL) ∧
    ConfigParseResult.err (-EINVAL) ≠ .err SJA1105_INVALID_TABLE_HEADER :=
  ⟨by decide, unpack_unknown_block_id 0x13 (by decide) (by decide), by decide⟩

/-- Claim C9 witness: the amended theorem at the concrete unknown block
id `0x13`. -/
theorem claim_C9_witness :
    sja1105_static_config_unpack .E (unknownBlockBuf 0x13) = .err (-EINVAL) ∧
    (-EINVAL : Int) ≠ SJA1105_INVALID_TABLE_HEADER :=
  claim_C9 0x13 (by decide) (by decide)

end SJA1105
